import Mathlib

/-!
# Swow managed-coroutine layer (`src/swow_coroutine.c`)

A shallow embedding of the orchestration logic of `swow_coroutine.c`:
the data-transfer protocol, the entry trampoline, the jump wrapper around
the primitive engine, and cross-coroutine exception delivery.

Conventions of the embedding

* A `swow_coroutine_t *` is a `Cid` (the identity of the object); a nullable
  pointer is an `Option Cid`.
* A `zval *` is a `zval_ptr`: one of the two process-wide sentinels, the
  transfer slot of some executor, the local `retval` of the trampoline, or
  an address in managed memory.
* `cat_core_error` never returns; a function that may reach it returns
  `Except Halt _`.  `CAT_ASSERT` is compiled in only when `Build.CAT_DEBUG`
  is set.  Dereferencing a NULL executor halts as well.
* The primitive engine (`cat_coroutine_*`) and the host language runtime are
  external; what this file needs of them is either a parameter (`Engine`) or
  a definition marked as modelled from the specification.
-/

namespace Swow

/-! ## Values and pointers -/

/-- Identity of a coroutine object (`swow_coroutine_t *`). -/
abbrev Cid := Nat

/-- Handle of a host object (`zend_object *`). -/
abbrev ObjId := Nat

/-- Address of a class entry (`zend_class_entry *`). -/
abbrev ClassId := Nat

/-- The host value cell `zval`, by type tag.  Only objects are tracked as
reference counted. -/
inductive zval where
  | IS_UNDEF
  | IS_NULL
  | IS_FALSE
  | IS_TRUE
  | IS_LONG (n : Int)
  | IS_STRING (s : String)
  | IS_OBJECT (h : ObjId)
  | IS_PTR (p : Nat)
  | _IS_ERROR
  deriving DecidableEq, Repr, Inhabited

/-- A pointer to a `zval`. -/
inductive zval_ptr where
  /-- Source `SWOW_COROUTINE_DATA_NULL`, the address of `swow_coroutine_data_null`. -/
  | SWOW_COROUTINE_DATA_NULL
  /-- Source `SWOW_COROUTINE_DATA_ERROR`, the address of `swow_coroutine_data_error`. -/
  | SWOW_COROUTINE_DATA_ERROR
  /-- Source `&c->executor->zdata`, the transfer slot of the executor of `c`. -/
  | executor_zdata (c : Cid)
  /-- Source `&retval`, the local of `swow_coroutine_function` on the stack of `c`. -/
  | function_retval (c : Cid)
  /-- Source `&_zdata`, the local of `Coroutine::run` / `Coroutine::resume` called
  in `c` (declared by `SWOW_COROUTINE_DECLARE_RESUME_TRANSFER`). -/
  | transfer_local (c : Cid)
  /-- A cell of managed memory (a parameter on a VM stack, a caller local). -/
  | mem (a : Nat)
  deriving DecidableEq, Repr, Inhabited

/-- The record `zend_fcall_info`, reduced to the two fields this file reads. -/
structure zend_fcall_info where
  param_count : Nat
  params : zval_ptr
  deriving DecidableEq, Repr

/-- A host object; of its properties only those of an exception are read
here (`message`, `code`, `previous`). -/
structure zend_object where
  ce : ClassId
  refcount : Int
  message : zval
  code : zval
  previous : Option ObjId
  deriving DecidableEq, Repr

/-! ## Coroutines -/

/-- Modelled from the spec: the state machine of the primitive engine (§2, §3),
`CAT_COROUTINE_STATE_*`, whose declaration is not part of this file. -/
inductive cat_coroutine_state where
  | INIT
  | READY
  | RUNNING
  | WAITING
  | DEAD
  deriving DecidableEq, Repr, Inhabited

/-- The bits of `coroutine.flags` used in this file, each one independent. -/
structure Flags where
  SCHEDULER : Bool
  NO_STACK : Bool
  MAIN_FINISHED : Bool
  ALL_FINISHED : Bool
  deriving DecidableEq, Repr

/-- The bits of `coroutine.opcodes` used in this file. -/
structure Opcodes where
  CHECKED : Bool
  ACCEPT_ZDATA : Bool
  deriving DecidableEq, Repr

/-- The fields of `cat_coroutine_t` read or written by this layer. -/
structure cat_coroutine_t where
  id : Nat
  state : cat_coroutine_state
  flags : Flags
  opcodes : Opcodes
  from_ : Option Cid
  previous : Option Cid
  deriving DecidableEq, Repr

/-- The part of `zend_executor_globals` that is swapped on a switch. -/
structure zend_executor_globals where
  bailout : Nat
  vm_stack_top : Nat
  vm_stack_end : Nat
  vm_stack : Nat
  vm_stack_page_size : Nat
  current_execute_data : Nat
  exception : Option ObjId
  error_handling : Nat
  deriving DecidableEq, Repr

/-- The execution context `swow_coroutine_exector_t` (name as in the source). -/
structure swow_coroutine_exector_t where
  saved : zend_executor_globals
  zcallable : zval
  zdata : zval
  cross_exception : Option ObjId
  deriving DecidableEq, Repr

/-- The coroutine object `swow_coroutine_t`; `std_refcount` is the reference
count of its embedded `std` object. -/
structure swow_coroutine_t where
  coroutine : cat_coroutine_t
  executor : Option swow_coroutine_exector_t
  std_refcount : Int
  deriving DecidableEq, Repr

/-- The registered resume dispatcher (the function pointer `cat_coroutine_resume`). -/
inductive cat_coroutine_resume_t where
  | swow_coroutine_resume_standard
  | swow_coroutine_resume_deny
  | swow_coroutine_resume_rated
  deriving DecidableEq, Repr

/-- Compile-time switches of the source. -/
structure Build where
  CAT_DO_NOT_OPTIMIZE : Bool
  CAT_DEBUG : Bool
  deriving DecidableEq, Repr

/-- The last error record of the engine (`cat_update_last_error`): the errors
raised in this file by message, and any error raised by the engine itself. -/
inductive LastError where
  | not_throwable
  | not_alive
  | break_scheduler
  | nowhere_to_go
  | must_be_callable
  | exception_during_construction
  | engine (code : Nat)
  deriving DecidableEq, Repr

/-- What the user exception handler of the host did when called with an
uncaught exception: whether the call succeeded and which exception, if any,
is pending afterwards. -/
structure UserHandlerResult where
  success : Bool
  exception : Option ObjId
  deriving DecidableEq, Repr

/-- Process state seen by this layer. -/
structure World where
  coroutines : Cid → swow_coroutine_t
  current : Cid
  main : Cid
  map : List (Nat × Cid)
  EG : zend_executor_globals
  objects : ObjId → zend_object
  next_handle : ObjId
  memory : Nat → zval
  function_retval : Cid → zval
  transfer_local : Cid → zval
  fcall_infos : Nat → zend_fcall_info
  cat_coroutine_resume : cat_coroutine_resume_t
  rated_killer : Option Cid
  rated_dead : Option Cid
  last_error : Option LastError
  kill_main : Bool
  user_exception_handler : Option (ObjId → UserHandlerResult)
  exception_error_severity : Int
  reported : List (ObjId × Int)
  zend_ce_throwable : ClassId
  swow_coroutine_kill_exception_ce : ClassId
  instanceof_function : ClassId → ClassId → Bool

/-- Ways in which a function of this layer does not return to its caller:
the process stops (`cat_core_error`, a failed `CAT_ASSERT`, a NULL executor
dereferenced), or the native stack is switched away at `cat_coroutine_jump`
towards `target`, with the world and payload of that moment. -/
inductive Halt where
  | core_error (message : String)
  | assertion
  | null_dereference
  | switched (w : World) (target : Cid) (payload : zval_ptr)

/-- The primitive engine as far as it is called from the functions below:
the admission check of a jump, and the stack switch itself, which returns
when control comes back, with the world as it is then and the payload
handed back. -/
structure Engine where
  cat_coroutine_jump_precheck : World → Cid → zval_ptr → Option LastError
  cat_coroutine_jump : World → Cid → zval_ptr → Except Halt (World × zval_ptr)

/-! ## Access helpers -/

/-- Read through a `zval *`.  The two sentinels hold what
`swow_coroutine_module_init` stores in them (`ZVAL_NULL`, `ZVAL_ERROR`). -/
def World.deref (w : World) : zval_ptr → zval
  | .SWOW_COROUTINE_DATA_NULL => .IS_NULL
  | .SWOW_COROUTINE_DATA_ERROR => ._IS_ERROR
  | .executor_zdata c =>
    match (w.coroutines c).executor with
    | some e => e.zdata
    | none => .IS_UNDEF
  | .function_retval c => w.function_retval c
  | .transfer_local c => w.transfer_local c
  | .mem a => w.memory a

/-- Replace the record of coroutine `c`. -/
def World.set_coroutine (w : World) (c : Cid) (s : swow_coroutine_t) : World :=
  { w with coroutines := Function.update w.coroutines c s }

/-- Replace the executor of coroutine `c`. -/
def World.set_executor (w : World) (c : Cid) (e : Option swow_coroutine_exector_t) : World :=
  w.set_coroutine c { w.coroutines c with executor := e }

/-- Replace the primitive part of coroutine `c`. -/
def World.set_cat (w : World) (c : Cid) (k : cat_coroutine_t) : World :=
  w.set_coroutine c { w.coroutines c with coroutine := k }

/-- Replace the record of object `h`. -/
def World.set_object (w : World) (h : ObjId) (o : zend_object) : World :=
  { w with objects := Function.update w.objects h o }

/-- Source `GC_ADDREF(&c->std)`. -/
def World.GC_ADDREF_std (w : World) (c : Cid) : World :=
  w.set_coroutine c { w.coroutines c with std_refcount := (w.coroutines c).std_refcount + 1 }

/-- Source `GC_DELREF(&c->std)`. -/
def World.GC_DELREF_std (w : World) (c : Cid) : World :=
  w.set_coroutine c { w.coroutines c with std_refcount := (w.coroutines c).std_refcount - 1 }

/-- Source `GC_ADDREF(obj)`. -/
def World.GC_ADDREF (w : World) (h : ObjId) : World :=
  w.set_object h { w.objects h with refcount := (w.objects h).refcount + 1 }

/-- Source `GC_DELREF(obj)`; also stands for `OBJ_RELEASE(obj)`, whose freeing of an
object with no reference left is the business of the host. -/
def World.GC_DELREF (w : World) (h : ObjId) : World :=
  w.set_object h { w.objects h with refcount := (w.objects h).refcount - 1 }

/-- Source `Z_TRY_ADDREF_P(z)`: add a reference when the value is reference counted. -/
def World.Z_TRY_ADDREF (w : World) : zval → World
  | .IS_OBJECT h => w.GC_ADDREF h
  | _ => w

/-- Source `Z_TRY_DELREF_P(z)`, and `zval_ptr_dtor(z)` up to the freeing. -/
def World.Z_TRY_DELREF (w : World) : zval → World
  | .IS_OBJECT h => w.GC_DELREF h
  | _ => w

/-- Source `swow_coroutine_get_previous`. -/
def swow_coroutine_get_previous (w : World) (c : Cid) : Option Cid :=
  (w.coroutines c).coroutine.previous

/-- Source `swow_coroutine_get_from`. -/
def swow_coroutine_get_from (w : World) (c : Cid) : Option Cid :=
  (w.coroutines c).coroutine.from_

/-- Source `swow_coroutine_get_current`. -/
def swow_coroutine_get_current (w : World) : Cid := w.current

/-- Source `swow_coroutine_get_main`. -/
def swow_coroutine_get_main (w : World) : Cid := w.main

/-- Source `CAT_ASSERT(cond)`: checked in a debug build only. -/
def CAT_ASSERT (b : Build) (cond : Bool) : Except Halt Unit :=
  if b.CAT_DEBUG && !cond then .error .assertion else .ok ()

/-- Modelled from the spec: `cat_coroutine_is_alive` of the engine, §4.1,
"true if state is READY, RUNNING, or WAITING". -/
def cat_coroutine_is_alive (k : cat_coroutine_t) : Bool :=
  k.state == .READY || k.state == .RUNNING || k.state == .WAITING

/-- Source `swow_coroutine_is_alive`. -/
def swow_coroutine_is_alive (w : World) (c : Cid) : Bool :=
  cat_coroutine_is_alive (w.coroutines c).coroutine

/-- Source `swow_coroutine_is_scheduler`. -/
def swow_coroutine_is_scheduler (w : World) (c : Cid) : Bool :=
  (w.coroutines c).coroutine.flags.SCHEDULER

/-- Write through a `zval *`; the two sentinels are read-only. -/
def World.store (w : World) (p : zval_ptr) (v : zval) : World :=
  match p with
  | .SWOW_COROUTINE_DATA_NULL => w
  | .SWOW_COROUTINE_DATA_ERROR => w
  | .executor_zdata c =>
    match (w.coroutines c).executor with
    | some e => w.set_executor c (some { e with zdata := v })
    | none => w
  | .function_retval c => { w with function_retval := Function.update w.function_retval c v }
  | .transfer_local c => { w with transfer_local := Function.update w.transfer_local c v }
  | .mem a => { w with memory := Function.update w.memory a v }

/-- Type test `Z_TYPE_P(z) == IS_PTR`. -/
def zval.is_ptr : zval → Bool
  | .IS_PTR _ => true
  | _ => false

/-- Hash table `zend_hash_index_update(map, id, c)`, the elements of the table
afterwards: overwrite in place, or append.  The destructor of an element
that is overwritten is run by `World.zend_hash_index_update`. -/
def zend_hash_index_update (map : List (Nat × Cid)) (id : Nat) (c : Cid) : List (Nat × Cid) :=
  if map.any (fun p => p.1 == id) then
    map.map (fun p => if p.1 == id then (id, c) else p)
  else map ++ [(id, c)]

/-- Hash table `zend_hash_index_del(map, id)`, the elements of the table
afterwards.  The destructor of the element that is deleted is run by
`World.zend_hash_index_del`. -/
def zend_hash_index_del (map : List (Nat × Cid)) (id : Nat) : List (Nat × Cid) :=
  map.filter (fun p => p.1 != id)

/-- Hash table `zend_hash_index_find(map, id)`. -/
def zend_hash_index_find (map : List (Nat × Cid)) (id : Nat) : Option Cid :=
  (map.find? (fun p => p.1 == id)).map (fun p => p.2)

/-- The destructor of the elements of `SWOW_COROUTINE_G(map)`: the map is made
by `array_init` in `swow_coroutine_runtime_init`, so an element that leaves
the table is released with `ZVAL_PTR_DTOR`, and the coroutine object it holds
loses the reference of that element.  What the host does with an object
whose count falls to zero is not part of the model. -/
def World.map_pDestructor (w : World) (c : Cid) : World := w.GC_DELREF_std c

/-- Source call `zend_hash_index_update(SWOW_COROUTINE_G(map), id, &ztmp)`, the
value being the coroutine object `c`: the element under `id` is written; an
element that was there under `id` is released first. -/
def World.zend_hash_index_update (w : World) (id : Nat) (c : Cid) : World :=
  match Swow.zend_hash_index_find w.map id with
  | some old =>
    ({ w with map := Swow.zend_hash_index_update w.map id c }).map_pDestructor old
  | none => { w with map := Swow.zend_hash_index_update w.map id c }

/-- Source call `zend_hash_index_del(SWOW_COROUTINE_G(map), id)`: the element
under `id`, if there is one, leaves the table and is released. -/
def World.zend_hash_index_del (w : World) (id : Nat) : World :=
  match Swow.zend_hash_index_find w.map id with
  | some old => ({ w with map := Swow.zend_hash_index_del w.map id }).map_pDestructor old
  | none => { w with map := Swow.zend_hash_index_del w.map id }

/-! ## Host exceptions

The host runtime is not part of the source file.  The three operations
below are the host capability "exception raise / chain" of §6 of the
specification, in the form the Zend engine gives them. -/

/-- Modelled from the spec: object creation of the host (§6, used by
`swow_object_create`): a fresh handle with one reference, no message, code
or cause yet. -/
def swow_object_create (w : World) (ce : ClassId) : World × ObjId :=
  ({ w with
      objects := Function.update w.objects w.next_handle
        { ce := ce, refcount := 1, message := .IS_STRING "", code := .IS_LONG 0,
          previous := none }
      next_handle := w.next_handle + 1 },
   w.next_handle)

/-- Search of the cause chain: does `target` occur among the causes of
`start`, looking at most `fuel` links ahead. -/
def World.has_ancestor (w : World) : Nat → ObjId → ObjId → Bool
  | 0, _, _ => false
  | fuel + 1, start, target =>
    match (w.objects start).previous with
    | none => false
    | some p => p == target || w.has_ancestor fuel p target

/-- The loop of `zend_exception_set_previous`, walking down the cause chain of
the exception from `ex`, at most `fuel` links. -/
def World.set_previous_loop (w : World) (add_previous : ObjId) : Nat → ObjId → World
  | 0, _ => w
  | fuel + 1, ex =>
    if w.has_ancestor w.next_handle add_previous ex then w.GC_DELREF add_previous
    else
      match (w.objects ex).previous with
      | none =>
        (w.set_object ex { w.objects ex with previous := some add_previous }).GC_DELREF
          add_previous
      | some p => if p == add_previous then w else w.set_previous_loop add_previous fuel p

/-- Modelled from the spec: exception chaining of the host (§6),
`zend_exception_set_previous(exception, add_previous)`: `add_previous`
becomes the cause at the end of the cause chain of `exception`, unless the
two are already linked.  Cause chains of the host are acyclic and shorter
than the number of handles, which bounds the walk. -/
def zend_exception_set_previous (w : World) (exception : ObjId) (add_previous : Option ObjId) :
    World :=
  match add_previous with
  | none => w
  | some p =>
    if exception == p then w.GC_DELREF p
    else w.set_previous_loop p w.next_handle exception

/-- Source `swow_zend_throw_exception_hook`: a Kill raised in the main
coroutine sets `kill_main`. -/
def swow_zend_throw_exception_hook (w : World) (exception : ObjId) : World :=
  if swow_coroutine_get_current w == swow_coroutine_get_main w
      && w.instanceof_function (w.objects exception).ce w.swow_coroutine_kill_exception_ce then
    { w with kill_main := true }
  else w

/-- Modelled from the spec: exception raise of the host (§6),
`zend_throw_exception_internal`, with a frame active: an exception already
pending becomes the cause of the new one, the new one becomes the pending
exception, and the throw hook runs when nothing was pending before. -/
def zend_throw_exception_internal (w : World) (exception : ObjId) : World :=
  let previous := w.EG.exception
  let w1 := zend_exception_set_previous w exception previous
  let w2 := { w1 with EG := { w1.EG with exception := some exception } }
  match previous with
  | some _ => w2
  | none => swow_zend_throw_exception_hook w2 exception

/-! ## Execution context swap -/

/-- Source `swow_coroutine_executor_save`, applied to the executor of `c`: the
installed interpreter state is copied into it.  (The swaps selected by the
`SWOW_COROUTINE_SWAP_*` build options are followed in the section `Swap`.) -/
def swow_coroutine_executor_save (w : World) (c : Cid) : Except Halt World :=
  match (w.coroutines c).executor with
  | none => .error .null_dereference
  | some e => .ok (w.set_executor c (some { e with saved := w.EG }))

/-- Source `swow_coroutine_executor_recover`, applied to the executor of `c`: its
fields are installed as the interpreter state. -/
def swow_coroutine_executor_recover (w : World) (c : Cid) : Except Halt World :=
  match (w.coroutines c).executor with
  | none => .error .null_dereference
  | some e => .ok { w with EG := e.saved }

/-- Source `swow_coroutine_executor_switch`: save the current context, recover
that of `scoroutine`. -/
def swow_coroutine_executor_switch (w : World) (scoroutine : Cid) : Except Halt World := do
  let w1 ← swow_coroutine_executor_save w (swow_coroutine_get_current w)
  swow_coroutine_executor_recover w1 scoroutine

/-- Source `swow_coroutine_close`: release the executor of a coroutine. -/
def swow_coroutine_close (b : Build) (w : World) (scoroutine : Cid) : Except Halt World :=
  match (w.coroutines scoroutine).executor with
  | none => if b.CAT_DEBUG then .error .assertion else .error .null_dereference
  | some executor =>
    let w1 := if executor.zcallable != .IS_NULL then w.Z_TRY_DELREF executor.zcallable else w
    .ok (w1.set_executor scoroutine none)

/-! ## Data-transfer protocol -/

/-- Text of the fatal error of the transfer protocol. -/
def unrecognized_data_message : String :=
  "Internal logic error: sent unrecognized data to PHP layer"

/-- Source `swow_coroutine_handle_not_null_zdata(sscoroutine, rscoroutine,
zdata_ptr, handle_ref)`.  The result pairs the world with the new value of
`*zdata_ptr`. -/
def swow_coroutine_handle_not_null_zdata (b : Build) (w : World)
    (sscoroutine rscoroutine : Cid) (zdata : zval_ptr) (handle_ref : Bool) :
    Except Halt (World × zval_ptr) :=
  if !(w.coroutines sscoroutine).coroutine.opcodes.ACCEPT_ZDATA then
    if (w.coroutines rscoroutine).coroutine.opcodes.ACCEPT_ZDATA then
      .error (.core_error unrecognized_data_message)
    else
      /- internal raw data to internal operation coroutine -/
      .ok (w, zdata)
  else if !(w.coroutines rscoroutine).coroutine.opcodes.ACCEPT_ZDATA then do
    CAT_ASSERT b (!(w.deref zdata).is_ptr)
    /- the PHP layer can not send data to the internal-controlled coroutine -/
    let w1 := if handle_ref then w.Z_TRY_DELREF (w.deref zdata) else w
    pure (w1, .SWOW_COROUTINE_DATA_NULL)
  else do
    CAT_ASSERT b ((w.coroutines rscoroutine).executor.isSome)
    if (w.deref zdata).is_ptr then
      /- params will be copied by zend_call_function -/
      pure (w, zdata)
    else if b.CAT_DO_NOT_OPTIMIZE then
      /- make sure the memory space of zdata is safe -/
      match (w.coroutines rscoroutine).executor with
      | none => .error .null_dereference
      | some _ =>
        let v := w.deref zdata
        let w1 := w.store (.executor_zdata rscoroutine) v
        let w2 := if !handle_ref then w1.Z_TRY_ADDREF v else w1
        pure (w2, .executor_zdata rscoroutine)
    else if !handle_ref then
      /- send without copy value -/
      pure (w.Z_TRY_ADDREF (w.deref zdata), zdata)
    else
      match (w.coroutines rscoroutine).executor with
      | none => .error .null_dereference
      | some _ =>
        pure (w.store (.executor_zdata rscoroutine) (w.deref zdata),
              .executor_zdata rscoroutine)

/-! ## Cross exceptions -/

/-- Source `swow_coroutine_handle_cross_exception(cross_exception)`, first block:
the reference taken on the cross exception, and the release of an exception
already pending when the cross exception is a Kill. -/
def swow_coroutine_cross_exception_release (w : World) (cross_exception : ObjId) : World :=
  let ce := (w.objects cross_exception).ce
  /- for throw method success -/
  let w1 := w.GC_ADDREF cross_exception
  match w1.EG.exception with
  | some pending =>
    if w1.instanceof_function ce w1.swow_coroutine_kill_exception_ce then
      { w1.GC_DELREF pending with EG := { w1.EG with exception := none } }
    else w1
  | none => w1

/-- Source `swow_coroutine_handle_cross_exception(cross_exception)`, up to the two
`zend_update_property_ex` calls: the first block, then the copy, a new
object of the class of the cross exception with its message and code. -/
def swow_coroutine_cross_exception_copy (w : World) (cross_exception : ObjId) :
    World × ObjId :=
  let ce := (w.objects cross_exception).ce
  let w2 := swow_coroutine_cross_exception_release w cross_exception
  let (w3, exception) := swow_object_create w2 ce
  let w4 := w3.set_object exception
    { w3.objects exception with message := (w3.objects cross_exception).message }
  let w5 := w4.set_object exception
    { w4.objects exception with code := (w4.objects cross_exception).code }
  (w5, exception)

/-- Source `swow_coroutine_handle_cross_exception(cross_exception)`. -/
def swow_coroutine_handle_cross_exception (w : World) (cross_exception : ObjId) : World :=
  let (w5, exception) := swow_coroutine_cross_exception_copy w cross_exception
  if w5.EG.exception.isSome then
    zend_throw_exception_internal (zend_throw_exception_internal w5 cross_exception) exception
  else
    let w6 := zend_exception_set_previous w5 exception (some cross_exception)
    if w6.EG.exception.isNone then zend_throw_exception_internal w6 exception else w6

/-! ## The jump wrapper -/

/-- Source `swow_coroutine_jump`, block "solve origin's refcount". -/
def swow_coroutine_jump_solve_refcount (b : Build) (w : World) (scoroutine : Cid) :
    Except Halt World :=
  let current_scoroutine := swow_coroutine_get_current w
  if swow_coroutine_get_previous w current_scoroutine == some scoroutine then
    /- if it is yield, break the origin -/
    pure (w.GC_DELREF_std scoroutine)
  else do
    /- it is not yield -/
    CAT_ASSERT b ((swow_coroutine_get_previous w scoroutine).isNone)
    /- current becomes target's origin -/
    pure (w.GC_ADDREF_std current_scoroutine)

/-- Source `swow_coroutine_jump`, block "switch executor". -/
def swow_coroutine_jump_switch_executor (w : World) (scoroutine : Cid) : Except Halt World :=
  let current_scoroutine := swow_coroutine_get_current w
  if (w.coroutines scoroutine).coroutine.flags.NO_STACK then do
    let w1 ← swow_coroutine_executor_save w current_scoroutine
    /- make the log stack strace empty -/
    pure { w1 with EG := { w1.EG with current_execute_data := 0 } }
  else if (w.coroutines current_scoroutine).coroutine.flags.NO_STACK then
    swow_coroutine_executor_recover w scoroutine
  else
    swow_coroutine_executor_switch w scoroutine

/-- Source `swow_coroutine_jump`, first half: everything up to the call of the
primitive `cat_coroutine_jump`.  The result is the world at the moment of
the switch and the payload handed to the primitive. -/
def swow_coroutine_jump_pre (b : Build) (w : World) (scoroutine : Cid) (zdata : zval_ptr) :
    Except Halt (World × zval_ptr) := do
  let w1 ← swow_coroutine_jump_solve_refcount b w scoroutine
  let w2 ← swow_coroutine_jump_switch_executor w1 scoroutine
  /- we can not use ZVAL_IS_NULL because the zdata maybe a C ptr -/
  if zdata != .SWOW_COROUTINE_DATA_NULL then
    swow_coroutine_handle_not_null_zdata b w2 scoroutine (swow_coroutine_get_current w2) zdata
      false
  else
    pure (w2, zdata)

/-- Source `swow_coroutine_jump`, second half: what runs once the primitive
jump has returned `zdata` into `current_scoroutine`. -/
def swow_coroutine_jump_post (b : Build) (w : World) (current_scoroutine : Cid)
    (zdata : zval_ptr) : Except Halt (World × zval_ptr) :=
  /- get from scoroutine -/
  match swow_coroutine_get_from w current_scoroutine with
  | none => .error .null_dereference
  | some scoroutine =>
    if (w.coroutines scoroutine).coroutine.state == .DEAD then do
      /- release executor resources after coroutine is dead -/
      let w1 ← swow_coroutine_close b w scoroutine
      /- delete from global map -/
      pure (w1.zend_hash_index_del (w1.coroutines scoroutine).coroutine.id, zdata)
    else
      match (w.coroutines current_scoroutine).executor with
      | none => if b.CAT_DEBUG then .error .assertion else .error .null_dereference
      | some executor =>
        /- handle cross exception -/
        match executor.cross_exception with
        | some cross_exception =>
          let w1 := swow_coroutine_handle_cross_exception w cross_exception
          pure (w1.set_executor current_scoroutine
                  (some { executor with cross_exception := none }), zdata)
        | none => pure (w, zdata)

/-- Source `swow_coroutine_jump(scoroutine, zdata)`. -/
def swow_coroutine_jump (b : Build) (E : Engine) (w : World) (scoroutine : Cid)
    (zdata : zval_ptr) : Except Halt (World × zval_ptr) := do
  let current_scoroutine := swow_coroutine_get_current w
  let (w1, zdata1) ← swow_coroutine_jump_pre b w scoroutine zdata
  /- resume C coroutine -/
  let (w2, zdata2) ← E.cat_coroutine_jump w1 scoroutine zdata1
  swow_coroutine_jump_post b w2 current_scoroutine zdata2

/-- Source `swow_coroutine_jump_precheck`: the check of the engine; a refusal
leaves its reason as the last error. -/
def swow_coroutine_jump_precheck (E : Engine) (w : World) (scoroutine : Cid)
    (zdata : zval_ptr) : Bool × World :=
  match E.cat_coroutine_jump_precheck w scoroutine zdata with
  | none => (true, w)
  | some err => (false, { w with last_error := some err })

/-- Source `swow_coroutine_resume_standard(coroutine, data)`. -/
def swow_coroutine_resume_standard (b : Build) (E : Engine) (w : World) (coroutine : Cid)
    (data : zval_ptr) : Except Halt (World × zval_ptr) :=
  if !(w.coroutines coroutine).coroutine.opcodes.CHECKED then
    match swow_coroutine_jump_precheck E w coroutine data with
    | (false, w1) => pure (w1, .SWOW_COROUTINE_DATA_ERROR)
    | (true, w1) => swow_coroutine_jump b E w1 coroutine data
  else
    swow_coroutine_jump b E w coroutine data

/-- Source `swow_coroutine_resume_deny`. -/
def swow_coroutine_resume_deny : Except Halt (World × zval_ptr) :=
  .error (.core_error "Unexpected coroutine switching")

/-- Source `swow_coroutine_resume_rated(coroutine, data)`. -/
def swow_coroutine_resume_rated (b : Build) (E : Engine) (w : World) (coroutine : Cid)
    (data : zval_ptr) : Except Halt (World × zval_ptr) :=
  let scoroutine := coroutine
  let current_scoroutine := swow_coroutine_get_current w
  /- target + current -/
  if (some scoroutine != w.rated_dead && some scoroutine != w.rated_killer)
      || (some current_scoroutine != w.rated_dead
          && some current_scoroutine != w.rated_killer) then
    swow_coroutine_resume_deny
  else
    swow_coroutine_resume_standard b E w coroutine data

/-- The call `cat_coroutine_resume(coroutine, data)` through the registered
dispatcher. -/
def cat_coroutine_resume (b : Build) (E : Engine) (w : World) (coroutine : Cid)
    (data : zval_ptr) : Except Halt (World × zval_ptr) :=
  match w.cat_coroutine_resume with
  | .swow_coroutine_resume_standard => swow_coroutine_resume_standard b E w coroutine data
  | .swow_coroutine_resume_deny => swow_coroutine_resume_deny
  | .swow_coroutine_resume_rated => swow_coroutine_resume_rated b E w coroutine data

/-- Modelled from the spec: `cat_coroutine_yield` of the engine (§4.1, §8):
control goes to `previous` of the current coroutine through the resume
dispatcher; with no previous coroutine the call fails with "nowhere to go". -/
def cat_coroutine_yield (b : Build) (E : Engine) (w : World) (data : zval_ptr) :
    Except Halt (World × zval_ptr) :=
  match swow_coroutine_get_previous w (swow_coroutine_get_current w) with
  | none => pure ({ w with last_error := some .nowhere_to_go }, .SWOW_COROUTINE_DATA_ERROR)
  | some previous => cat_coroutine_resume b E w previous data

/-! ## Resume and yield with a value -/

/-- Set or clear `SWOW_COROUTINE_OPCODE_ACCEPT_ZDATA` on coroutine `c`. -/
def World.set_ACCEPT_ZDATA (w : World) (c : Cid) (v : Bool) : World :=
  w.set_cat c
    { (w.coroutines c).coroutine with
      opcodes := { (w.coroutines c).coroutine.opcodes with ACCEPT_ZDATA := v } }

/-- Source `SWOW_COROUTINE_JUMP_WITH_ZDATA`, the statements after `operation` has
returned `zdata`.  `retval` tells whether the caller passed a result cell;
the third component is what that cell holds afterwards. -/
def SWOW_COROUTINE_JUMP_WITH_ZDATA_end (w : World) (zdata : zval_ptr) (retval : Bool) :
    World × Bool × Option zval :=
  if zdata == .SWOW_COROUTINE_DATA_ERROR then
    (w.set_ACCEPT_ZDATA w.current false, false, if retval then some .IS_NULL else none)
  else if !retval then
    (w.Z_TRY_DELREF (w.deref zdata), true, none)
  else
    (w, true, some (w.deref zdata))

/-- Source `swow_coroutine_resume(scoroutine, zdata, retval)`. -/
def swow_coroutine_resume (b : Build) (E : Engine) (w : World) (scoroutine : Cid)
    (zdata : zval_ptr) (retval : Bool) : Except Halt (World × Bool × Option zval) := do
  let w1 := w.set_ACCEPT_ZDATA w.current true
  let (w2, zdata1) ← cat_coroutine_resume b E w1 scoroutine zdata
  pure (SWOW_COROUTINE_JUMP_WITH_ZDATA_end w2 zdata1 retval)

/-- Source `swow_coroutine_yield(zdata, retval)`. -/
def swow_coroutine_yield (b : Build) (E : Engine) (w : World) (zdata : zval_ptr)
    (retval : Bool) : Except Halt (World × Bool × Option zval) := do
  let w1 := w.set_ACCEPT_ZDATA w.current true
  let (w2, zdata1) ← cat_coroutine_yield b E w1 zdata
  pure (SWOW_COROUTINE_JUMP_WITH_ZDATA_end w2 zdata1 retval)

/-- Source `SWOW_COROUTINE_HANDLE_RESUME_TRANSFER(zdata)` in `Coroutine::run` and
`Coroutine::resume`, called in the current coroutine with the call record
at `fci`: the payload for `swow_coroutine_resume`, or `none` when the error
"Only one argument allowed when resuming an coroutine which is alive" is
thrown. -/
def SWOW_COROUTINE_HANDLE_RESUME_TRANSFER (w : World) (scoroutine : Cid) (fci : Nat) :
    Option (World × zval_ptr) :=
  if (w.fcall_infos fci).param_count == 1 then
    some (w, (w.fcall_infos fci).params)
  else if (w.fcall_infos fci).param_count > 1 then
    if (w.coroutines scoroutine).coroutine.state != .READY then none
    else
      some (w.store (.transfer_local w.current) (.IS_PTR fci), .transfer_local w.current)
  else some (w, .SWOW_COROUTINE_DATA_NULL)

/-! ## Throwing into a coroutine -/

/-- The pending cross-exception slot `c->executor->cross_exception`, empty
also when there is no executor. -/
def World.cross_exception (w : World) (c : Cid) : Option ObjId :=
  (w.coroutines c).executor.bind (fun e => e.cross_exception)

/-- Set `c->executor->cross_exception`. -/
def World.set_cross_exception (w : World) (c : Cid) (x : Option ObjId) : Except Halt World :=
  match (w.coroutines c).executor with
  | none => .error .null_dereference
  | some e => .ok (w.set_executor c (some { e with cross_exception := x }))

/-- Source `swow_coroutine_throw(scoroutine, exception, retval)`. -/
def swow_coroutine_throw (b : Build) (E : Engine) (w : World) (scoroutine : Cid)
    (exception : ObjId) (retval : Bool) : Except Halt (World × Bool × Option zval) :=
  if !w.instanceof_function (w.objects exception).ce w.zend_ce_throwable then
    pure ({ w with last_error := some .not_throwable }, false, none)
  else if !swow_coroutine_is_alive w scoroutine then
    pure ({ w with last_error := some .not_alive }, false, none)
  else if swow_coroutine_is_scheduler w scoroutine then
    pure ({ w with last_error := some .break_scheduler }, false, none)
  else if scoroutine == swow_coroutine_get_current w then
    pure (zend_throw_exception_internal (w.GC_ADDREF exception) exception, true, none)
  else do
    let w1 ← w.set_cross_exception scoroutine (some exception)
    let (w2, success, result) ← swow_coroutine_resume b E w1 scoroutine
      .SWOW_COROUTINE_DATA_NULL retval
    if !success then
      let w3 ← w2.set_cross_exception scoroutine none
      pure (w3, false, result)
    else
      pure (w2, true, result)

/-! ## The entry trampoline -/

/-- Modelled from the spec: the error-reporting path of the host (§4.3, §7),
`zend_exception_error(exception, severity)`: the exception is reported with
the severity, released, and no longer pending. -/
def zend_exception_error (w : World) (exception : ObjId) (severity : Int) : World :=
  { w.GC_DELREF exception with
    EG := { w.EG with exception := none }
    reported := w.reported ++ [(exception, severity)] }

/-- Severity `E_NONE`. -/
def E_NONE : Int := 0

/-- Severity `E_ERROR`. -/
def E_ERROR : Int := 1

/-- Source `swow_coroutine_runtime_init`, the assignment
`SWOW_COROUTINE_G(exception_error_severity) = E_ERROR`, the only one to this
global in the file. -/
def swow_coroutine_runtime_init_severity (w : World) : World :=
  { w with exception_error_severity := E_ERROR }

/-- Source `swow_coroutine_function_handle_exception`, the block that calls the
user exception handler of the host with the uncaught exception. -/
def swow_coroutine_function_call_user_handler (w : World)
    (handler : ObjId → UserHandlerResult) (old_exception : ObjId) : World :=
  let r := handler old_exception
  let wc := { w with EG := { w.EG with exception := r.exception } }
  let wd :=
    if r.success then
      match r.exception with
      | some e =>
        if e == old_exception then wc.GC_DELREF old_exception
        else zend_exception_set_previous wc e (some old_exception)
      | none => wc
    else wc
  if wd.EG.exception.isNone then
    { wd with EG := { wd.EG with exception := some old_exception } }
  else wd

/-- Source `swow_coroutine_function_handle_exception`, the last block: what is
still pending is reported, or dropped when the severity is `E_NONE`. -/
def swow_coroutine_function_report (w : World) : World :=
  match w.EG.exception with
  | none => w
  | some e =>
    if w.exception_error_severity > E_NONE then
      zend_exception_error w e w.exception_error_severity
    else
      { w.GC_DELREF e with EG := { w.EG with exception := none } }

/-- Source `swow_coroutine_function_handle_exception`. -/
def swow_coroutine_function_handle_exception (w : World) : World :=
  match w.EG.exception with
  | none => w
  | some exception =>
    /- keep slient for killer -/
    if w.instanceof_function (w.objects exception).ce w.swow_coroutine_kill_exception_ce then
      { w.GC_DELREF exception with EG := { w.EG with exception := none } }
    else
      match w.user_exception_handler with
      | none => swow_coroutine_function_report w
      | some handler =>
        swow_coroutine_function_report
          (swow_coroutine_function_call_user_handler w handler exception)

/-- Read `n` cells of the array that starts at `p`. -/
def World.read_params (w : World) (p : zval_ptr) (n : Nat) : List zval :=
  match p with
  | .mem a => (List.range n).map (fun i => w.memory (a + i))
  | q => (List.range n).map (fun _ => w.deref q)

/-- Source `swow_coroutine_function(zdata)`, block "add to scoroutines map": the
current coroutine is entered in the map under its id and gains a
reference. -/
def swow_coroutine_function_register (w : World) : World :=
  let scoroutine := swow_coroutine_get_current w
  let w1 := w.zend_hash_index_update (w.coroutines scoroutine).coroutine.id scoroutine
  w1.GC_ADDREF_std scoroutine

/-- Source `swow_coroutine_function(zdata)`, first half: registration in the map
and the parameters of the call of the entry callable. -/
def swow_coroutine_function_begin (w : World) (zdata : zval_ptr) :
    Except Halt (World × List zval) :=
  let scoroutine := swow_coroutine_get_current w
  match (w.coroutines scoroutine).executor with
  | none => .error .null_dereference
  | some _ =>
    /- add to scoroutines map -/
    let w2 := swow_coroutine_function_register w
    /- prepare function call info -/
    if zdata == .SWOW_COROUTINE_DATA_NULL then
      pure (w2, [])
    else
      match w2.deref zdata with
      | .IS_PTR fci_ptr =>
        pure (w2, w2.read_params (w2.fcall_infos fci_ptr).params
                    (w2.fcall_infos fci_ptr).param_count)
      | v => pure (w2.Z_TRY_DELREF v, w2.read_params zdata 1)

/-- Set the two "finished" bits of `coroutine.flags`. -/
def World.or_flags (w : World) (c : Cid) (main_finished all_finished : Bool) : World :=
  w.set_cat c
    { (w.coroutines c).coroutine with
      flags := { (w.coroutines c).coroutine.flags with
        MAIN_FINISHED := (w.coroutines c).coroutine.flags.MAIN_FINISHED || main_finished
        ALL_FINISHED := (w.coroutines c).coroutine.flags.ALL_FINISHED || all_finished } }

/-- Source `swow_coroutine_function(zdata)`, after the call of the entry callable,
which left `retval`: the flags, the uncaught exception, and the release of
the callable, up to the point where `previous` is looked up. -/
def swow_coroutine_function_cleanup (w : World) (executor : swow_coroutine_exector_t)
    (retval : zval) : World :=
  let scoroutine := swow_coroutine_get_current w
  let w0 := w.store (.function_retval scoroutine) retval
  let w1 := w0.or_flags scoroutine true false
  let w2 := if w1.EG.exception.isSome then swow_coroutine_function_handle_exception w1 else w1
  /- discard all possible resources -/
  let w3 := (w2.set_executor scoroutine
    ((w2.coroutines scoroutine).executor.map (fun e => { e with zcallable := .IS_NULL }))
    ).Z_TRY_DELREF executor.zcallable
  let w4 := if w3.EG.exception.isSome then swow_coroutine_function_handle_exception w3 else w3
  w4.or_flags scoroutine false true

/-- Source `swow_coroutine_function(zdata)`, second half: from the return of the
entry callable, which left `retval`, to the `return` of the trampoline.
The result is the pointer the trampoline returns to the engine. -/
def swow_coroutine_function_end (b : Build) (w : World) (retval : zval) :
    Except Halt (World × zval_ptr) :=
  let scoroutine := swow_coroutine_get_current w
  match (w.coroutines scoroutine).executor with
  | none => .error .null_dereference
  | some executor =>
    let w5 := swow_coroutine_function_cleanup w executor retval
    match swow_coroutine_get_previous w5 scoroutine with
    | none => if b.CAT_DEBUG then .error .assertion else .error .null_dereference
    | some previous_scoroutine => do
      /- break releation with origin -/
      let w6 := w5.GC_DELREF_std previous_scoroutine
      /- swap to origin -/
      let w7 ← swow_coroutine_executor_switch w6 previous_scoroutine
      /- solve retval -/
      if w7.deref (.function_retval scoroutine) == .IS_UNDEF
          || w7.deref (.function_retval scoroutine) == .IS_NULL then
        pure (w7, .SWOW_COROUTINE_DATA_NULL)
      else
        swow_coroutine_handle_not_null_zdata b (w7.set_ACCEPT_ZDATA scoroutine true)
          scoroutine previous_scoroutine (.function_retval scoroutine) true

/-! ## Stack page size -/

/-- The constants of the headers that `swow_coroutine_align_stack_page_size`
and `swow_coroutine_runtime_init` name; their values are not part of this
file, so they are parameters. -/
structure StackLimits where
  CAT_COROUTINE_MIN_STACK_SIZE : Nat
  CAT_COROUTINE_MAX_STACK_SIZE : Nat
  SWOW_COROUTINE_MIN_STACK_PAGE_SIZE : Nat
  SWOW_COROUTINE_MAX_STACK_PAGE_SIZE : Nat
  SWOW_COROUTINE_STACK_PAGE_ALIGNED_SIZE : Nat
  SWOW_COROUTINE_DEFAULT_STACK_PAGE_SIZE : Nat
  deriving DecidableEq, Repr

/-- Number of values of the type `size_t` (64 bits). -/
def SIZE_RANGE : Nat := 2 ^ 64

/-- Conversion of a `zend_long` argument to a `size_t` parameter, as the call
`swow_coroutine_construct(scoroutine, zcallable, stack_page_size,
c_stack_size)` in `Coroutine::__construct` does it: modulo `2 ^ 64`. -/
def size_t_of_zend_long (n : Int) : Nat := (n % (SIZE_RANGE : Int)).toNat

/-- Modelled from the spec: `CAT_MEMORY_ALIGNED_SIZE_EX(size, alignment)` of the
engine headers (§4.1, "clamped/aligned"): `size` rounded up to the next
multiple of `alignment`, in `size_t`. -/
def CAT_MEMORY_ALIGNED_SIZE_EX (size alignment : Nat) : Nat :=
  ((size + (alignment - 1)) / alignment * alignment) % SIZE_RANGE

/-- Source `swow_coroutine_align_stack_page_size(size)`; the second argument is
`SWOW_COROUTINE_G(default_stack_page_size)`. -/
def swow_coroutine_align_stack_page_size (L : StackLimits) (default_stack_page_size : Nat)
    (size : Nat) : Nat :=
  if size == 0 then
    default_stack_page_size
  else if size < L.CAT_COROUTINE_MIN_STACK_SIZE then
    L.SWOW_COROUTINE_MIN_STACK_PAGE_SIZE
  else if size > L.CAT_COROUTINE_MAX_STACK_SIZE then
    L.SWOW_COROUTINE_MAX_STACK_PAGE_SIZE
  else
    CAT_MEMORY_ALIGNED_SIZE_EX size L.SWOW_COROUTINE_STACK_PAGE_ALIGNED_SIZE

/-! ## Module globals, construction and the readonly latch -/

/-- The handler `swow_coroutine_ce->create_object`. -/
inductive create_object_t where
  | swow_coroutine_create_object
  | swow_create_object_deny
  deriving DecidableEq, Repr

/-- The record `SWOW_COROUTINE_G(readonly)`, with the three fields this file
names. -/
structure swow_coroutine_readonly_t where
  enable : Bool
  original_create_object : Option create_object_t
  original_resume : Option cat_coroutine_resume_t
  deriving DecidableEq, Repr

/-- The module globals and class handlers used by construction and by the
readonly latch; `custom_entry` is `none` also when the build has no
`SWOW_COROUTINE_ENABLE_CUSTOM_ENTRY`. -/
structure Globals where
  default_stack_page_size : Nat
  readonly : swow_coroutine_readonly_t
  create_object : create_object_t
  custom_entry : Option ClassId
  deriving DecidableEq, Repr

/-- What construction and destruction call in the host and in the engine. -/
structure Runtime where
  /-- Result of `zend_is_callable_ex` of the host. -/
  zend_is_callable_ex : zval → Bool
  /-- Result of `cat_coroutine_create_ex` of the engine on the record of the
  object: the record of the created coroutine, or NULL with the last error
  the engine leaves. -/
  cat_coroutine_create_ex : cat_coroutine_t → Nat → Except LastError cat_coroutine_t
  /-- Address returned by `emalloc` for a block of the given size. -/
  emalloc : Nat → Nat
  /-- Distance of `ZEND_VM_STACK_ELEMENTS(vm_stack)` plus the aligned size of
  the executor from the start of the block. -/
  vm_stack_top_offset : Nat
  /-- Content of a value cell that was not initialised. -/
  uninitialized : zval
  /-- Address chosen by `swow_object_alloc` for a new coroutine object. -/
  swow_object_alloc : World → Cid
  /-- Effect of the constructor of the custom entry class, called by
  `swow_call_method_with_1_params`. -/
  custom_constructor : World → Cid → zval → World
  /-- Effect of `zend_objects_destroy_object`, which calls `__destruct`. -/
  zend_objects_destroy_object : World → Cid → World

/-- Source `swow_coroutine_runtime_init`, the assignments to the globals used
here. -/
def swow_coroutine_runtime_init_globals (L : StackLimits) (g : Globals) : Globals :=
  { g with
    default_stack_page_size := L.SWOW_COROUTINE_DEFAULT_STACK_PAGE_SIZE
    readonly := { g.readonly with original_create_object := none, original_resume := none } }

/-- Source `swow_coroutine_construct(scoroutine, zcallable, stack_page_size,
c_stack_size)`. -/
def swow_coroutine_construct (R : Runtime) (L : StackLimits) (g : Globals) (w : World)
    (scoroutine : Cid) (zcallable : zval) (stack_page_size c_stack_size : Nat) :
    World × Bool :=
  /- check arguments -/
  if !R.zend_is_callable_ex zcallable then
    ({ w with last_error := some .must_be_callable }, false)
  else
    /- create C coroutine -/
    match R.cat_coroutine_create_ex (w.coroutines scoroutine).coroutine c_stack_size with
    | .error err => ({ w with last_error := some err }, false)
    | .ok coroutine =>
      let coroutine :=
        { coroutine with opcodes := { coroutine.opcodes with ACCEPT_ZDATA := true } }
      /- align stack page size -/
      let stack_page_size :=
        swow_coroutine_align_stack_page_size L g.default_stack_page_size stack_page_size
      /- alloc vm stack memory -/
      let vm_stack := R.emalloc stack_page_size
      /- init executor -/
      let executor : swow_coroutine_exector_t :=
        { saved :=
            { bailout := 0
              vm_stack := vm_stack
              vm_stack_top := vm_stack + R.vm_stack_top_offset
              vm_stack_end := vm_stack + stack_page_size
              vm_stack_page_size := stack_page_size
              current_execute_data := 0
              exception := none
              error_handling := 0 }
          /- save function cache -/
          zcallable := zcallable
          /- it's unnecessary to init the zdata -/
          zdata := R.uninitialized
          cross_exception := none }
      /- executor ok -/
      ((w.Z_TRY_ADDREF zcallable).set_coroutine scoroutine
        { (w.coroutines scoroutine) with coroutine := coroutine, executor := some executor },
       true)

/-- Modelled from the spec: `cat_coroutine_init` of the engine (§3): a
coroutine that has not been created yet is in state INIT, with no flag, no
opcode and no link. -/
def cat_coroutine_init (k : cat_coroutine_t) : cat_coroutine_t :=
  { k with
    state := .INIT
    flags := { SCHEDULER := false, NO_STACK := false, MAIN_FINISHED := false,
               ALL_FINISHED := false }
    opcodes := { CHECKED := false, ACCEPT_ZDATA := false }
    from_ := none
    previous := none }

/-- Source `swow_coroutine_create_object(ce)`: a new object with one reference
whose primitive coroutine is initialised. -/
def swow_coroutine_create_object (R : Runtime) (w : World) : World × Cid :=
  let scoroutine := R.swow_object_alloc w
  (w.set_coroutine scoroutine
    { coroutine := cat_coroutine_init (w.coroutines scoroutine).coroutine
      executor := none
      std_refcount := 1 },
   scoroutine)

/-- Text of the fatal error of a denied object creation. -/
def create_object_denied_message : String := "Object creation is denied"

/-- Modelled from the spec: `swow_create_object_deny`, the handler installed by
the readonly latch, which is not part of this file (§4.5: construction
"fails fast with a fatal internal error"). -/
def swow_create_object_deny : Except Halt (World × Cid) :=
  .error (.core_error create_object_denied_message)

/-- The call `swow_object_create(swow_coroutine_ce)`, through the handler
`create_object` of the class. -/
def swow_object_create_coroutine (R : Runtime) (g : Globals) (w : World) :
    Except Halt (World × Cid) :=
  match g.create_object with
  | .swow_coroutine_create_object => .ok (swow_coroutine_create_object R w)
  | .swow_create_object_deny => swow_create_object_deny

/-- Source `swow_coroutine_create_custom_object(zcallable)`: an object of the
custom entry class is created and its constructor called. -/
def swow_coroutine_create_custom_object (R : Runtime) (w : World) (zcallable : zval) :
    World × Option Cid :=
  let (w1, scoroutine) := swow_coroutine_create_object R w
  let w2 := R.custom_constructor w1 scoroutine zcallable
  if w2.EG.exception.isSome then
    ({ w2.GC_DELREF_std scoroutine with last_error := some .exception_during_construction },
     none)
  else
    (w2, some scoroutine)

/-- Source `swow_coroutine_create_ex(zcallable, stack_page_size, c_stack_size)`;
`none` is the NULL result. -/
def swow_coroutine_create_ex (R : Runtime) (L : StackLimits) (g : Globals) (w : World)
    (zcallable : zval) (stack_page_size c_stack_size : Nat) :
    Except Halt (World × Option Cid) :=
  match g.custom_entry with
  | some _ => pure (swow_coroutine_create_custom_object R w zcallable)
  | none => do
    let (w1, scoroutine) ← swow_object_create_coroutine R g w
    match swow_coroutine_construct R L g w1 scoroutine zcallable stack_page_size
        c_stack_size with
    | (w2, false) => pure (w2.GC_DELREF_std scoroutine, none)
    | (w2, true) => pure (w2, some scoroutine)

/-- How a method of the class returns to the host. -/
inductive method_result where
  | returns
  | throws_error (message : String)
  | throws_exception_with_last
  deriving DecidableEq, Repr

/-- Source `PHP_METHOD(swow_coroutine, __construct)`, with the arguments as
`ZEND_PARSE_PARAMETERS` delivers them (the two sizes are `zend_long`,
`0` when not given). -/
def swow_coroutine___construct (R : Runtime) (L : StackLimits) (g : Globals) (w : World)
    (scoroutine : Cid) (zcallable : zval) (stack_page_size c_stack_size : Int) :
    World × method_result :=
  if (w.coroutines scoroutine).coroutine.state != .INIT then
    (w, .throws_error "%s can only construct once")
  else
    match swow_coroutine_construct R L g w scoroutine zcallable
        (size_t_of_zend_long stack_page_size) (size_t_of_zend_long c_stack_size) with
    | (w1, false) => (w1, .throws_exception_with_last)
    | (w1, true) => (w1, .returns)

/-- Modelled from the spec: `cat_coroutine_register_resume` of the engine (§6):
the dispatcher is registered in the single global slot and the one
registered before is returned. -/
def cat_coroutine_register_resume (w : World) (resume : cat_coroutine_resume_t) :
    World × cat_coroutine_resume_t :=
  ({ w with cat_coroutine_resume := resume }, w.cat_coroutine_resume)

/-- Source `swow_coroutine_set_readonly(enable)`. -/
def swow_coroutine_set_readonly (g : Globals) (w : World) (enable : Bool) : Globals × World :=
  if enable then
    let (w1, original_resume) := cat_coroutine_register_resume w .swow_coroutine_resume_deny
    ({ g with
        readonly := { g.readonly with
          original_create_object := some g.create_object
          original_resume := some original_resume }
        create_object := .swow_create_object_deny },
     w1)
  else
    let g1 :=
      match g.readonly.original_create_object with
      | some original =>
        if g.create_object == .swow_create_object_deny then { g with create_object := original }
        else g
      | none => g
    let w1 :=
      match g.readonly.original_resume with
      | some original =>
        if w.cat_coroutine_resume == .swow_coroutine_resume_deny then
          (cat_coroutine_register_resume w original).1
        else w
      | none => w
    (g1, w1)

/-- Source `swow_coroutine_resume_hardlink(scoroutine, zdata, retval)`. -/
def swow_coroutine_resume_hardlink (b : Build) (E : Engine) (g : Globals) (w : World)
    (scoroutine : Cid) (zdata : zval_ptr) (retval : Bool) :
    Except Halt (World × Bool × Option zval) :=
  if g.readonly.enable then do
    let _ ← swow_coroutine_resume_deny
    .error (.core_error "Abort in deny")
  else do
    let w1 := w.set_ACCEPT_ZDATA w.current true
    let (w2, zdata1) ← swow_coroutine_resume_standard b E w1 scoroutine zdata
    pure (SWOW_COROUTINE_JUMP_WITH_ZDATA_end w2 zdata1 retval)

/-- Source `swow_coroutine_yield_hardlink(zdata, retval)`; on the failure
`retval` is not written. -/
def swow_coroutine_yield_hardlink (b : Build) (E : Engine) (g : Globals) (w : World)
    (zdata : zval_ptr) (retval : Bool) : Except Halt (World × Bool × Option zval) :=
  match swow_coroutine_get_previous w (swow_coroutine_get_current w) with
  | none => pure ({ w with last_error := some .nowhere_to_go }, false, none)
  | some scoroutine => swow_coroutine_resume_hardlink b E g w scoroutine zdata retval

/-! ## Kill and destruction -/

/-- Modelled from the spec: `swow_exception_set_properties(exception, message,
code)`, which is not part of this file (§4.4, `new Kill(message, code)`): the
message, when one is given, and the code are stored in the exception. -/
def swow_exception_set_properties (w : World) (exception : ObjId) (message : Option String)
    (code : Int) : World :=
  w.set_object exception
    { w.objects exception with
      message := match message with
        | some m => .IS_STRING m
        | none => (w.objects exception).message
      code := .IS_LONG code }

/-- Modelled from the spec: `swow_coroutine_is_running`, which this file calls
and does not define (§4.4: after the throw the caller "asserts that the
target is no longer alive", a target that is stuck waiting being a fatal
error as well): the coroutine is still alive. -/
def swow_coroutine_is_running (w : World) (scoroutine : Cid) : Bool :=
  swow_coroutine_is_alive w scoroutine

/-- Source `swow_coroutine_kill`, the two statements that create the Kill
exception. -/
def swow_coroutine_kill_exception (w : World) (message : Option String) (code : Int) :
    World × ObjId :=
  let (w0, exception) := swow_object_create w w.swow_coroutine_kill_exception_ce
  (swow_exception_set_properties w0 exception message code, exception)

/-- Source `swow_coroutine_kill`, block "prevent coroutines from escaping" up to
the throw: the guard is registered and told who kills whom; the result
carries `original_resume`. -/
def swow_coroutine_kill_install_guard (w : World) (scoroutine : Cid) :
    World × cat_coroutine_resume_t :=
  let (w2, original_resume) :=
    cat_coroutine_register_resume w .swow_coroutine_resume_rated
  ({ w2 with
      rated_killer := some (swow_coroutine_get_current w2)
      rated_dead := some scoroutine },
   original_resume)

/-- Source `swow_coroutine_kill(scoroutine, message, code)`.  The flag selects
the text under `SWOW_COROUTINE_USE_RATED`; `retval` is the content of the
local `zval retval` before the call, which is not initialised. -/
def swow_coroutine_kill (b : Build) (SWOW_COROUTINE_USE_RATED : Bool) (E : Engine)
    (w : World) (scoroutine : Cid) (message : Option String) (code : Int) (retval : zval) :
    Except Halt (World × Bool) :=
  let (w1, exception) := swow_coroutine_kill_exception w message code
  if !SWOW_COROUTINE_USE_RATED then do
    let (w2, success, result) ← swow_coroutine_throw b E w1 scoroutine exception true
    CAT_ASSERT b (!w2.kill_main)
    let w3 := w2.GC_DELREF exception
    if !success then pure (w3, false)
    else pure (w3.Z_TRY_DELREF (result.getD retval), true)
  else do
    /- prevent coroutines from escaping -/
    let (w3, original_resume) := swow_coroutine_kill_install_guard w1 scoroutine
    let (w4, success, result) ← swow_coroutine_throw b E w3 scoroutine exception true
    CAT_ASSERT b (!w4.kill_main)
    /- revert -/
    let w5 := (cat_coroutine_register_resume w4 original_resume).1
    let w6 := w5.GC_DELREF exception
    if !success then pure (w6, false)
    else if swow_coroutine_is_running w6 scoroutine then
      .error (.core_error "Kill coroutine failed by unknown reason")
    else if result.getD retval != .IS_NULL then
      .error (.core_error "Unexpected return value")
    else pure (w6, true)

/-- Text of the fatal error of `swow_coroutine_dtor_object`, without the
reason appended to it. -/
def kill_failed_in_destructor_message : String :=
  "Kill coroutine failed when destruct object, reason: %s"

/-- Source `swow_coroutine_dtor_object`, the loop `while
(swow_coroutine_is_alive(scoroutine))`, run for at most `fuel` rounds;
`none` says that the loop has not ended yet. -/
def swow_coroutine_dtor_object_loop (b : Build) (SWOW_COROUTINE_USE_RATED : Bool) (E : Engine)
    (retval : zval) : Nat → World → Cid → Except Halt (Option World)
  | 0, w, scoroutine =>
    if swow_coroutine_is_alive w scoroutine then pure none else pure (some w)
  | fuel + 1, w, scoroutine =>
    if swow_coroutine_is_alive w scoroutine then do
      /- not finished, should be discard -/
      let (w1, success) ←
        swow_coroutine_kill b SWOW_COROUTINE_USE_RATED E w scoroutine none (-1) retval
      if !success then .error (.core_error kill_failed_in_destructor_message)
      else
        swow_coroutine_dtor_object_loop b SWOW_COROUTINE_USE_RATED E retval fuel w1 scoroutine
    else pure (some w)

/-- Source `swow_coroutine_dtor_object(object)`. -/
def swow_coroutine_dtor_object (b : Build) (SWOW_COROUTINE_USE_RATED : Bool) (E : Engine)
    (R : Runtime) (retval : zval) (fuel : Nat) (w : World) (object : Cid) :
    Except Halt (Option World) :=
  /- try to call __destruct first -/
  let w1 := R.zend_objects_destroy_object w object
  /- we should never kill the main coroutine -/
  if object == swow_coroutine_get_main w1 then pure (some w1)
  else swow_coroutine_dtor_object_loop b SWOW_COROUTINE_USE_RATED E retval fuel w1 object

/-! ## Coroutines running managed code

To follow a value from a `resume` into the coroutine and back, the functions
above are run against a small machine: each coroutine is a piece of managed
code that returns, stores a value, resumes a coroutine or yields; a
coroutine that is not running is either not started or stopped inside the
primitive jump of a `resume` / `yield`, waiting for it to return. -/

/-- Managed code of a coroutine, as seen from this layer. -/
inductive Code where
  /-- The entry callable returns `r`. -/
  | ret (r : zval)
  /-- The code writes `v` to the cell `p`, then goes on. -/
  | store (p : zval_ptr) (v : zval) (k : Code)
  /-- Call of `swow_coroutine_resume(target, zdata, return_value)`; `k` gets
  the result of the call and the content of `return_value`. -/
  | resume (target : Cid) (zdata : zval_ptr) (k : Bool → zval → Code)
  /-- Call of `swow_coroutine_yield(zdata, return_value)`. -/
  | yield (zdata : zval_ptr) (k : Bool → zval → Code)

/-- Where a coroutine that does not run stands. -/
inductive Pending where
  /-- The trampoline has not been entered. -/
  | not_started
  /-- Inside the jump of a `resume` or `yield`; `k` is the code after it. -/
  | in_jump (k : Bool → zval → Code)
  /-- The trampoline has returned. -/
  | finished

/-- The machine: the world, the entry callable of every coroutine, where the
coroutines that do not run stand, and the code of the running one. -/
structure Machine where
  world : World
  entry : Cid → List zval → Code
  pending : Cid → Pending
  running : Code

/-- The engine as the machine uses it: the check is a parameter, and the jump
leaves the calling function at the switch. -/
def Engine.switching (precheck : World → Cid → zval_ptr → Option LastError) : Engine :=
  { cat_coroutine_jump_precheck := precheck
    cat_coroutine_jump := fun w target payload => .error (.switched w target payload) }

/-- Modelled from the spec: what the primitive switch records (§3, §6): the
target learns where control came from; a jump to `previous` of the current
coroutine is a yield, which cuts that link, any other jump makes the current
coroutine `previous` of the target; the coroutine that is left goes from
RUNNING to WAITING, and the target becomes the current coroutine,
RUNNING. -/
def cat_coroutine_jump_switch (w : World) (target : Cid) : World :=
  let current := w.current
  let w1 := w.set_cat target { (w.coroutines target).coroutine with from_ := some current }
  let w2 :=
    if (w1.coroutines current).coroutine.previous == some target then
      w1.set_cat current { (w1.coroutines current).coroutine with previous := none }
    else
      w1.set_cat target { (w1.coroutines target).coroutine with previous := some current }
  let w3 := w2.set_cat current
    { (w2.coroutines current).coroutine with
      state := if (w2.coroutines current).coroutine.state == .RUNNING then .WAITING
               else (w2.coroutines current).coroutine.state }
  let w4 := { w3 with current := target }
  w4.set_cat target { (w4.coroutines target).coroutine with state := .RUNNING }

/-- Modelled from the spec: the end of a coroutine in the engine (§3): when
the entry function returns the coroutine is DEAD and control goes to its
`previous`. -/
def cat_coroutine_finish_switch (w : World) (previous : Cid) : World :=
  cat_coroutine_jump_switch
    (w.set_cat w.current { (w.coroutines w.current).coroutine with state := .DEAD })
    previous

/-- Control arrives in the current coroutine of `w` with `payload`: a
coroutine that has not started enters the trampoline and calls its entry
callable; one stopped in a jump finishes `swow_coroutine_jump` and the
statements of `SWOW_COROUTINE_JUMP_WITH_ZDATA` after it. -/
def Machine.arrive (b : Build) (m : Machine) (w : World) (payload : zval_ptr) :
    Except Halt Machine :=
  match m.pending w.current with
  | .not_started => do
    let (w1, params) ← swow_coroutine_function_begin w payload
    pure { m with world := w1, running := m.entry w.current params }
  | .in_jump k => do
    let (w1, zdata) ← swow_coroutine_jump_post b w w.current payload
    let r := SWOW_COROUTINE_JUMP_WITH_ZDATA_end w1 zdata true
    pure { m with world := r.1, running := k r.2.1 (r.2.2.getD .IS_UNDEF) }
  | .finished => .error .null_dereference

/-- What follows a call of `swow_coroutine_resume` / `swow_coroutine_yield`
made by the running code: the call returns at once (refused), or the stack
is switched and control arrives in the target. -/
def Machine.after_call (b : Build) (m : Machine) (k : Bool → zval → Code)
    (r : Except Halt (World × Bool × Option zval)) : Except Halt Machine :=
  match r with
  | .ok (w1, success, result) =>
    pure { m with world := w1, running := k success (result.getD .IS_UNDEF) }
  | .error (.switched w1 target payload) =>
    Machine.arrive b
      { m with pending := Function.update m.pending m.world.current (.in_jump k) }
      (cat_coroutine_jump_switch w1 target) payload
  | .error h => .error h

/-- One step of the machine: the running code performs its next operation. -/
def Machine.step (b : Build) (precheck : World → Cid → zval_ptr → Option LastError)
    (m : Machine) : Except Halt Machine :=
  match m.running with
  | .store p v k => pure { m with world := m.world.store p v, running := k }
  | .resume target zdata k =>
    m.after_call b k (swow_coroutine_resume b (Engine.switching precheck) m.world target zdata true)
  | .yield zdata k =>
    m.after_call b k (swow_coroutine_yield b (Engine.switching precheck) m.world zdata true)
  | .ret r =>
    if m.world.current == m.world.main then pure m
    else do
      let (w1, payload) ← swow_coroutine_function_end b m.world r
      match swow_coroutine_get_previous w1 w1.current with
      | none => .error .null_dereference
      | some previous =>
        Machine.arrive b
          { m with pending := Function.update m.pending m.world.current .finished }
          (cat_coroutine_finish_switch w1 previous) payload

/-- Run `n` steps. -/
def Machine.run (b : Build) (precheck : World → Cid → zval_ptr → Option LastError) :
    Nat → Machine → Except Halt Machine
  | 0, m => pure m
  | n + 1, m => do
    let m1 ← Machine.step b precheck m
    Machine.run b precheck n m1

/-! ## Concrete worlds

A small process used to evaluate the definitions: coroutine `0` is the main
coroutine, coroutines `1` and `2` have been constructed and not run, class
`1` is `Throwable`, `2` an exception class, `4` the Terminate and `5` the Kill
exception class, `9` a class that is not throwable. -/

/-- An interpreter state with nothing pending. -/
def demo_globals : zend_executor_globals :=
  { bailout := 0, vm_stack_top := 0, vm_stack_end := 0, vm_stack := 0,
    vm_stack_page_size := 0, current_execute_data := 1, exception := none,
    error_handling := 0 }

/-- An executor as `swow_coroutine_construct` leaves it, with callable `z`. -/
def demo_executor (z : zval) : swow_coroutine_exector_t :=
  { saved := { demo_globals with current_execute_data := 0 }, zcallable := z,
    zdata := .IS_UNDEF, cross_exception := none }

/-- A coroutine record with the given identifier, state and `ACCEPT_ZDATA` bit. -/
def demo_coroutine (id : Nat) (state : cat_coroutine_state) (accept : Bool)
    (executor : Option swow_coroutine_exector_t) : swow_coroutine_t :=
  { coroutine :=
      { id := id, state := state,
        flags := { SCHEDULER := false, NO_STACK := false, MAIN_FINISHED := false,
                   ALL_FINISHED := false },
        opcodes := { CHECKED := false, ACCEPT_ZDATA := accept },
        from_ := none, previous := none },
    executor := executor, std_refcount := 1 }

/-- The class hierarchy of the concrete worlds. -/
def demo_instanceof (a c : ClassId) : Bool :=
  a == c || (c == 1 && (a == 2 || a == 4 || a == 5)) || (c == 2 && (a == 4 || a == 5))

/-- The objects of the concrete worlds: `0` a Terminate exception, `1` a Kill
exception, `2` a plain exception, every other handle an object of class `9`. -/
def demo_objects (h : ObjId) : zend_object :=
  if h == 0 then
    { ce := 4, refcount := 1, message := .IS_STRING "bye", code := .IS_LONG 130,
      previous := none }
  else if h == 1 then
    { ce := 5, refcount := 1, message := .IS_STRING "kill", code := .IS_LONG 9,
      previous := none }
  else if h == 2 then
    { ce := 2, refcount := 1, message := .IS_STRING "oops", code := .IS_LONG 1,
      previous := none }
  else
    { ce := 9, refcount := 1, message := .IS_NULL, code := .IS_NULL, previous := none }

/-- The concrete world: main coroutine `0` running, `1` and `2` constructed. -/
def demo_world : World :=
  { coroutines := fun c =>
      if c == 0 then demo_coroutine 0 .RUNNING false (some (demo_executor .IS_NULL))
      else if c == 1 then demo_coroutine 1 .READY true (some (demo_executor .IS_TRUE))
      else if c == 2 then demo_coroutine 2 .READY true (some (demo_executor .IS_TRUE))
      else demo_coroutine c .INIT false none
    current := 0
    main := 0
    map := [(0, 0)]
    EG := demo_globals
    objects := demo_objects
    next_handle := 3
    memory := fun a => if a == 0 then .IS_LONG 7 else if a == 1 then .IS_NULL else .IS_UNDEF
    function_retval := fun _ => .IS_UNDEF
    transfer_local := fun _ => .IS_UNDEF
    fcall_infos := fun _ => { param_count := 0, params := .mem 0 }
    cat_coroutine_resume := .swow_coroutine_resume_standard
    rated_killer := none
    rated_dead := none
    last_error := none
    kill_main := false
    user_exception_handler := none
    exception_error_severity := 1
    reported := []
    zend_ce_throwable := 1
    swow_coroutine_kill_exception_ce := 5
    instanceof_function := demo_instanceof }

/-- An admission check that lets every jump pass. -/
def precheck_pass : World → Cid → zval_ptr → Option LastError := fun _ _ _ => none

/-- An admission check that refuses every jump. -/
def precheck_refuse : World → Cid → zval_ptr → Option LastError :=
  fun _ _ _ => some (.engine 1)

/-- The optimised build without assertions. -/
def release_build : Build := { CAT_DO_NOT_OPTIMIZE := false, CAT_DEBUG := false }

/-- The build with `CAT_DO_NOT_OPTIMIZE` and assertions. -/
def debug_build : Build := { CAT_DO_NOT_OPTIMIZE := true, CAT_DEBUG := true }

/-- An engine whose check lets every jump pass and whose jump comes back at
once with the payload it was given. -/
def demo_engine : Engine :=
  { cat_coroutine_jump_precheck := precheck_pass
    cat_coroutine_jump := fun w _ payload => .ok (w, payload) }

/-- The concrete world with coroutine `3` as a coroutine of the engine that is
under internal control: alive, without managed stack and executor, and
without `ACCEPT_ZDATA`. -/
def demo_world_internal : World :=
  demo_world.set_coroutine 3
    { coroutine :=
        { id := 3, state := .WAITING,
          flags := { SCHEDULER := false, NO_STACK := true, MAIN_FINISHED := false,
                     ALL_FINISHED := false },
          opcodes := { CHECKED := false, ACCEPT_ZDATA := false },
          from_ := none, previous := none },
      executor := none, std_refcount := 1 }

/-- The payload that a function of the jump family hands on, if it returns. -/
def payload_of (r : Except Halt (World × zval_ptr)) : Option zval_ptr :=
  match r with
  | .ok (_, p) => some p
  | .error _ => none

/-- The fatal error a function ends in, if it does. -/
def core_error_of {α : Type} (r : Except Halt α) : Option String :=
  match r with
  | .error (.core_error s) => some s
  | _ => none

/-- The concrete world in the middle of the first run of coroutine `1`: the
main coroutine has resumed it with `swow_coroutine_resume`, so the main
coroutine has `ACCEPT_ZDATA` set, is WAITING and is `previous` of `1`, which
runs. -/
def demo_world_in_1 : World :=
  { (demo_world.set_cat 0
      { id := 0, state := .WAITING,
        flags := { SCHEDULER := false, NO_STACK := false, MAIN_FINISHED := false,
                   ALL_FINISHED := false },
        opcodes := { CHECKED := false, ACCEPT_ZDATA := true },
        from_ := none, previous := none }).set_cat 1
      { id := 1, state := .RUNNING,
        flags := { SCHEDULER := false, NO_STACK := false, MAIN_FINISHED := false,
                   ALL_FINISHED := false },
        opcodes := { CHECKED := false, ACCEPT_ZDATA := true },
        from_ := some 0, previous := some 0 } with
    current := 1 }

/-- The concrete world with coroutine `2` running as the scheduler. -/
def demo_world_scheduler : World :=
  demo_world.set_cat 2
    { id := 2, state := .WAITING,
      flags := { SCHEDULER := true, NO_STACK := false, MAIN_FINISHED := false,
                 ALL_FINISHED := false },
      opcodes := { CHECKED := false, ACCEPT_ZDATA := false },
      from_ := none, previous := none }

/-- An engine whose check refuses every jump. -/
def refusing_engine : Engine :=
  { cat_coroutine_jump_precheck := precheck_refuse
    cat_coroutine_jump := fun w _ payload => .ok (w, payload) }

/-- The concrete world with the plain exception `2` pending in the
interpreter. -/
def demo_world_pending : World :=
  { demo_world with EG := { demo_globals with exception := some 2 } }

/-- The concrete world at the moment control is back in the main coroutine
inside `swow_coroutine_jump`, the pending cross-exception slot of the main
coroutine holding the Terminate exception `0`, control coming from
coroutine `1` in the given state. -/
def demo_world_back (state : cat_coroutine_state) : World :=
  ((demo_world.set_executor 0
      (some { demo_executor .IS_NULL with cross_exception := some 0 })).set_cat 0
      { id := 0, state := .RUNNING,
        flags := { SCHEDULER := false, NO_STACK := false, MAIN_FINISHED := false,
                   ALL_FINISHED := false },
        opcodes := { CHECKED := false, ACCEPT_ZDATA := true },
        from_ := some 1, previous := none }).set_cat 1
    { id := 1, state := state,
      flags := { SCHEDULER := false, NO_STACK := false, MAIN_FINISHED := state == .DEAD,
                 ALL_FINISHED := state == .DEAD },
      opcodes := { CHECKED := false, ACCEPT_ZDATA := true },
      from_ := some 0, previous := none }

/-- Observe `f` in the world a function returns, if it returns. -/
def observe {α β : Type} (r : Except Halt (World × β)) (f : World → α) : Option α :=
  match r with
  | .ok (w, _) => some (f w)
  | .error _ => none

/-- The concrete world with coroutine `1` stopped inside a
`swow_coroutine_yield` (WAITING, its `ACCEPT_ZDATA` set by that call) and the
main coroutine running. -/
def demo_world_waiting_1 : World :=
  demo_world.set_cat 1
    { id := 1, state := .WAITING,
      flags := { SCHEDULER := false, NO_STACK := false, MAIN_FINISHED := false,
                 ALL_FINISHED := false },
      opcodes := { CHECKED := false, ACCEPT_ZDATA := true },
      from_ := some 0, previous := none }

/-- The entry callable `x = yield(1); return x + 1`. -/
def demo_entry_yield : List zval → Code := fun _ =>
  .store (.mem 10) (.IS_LONG 1)
    (.yield (.mem 10) (fun _ x =>
      match x with
      | .IS_LONG n => .ret (.IS_LONG (n + 1))
      | _ => .ret .IS_FALSE))

/-- The entry callable `return 41 + 1`. -/
def demo_entry_42 : List zval → Code := fun _ => .ret (.IS_LONG (41 + 1))

/-- An entry callable that returns its parameters, as the number of them and
the first two. -/
def demo_entry_echo : List zval → Code := fun params =>
  .store (.mem 30) (.IS_LONG params.length)
    (.store (.mem 31) (params.getD 0 .IS_UNDEF)
      (.store (.mem 32) (params.getD 1 .IS_UNDEF) (.ret (params.getD 0 .IS_UNDEF))))

/-- Code that stores the result of a call in the cell `a` and ends. -/
def demo_keep (a : Nat) : Bool → zval → Code := fun _ v => .store (.mem a) v (.ret .IS_NULL)

/-- A machine over the world `w` in which coroutine `1` has the entry callable
`entry1`, every coroutine but the current one stands as `p` says, and the
current coroutine runs `running`. -/
def demo_machine (w : World) (entry1 : List zval → Code) (p : Cid → Pending)
    (running : Code) : Machine :=
  { world := w
    entry := fun c => if c == 1 then entry1 else fun _ => .ret .IS_NULL
    pending := p
    running := running }

/-- The main script of the scenarios: resume coroutine `1` with no value and
keep the result in cell `20`, then resume it with the value `10` and keep
the result in cell `22`. -/
def demo_script : Code :=
  .resume 1 .SWOW_COROUTINE_DATA_NULL (fun _ v =>
    .store (.mem 20) v
      (.store (.mem 21) (.IS_LONG 10)
        (.resume 1 (.mem 21) (fun _ v2 => .store (.mem 22) v2 (.ret .IS_NULL)))))

/-- Observe `f` in the world of a machine run, if the run does not halt. -/
def look {α : Type} (r : Except Halt Machine) (f : World → α) : Option α :=
  match r with
  | .ok m => some (f m.world)
  | .error _ => none

/-- The concrete world with three call records: record `0` has no
parameter, record `1` the one parameter of cell `1` (PHP null), record `2`
the two parameters of cells `0` and `1` (`7` and null). -/
def demo_world_calls : World :=
  { demo_world with
    fcall_infos := fun f =>
      if f == 1 then { param_count := 1, params := .mem 1 }
      else if f == 2 then { param_count := 2, params := .mem 0 }
      else { param_count := 0, params := .mem 0 } }

/-- The concrete world during a kill of coroutine `1` by the main coroutine:
the guard is registered, with killer `0` and victim `1`. -/
def demo_world_guarded : World :=
  { demo_world with
    cat_coroutine_resume := .swow_coroutine_resume_rated
    rated_killer := some 0
    rated_dead := some 1 }

/-- Illustrative values for the constants of the headers: the bounds of the
page size are the bounds the size is compared with, all multiples of the
alignment. -/
def demo_limits : StackLimits :=
  { CAT_COROUTINE_MIN_STACK_SIZE := 4096
    CAT_COROUTINE_MAX_STACK_SIZE := 262144
    SWOW_COROUTINE_MIN_STACK_PAGE_SIZE := 4096
    SWOW_COROUTINE_MAX_STACK_PAGE_SIZE := 262144
    SWOW_COROUTINE_STACK_PAGE_ALIGNED_SIZE := 4096
    SWOW_COROUTINE_DEFAULT_STACK_PAGE_SIZE := 4096 }

/-- The module globals as `swow_coroutine_runtime_init` leaves them, with no
custom entry class. -/
def demo_module : Globals :=
  swow_coroutine_runtime_init_globals demo_limits
    { default_stack_page_size := 0
      readonly := { enable := false, original_create_object := none, original_resume := none }
      create_object := .swow_coroutine_create_object
      custom_entry := none }

/-- A host and engine for the concrete worlds: the values `true` and objects
are callable, the engine creates every coroutine, READY, and new coroutine
objects are put at `7`. -/
def demo_runtime : Runtime :=
  { zend_is_callable_ex := fun z =>
      match z with
      | .IS_TRUE => true
      | .IS_OBJECT _ => true
      | _ => false
    cat_coroutine_create_ex := fun k _ => .ok { k with state := .READY }
    emalloc := fun _ => 1000
    vm_stack_top_offset := 16
    uninitialized := .IS_UNDEF
    swow_object_alloc := fun _ => 7
    custom_constructor := fun w _ _ => w
    zend_objects_destroy_object := fun w _ => w }

/-- The page size of the activation stack of the executor of `c`, if it has
one. -/
def World.vm_stack_page_size (w : World) (c : Cid) : Option Nat :=
  (w.coroutines c).executor.map (fun e => e.saved.vm_stack_page_size)

/-- The concrete world with the Kill exception `1` pending in the
interpreter. -/
def demo_world_pending_kill : World :=
  { demo_world with EG := { demo_globals with exception := some 1 } }

/-- The coroutine towards which the native stack is switched, when a function
is left at the primitive jump. -/
def switch_target_of {α : Type} (r : Except Halt α) : Option Cid :=
  match r with
  | .error (.switched _ target _) => some target
  | _ => none

/-- The module globals and the world after `swow_coroutine_set_readonly(true)`
in the concrete world. -/
def demo_latched : Globals × World :=
  swow_coroutine_set_readonly demo_module demo_world true

/-- An engine for the concrete worlds in which the coroutine that is resumed
inside a yield does not catch what is delivered to it: control arrives in
the second half of its `swow_coroutine_jump`, its entry callable is left
without a result, the trampoline runs to its end, and the coroutine is DEAD
when control is back. -/
def unwinding_engine (b : Build) : Engine :=
  { cat_coroutine_jump_precheck := precheck_pass
    cat_coroutine_jump := fun w target payload => do
      let w1 := cat_coroutine_jump_switch w target
      let (w2, _) ← swow_coroutine_jump_post b w1 target payload
      let (w3, r) ← swow_coroutine_function_end b w2 .IS_UNDEF
      match swow_coroutine_get_previous w3 w3.current with
      | none => .error .null_dereference
      | some previous => pure (cat_coroutine_finish_switch w3 previous, r) }

/-- An engine for the concrete worlds in which the coroutine that is resumed
inside a yield calls `swow_coroutine_yield` with no value again, as from a
`finally` block, while what was delivered to it is pending: it is WAITING
when control is back. -/
def yielding_engine (b : Build) : Engine :=
  { cat_coroutine_jump_precheck := precheck_pass
    cat_coroutine_jump := fun w target payload => do
      let w1 := cat_coroutine_jump_switch w target
      let (w2, _) ← swow_coroutine_jump_post b w1 target payload
      match swow_coroutine_yield b (Engine.switching precheck_pass) w2
          .SWOW_COROUTINE_DATA_NULL true with
      | .error (.switched w3 back p) => pure (cat_coroutine_jump_switch w3 back, p)
      | .error h => .error h
      | .ok _ => .error .assertion }

/-- The flag a function of this layer returns, if it returns. -/
def result_of {β : Type} (r : Except Halt (World × β)) : Option β :=
  match r with
  | .ok (_, x) => some x
  | .error _ => none

/-- The states of all coroutines. -/
def World.states (w : World) : Cid → cat_coroutine_state :=
  fun c => (w.coroutines c).coroutine.state

/-- No coroutine is in state INIT in `w1` that was not in that state in `w`. -/
def World.not_reset (w w1 : World) : Prop :=
  ∀ c, w1.states c = .INIT → w.states c = .INIT

/-- An engine that never takes a coroutine back to the state INIT: whenever
its switch returns, a coroutine in state INIT was in that state before. -/
def Engine.never_resets (E : Engine) : Prop :=
  ∀ w target payload w1 r, E.cat_coroutine_jump w target payload = .ok (w1, r) →
    ∀ c, (w1.coroutines c).coroutine.state = .INIT → (w.coroutines c).coroutine.state = .INIT

/-! ## Relations used in the statements -/

/-- The world with the exception state of the host blanked out: the pending
exception and the rest of the interpreter state, the objects, the handle
counter, the reported errors and the `kill_main` mark. -/
def World.outside_heap (w : World) : World :=
  { w with
    EG := demo_globals
    objects := fun _ => demo_objects 3
    next_handle := 0
    reported := []
    kill_main := false }

/-- Every cause link of the heap points to a handle below `n`. -/
def World.causes_below (w : World) (n : ObjId) : Prop :=
  ∀ h p, (w.objects h).previous = some p → p < n

/-- Two worlds differ at most in the exception state of the host. -/
def HeapOnly (w w1 : World) : Prop := w1.outside_heap = w.outside_heap

/-- What the bookkeeping before a switch leaves alone: the current coroutine,
the memory cells, the primitive part of every coroutine, the presence and
transfer slot of every executor, the registered resume dispatcher and the
call records. -/
structure TransferFrame (w w2 : World) : Prop where
  current : w2.current = w.current
  memory : w2.memory = w.memory
  function_retval : w2.function_retval = w.function_retval
  transfer_local : w2.transfer_local = w.transfer_local
  cat : ∀ c, (w2.coroutines c).coroutine = (w.coroutines c).coroutine
  zdata : ∀ c, (w2.coroutines c).executor.map (fun e => e.zdata)
            = (w.coroutines c).executor.map (fun e => e.zdata)
  dispatcher : w2.cat_coroutine_resume = w.cat_coroutine_resume
  fcall_infos : w2.fcall_infos = w.fcall_infos
  main_same : w2.main = w.main

/-- What the trampoline leaves alone on its way out, up to the switch of the
executor: the current coroutine, the local `retval`, and of every coroutine
the `previous` link, the opcodes and whether it has an executor. -/
structure ControlFrame (w w2 : World) : Prop where
  current : w2.current = w.current
  function_retval : w2.function_retval = w.function_retval
  previous : ∀ c, (w2.coroutines c).coroutine.previous = (w.coroutines c).coroutine.previous
  opcodes : ∀ c, (w2.coroutines c).coroutine.opcodes = (w.coroutines c).coroutine.opcodes
  executor : ∀ c, (w2.coroutines c).executor.isSome = (w.coroutines c).executor.isSome

/-- What a call of resume or yield leaves alone up to the switch: which
coroutine is current, of every coroutine whether it has an executor, its
state and its `previous` link, the dispatcher, the memory cells, the call
records, every `ACCEPT_ZDATA` bit that is set, and the main coroutine. -/
structure StateFrame (w w2 : World) : Prop where
  current : w2.current = w.current
  executor : ∀ c, (w2.coroutines c).executor.isSome = (w.coroutines c).executor.isSome
  state : ∀ c, (w2.coroutines c).coroutine.state = (w.coroutines c).coroutine.state
  previous : ∀ c, (w2.coroutines c).coroutine.previous = (w.coroutines c).coroutine.previous
  resume : w2.cat_coroutine_resume = w.cat_coroutine_resume
  memory : w2.memory = w.memory
  transfer_local : w2.transfer_local = w.transfer_local
  fcall_infos : w2.fcall_infos = w.fcall_infos
  accept : ∀ c, (w.coroutines c).coroutine.opcodes.ACCEPT_ZDATA = true →
    (w2.coroutines c).coroutine.opcodes.ACCEPT_ZDATA = true
  main : w2.main = w.main

/-! ## Engaging the readonly latch more than once -/

/-- The module globals and the world after `n` calls of
`swow_coroutine_set_readonly(true)` in a row. -/
def swow_coroutine_set_readonly_times : Nat → Globals × World → Globals × World
  | 0, s => s
  | n + 1, s => swow_coroutine_set_readonly_times n (swow_coroutine_set_readonly s.1 s.2 true)

/-! ## The executor switcher -/

/-- Source `swow_coroutine_set_executor_switcher(enable)`: with `enable` false
the context of the current coroutine is saved and the coroutine is flagged
`SWOW_COROUTINE_FLAG_NO_STACK`; with `enable` true the flag is cleared and the
context recovered. -/
def swow_coroutine_set_executor_switcher (w : World) (enable : Bool) : Except Halt World :=
  let scoroutine := swow_coroutine_get_current w
  if !enable then do
    let w1 ← swow_coroutine_executor_save w scoroutine
    pure (w1.set_cat scoroutine
      { (w1.coroutines scoroutine).coroutine with
        flags := { (w1.coroutines scoroutine).coroutine.flags with NO_STACK := true } })
  else
    swow_coroutine_executor_recover
      (w.set_cat scoroutine
        { (w.coroutines scoroutine).coroutine with
          flags := { (w.coroutines scoroutine).coroutine.flags with NO_STACK := false } })
      scoroutine

/-- The concrete world with the internal coroutine `3` as the current
coroutine. -/
def demo_world_in_internal : World := { demo_world_internal with current := 3 }

/-! ## The method `Coroutine::resume` -/

/-- Text of the error thrown by `SWOW_COROUTINE_HANDLE_RESUME_TRANSFER`. -/
def only_one_argument_message : String :=
  "Only one argument allowed when resuming an coroutine which is alive"

/-- Source `PHP_METHOD(swow_coroutine, resume)`, called on the object
`scoroutine` with the variadic arguments in the call record `fci` (as
`ZEND_PARSE_PARAMETERS` fills `fci.params` and `fci.param_count`): the world,
how the method returns, and the content of `return_value`. -/
def PHP_METHOD_swow_coroutine_resume (b : Build) (E : Engine) (g : Globals) (w : World)
    (scoroutine : Cid) (fci : Nat) : Except Halt (World × method_result × Option zval) :=
  match SWOW_COROUTINE_HANDLE_RESUME_TRANSFER w scoroutine fci with
  | none => pure (w, .throws_error only_one_argument_message, none)
  | some (w1, zdata) => do
    let (w2, ret, return_value) ←
      if g.custom_entry.isSome then
        swow_coroutine_resume_hardlink b E g w1 scoroutine zdata true
      else
        swow_coroutine_resume b E w1 scoroutine zdata true
    if !ret then pure (w2, .throws_exception_with_last, return_value)
    else pure (w2, .returns, return_value)

/-- The concrete world with the three call records and coroutine `1` stopped
inside a `swow_coroutine_yield`. -/
def demo_world_waiting_calls : World :=
  { demo_world_waiting_1 with fcall_infos := demo_world_calls.fcall_infos }

/-- How a method returns, if it returns. -/
def method_result_of (r : Except Halt (World × method_result × Option zval)) :
    Option method_result :=
  match r with
  | .ok (_, m, _) => some m
  | .error _ => none

/-! ## The exit hook -/

/-- Kind of the operand of an opline (`opline->op1_type`). -/
inductive zend_op_type where
  | IS_UNUSED
  | IS_CONST
  | IS_TMP_VAR
  | IS_VAR
  | IS_CV
  deriving DecidableEq, Repr

/-- Modelled from the spec: exception raise of the host (§6),
`zend_throw_exception(ce, message, code)` and `zend_throw_exception_ex`: an
object of the class is created, the message, when one is given, and the
code, when it is not zero, are stored in it, and it is raised. -/
def zend_throw_exception (w : World) (ce : ClassId) (message : Option String) (code : Int) :
    World × ObjId :=
  let (w0, exception) := swow_object_create w ce
  let w1 := w0.set_object exception
    { w0.objects exception with
      message := match message with
        | some m => .IS_STRING m
        | none => (w0.objects exception).message
      code := if code != 0 then .IS_LONG code else (w0.objects exception).code }
  (zend_throw_exception_internal w1 exception, exception)

/-- Conversion of a `zend_long` to `int` (32 bits), as in the assignments
`EG(exit_status) = status` and `type = severity`. -/
def int_of_zend_long (n : Int) : Int := (n + 2 ^ 31) % 2 ^ 32 - 2 ^ 31

/-- Source `swow_coroutine_exit_handler(execute_data)`, the handler of the
`exit` opcode.  `op1_type` is the kind of the operand of the opline and
`operand` the value it designates (behind a reference, if it is one);
`exit_status` is `EG(exit_status)` before the call, an `int` of the host,
`term_ce` the class `swow_coroutine_term_exception_ce`.  The result is the world, `EG(exit_status)`
afterwards, and the value printed by `zend_print_zval`, if any.  The handler
always returns `ZEND_USER_OPCODE_DISPATCH`. -/
def swow_coroutine_exit_handler (term_ce : ClassId) (w : World) (exit_status : Int)
    (op1_type : zend_op_type) (operand : zval) : World × Int × Option zval :=
  let zstatus : Option zval := if op1_type != .IS_UNUSED then some operand else none
  let r : World × Int × Option zval :=
    match zstatus with
    | some (.IS_LONG status) =>
      if status != 0 then
        /- exit abnormally -/
        let w1 := (zend_throw_exception w term_ce
          (some ("Exited with code " ++ toString status)) status).1
        (w1,
         if swow_coroutine_get_current w1 == swow_coroutine_get_main w1 then
           int_of_zend_long status
         else exit_status,
         none)
      else
        /- exit normally -/
        ((zend_throw_exception w w.swow_coroutine_kill_exception_ce none 0).1, exit_status,
         none)
    | some v =>
      /- exit normally, the status is printed -/
      ((zend_throw_exception w w.swow_coroutine_kill_exception_ce none 0).1, exit_status,
       some v)
    | none =>
      ((zend_throw_exception w w.swow_coroutine_kill_exception_ce none 0).1, exit_status,
       none)
  /- dtor -/
  if op1_type == .IS_TMP_VAR || op1_type == .IS_VAR then
    (r.1.Z_TRY_DELREF operand, r.2)
  else r

/-! ## The error hook -/

/-- Error type `E_WARNING` of the host. -/
def E_WARNING : Int := 2

/-- Mask `E_FATAL_ERRORS` of the host: `E_ERROR | E_CORE_ERROR | E_COMPILE_ERROR |
E_USER_ERROR | E_RECOVERABLE_ERROR | E_PARSE`, bits that are pairwise
distinct. -/
def E_FATAL_ERRORS : Int := 1 + 16 + 64 + 256 + 4096 + 4

/-- What the error hook calls in the host. -/
structure ErrorHost where
  /-- Name of an error type, `swow_strerrortype(type)`. -/
  swow_strerrortype : Int → String
  /-- Result of `swow_get_trace_as_string(DEBUG_BACKTRACE_PROVIDE_OBJECT, 0)`. -/
  swow_get_trace_as_string : World → String

/-- Source `swow_coroutine_error_cb`, the text built by `zend_strpprintf` with
the format `"[%s in R%u] %s%s%s%s"`. -/
def swow_coroutine_error_message (orginal_type_string : String) (id : Nat) (format : String)
    (trace : Option String) : String :=
  "[" ++ orginal_type_string ++ " in R" ++ toString id ++ "] " ++ format
    ++ (match trace with
        | some t => "\nStack trace:\n" ++ t ++ "\n  triggered"
        | none => "")

/-- Source `swow_coroutine_error_cb`, from the test `type & E_FATAL_ERRORS` after
the message is built to the call of the original callback: the executor of
the current coroutine is updated for a fatal type, and the error is handed
to the original callback with `type` and `message`. -/
def swow_coroutine_error_cb_relay (w : World) (type : Int) (message : String) :
    Except Halt (World × Option (Int × String)) :=
  if Int.land type E_FATAL_ERRORS != 0 then
    /- update executor for backtrace -/
    if w.EG.current_execute_data != 0 then do
      let w1 ← swow_coroutine_executor_save w (swow_coroutine_get_current w)
      pure (w1, some (type, message))
    else pure (w, some (type, message))
  else pure (w, some (type, message))

/-- Source `swow_coroutine_error_cb(type, error_filename, error_lineno, message)`,
with `SWOW_COROUTINE_G(classic_error_handler)` as a parameter and `format`
the text of the message.  The result is the world and what the original
error callback is called with, `none` when the hook returns without
calling it. -/
def swow_coroutine_error_cb (H : ErrorHost) (classic_error_handler : Bool) (w : World)
    (type : Int) (format : String) : Except Halt (World × Option (Int × String)) :=
  if !classic_error_handler then
    let id := (w.coroutines (swow_coroutine_get_current w)).coroutine.id
    if "Uncaught ".toList.isPrefixOf format.toList then
      /- hack hook for error in main -/
      if swow_coroutine_get_current w == swow_coroutine_get_main w then
        /- keep slient for killer -/
        if w.kill_main then pure ({ w with kill_main := false }, none)
        else
          let severity := w.exception_error_severity
          if severity == E_NONE then pure (w, none)
          else
            let type1 := int_of_zend_long severity
            /- the exception of the coroutines will never cause the process to exit -/
            let type2 := if Int.land type1 E_FATAL_ERRORS != 0 then E_WARNING else type1
            swow_coroutine_error_cb_relay w type2
              (swow_coroutine_error_message (H.swow_strerrortype type1) id format none)
      else
        let type2 := if Int.land type E_FATAL_ERRORS != 0 then E_WARNING else type
        swow_coroutine_error_cb_relay w type2
          (swow_coroutine_error_message (H.swow_strerrortype type) id format none)
    else
      let trace :=
        if w.EG.current_execute_data != 0 then some (H.swow_get_trace_as_string w) else none
      swow_coroutine_error_cb_relay w type
        (swow_coroutine_error_message (H.swow_strerrortype type) id format trace)
  else
    swow_coroutine_error_cb_relay w type format

/-- A host for the concrete worlds: every error type is called "Error" and
the trace is one line. -/
def demo_error_host : ErrorHost :=
  { swow_strerrortype := fun _ => "Error"
    swow_get_trace_as_string := fun _ => "#0 main" }

/-- The concrete world after a Kill exception was raised in the main
coroutine. -/
def demo_world_kill_main : World := { demo_world with kill_main := true }

/-! ## The execution context with every swap option

`swow_coroutine_executor_save` and `swow_coroutine_executor_recover` above carry
the fields that every build swaps.  The definitions of this section follow
the two functions statement by statement, with the parts selected by
`PHP_VERSION_ID` and by the `SWOW_COROUTINE_SWAP_*` options, on the interpreter
globals they touch and on one execution context. -/

namespace Swap

/-- The compile-time conditions of the two functions. -/
structure Options where
  /-- The condition `PHP_VERSION_ID >= 70300`. -/
  PHP_VERSION_ID_70300 : Bool
  SWOW_COROUTINE_SWAP_INTERNAL_CONTEXT : Bool
  SWOW_COROUTINE_SWAP_BASIC_GLOBALS : Bool
  SWOW_COROUTINE_SWAP_OUTPUT_GLOBALS : Bool
  SWOW_COROUTINE_SWAP_SILENCE_CONTEXT : Bool
  deriving DecidableEq, Repr

/-- The record `swow_fcall_t` laid over `BG(array_walk_fci)`: the field
`info.size` and the rest of its bytes. -/
structure swow_fcall_t where
  info_size : Nat
  content : Nat
  deriving DecidableEq, Repr

/-- The record `zend_output_globals`: the pointer `handlers.elements` (`0` is
NULL) and the rest of its bytes. -/
structure zend_output_globals where
  handlers_elements : Nat
  content : Nat
  deriving DecidableEq, Repr

/-- The interpreter globals the two functions read and write: the executor
globals, `EG(error_reporting)`, `BG(array_walk_fci)` and the output globals. -/
structure interpreter_globals where
  EG : zend_executor_globals
  error_reporting : Int
  array_walk_fci : swow_fcall_t
  output_globals : zend_output_globals
  deriving DecidableEq, Repr

/-- The execution context `swow_coroutine_exector_t`, with the fields the two
functions read and write. -/
structure swow_coroutine_exector_t where
  saved : zend_executor_globals
  array_walk_context : Option swow_fcall_t
  output_globals : Option zend_output_globals
  error_reporting_for_silence : Int
  deriving DecidableEq, Repr

/-- Source `#define E_SILENCE_MAGIC (1 << 31)`, as an `int`. -/
def E_SILENCE_MAGIC : Int := -(2 ^ 31)

/-- Source `swow_coroutine_executor_save(executor)`; `php_output_activate` is
what the function of that name of the host makes of the output globals. -/
def swow_coroutine_executor_save (o : Options)
    (php_output_activate : zend_output_globals → zend_output_globals)
    (g : interpreter_globals) (executor : swow_coroutine_exector_t) :
    interpreter_globals × swow_coroutine_exector_t :=
  let eg := g.EG
  let executor := { executor with
    saved := { executor.saved with
      bailout := eg.bailout
      vm_stack_top := eg.vm_stack_top
      vm_stack_end := eg.vm_stack_end
      vm_stack := eg.vm_stack
      vm_stack_page_size :=
        if o.PHP_VERSION_ID_70300 then eg.vm_stack_page_size
        else executor.saved.vm_stack_page_size
      current_execute_data := eg.current_execute_data
      exception := eg.exception
      error_handling :=
        if o.SWOW_COROUTINE_SWAP_INTERNAL_CONTEXT then eg.error_handling
        else executor.saved.error_handling } }
  /- `SWOW_COROUTINE_SWAP_BASIC_GLOBALS` -/
  let (g, executor) :=
    if o.SWOW_COROUTINE_SWAP_BASIC_GLOBALS && g.array_walk_fci.info_size != 0 then
      /- memcpy(executor->array_walk_context, fcall), memset(fcall, 0) -/
      ({ g with array_walk_fci := { info_size := 0, content := 0 } },
       { executor with array_walk_context := some g.array_walk_fci })
    else (g, executor)
  /- `SWOW_COROUTINE_SWAP_OUTPUT_GLOBALS` -/
  let (g, executor) :=
    if o.SWOW_COROUTINE_SWAP_OUTPUT_GLOBALS && g.output_globals.handlers_elements != 0 then
      /- memcpy(executor->output_globals, og), php_output_activate() -/
      ({ g with output_globals := php_output_activate g.output_globals },
       { executor with output_globals := some g.output_globals })
    else (g, executor)
  /- `SWOW_COROUTINE_SWAP_SILENCE_CONTEXT` -/
  if o.SWOW_COROUTINE_SWAP_SILENCE_CONTEXT
      && executor.error_reporting_for_silence != E_SILENCE_MAGIC then
    let error_reporting := g.error_reporting
    ({ g with error_reporting := error_reporting },
     { executor with error_reporting_for_silence := g.error_reporting })
  else (g, executor)

/-- Source `swow_coroutine_executor_recover(executor)`. -/
def swow_coroutine_executor_recover (o : Options) (g : interpreter_globals)
    (executor : swow_coroutine_exector_t) : interpreter_globals × swow_coroutine_exector_t :=
  let g := { g with
    EG := { g.EG with
      bailout := executor.saved.bailout
      vm_stack_top := executor.saved.vm_stack_top
      vm_stack_end := executor.saved.vm_stack_end
      vm_stack := executor.saved.vm_stack
      vm_stack_page_size :=
        if o.PHP_VERSION_ID_70300 then executor.saved.vm_stack_page_size
        else g.EG.vm_stack_page_size
      current_execute_data := executor.saved.current_execute_data
      exception := executor.saved.exception
      error_handling :=
        if o.SWOW_COROUTINE_SWAP_INTERNAL_CONTEXT then executor.saved.error_handling
        else g.EG.error_handling } }
  /- `SWOW_COROUTINE_SWAP_BASIC_GLOBALS` -/
  let (g, executor) :=
    if o.SWOW_COROUTINE_SWAP_BASIC_GLOBALS then
      match executor.array_walk_context with
      | some fcall =>
        if fcall.info_size != 0 then
          ({ g with array_walk_fci := fcall },
           { executor with array_walk_context := some { fcall with info_size := 0 } })
        else (g, executor)
      | none => (g, executor)
    else (g, executor)
  /- `SWOW_COROUTINE_SWAP_OUTPUT_GLOBALS` -/
  let (g, executor) :=
    if o.SWOW_COROUTINE_SWAP_OUTPUT_GLOBALS then
      match executor.output_globals with
      | some og =>
        if og.handlers_elements != 0 then
          ({ g with output_globals := og },
           { executor with output_globals := some { og with handlers_elements := 0 } })
        else (g, executor)
      | none => (g, executor)
    else (g, executor)
  /- `SWOW_COROUTINE_SWAP_SILENCE_CONTEXT` -/
  if o.SWOW_COROUTINE_SWAP_SILENCE_CONTEXT
      && executor.error_reporting_for_silence != E_SILENCE_MAGIC then
    let error_reporting := g.error_reporting
    ({ g with error_reporting := executor.error_reporting_for_silence },
     { executor with error_reporting_for_silence := error_reporting })
  else (g, executor)

/-- Every swap option on. -/
def demo_options : Options :=
  { PHP_VERSION_ID_70300 := true
    SWOW_COROUTINE_SWAP_INTERNAL_CONTEXT := true
    SWOW_COROUTINE_SWAP_BASIC_GLOBALS := true
    SWOW_COROUTINE_SWAP_OUTPUT_GLOBALS := true
    SWOW_COROUTINE_SWAP_SILENCE_CONTEXT := true }

/-- A host whose `php_output_activate` leaves fresh output globals with no
handler. -/
def demo_output_activate : zend_output_globals → zend_output_globals :=
  fun _ => { handlers_elements := 0, content := 1 }

/-- An execution context as `swow_coroutine_construct` leaves it. -/
def demo_context : swow_coroutine_exector_t :=
  { saved := { demo_globals with current_execute_data := 0 }
    array_walk_context := none
    output_globals := none
    error_reporting_for_silence := E_SILENCE_MAGIC }

/-- Interpreter globals with nothing in flight: no array-walk callback and
no output handler. -/
def demo_quiet : interpreter_globals :=
  { EG := demo_globals
    error_reporting := 32767
    array_walk_fci := { info_size := 0, content := 0 }
    output_globals := { handlers_elements := 0, content := 1 } }

/-- Interpreter globals inside the callback of an array walk, with an output
handler active. -/
def demo_walking : interpreter_globals :=
  { demo_quiet with
    array_walk_fci := { info_size := 56, content := 7 }
    output_globals := { handlers_elements := 4000, content := 9 } }

end Swap

/-! ## Release of the execution context, the registry and the scheduler -/

/-- Modelled from the spec: `cat_coroutine_is_available` of the engine, §4.1,
"true if constructed and not yet finished (state ≠ DEAD, primitive
allocated)"; a record whose primitive has not been allocated is in state
INIT. -/
def cat_coroutine_is_available (k : cat_coroutine_t) : Bool :=
  k.state != .DEAD && k.state != .INIT

/-- Source `swow_coroutine_is_available`. -/
def swow_coroutine_is_available (w : World) (scoroutine : Cid) : Bool :=
  cat_coroutine_is_available (w.coroutines scoroutine).coroutine

/-- Source `swow_coroutine_free_object(object)`: the context of a coroutine that
is still available is released; the release of the object itself
(`zend_object_std_dtor`) is the business of the host. -/
def swow_coroutine_free_object (b : Build) (w : World) (object : Cid) : Except Halt World :=
  if swow_coroutine_is_available w object then
    /- created but never run (or it is main coroutine) -/
    swow_coroutine_close b w object
  else pure w

/-- The reference counts of all coroutine objects. -/
def World.refcounts (w : World) : Cid → Int :=
  fun c => (w.coroutines c).std_refcount

/-- The reference counts of all coroutine objects once the element of the map
under `id`, if there is one, has been released. -/
def World.refcounts_released (w : World) (id : Nat) : Cid → Int :=
  match zend_hash_index_find w.map id with
  | some old => Function.update w.refcounts old (w.refcounts old - 1)
  | none => w.refcounts

/-- Whether the native stack is switched away. -/
def Halt.is_switched : Halt → Bool
  | .switched _ _ _ => true
  | _ => false

/-- What the bookkeeping of a switch leaves alone apart from the reference
counts: the current and the main coroutine, the registry, the dispatcher,
and of every coroutine the links, the identifier, the state and whether it
has an execution context. -/
structure LinkFrame (w w1 : World) : Prop where
  current : w1.current = w.current
  main : w1.main = w.main
  map : w1.map = w.map
  dispatcher : w1.cat_coroutine_resume = w.cat_coroutine_resume
  previous : ∀ c, (w1.coroutines c).coroutine.previous = (w.coroutines c).coroutine.previous
  from_ : ∀ c, (w1.coroutines c).coroutine.from_ = (w.coroutines c).coroutine.from_
  id : ∀ c, (w1.coroutines c).coroutine.id = (w.coroutines c).coroutine.id
  state : ∀ c, (w1.coroutines c).coroutine.state = (w.coroutines c).coroutine.state
  present : ∀ c, (w1.coroutines c).executor.isSome = (w.coroutines c).executor.isSome

/-- The registry is in order: an element under an identifier holds the
coroutine with that identifier, and different coroutines have different
identifiers. -/
def World.registry_ok (w : World) : Prop :=
  (∀ id c, zend_hash_index_find w.map id = some c → (w.coroutines c).coroutine.id = id)
  ∧ (∀ c d, (w.coroutines c).coroutine.id = (w.coroutines d).coroutine.id → c = d)

/-- The concrete world in which the main coroutine accepts transfer values and
the cell `0` holds the object `2`. -/
def demo_world_sending_object : World :=
  (demo_world.set_ACCEPT_ZDATA 0 true).store (.mem 0) (.IS_OBJECT 2)

theorem TransferFrame.refl_transfer (w : World) : TransferFrame w w :=
  ⟨rfl, rfl, rfl, rfl, fun _ => rfl, fun _ => rfl, rfl, rfl, rfl⟩

theorem TransferFrame.then {w w1 w2 : World} (h1 : TransferFrame w w1)
    (h2 : TransferFrame w1 w2) : TransferFrame w w2 :=
  ⟨h2.current.trans h1.current, h2.memory.trans h1.memory,
   h2.function_retval.trans h1.function_retval, h2.transfer_local.trans h1.transfer_local,
   fun c => (h2.cat c).trans (h1.cat c),
   fun c => (h2.zdata c).trans (h1.zdata c), h2.dispatcher.trans h1.dispatcher,
   h2.fcall_infos.trans h1.fcall_infos, h2.main_same.trans h1.main_same⟩

theorem TransferFrame.executor_isSome {w w2 : World} (h : TransferFrame w w2) (c : Cid) :
    (w2.coroutines c).executor.isSome = (w.coroutines c).executor.isSome := by
  have hz := h.zdata c
  cases h1 : (w2.coroutines c).executor <;> cases h2 : (w.coroutines c).executor <;>
    simp_all

theorem TransferFrame.deref {w w2 : World} (h : TransferFrame w w2) (p : zval_ptr) :
    w2.deref p = w.deref p := by
  cases p with
  | executor_zdata c =>
    have hz := h.zdata c
    simp only [World.deref]
    cases h1 : (w2.coroutines c).executor <;> cases h2 : (w.coroutines c).executor <;>
      simp_all
  | _ => simp [World.deref, h.memory, h.function_retval, h.transfer_local]

theorem transferFrame_GC_ADDREF_std (w : World) (c : Cid) :
    TransferFrame w (w.GC_ADDREF_std c) := by
  refine ⟨rfl, rfl, rfl, rfl, fun d => ?_, fun d => ?_, rfl, rfl, rfl⟩ <;>
    by_cases hd : d = c <;> simp [World.GC_ADDREF_std, World.set_coroutine, hd]

theorem transferFrame_GC_DELREF_std (w : World) (c : Cid) :
    TransferFrame w (w.GC_DELREF_std c) := by
  refine ⟨rfl, rfl, rfl, rfl, fun d => ?_, fun d => ?_, rfl, rfl, rfl⟩ <;>
    by_cases hd : d = c <;> simp [World.GC_DELREF_std, World.set_coroutine, hd]

theorem executor_save_ok (w : World) (c : Cid) (e : swow_coroutine_exector_t)
    (he : (w.coroutines c).executor = some e) :
    ∃ w1, swow_coroutine_executor_save w c = .ok w1 ∧ TransferFrame w w1 ∧ w1.EG = w.EG := by
  refine ⟨w.set_executor c (some { e with saved := w.EG }), ?_, ?_, rfl⟩
  · simp [swow_coroutine_executor_save, he]
  · refine ⟨rfl, rfl, rfl, rfl, fun d => ?_, fun d => ?_, rfl, rfl, rfl⟩ <;>
      by_cases hd : d = c <;> simp [World.set_executor, World.set_coroutine, hd, he]

theorem executor_recover_ok (w : World) (c : Cid) (e : swow_coroutine_exector_t)
    (he : (w.coroutines c).executor = some e) :
    ∃ w1, swow_coroutine_executor_recover w c = .ok w1 ∧ TransferFrame w w1
      ∧ w1.EG = e.saved := by
  refine ⟨{ w with EG := e.saved }, ?_, ?_, rfl⟩
  · simp [swow_coroutine_executor_recover, he]
  · exact ⟨rfl, rfl, rfl, rfl, fun _ => rfl, fun _ => rfl, rfl, rfl, rfl⟩

theorem executor_switch_ok (w : World) (c : Cid) (ec et : swow_coroutine_exector_t)
    (hc : (w.coroutines w.current).executor = some ec)
    (ht : (w.coroutines c).executor = some et) :
    ∃ w1, swow_coroutine_executor_switch w c = .ok w1 ∧ TransferFrame w w1 := by
  obtain ⟨w1, h1, f1, _⟩ := executor_save_ok w w.current ec hc
  have hs : (w1.coroutines c).executor.isSome = true := by
    rw [f1.executor_isSome, ht]; rfl
  obtain ⟨et1, het1⟩ := Option.isSome_iff_exists.mp hs
  obtain ⟨w2, h2, f2, _⟩ := executor_recover_ok w1 c et1 het1
  refine ⟨w2, ?_, f1.then f2⟩
  simp [swow_coroutine_executor_switch, swow_coroutine_get_current, h1, h2, bind,
    Except.bind]

theorem jump_switch_executor_ok (w : World) (c : Cid) (ec et : swow_coroutine_exector_t)
    (hc : (w.coroutines w.current).executor = some ec)
    (ht : (w.coroutines c).executor = some et) :
    ∃ w1, swow_coroutine_jump_switch_executor w c = .ok w1 ∧ TransferFrame w w1 := by
  unfold swow_coroutine_jump_switch_executor
  simp only [swow_coroutine_get_current]
  split
  · obtain ⟨w1, h1, f1, _⟩ := executor_save_ok w w.current ec hc
    refine ⟨{ w1 with EG := { w1.EG with current_execute_data := 0 } }, ?_, ?_⟩
    · simp [h1, bind, Except.bind, pure, Except.pure]
    · exact ⟨f1.current, f1.memory, f1.function_retval, f1.transfer_local, f1.cat, f1.zdata,
        f1.dispatcher, f1.fcall_infos, f1.main_same⟩
  · split
    · obtain ⟨w1, h1, f1, _⟩ := executor_recover_ok w c et ht
      exact ⟨w1, h1, f1⟩
    · exact executor_switch_ok w c ec et hc ht

theorem jump_solve_refcount_ok (b : Build) (w : World) (c : Cid)
    (h : swow_coroutine_get_previous w w.current = some c
          ∨ swow_coroutine_get_previous w c = none ∨ b.CAT_DEBUG = false) :
    ∃ w1, swow_coroutine_jump_solve_refcount b w c = .ok w1 ∧ TransferFrame w w1 := by
  unfold swow_coroutine_jump_solve_refcount
  simp only [swow_coroutine_get_current]
  by_cases hy : swow_coroutine_get_previous w w.current = some c
  · exact ⟨_, by simp [hy, pure, Except.pure], transferFrame_GC_DELREF_std w c⟩
  · refine ⟨w.GC_ADDREF_std w.current, ?_, transferFrame_GC_ADDREF_std w _⟩
    rcases h with h | h | h
    · exact absurd h hy
    · simp [hy, h, CAT_ASSERT, bind, Except.bind, pure, Except.pure]
    · simp [hy, h, CAT_ASSERT, bind, Except.bind, pure, Except.pure]

theorem set_previous_loop_frame (w : World) (a : ObjId) (fuel : Nat) (ex : ObjId) :
    w.set_previous_loop a fuel ex
      = { w with objects := (w.set_previous_loop a fuel ex).objects } := by
  induction fuel generalizing ex with
  | zero => rfl
  | succ n ih =>
    unfold World.set_previous_loop
    split
    · rfl
    · split
      · rfl
      · split
        · rfl
        · exact ih _

theorem zend_exception_set_previous_frame (w : World) (x : ObjId) (a : Option ObjId) :
    zend_exception_set_previous w x a
      = { w with objects := (zend_exception_set_previous w x a).objects } := by
  unfold zend_exception_set_previous
  split
  · rfl
  · split
    · rfl
    · exact set_previous_loop_frame _ _ _ _

theorem HeapOnly.refl_heap (w : World) : HeapOnly w w := rfl

theorem HeapOnly.andThen {w w1 w2 : World} (h1 : HeapOnly w w1) (h2 : HeapOnly w1 w2) :
    HeapOnly w w2 := Eq.trans h2 h1

theorem HeapOnly.coroutines {w w1 : World} (h : HeapOnly w w1) :
    w1.coroutines = w.coroutines := by
  have h1 : w1.outside_heap = w.outside_heap := h
  have h2 := congrArg World.coroutines h1
  exact h2

theorem HeapOnly.current {w w1 : World} (h : HeapOnly w w1) :
    w1.current = w.current := by
  have h1 : w1.outside_heap = w.outside_heap := h
  have h2 := congrArg World.current h1
  exact h2

theorem HeapOnly.function_retval {w w1 : World} (h : HeapOnly w w1) :
    w1.function_retval = w.function_retval := by
  have h1 : w1.outside_heap = w.outside_heap := h
  have h2 := congrArg World.function_retval h1
  exact h2

theorem HeapOnly.memory {w w1 : World} (h : HeapOnly w w1) :
    w1.memory = w.memory := by
  have h1 : w1.outside_heap = w.outside_heap := h
  have h2 := congrArg World.memory h1
  exact h2

theorem HeapOnly.transfer_local {w w1 : World} (h : HeapOnly w w1) :
    w1.transfer_local = w.transfer_local := by
  have h1 : w1.outside_heap = w.outside_heap := h
  have h2 := congrArg World.transfer_local h1
  exact h2

theorem HeapOnly.map {w w1 : World} (h : HeapOnly w w1) :
    w1.map = w.map := by
  have h1 : w1.outside_heap = w.outside_heap := h
  have h2 := congrArg World.map h1
  exact h2

theorem HeapOnly.last_error {w w1 : World} (h : HeapOnly w w1) :
    w1.last_error = w.last_error := by
  have h1 : w1.outside_heap = w.outside_heap := h
  have h2 := congrArg World.last_error h1
  exact h2

theorem heapOnly_GC_DELREF (w : World) (h : ObjId) : HeapOnly w (w.GC_DELREF h) := rfl

theorem heapOnly_GC_ADDREF (w : World) (h : ObjId) : HeapOnly w (w.GC_ADDREF h) := rfl

theorem heapOnly_set_object (w : World) (h : ObjId) (o : zend_object) :
    HeapOnly w (w.set_object h o) := rfl

theorem heapOnly_set_EG {w w1 : World} (h : HeapOnly w w1) (g : zend_executor_globals) :
    HeapOnly w { w1 with EG := g } := h

theorem heapOnly_Z_TRY_ADDREF (w : World) (v : zval) : HeapOnly w (w.Z_TRY_ADDREF v) := by
  cases v <;> rfl

theorem heapOnly_Z_TRY_DELREF (w : World) (v : zval) : HeapOnly w (w.Z_TRY_DELREF v) := by
  cases v <;> rfl

theorem heapOnly_set_previous_loop (w : World) (a : ObjId) (fuel : Nat) (ex : ObjId) :
    HeapOnly w (w.set_previous_loop a fuel ex) := by
  induction fuel generalizing ex with
  | zero => rfl
  | succ n ih =>
    unfold World.set_previous_loop
    split
    · rfl
    · split
      · rfl
      · split
        · rfl
        · exact ih _

theorem heapOnly_zend_exception_set_previous (w : World) (x : ObjId) (a : Option ObjId) :
    HeapOnly w (zend_exception_set_previous w x a) := by
  unfold zend_exception_set_previous
  split
  · rfl
  · split
    · rfl
    · exact heapOnly_set_previous_loop _ _ _ _

theorem heapOnly_zend_throw_exception_internal (w : World) (x : ObjId) :
    HeapOnly w (zend_throw_exception_internal w x) := by
  unfold zend_throw_exception_internal
  have h := heapOnly_zend_exception_set_previous w x w.EG.exception
  have h2 : HeapOnly w
      { zend_exception_set_previous w x w.EG.exception with
        EG := { (zend_exception_set_previous w x w.EG.exception).EG with
                exception := some x } } := h
  cases hp : w.EG.exception with
  | none =>
    rw [hp] at h2
    simp only [swow_zend_throw_exception_hook]
    split
    · exact h2
    · exact h2
  | some p =>
    rw [hp] at h2
    exact h2

theorem heapOnly_zend_exception_error (w : World) (x : ObjId) (s : Int) :
    HeapOnly w (zend_exception_error w x s) := rfl

theorem heapOnly_report (w : World) : HeapOnly w (swow_coroutine_function_report w) := by
  unfold swow_coroutine_function_report
  split
  · rfl
  · split <;> rfl

theorem heapOnly_restore (w wd : World) (h : HeapOnly w wd) (x : ObjId) :
    HeapOnly w
      (if wd.EG.exception.isNone then
        { wd with EG := { wd.EG with exception := some x } }
      else wd) := by
  split
  · exact h
  · exact h

theorem heapOnly_call_user_handler (w : World) (handler : ObjId → UserHandlerResult)
    (x : ObjId) : HeapOnly w (swow_coroutine_function_call_user_handler w handler x) := by
  unfold swow_coroutine_function_call_user_handler
  refine heapOnly_restore w _ ?_ x
  have hc : HeapOnly w { w with EG := { w.EG with exception := (handler x).exception } } :=
    rfl
  split
  · split
    · split
      · exact hc.andThen (heapOnly_GC_DELREF _ _)
      · exact hc.andThen (heapOnly_zend_exception_set_previous _ _ _)
    · exact hc
  · exact hc

theorem heapOnly_handle_exception (w : World) :
    HeapOnly w (swow_coroutine_function_handle_exception w) := by
  unfold swow_coroutine_function_handle_exception
  split
  · rfl
  · split
    · rfl
    · split
      · exact heapOnly_report w
      · exact (heapOnly_call_user_handler w _ _).andThen (heapOnly_report _)

theorem ControlFrame.refl_control (w : World) : ControlFrame w w :=
  ⟨rfl, rfl, fun _ => rfl, fun _ => rfl, fun _ => rfl⟩

theorem ControlFrame.step {w w1 w2 : World} (h1 : ControlFrame w w1)
    (h2 : ControlFrame w1 w2) : ControlFrame w w2 :=
  ⟨h2.current.trans h1.current, h2.function_retval.trans h1.function_retval,
   fun c => (h2.previous c).trans (h1.previous c),
   fun c => (h2.opcodes c).trans (h1.opcodes c),
   fun c => (h2.executor c).trans (h1.executor c)⟩

theorem HeapOnly.toControl {w w1 : World} (h : HeapOnly w w1) : ControlFrame w w1 :=
  ⟨h.current, h.function_retval, fun c => by rw [h.coroutines], fun c => by rw [h.coroutines],
   fun c => by rw [h.coroutines]⟩

theorem TransferFrame.asControl {w w1 : World} (h : TransferFrame w w1) :
    ControlFrame w w1 :=
  ⟨h.current, h.function_retval, fun c => by rw [h.cat], fun c => by rw [h.cat],
   fun c => h.executor_isSome c⟩

theorem controlFrame_or_flags (w : World) (c : Cid) (m a : Bool) :
    ControlFrame w (w.or_flags c m a) := by
  refine ⟨rfl, rfl, fun d => ?_, fun d => ?_, fun d => ?_⟩ <;>
    by_cases hd : d = c <;> simp [World.or_flags, World.set_cat, World.set_coroutine, hd]

theorem controlFrame_clear_zcallable (w : World) (c : Cid) :
    ControlFrame w (w.set_executor c
      ((w.coroutines c).executor.map (fun e => { e with zcallable := .IS_NULL }))) := by
  refine ⟨rfl, rfl, fun d => ?_, fun d => ?_, fun d => ?_⟩ <;>
    by_cases hd : d = c <;> simp [World.set_executor, World.set_coroutine, hd]

theorem controlFrame_maybe_handle_exception (w : World) :
    ControlFrame w
      (if w.EG.exception.isSome then swow_coroutine_function_handle_exception w else w) := by
  split
  · exact (heapOnly_handle_exception w).toControl
  · exact ControlFrame.refl_control w

theorem deref_store_executor_zdata (w : World) (c : Cid) (v : zval)
    (e : swow_coroutine_exector_t) (he : (w.coroutines c).executor = some e) :
    (w.store (.executor_zdata c) v).deref (.executor_zdata c) = v := by
  simp [World.store, World.deref, he, World.set_executor, World.set_coroutine]

theorem handle_not_null_moves_to_slot (b : Build) (w : World) (s r : Cid) (zdata : zval_ptr)
    (re : swow_coroutine_exector_t)
    (hs : (w.coroutines s).coroutine.opcodes.ACCEPT_ZDATA = true)
    (hr : (w.coroutines r).coroutine.opcodes.ACCEPT_ZDATA = true)
    (hre : (w.coroutines r).executor = some re)
    (hp : (w.deref zdata).is_ptr = false) :
    swow_coroutine_handle_not_null_zdata b w s r zdata true
      = .ok (w.store (.executor_zdata r) (w.deref zdata), .executor_zdata r) := by
  unfold swow_coroutine_handle_not_null_zdata
  cases hb : b.CAT_DO_NOT_OPTIMIZE <;>
    simp [hs, hr, hre, hp, CAT_ASSERT, bind, Except.bind, pure, Except.pure, hb]

theorem handle_not_null_sends_without_copy (b : Build) (w : World) (s r : Cid)
    (zdata : zval_ptr) (re : swow_coroutine_exector_t)
    (hb : b.CAT_DO_NOT_OPTIMIZE = false)
    (hs : (w.coroutines s).coroutine.opcodes.ACCEPT_ZDATA = true)
    (hr : (w.coroutines r).coroutine.opcodes.ACCEPT_ZDATA = true)
    (hre : (w.coroutines r).executor = some re)
    (hp : (w.deref zdata).is_ptr = false) :
    swow_coroutine_handle_not_null_zdata b w s r zdata false
      = .ok (w.Z_TRY_ADDREF (w.deref zdata), zdata) := by
  unfold swow_coroutine_handle_not_null_zdata
  simp [hs, hr, hre, hp, CAT_ASSERT, bind, Except.bind, pure, Except.pure, hb]

theorem deref_of_heapOnly {w w1 : World} (h : HeapOnly w w1) (p : zval_ptr) :
    w1.deref p = w.deref p := by
  cases p <;> simp [World.deref, h.coroutines, h.memory, h.function_retval, h.transfer_local]

theorem jump_pre_sends_without_copy (b : Build) (w : World) (target : Cid) (zdata : zval_ptr)
    (ce te : swow_coroutine_exector_t)
    (hb : b.CAT_DO_NOT_OPTIMIZE = false)
    (hc : (w.coroutines w.current).coroutine.opcodes.ACCEPT_ZDATA = true)
    (ht : (w.coroutines target).coroutine.opcodes.ACCEPT_ZDATA = true)
    (hce : (w.coroutines w.current).executor = some ce)
    (hte : (w.coroutines target).executor = some te)
    (hrel : swow_coroutine_get_previous w w.current = some target
          ∨ swow_coroutine_get_previous w target = none ∨ b.CAT_DEBUG = false)
    (hz : zdata ≠ .SWOW_COROUTINE_DATA_NULL)
    (hp : (w.deref zdata).is_ptr = false) :
    ∃ w2, swow_coroutine_jump_pre b w target zdata = .ok (w2, zdata)
      ∧ w2.deref zdata = w.deref zdata ∧ w2.current = w.current := by
  obtain ⟨w1, e1, f1⟩ := jump_solve_refcount_ok b w target hrel
  have hce1 : (w1.coroutines w1.current).executor.isSome = true := by
    rw [f1.current, f1.executor_isSome, hce]; rfl
  have hte1 : (w1.coroutines target).executor.isSome = true := by
    rw [f1.executor_isSome, hte]; rfl
  obtain ⟨ce1, hce1⟩ := Option.isSome_iff_exists.mp hce1
  obtain ⟨te1, hte1⟩ := Option.isSome_iff_exists.mp hte1
  obtain ⟨w2, e2, f2⟩ := jump_switch_executor_ok w1 target ce1 te1 hce1 hte1
  have f := f1.then f2
  have hcur2 : (w2.coroutines w2.current).executor.isSome = true := by
    rw [f.current, f.executor_isSome, hce]; rfl
  obtain ⟨ce2, hce2⟩ := Option.isSome_iff_exists.mp hcur2
  have hs2 : (w2.coroutines target).coroutine.opcodes.ACCEPT_ZDATA = true := by
    rw [f.cat]; exact ht
  have hr2 : (w2.coroutines w2.current).coroutine.opcodes.ACCEPT_ZDATA = true := by
    rw [f.current, f.cat]; exact hc
  have hp2 : (w2.deref zdata).is_ptr = false := by rw [f.deref]; exact hp
  refine ⟨w2.Z_TRY_ADDREF (w2.deref zdata), ?_, ?_, ?_⟩
  · unfold swow_coroutine_jump_pre
    simp only [e1, e2, bind, Except.bind, swow_coroutine_get_current]
    simp only [bne_iff_ne, ne_eq, hz, not_false_eq_true, ↓reduceIte]
    exact handle_not_null_sends_without_copy b w2 target w2.current zdata ce2 hb hs2 hr2 hce2
      hp2
  · rw [deref_of_heapOnly (heapOnly_Z_TRY_ADDREF w2 _), f.deref]
  · rw [(heapOnly_Z_TRY_ADDREF w2 _).current, f.current]

theorem function_cleanup_frame (w : World) (executor : swow_coroutine_exector_t)
    (retval : zval) :
    ControlFrame (w.store (.function_retval w.current) retval)
      (swow_coroutine_function_cleanup w executor retval) := by
  unfold swow_coroutine_function_cleanup
  simp only [swow_coroutine_get_current]
  exact (controlFrame_or_flags _ _ _ _).step
    ((controlFrame_maybe_handle_exception _).step
      ((controlFrame_clear_zcallable _ _).step
        ((heapOnly_Z_TRY_DELREF _ _).toControl.step
          ((controlFrame_maybe_handle_exception _).step
            (controlFrame_or_flags _ _ _ _)))))

theorem controlFrame_store_function_retval (w : World) (c : Cid) (v : zval) (d : Cid) :
    ((w.store (.function_retval c) v).coroutines d) = w.coroutines d
    ∧ (w.store (.function_retval c) v).current = w.current
    ∧ (w.store (.function_retval c) v).function_retval c = v := by
  simp [World.store]

theorem controlFrame_GC_DELREF_std (w : World) (c : Cid) :
    ControlFrame w (w.GC_DELREF_std c) :=
  (transferFrame_GC_DELREF_std w c).asControl

theorem function_end_result (b : Build) (w : World) (retval : zval)
    (ce pe : swow_coroutine_exector_t) (p : Cid)
    (hce : (w.coroutines w.current).executor = some ce)
    (hprev : swow_coroutine_get_previous w w.current = some p)
    (hpe : (w.coroutines p).executor = some pe) :
    ∃ w7, ControlFrame (w.store (.function_retval w.current) retval) w7
      ∧ swow_coroutine_function_end b w retval
          = if retval = .IS_UNDEF ∨ retval = .IS_NULL then
              .ok (w7, .SWOW_COROUTINE_DATA_NULL)
            else
              swow_coroutine_handle_not_null_zdata b (w7.set_ACCEPT_ZDATA w.current true)
                w.current p (.function_retval w.current) true := by
  have f5 := function_cleanup_frame w ce retval
  have hst := fun d => controlFrame_store_function_retval w w.current retval d
  have hprev5 : swow_coroutine_get_previous (swow_coroutine_function_cleanup w ce retval)
      w.current = some p := by
    unfold swow_coroutine_get_previous
    rw [f5.previous, (hst w.current).1]
    exact hprev
  have f6 := f5.step
    (controlFrame_GC_DELREF_std (swow_coroutine_function_cleanup w ce retval) p)
  generalize hw6 : (swow_coroutine_function_cleanup w ce retval).GC_DELREF_std p = w6 at f6
  have hc6 : (w6.coroutines w6.current).executor.isSome = true := by
    rw [f6.current, f6.executor, (hst w.current).2.1, (hst w.current).1, hce]; rfl
  have hp6 : (w6.coroutines p).executor.isSome = true := by
    rw [f6.executor, (hst p).1, hpe]; rfl
  obtain ⟨ce6, hce6⟩ := Option.isSome_iff_exists.mp hc6
  obtain ⟨pe6, hpe6⟩ := Option.isSome_iff_exists.mp hp6
  obtain ⟨w7, e7, f7⟩ := executor_switch_ok w6 p ce6 pe6 hce6 hpe6
  have f := f6.step f7.asControl
  have hval : w7.deref (.function_retval w.current) = retval := by
    simp only [World.deref]
    rw [f.function_retval]
    exact (hst w.current).2.2
  refine ⟨w7, f, ?_⟩
  unfold swow_coroutine_function_end
  simp only [swow_coroutine_get_current, hce, hprev5, hw6, e7, bind, Except.bind, hval]
  by_cases h : retval = .IS_UNDEF ∨ retval = .IS_NULL
  · rcases h with h | h <;> simp [h, pure, Except.pure]
  · have h1 : retval ≠ .IS_UNDEF := fun e => h (Or.inl e)
    have h2 : retval ≠ .IS_NULL := fun e => h (Or.inr e)
    simp [h1, h2]

theorem function_end_moves_to_slot (b : Build) (w : World) (retval : zval)
    (ce pe : swow_coroutine_exector_t) (p : Cid)
    (hce : (w.coroutines w.current).executor = some ce)
    (hprev : swow_coroutine_get_previous w w.current = some p)
    (hpe : (w.coroutines p).executor = some pe)
    (hpa : (w.coroutines p).coroutine.opcodes.ACCEPT_ZDATA = true)
    (h1 : retval ≠ .IS_UNDEF) (h2 : retval ≠ .IS_NULL) (h3 : retval.is_ptr = false) :
    ∃ w2, swow_coroutine_function_end b w retval = .ok (w2, .executor_zdata p)
      ∧ w2.deref (.executor_zdata p) = retval ∧ w2.current = w.current := by
  obtain ⟨w7, f, e⟩ := function_end_result b w retval ce pe p hce hprev hpe
  have hst := fun d => controlFrame_store_function_retval w w.current retval d
  have hno : ¬ (retval = .IS_UNDEF ∨ retval = .IS_NULL) := fun h => h.elim h1 h2
  rw [if_neg hno] at e
  have hp7 : (w7.coroutines p).executor.isSome = true := by
    rw [f.executor, (hst p).1, hpe]; rfl
  obtain ⟨pe7, hpe7⟩ := Option.isSome_iff_exists.mp hp7
  have hval : w7.deref (.function_retval w.current) = retval := by
    simp only [World.deref]
    rw [f.function_retval]
    exact (hst w.current).2.2
  generalize hw8 : w7.set_ACCEPT_ZDATA w.current true = w8 at e
  have hs8 : (w8.coroutines w.current).coroutine.opcodes.ACCEPT_ZDATA = true := by
    rw [← hw8]; simp [World.set_ACCEPT_ZDATA, World.set_cat, World.set_coroutine]
  have hr8 : (w8.coroutines p).coroutine.opcodes.ACCEPT_ZDATA = true := by
    rw [← hw8]
    by_cases hpc : p = w.current
    · rw [hpc]; simp [World.set_ACCEPT_ZDATA, World.set_cat, World.set_coroutine]
    · have := f.opcodes p
      rw [(hst p).1] at this
      simp [World.set_ACCEPT_ZDATA, World.set_cat, World.set_coroutine, hpc, this, hpa]
  have hpe8 : ∃ pe8, (w8.coroutines p).executor = some pe8 := by
    rw [← hw8]
    by_cases hpc : p = w.current
    · subst hpc
      exact ⟨pe7, by simp [World.set_ACCEPT_ZDATA, World.set_cat, World.set_coroutine, hpe7]⟩
    · exact ⟨pe7, by simp [World.set_ACCEPT_ZDATA, World.set_cat, World.set_coroutine, hpc,
        hpe7]⟩
  obtain ⟨pe8, hpe8⟩ := hpe8
  have hval8 : w8.deref (.function_retval w.current) = retval := by
    rw [← hw8]; simpa [World.deref, World.set_ACCEPT_ZDATA, World.set_cat,
      World.set_coroutine] using hval
  have hcur8 : w8.current = w.current := by
    rw [← hw8]
    have := f.current
    rw [(hst w.current).2.1] at this
    simpa [World.set_ACCEPT_ZDATA, World.set_cat, World.set_coroutine] using this
  rw [handle_not_null_moves_to_slot b w8 w.current p _ pe8 hs8 hr8 hpe8
    (by rw [hval8]; exact h3)] at e
  refine ⟨_, e, ?_, ?_⟩
  · rw [deref_store_executor_zdata w8 p _ pe8 hpe8, hval8]
  · cases hx : (w8.coroutines p).executor <;>
      simp [World.store, hx, World.set_executor, World.set_coroutine, hcur8]

theorem set_cross_exception_last_error (w w1 : World) (c : Cid) (x : Option ObjId)
    (h : w.set_cross_exception c x = .ok w1) : w1.last_error = w.last_error := by
  unfold World.set_cross_exception at h
  split at h
  · cases h
  · cases h; rfl

theorem set_cross_exception_some (w : World) (c : Cid) (x : Option ObjId)
    (e : swow_coroutine_exector_t) (he : (w.coroutines c).executor = some e) :
    w.set_cross_exception c x = .ok (w.set_executor c (some { e with cross_exception := x })) := by
  simp [World.set_cross_exception, he]

theorem has_ancestor_of_causes_below (w : World) (n : ObjId) (hw : w.causes_below n)
    (fuel : Nat) (s : ObjId) : w.has_ancestor fuel s n = false := by
  induction fuel generalizing s with
  | zero => rfl
  | succ k ih =>
    unfold World.has_ancestor
    cases hp : (w.objects s).previous with
    | none => rfl
    | some p =>
      have hlt := hw s p hp
      have hne : (p == n) = false := by
        simp only [beq_eq_false_iff_ne, ne_eq]
        exact Nat.ne_of_lt hlt
      simp [hne, ih p]

theorem causes_below_GC_DELREF (w : World) (n a : ObjId) (hw : w.causes_below n) :
    (w.GC_DELREF a).causes_below n := by
  intro h p hp
  by_cases hh : h = a
  · subst hh
    simp [World.GC_DELREF, World.set_object] at hp
    exact hw _ _ hp
  · simp [World.GC_DELREF, World.set_object, hh] at hp
    exact hw _ _ hp

theorem objects_GC_DELREF_of_ne (w : World) (a h : ObjId) (hh : h ≠ a) :
    (w.GC_DELREF a).objects h = w.objects h := by
  simp [World.GC_DELREF, World.set_object, hh]

theorem ne_of_below_of_above {a n h : Nat} (ha : a < n) (hh : n ≤ h) : h ≠ a :=
  Nat.ne_of_gt (Nat.lt_of_lt_of_le ha hh)

theorem set_previous_loop_succ (w : World) (a : ObjId) (k : Nat) (ex : ObjId) :
    w.set_previous_loop a (k + 1) ex
      = if w.has_ancestor w.next_handle a ex then w.GC_DELREF a
        else
          match (w.objects ex).previous with
          | none =>
            (w.set_object ex { w.objects ex with previous := some a }).GC_DELREF a
          | some p => if p == a then w else w.set_previous_loop a k p := by
  rfl

theorem set_previous_loop_below (w : World) (a n : ObjId) (ha : a < n)
    (hw : w.causes_below n) (fuel : Nat) (ex : ObjId) (hex : ex < n) :
    (∀ h, n ≤ h → (w.set_previous_loop a fuel ex).objects h = w.objects h)
    ∧ (w.set_previous_loop a fuel ex).causes_below n
    ∧ (w.set_previous_loop a fuel ex).EG = w.EG
    ∧ (w.set_previous_loop a fuel ex).next_handle = w.next_handle := by
  induction fuel generalizing ex with
  | zero => exact ⟨fun _ _ => rfl, hw, rfl, rfl⟩
  | succ k ih =>
    rw [set_previous_loop_succ]
    split
    · refine ⟨fun h hh => objects_GC_DELREF_of_ne w a h (ne_of_below_of_above ha hh),
        causes_below_GC_DELREF w n a hw, rfl, rfl⟩
    · cases hp : (w.objects ex).previous with
      | none =>
        simp only []
        refine ⟨fun h hh => ?_, ?_, rfl, rfl⟩
        · rw [objects_GC_DELREF_of_ne _ a h (ne_of_below_of_above ha hh)]
          have : h ≠ ex := ne_of_below_of_above hex hh
          simp [World.set_object, this]
        · apply causes_below_GC_DELREF
          intro h p hp2
          by_cases hh : h = ex
          · subst hh
            simp [World.set_object] at hp2
            exact hp2 ▸ ha
          · simp [World.set_object, hh] at hp2
            exact hw _ _ hp2
      | some p =>
        simp only []
        split
        · exact ⟨fun _ _ => rfl, hw, rfl, rfl⟩
        · exact ih p (hw ex p hp)

theorem zend_exception_set_previous_below (w : World) (x a n : ObjId) (hx : x < n)
    (ha : a < n) (hw : w.causes_below n) :
    (∀ h, n ≤ h → (zend_exception_set_previous w x (some a)).objects h = w.objects h)
    ∧ (zend_exception_set_previous w x (some a)).causes_below n
    ∧ (zend_exception_set_previous w x (some a)).EG = w.EG
    ∧ (zend_exception_set_previous w x (some a)).next_handle = w.next_handle := by
  unfold zend_exception_set_previous
  simp only []
  split
  · exact ⟨fun h hh => objects_GC_DELREF_of_ne w a h (ne_of_below_of_above ha hh),
      causes_below_GC_DELREF w n a hw, rfl, rfl⟩
  · exact set_previous_loop_below w a n ha hw _ x hx

theorem zend_exception_set_previous_links_fresh (w : World) (x a : ObjId)
    (hx : (w.objects x).previous = none) (hxa : x ≠ a) (hw : w.causes_below x)
    (hn : 0 < w.next_handle) :
    zend_exception_set_previous w x (some a)
      = (w.set_object x { w.objects x with previous := some a }).GC_DELREF a := by
  unfold zend_exception_set_previous
  have h1 : (x == a) = false := by simpa using hxa
  simp only [h1, Bool.false_eq_true, ↓reduceIte]
  have hf : w.set_previous_loop a w.next_handle x
      = w.set_previous_loop a ((w.next_handle - 1) + 1) x := by
    rw [Nat.sub_add_cancel hn]
  rw [hf, set_previous_loop_succ, has_ancestor_of_causes_below w x hw]
  simp [hx]

theorem GC_ADDREF_fields (w : World) (a h : ObjId) :
    ((w.GC_ADDREF a).objects h).previous = (w.objects h).previous
    ∧ ((w.GC_ADDREF a).objects h).message = (w.objects h).message
    ∧ ((w.GC_ADDREF a).objects h).code = (w.objects h).code
    ∧ ((w.GC_ADDREF a).objects h).ce = (w.objects h).ce := by
  by_cases hh : h = a
  · subst hh; simp [World.GC_ADDREF, World.set_object]
  · simp [World.GC_ADDREF, World.set_object, hh]

theorem GC_DELREF_fields (w : World) (a h : ObjId) :
    ((w.GC_DELREF a).objects h).previous = (w.objects h).previous
    ∧ ((w.GC_DELREF a).objects h).message = (w.objects h).message
    ∧ ((w.GC_DELREF a).objects h).code = (w.objects h).code
    ∧ ((w.GC_DELREF a).objects h).ce = (w.objects h).ce := by
  by_cases hh : h = a
  · subst hh; simp [World.GC_DELREF, World.set_object]
  · simp [World.GC_DELREF, World.set_object, hh]

theorem cross_exception_release_spec (w : World) (e : ObjId) :
    HeapOnly w (swow_coroutine_cross_exception_release w e)
    ∧ (swow_coroutine_cross_exception_release w e).next_handle = w.next_handle
    ∧ (∀ h, ((swow_coroutine_cross_exception_release w e).objects h).previous
              = (w.objects h).previous)
    ∧ (∀ h, ((swow_coroutine_cross_exception_release w e).objects h).message
              = (w.objects h).message)
    ∧ (∀ h, ((swow_coroutine_cross_exception_release w e).objects h).code
              = (w.objects h).code)
    ∧ (∀ h, ((swow_coroutine_cross_exception_release w e).objects h).ce = (w.objects h).ce)
    ∧ (swow_coroutine_cross_exception_release w e).EG.exception
        = (if w.instanceof_function (w.objects e).ce w.swow_coroutine_kill_exception_ce
            then none else w.EG.exception) := by
  unfold swow_coroutine_cross_exception_release
  have hi : (w.GC_ADDREF e).instanceof_function = w.instanceof_function := rfl
  have hk : (w.GC_ADDREF e).swow_coroutine_kill_exception_ce
      = w.swow_coroutine_kill_exception_ce := rfl
  have hg : (w.GC_ADDREF e).EG = w.EG := rfl
  simp only [hi, hk, hg]
  cases hp : w.EG.exception with
  | none =>
    simp only []
    exact ⟨rfl, rfl, fun h => (GC_ADDREF_fields w e h).1, fun h => (GC_ADDREF_fields w e h).2.1,
      fun h => (GC_ADDREF_fields w e h).2.2.1, fun h => (GC_ADDREF_fields w e h).2.2.2,
      by first | exact hp | (show w.EG.exception = _; simp [hp])⟩
  | some old =>
    simp only []
    cases hkill : w.instanceof_function (w.objects e).ce w.swow_coroutine_kill_exception_ce with
    | false =>
      simp only [Bool.false_eq_true, ↓reduceIte]
      exact ⟨rfl, rfl, fun h => (GC_ADDREF_fields w e h).1,
        fun h => (GC_ADDREF_fields w e h).2.1, fun h => (GC_ADDREF_fields w e h).2.2.1,
        fun h => (GC_ADDREF_fields w e h).2.2.2,
        by trivial⟩
    | true =>
      simp only [↓reduceIte]
      refine ⟨rfl, rfl, fun h => ?_, fun h => ?_, fun h => ?_, fun h => ?_,
        by trivial⟩
      · exact ((GC_DELREF_fields (w.GC_ADDREF e) old h).1).trans (GC_ADDREF_fields w e h).1
      · exact ((GC_DELREF_fields (w.GC_ADDREF e) old h).2.1).trans
          (GC_ADDREF_fields w e h).2.1
      · exact ((GC_DELREF_fields (w.GC_ADDREF e) old h).2.2.1).trans
          (GC_ADDREF_fields w e h).2.2.1
      · exact ((GC_DELREF_fields (w.GC_ADDREF e) old h).2.2.2).trans
          (GC_ADDREF_fields w e h).2.2.2

theorem cross_exception_copy_spec (w : World) (e : ObjId) (he : e ≠ w.next_handle) :
    (swow_coroutine_cross_exception_copy w e).2 = w.next_handle
    ∧ (swow_coroutine_cross_exception_copy w e).1.next_handle = w.next_handle + 1
    ∧ (swow_coroutine_cross_exception_copy w e).1.objects w.next_handle
        = { ce := (w.objects e).ce, refcount := 1, message := (w.objects e).message,
            code := (w.objects e).code, previous := none }
    ∧ (∀ h, h ≠ w.next_handle →
        (swow_coroutine_cross_exception_copy w e).1.objects h
          = (swow_coroutine_cross_exception_release w e).objects h)
    ∧ (swow_coroutine_cross_exception_copy w e).1.EG
        = (swow_coroutine_cross_exception_release w e).EG
    ∧ HeapOnly w (swow_coroutine_cross_exception_copy w e).1 := by
  obtain ⟨hh, hn, _, hm, hc, _, _⟩ := cross_exception_release_spec w e
  unfold swow_coroutine_cross_exception_copy swow_object_create
  refine ⟨hn, ?_, ?_, fun h hne => ?_, rfl, hh⟩
  · show (swow_coroutine_cross_exception_release w e).next_handle + 1 = _
    rw [hn]
  · simp [World.set_object, Function.update, he, hn, hm e, hc e]
  · simp [World.set_object, Function.update, hne, hn]

theorem throw_internal_none (w : World) (x : ObjId) (h : w.EG.exception = none) :
    (zend_throw_exception_internal w x).objects = w.objects
    ∧ (zend_throw_exception_internal w x).EG.exception = some x := by
  unfold zend_throw_exception_internal
  rw [h]
  simp only [zend_exception_set_previous, swow_zend_throw_exception_hook]
  split
  · exact ⟨rfl, rfl⟩
  · exact ⟨rfl, rfl⟩

theorem throw_internal_some (w : World) (x old : ObjId) (h : w.EG.exception = some old) :
    (zend_throw_exception_internal w x).objects
        = (zend_exception_set_previous w x (some old)).objects
    ∧ (zend_throw_exception_internal w x).EG.exception = some x
    ∧ (zend_throw_exception_internal w x).next_handle
        = (zend_exception_set_previous w x (some old)).next_handle := by
  unfold zend_throw_exception_internal
  rw [h]
  exact ⟨rfl, rfl, rfl⟩

theorem set_previous_EG (w : World) (x : ObjId) (a : Option ObjId) :
    (zend_exception_set_previous w x a).EG = w.EG := by
  rw [zend_exception_set_previous_frame]

theorem throw_internal_raises (w : World) (x : ObjId) :
    (zend_throw_exception_internal w x).EG.exception = some x := by
  cases hp : w.EG.exception with
  | none => exact (throw_internal_none w x hp).2
  | some old => exact (throw_internal_some w x old hp).2.1

theorem cross_exception_copy_snd (w : World) (e : ObjId) :
    (swow_coroutine_cross_exception_copy w e).2 = w.next_handle :=
  (cross_exception_release_spec w e).2.1

theorem handle_cross_exception_raises_copy (w : World) (e : ObjId) :
    (swow_coroutine_handle_cross_exception w e).EG.exception = some w.next_handle := by
  unfold swow_coroutine_handle_cross_exception
  rw [← cross_exception_copy_snd w e]
  generalize swow_coroutine_cross_exception_copy w e = r
  obtain ⟨w5, x⟩ := r
  simp only []
  split
  · exact throw_internal_raises _ _
  · rename_i hnone
    have h6 : (zend_exception_set_previous w5 x (some e)).EG.exception.isNone = true := by
      rw [set_previous_EG]
      cases hx : w5.EG.exception with
      | none => rfl
      | some o => simp [hx] at hnone
    rw [if_pos h6]
    exact throw_internal_raises _ _

theorem heapOnly_cross_exception_copy (w : World) (e : ObjId) :
    HeapOnly w (swow_coroutine_cross_exception_copy w e).1 := by
  obtain ⟨hh, _, _, _, _, _, _⟩ := cross_exception_release_spec w e
  exact hh

theorem heapOnly_handle_cross_exception (w : World) (e : ObjId) :
    HeapOnly w (swow_coroutine_handle_cross_exception w e) := by
  unfold swow_coroutine_handle_cross_exception
  have h5 := heapOnly_cross_exception_copy w e
  generalize swow_coroutine_cross_exception_copy w e = r at h5
  obtain ⟨w5, x⟩ := r
  simp only [] at h5 ⊢
  split
  · exact (h5.andThen (heapOnly_zend_throw_exception_internal _ _)).andThen
      (heapOnly_zend_throw_exception_internal _ _)
  · split
    · exact (h5.andThen (heapOnly_zend_exception_set_previous _ _ _)).andThen
        (heapOnly_zend_throw_exception_internal _ _)
    · exact h5.andThen (heapOnly_zend_exception_set_previous _ _ _)

theorem set_previous_fresh_objects (w : World) (x a : ObjId)
    (hx : (w.objects x).previous = none) (hxa : x ≠ a) (hw : w.causes_below x)
    (hn : 0 < w.next_handle) :
    (zend_exception_set_previous w x (some a)).objects x
        = { w.objects x with previous := some a }
    ∧ (∀ h, h ≠ x →
        (zend_exception_set_previous w x (some a)).objects h = (w.GC_DELREF a).objects h) := by
  rw [zend_exception_set_previous_links_fresh w x a hx hxa hw hn]
  refine ⟨?_, fun h hh => ?_⟩
  · simp [World.GC_DELREF, World.set_object, hxa]
  · by_cases ha : h = a
    · subst ha
      simp [World.GC_DELREF, World.set_object, hh]
    · simp [World.GC_DELREF, World.set_object, hh, ha]

theorem cross_exception_copy_causes_below (w : World) (e : ObjId)
    (hwf : w.causes_below w.next_handle) (he : e ≠ w.next_handle) :
    (swow_coroutine_cross_exception_copy w e).1.causes_below w.next_handle := by
  obtain ⟨_, _, c3, c4, _, _⟩ := cross_exception_copy_spec w e he
  obtain ⟨_, _, rp, _, _, _, _⟩ := cross_exception_release_spec w e
  intro h p hp
  by_cases hh : h = w.next_handle
  · subst hh
    rw [c3] at hp
    cases hp
  · rw [c4 h hh, rp h] at hp
    exact hwf h p hp

theorem handle_cross_exception_copy_object (w : World) (e : ObjId)
    (hwf : w.causes_below w.next_handle) (he : e < w.next_handle)
    (hpend : ∀ old, w.EG.exception = some old → old < w.next_handle) :
    (swow_coroutine_handle_cross_exception w e).objects w.next_handle
      = { ce := (w.objects e).ce, refcount := 1, message := (w.objects e).message,
          code := (w.objects e).code, previous := some e } := by
  have hne : e ≠ w.next_handle := Nat.ne_of_lt he
  obtain ⟨c1, c2, c3, c4, c5, _⟩ := cross_exception_copy_spec w e hne
  obtain ⟨_, _, _, _, _, _, rg⟩ := cross_exception_release_spec w e
  have hb := cross_exception_copy_causes_below w e hwf hne
  unfold swow_coroutine_handle_cross_exception
  generalize swow_coroutine_cross_exception_copy w e = r at c1 c2 c3 c4 c5 hb
  obtain ⟨w5, x⟩ := r
  simp only [] at c1 c2 c3 c4 c5 hb ⊢
  subst c1
  have hpos : 0 < w5.next_handle := by rw [c2]; exact Nat.succ_pos _
  have hx5 : (w5.objects w.next_handle).previous = none := by rw [c3]
  split
  · rename_i hsome
    obtain ⟨old, hold⟩ := Option.isSome_iff_exists.mp hsome
    have holdw : w.EG.exception = some old := by
      rw [c5, rg] at hold
      split at hold
      · cases hold
      · exact hold
    have holdlt := hpend old holdw
    obtain ⟨t1, t2, t3⟩ := throw_internal_some w5 e old hold
    obtain ⟨b1, b2, _, b4⟩ := zend_exception_set_previous_below w5 e old w.next_handle he
      holdlt hb
    generalize hw6 : zend_throw_exception_internal w5 e = w6 at t1 t2 t3
    have h6x : w6.objects w.next_handle = w5.objects w.next_handle := by
      rw [t1]; exact b1 _ (Nat.le_refl _)
    have h6b : w6.causes_below w.next_handle := by
      intro h p hp
      rw [t1] at hp
      exact b2 h p hp
    have h6n : 0 < w6.next_handle := by rw [t3, b4]; exact hpos
    obtain ⟨u1, _, _⟩ := throw_internal_some w6 w.next_handle e t2
    rw [u1, (set_previous_fresh_objects w6 w.next_handle e (by rw [h6x]; exact hx5)
      (Ne.symm hne) h6b h6n).1, h6x, c3]
  · rename_i hnone
    have h5none : w5.EG.exception = none := by
      cases hx : w5.EG.exception with
      | none => rfl
      | some o => simp [hx] at hnone
    have h6 : (zend_exception_set_previous w5 w.next_handle (some e)).EG.exception.isNone
        = true := by
      rw [set_previous_EG, h5none]; rfl
    rw [if_pos h6]
    have h6' : (zend_exception_set_previous w5 w.next_handle (some e)).EG.exception = none := by
      rw [set_previous_EG, h5none]
    rw [(throw_internal_none _ _ h6').1,
      (set_previous_fresh_objects w5 w.next_handle e hx5 (Ne.symm hne) hb hpos).1, c3]

theorem cross_exception_release_kill (w : World) (e old : ObjId)
    (hp : w.EG.exception = some old)
    (hkill : w.instanceof_function (w.objects e).ce w.swow_coroutine_kill_exception_ce = true) :
    (swow_coroutine_cross_exception_release w e).objects
      = ((w.GC_ADDREF e).GC_DELREF old).objects := by
  unfold swow_coroutine_cross_exception_release
  have hg : (w.GC_ADDREF e).EG.exception = some old := hp
  have hi : (w.GC_ADDREF e).instanceof_function (w.objects e).ce
      (w.GC_ADDREF e).swow_coroutine_kill_exception_ce = true := hkill
  simp only [hg, hi, ↓reduceIte]

theorem refcount_after_kill_release (w : World) (e old : ObjId) :
    ((((w.GC_ADDREF e).GC_DELREF old).GC_DELREF e).objects old).refcount
      = (w.objects old).refcount - 1 := by
  by_cases h : old = e
  · subst h
    simp [World.GC_ADDREF, World.GC_DELREF, World.set_object]
  · have h2 : e ≠ old := Ne.symm h
    simp [World.GC_ADDREF, World.GC_DELREF, World.set_object, h, h2]

theorem handle_cross_exception_kill_discards (w : World) (e old : ObjId)
    (hwf : w.causes_below w.next_handle) (he : e < w.next_handle)
    (hold : old < w.next_handle)
    (hp : w.EG.exception = some old)
    (hkill : w.instanceof_function (w.objects e).ce w.swow_coroutine_kill_exception_ce = true) :
    (∀ h, h ≠ w.next_handle →
      ((swow_coroutine_handle_cross_exception w e).objects h).previous
        = (w.objects h).previous)
    ∧ ((swow_coroutine_handle_cross_exception w e).objects old).refcount
        = (w.objects old).refcount - 1 := by
  have hne : e ≠ w.next_handle := Nat.ne_of_lt he
  have hone : old ≠ w.next_handle := Nat.ne_of_lt hold
  obtain ⟨c1, c2, c3, c4, c5, _⟩ := cross_exception_copy_spec w e hne
  obtain ⟨_, _, rp, _, _, _, rg⟩ := cross_exception_release_spec w e
  have rk := cross_exception_release_kill w e old hp hkill
  have hb := cross_exception_copy_causes_below w e hwf hne
  rw [hkill] at rg
  simp only [↓reduceIte] at rg
  unfold swow_coroutine_handle_cross_exception
  generalize swow_coroutine_cross_exception_copy w e = r at c1 c2 c3 c4 c5 hb
  obtain ⟨w5, x⟩ := r
  simp only [] at c1 c2 c3 c4 c5 hb ⊢
  subst c1
  have hpos : 0 < w5.next_handle := by rw [c2]; exact Nat.succ_pos _
  have hx5 : (w5.objects w.next_handle).previous = none := by rw [c3]
  have h5none : w5.EG.exception = none := by rw [c5]; exact rg
  have hns : w5.EG.exception.isSome = false := by rw [h5none]; rfl
  simp only [hns, Bool.false_eq_true, ↓reduceIte]
  have h6' : (zend_exception_set_previous w5 w.next_handle (some e)).EG.exception = none := by
    rw [set_previous_EG, h5none]
  have h6 : (zend_exception_set_previous w5 w.next_handle (some e)).EG.exception.isNone
      = true := by rw [h6']; rfl
  rw [if_pos h6, (throw_internal_none _ _ h6').1]
  have hl := (set_previous_fresh_objects w5 w.next_handle e hx5 (Ne.symm hne) hb hpos).2
  refine ⟨fun h hh => ?_, ?_⟩
  · rw [hl h hh, (GC_DELREF_fields w5 e h).1, c4 h hh, rp h]
  · rw [hl old hone]
    have : ((w5.GC_DELREF e).objects old).refcount
        = ((((w.GC_ADDREF e).GC_DELREF old).GC_DELREF e).objects old).refcount := by
      by_cases hoe : old = e
      · subst hoe
        simp [World.GC_DELREF, World.set_object, c4 old hone, rk]
      · simp [World.GC_DELREF, World.set_object, hoe, c4 old hone, rk]
    rw [this, refcount_after_kill_release]

theorem demo_objects_previous (h : ObjId) : (demo_objects h).previous = none := by
  unfold demo_objects
  split
  · rfl
  · split
    · rfl
    · split <;> rfl

theorem coroutine_close_ok (b : Build) (w : World) (c : Cid) (closed : swow_coroutine_exector_t)
    (hc : (w.coroutines c).executor = some closed) :
    ∃ w0, HeapOnly w w0 ∧ w0.EG = w.EG
      ∧ swow_coroutine_close b w c = .ok (w0.set_executor c none) := by
  unfold swow_coroutine_close
  rw [hc]
  simp only []
  split
  · refine ⟨_, heapOnly_Z_TRY_DELREF w closed.zcallable, ?_, rfl⟩
    cases closed.zcallable <;> rfl
  · exact ⟨w, HeapOnly.refl_heap w, rfl, rfl⟩

theorem StateFrame.rfl_state (w : World) : StateFrame w w :=
  ⟨rfl, fun _ => rfl, fun _ => rfl, fun _ => rfl, rfl, rfl, rfl, rfl, fun _ h => h, rfl⟩

theorem StateFrame.chain {w w1 w2 : World} (h1 : StateFrame w w1) (h2 : StateFrame w1 w2) :
    StateFrame w w2 :=
  ⟨h2.current.trans h1.current, fun c => (h2.executor c).trans (h1.executor c),
   fun c => (h2.state c).trans (h1.state c), fun c => (h2.previous c).trans (h1.previous c),
   h2.resume.trans h1.resume, h2.memory.trans h1.memory,
   h2.transfer_local.trans h1.transfer_local, h2.fcall_infos.trans h1.fcall_infos,
   fun c h => h2.accept c (h1.accept c h), h2.main.trans h1.main⟩

theorem HeapOnly.cat_coroutine_resume {w w1 : World} (h : HeapOnly w w1) :
    w1.cat_coroutine_resume = w.cat_coroutine_resume := by
  have h1 : w1.outside_heap = w.outside_heap := h
  have h2 := congrArg World.cat_coroutine_resume h1
  exact h2

theorem HeapOnly.main_eq {w w1 : World} (h : HeapOnly w w1) : w1.main = w.main := by
  have h1 : w1.outside_heap = w.outside_heap := h
  have h2 := congrArg World.main h1
  exact h2

theorem HeapOnly.fcall_infos_eq {w w1 : World} (h : HeapOnly w w1) :
    w1.fcall_infos = w.fcall_infos := by
  have h1 : w1.outside_heap = w.outside_heap := h
  have h2 := congrArg World.fcall_infos h1
  exact h2

theorem HeapOnly.toState {w w1 : World} (h : HeapOnly w w1) : StateFrame w w1 :=
  ⟨h.current, fun c => by rw [h.coroutines], fun c => by rw [h.coroutines],
   fun c => by rw [h.coroutines], h.cat_coroutine_resume, h.memory, h.transfer_local,
   h.fcall_infos_eq, fun c hc => by rw [h.coroutines]; exact hc, h.main_eq⟩

theorem stateFrame_set_ACCEPT_ZDATA (w : World) (c : Cid) :
    StateFrame w (w.set_ACCEPT_ZDATA c true) := by
  refine ⟨rfl, fun d => ?_, fun d => ?_, fun d => ?_, rfl, rfl, rfl, rfl, fun d hd2 => ?_,
    rfl⟩
  · by_cases hd : d = c <;>
      simp [World.set_ACCEPT_ZDATA, World.set_cat, World.set_coroutine, hd]
  · by_cases hd : d = c <;>
      simp [World.set_ACCEPT_ZDATA, World.set_cat, World.set_coroutine, hd]
  · by_cases hd : d = c <;>
      simp [World.set_ACCEPT_ZDATA, World.set_cat, World.set_coroutine, hd]
  · by_cases hd : d = c
    · subst hd
      simp [World.set_ACCEPT_ZDATA, World.set_cat, World.set_coroutine]
    · simp [World.set_ACCEPT_ZDATA, World.set_cat, World.set_coroutine, hd, hd2]

theorem deref_set_ACCEPT_ZDATA (w : World) (c : Cid) (v : Bool) (p : zval_ptr) :
    (w.set_ACCEPT_ZDATA c v).deref p = w.deref p := by
  cases p with
  | executor_zdata d =>
    by_cases hd : d = c <;>
      simp [World.deref, World.set_ACCEPT_ZDATA, World.set_cat, World.set_coroutine, hd]
  | _ => rfl

theorem store_slot_eq (w : World) (c : Cid) (v : zval) (e : swow_coroutine_exector_t)
    (he : (w.coroutines c).executor = some e) :
    w.store (.executor_zdata c) v = w.set_executor c (some { e with zdata := v }) := by
  simp [World.store, he]

theorem stateFrame_store_slot (w : World) (c : Cid) (v : zval) (e : swow_coroutine_exector_t)
    (he : (w.coroutines c).executor = some e) :
    StateFrame w (w.store (.executor_zdata c) v) := by
  rw [store_slot_eq w c v e he]
  refine ⟨rfl, fun d => ?_, fun d => ?_, fun d => ?_, rfl, rfl, rfl, rfl, fun d hd2 => ?_,
    rfl⟩
  · by_cases hd : d = c <;> simp [World.set_executor, World.set_coroutine, hd, he]
  · by_cases hd : d = c <;> simp [World.set_executor, World.set_coroutine, hd]
  · by_cases hd : d = c <;> simp [World.set_executor, World.set_coroutine, hd]
  · by_cases hd : d = c
    · subst hd; simpa [World.set_executor, World.set_coroutine] using hd2
    · simpa [World.set_executor, World.set_coroutine, hd] using hd2

theorem TransferFrame.asState {w w1 : World} (h : TransferFrame w w1) : StateFrame w w1 :=
  ⟨h.current, fun c => h.executor_isSome c, fun c => by rw [h.cat], fun c => by rw [h.cat],
   h.dispatcher, h.memory, h.transfer_local, h.fcall_infos,
   fun c hc => by rw [h.cat]; exact hc, h.main_same⟩

theorem handle_not_null_copies_to_slot (b : Build) (w : World) (s r : Cid)
    (zdata : zval_ptr) (re : swow_coroutine_exector_t)
    (hb : b.CAT_DO_NOT_OPTIMIZE = true)
    (hs : (w.coroutines s).coroutine.opcodes.ACCEPT_ZDATA = true)
    (hr : (w.coroutines r).coroutine.opcodes.ACCEPT_ZDATA = true)
    (hre : (w.coroutines r).executor = some re)
    (hp : (w.deref zdata).is_ptr = false) :
    swow_coroutine_handle_not_null_zdata b w s r zdata false
      = .ok ((w.store (.executor_zdata r) (w.deref zdata)).Z_TRY_ADDREF (w.deref zdata),
             .executor_zdata r) := by
  unfold swow_coroutine_handle_not_null_zdata
  simp [hs, hr, hre, hp, CAT_ASSERT, bind, Except.bind, pure, Except.pure, hb]

theorem handle_not_null_keeps_pointer (b : Build) (w : World) (s r : Cid)
    (zdata : zval_ptr) (re : swow_coroutine_exector_t) (handle_ref : Bool)
    (hs : (w.coroutines s).coroutine.opcodes.ACCEPT_ZDATA = true)
    (hr : (w.coroutines r).coroutine.opcodes.ACCEPT_ZDATA = true)
    (hre : (w.coroutines r).executor = some re)
    (hp : (w.deref zdata).is_ptr = true) :
    swow_coroutine_handle_not_null_zdata b w s r zdata handle_ref = .ok (w, zdata) := by
  unfold swow_coroutine_handle_not_null_zdata
  simp [hs, hr, hre, hp, CAT_ASSERT, bind, Except.bind, pure, Except.pure]

theorem jump_pre_transfers (b : Build) (w : World) (target : Cid) (zdata : zval_ptr)
    (ce te : swow_coroutine_exector_t)
    (hc : (w.coroutines w.current).coroutine.opcodes.ACCEPT_ZDATA = true)
    (ht : (w.coroutines target).coroutine.opcodes.ACCEPT_ZDATA = true)
    (hce : (w.coroutines w.current).executor = some ce)
    (hte : (w.coroutines target).executor = some te)
    (hrel : swow_coroutine_get_previous w w.current = some target
          ∨ swow_coroutine_get_previous w target = none ∨ b.CAT_DEBUG = false) :
    ∃ w2 payload, swow_coroutine_jump_pre b w target zdata = .ok (w2, payload)
      ∧ StateFrame w w2 ∧ w2.deref payload = w.deref zdata
      ∧ (payload = zdata
          ∨ (payload = .executor_zdata w.current ∧ zdata ≠ .SWOW_COROUTINE_DATA_NULL)) := by
  obtain ⟨w1, e1, f1⟩ := jump_solve_refcount_ok b w target hrel
  have hce1 : (w1.coroutines w1.current).executor.isSome = true := by
    rw [f1.current, f1.executor_isSome, hce]; rfl
  have hte1 : (w1.coroutines target).executor.isSome = true := by
    rw [f1.executor_isSome, hte]; rfl
  obtain ⟨ce1, hce1⟩ := Option.isSome_iff_exists.mp hce1
  obtain ⟨te1, hte1⟩ := Option.isSome_iff_exists.mp hte1
  obtain ⟨w2, e2, f2⟩ := jump_switch_executor_ok w1 target ce1 te1 hce1 hte1
  have f := f1.then f2
  have hcur2 : (w2.coroutines w2.current).executor.isSome = true := by
    rw [f.current, f.executor_isSome, hce]; rfl
  obtain ⟨ce2, hce2⟩ := Option.isSome_iff_exists.mp hcur2
  have hs2 : (w2.coroutines target).coroutine.opcodes.ACCEPT_ZDATA = true := by
    rw [f.cat]; exact ht
  have hr2 : (w2.coroutines w2.current).coroutine.opcodes.ACCEPT_ZDATA = true := by
    rw [f.current, f.cat]; exact hc
  by_cases hz : zdata = .SWOW_COROUTINE_DATA_NULL
  · refine ⟨w2, zdata, ?_, f.asState, f.deref zdata, Or.inl rfl⟩
    unfold swow_coroutine_jump_pre
    simp [e1, e2, bind, Except.bind, hz, pure, Except.pure]
  · cases hp : (w.deref zdata).is_ptr with
    | true =>
      have hp2 : (w2.deref zdata).is_ptr = true := by rw [f.deref]; exact hp
      refine ⟨w2, zdata, ?_, f.asState, f.deref zdata, Or.inl rfl⟩
      unfold swow_coroutine_jump_pre
      simp only [e1, e2, bind, Except.bind, swow_coroutine_get_current]
      simp only [bne_iff_ne, ne_eq, hz, not_false_eq_true, ↓reduceIte]
      exact handle_not_null_keeps_pointer b w2 target w2.current zdata ce2 false hs2 hr2 hce2
        hp2
    | false =>
    have hp2 : (w2.deref zdata).is_ptr = false := by rw [f.deref]; exact hp
    cases hb : b.CAT_DO_NOT_OPTIMIZE with
    | false =>
      refine ⟨w2.Z_TRY_ADDREF (w2.deref zdata), zdata, ?_,
        f.asState.chain (heapOnly_Z_TRY_ADDREF w2 _).toState, ?_, Or.inl rfl⟩
      · unfold swow_coroutine_jump_pre
        simp only [e1, e2, bind, Except.bind, swow_coroutine_get_current]
        simp only [bne_iff_ne, ne_eq, hz, not_false_eq_true, ↓reduceIte]
        exact handle_not_null_sends_without_copy b w2 target w2.current zdata ce2 hb hs2 hr2
          hce2 hp2
      · rw [deref_of_heapOnly (heapOnly_Z_TRY_ADDREF w2 _), f.deref]
    | true =>
      refine ⟨(w2.store (.executor_zdata w2.current) (w2.deref zdata)).Z_TRY_ADDREF
          (w2.deref zdata), .executor_zdata w2.current, ?_,
        (f.asState.chain (stateFrame_store_slot w2 _ _ ce2 hce2)).chain
          (heapOnly_Z_TRY_ADDREF _ _).toState, ?_, Or.inr ⟨by rw [f.current], hz⟩⟩
      · unfold swow_coroutine_jump_pre
        simp only [e1, e2, bind, Except.bind, swow_coroutine_get_current]
        simp only [bne_iff_ne, ne_eq, hz, not_false_eq_true, ↓reduceIte]
        exact handle_not_null_copies_to_slot b w2 target w2.current zdata ce2 hb hs2 hr2
          hce2 hp2
      · rw [deref_of_heapOnly (heapOnly_Z_TRY_ADDREF _ _),
          deref_store_executor_zdata w2 _ _ ce2 hce2, f.deref]

theorem resume_standard_switches (b : Build)
    (precheck : World → Cid → zval_ptr → Option LastError) (w : World) (target : Cid)
    (zdata : zval_ptr) (ce te : swow_coroutine_exector_t)
    (hstd : w.cat_coroutine_resume = .swow_coroutine_resume_standard)
    (hpre : precheck w target zdata = none)
    (hc : (w.coroutines w.current).coroutine.opcodes.ACCEPT_ZDATA = true)
    (ht : (w.coroutines target).coroutine.opcodes.ACCEPT_ZDATA = true)
    (hce : (w.coroutines w.current).executor = some ce)
    (hte : (w.coroutines target).executor = some te)
    (hrel : swow_coroutine_get_previous w w.current = some target
          ∨ swow_coroutine_get_previous w target = none ∨ b.CAT_DEBUG = false) :
    ∃ w2 payload, cat_coroutine_resume b (Engine.switching precheck) w target zdata
        = .error (.switched w2 target payload)
      ∧ StateFrame w w2 ∧ w2.deref payload = w.deref zdata
      ∧ (payload = zdata
          ∨ (payload = .executor_zdata w.current ∧ zdata ≠ .SWOW_COROUTINE_DATA_NULL)) := by
  obtain ⟨w2, payload, e, f, hd, hpl⟩ :=
    jump_pre_transfers b w target zdata ce te hc ht hce hte hrel
  refine ⟨w2, payload, ?_, f, hd, hpl⟩
  have hj : swow_coroutine_jump b (Engine.switching precheck) w target zdata
      = .error (.switched w2 target payload) := by
    simp [swow_coroutine_jump, e, bind, Except.bind, Engine.switching]
  unfold cat_coroutine_resume
  rw [hstd]
  simp only []
  unfold swow_coroutine_resume_standard swow_coroutine_jump_precheck
  cases hchk : (w.coroutines target).coroutine.opcodes.CHECKED with
  | true => simpa using hj
  | false =>
    have hpre2 : (Engine.switching precheck).cat_coroutine_jump_precheck w target zdata
        = none := hpre
    simp only [hpre2, Bool.not_false, ↓reduceIte]
    exact hj

theorem resume_switches (b : Build)
    (precheck : World → Cid → zval_ptr → Option LastError) (w : World) (target : Cid)
    (zdata : zval_ptr) (ce te : swow_coroutine_exector_t)
    (hstd : w.cat_coroutine_resume = .swow_coroutine_resume_standard)
    (hpre : precheck (w.set_ACCEPT_ZDATA w.current true) target zdata = none)
    (ht : (w.coroutines target).coroutine.opcodes.ACCEPT_ZDATA = true)
    (hce : (w.coroutines w.current).executor = some ce)
    (hte : (w.coroutines target).executor = some te)
    (hrel : swow_coroutine_get_previous w w.current = some target
          ∨ swow_coroutine_get_previous w target = none ∨ b.CAT_DEBUG = false) :
    ∃ w2 payload, swow_coroutine_resume b (Engine.switching precheck) w target zdata true
        = .error (.switched w2 target payload)
      ∧ StateFrame w w2 ∧ w2.deref payload = w.deref zdata
      ∧ (payload = zdata
          ∨ (payload = .executor_zdata w.current ∧ zdata ≠ .SWOW_COROUTINE_DATA_NULL))
      ∧ (w2.coroutines w.current).coroutine.opcodes.ACCEPT_ZDATA = true := by
  have fs := stateFrame_set_ACCEPT_ZDATA w w.current
  generalize hw1 : w.set_ACCEPT_ZDATA w.current true = w1 at fs hpre
  have hcur : w1.current = w.current := fs.current
  have hc1 : (w1.coroutines w1.current).coroutine.opcodes.ACCEPT_ZDATA = true := by
    rw [hcur, ← hw1]; simp [World.set_ACCEPT_ZDATA, World.set_cat, World.set_coroutine]
  have ht1 : (w1.coroutines target).coroutine.opcodes.ACCEPT_ZDATA = true := by
    rw [← hw1]
    by_cases h : target = w.current
    · rw [h]; simp [World.set_ACCEPT_ZDATA, World.set_cat, World.set_coroutine]
    · simp [World.set_ACCEPT_ZDATA, World.set_cat, World.set_coroutine, h, ht]
  have hce1 : (w1.coroutines w1.current).executor.isSome = true := by
    rw [hcur, fs.executor, hce]; rfl
  have hte1 : (w1.coroutines target).executor.isSome = true := by
    rw [fs.executor, hte]; rfl
  obtain ⟨ce1, hce1⟩ := Option.isSome_iff_exists.mp hce1
  obtain ⟨te1, hte1⟩ := Option.isSome_iff_exists.mp hte1
  have hrel1 : swow_coroutine_get_previous w1 w1.current = some target
      ∨ swow_coroutine_get_previous w1 target = none ∨ b.CAT_DEBUG = false := by
    unfold swow_coroutine_get_previous at hrel ⊢
    rw [hcur, fs.previous, fs.previous]
    exact hrel
  have hd1 : w1.deref zdata = w.deref zdata := by
    rw [← hw1]; exact deref_set_ACCEPT_ZDATA w _ _ _
  obtain ⟨w2, payload, e, f, hd, hpl⟩ := resume_standard_switches b precheck w1 target zdata
    ce1 te1 (fs.resume.trans hstd) hpre hc1 ht1 hce1 hte1 hrel1
  refine ⟨w2, payload, ?_, fs.chain f, hd.trans hd1, ?_, ?_⟩
  · simp [swow_coroutine_resume, hw1, e, bind, Except.bind]
  · rw [hcur] at hpl; exact hpl
  · rw [hcur] at hc1; exact f.accept _ hc1

theorem yield_switches (b : Build)
    (precheck : World → Cid → zval_ptr → Option LastError) (w : World) (target : Cid)
    (zdata : zval_ptr) (ce te : swow_coroutine_exector_t)
    (hstd : w.cat_coroutine_resume = .swow_coroutine_resume_standard)
    (hprev : swow_coroutine_get_previous w w.current = some target)
    (hpre : precheck (w.set_ACCEPT_ZDATA w.current true) target zdata = none)
    (ht : (w.coroutines target).coroutine.opcodes.ACCEPT_ZDATA = true)
    (hce : (w.coroutines w.current).executor = some ce)
    (hte : (w.coroutines target).executor = some te) :
    ∃ w2 payload, swow_coroutine_yield b (Engine.switching precheck) w zdata true
        = .error (.switched w2 target payload)
      ∧ StateFrame w w2 ∧ w2.deref payload = w.deref zdata
      ∧ (payload = zdata
          ∨ (payload = .executor_zdata w.current ∧ zdata ≠ .SWOW_COROUTINE_DATA_NULL))
      ∧ (w2.coroutines w.current).coroutine.opcodes.ACCEPT_ZDATA = true := by
  obtain ⟨w2, payload, e, f, hd, hpl, hca⟩ := resume_switches b precheck w target zdata ce te hstd
    hpre ht hce hte (Or.inl hprev)
  refine ⟨w2, payload, ?_, f, hd, hpl, hca⟩
  have fs := stateFrame_set_ACCEPT_ZDATA w w.current
  have hprev1 : swow_coroutine_get_previous (w.set_ACCEPT_ZDATA w.current true)
      (swow_coroutine_get_current (w.set_ACCEPT_ZDATA w.current true)) = some target := by
    unfold swow_coroutine_get_previous swow_coroutine_get_current at *
    rw [fs.current, fs.previous]
    exact hprev
  have hy : cat_coroutine_yield b (Engine.switching precheck)
      (w.set_ACCEPT_ZDATA w.current true) zdata
      = cat_coroutine_resume b (Engine.switching precheck)
          (w.set_ACCEPT_ZDATA w.current true) target zdata := by
    unfold cat_coroutine_yield
    rw [hprev1]
  unfold swow_coroutine_yield
  unfold swow_coroutine_resume at e
  simp only [hy]
  exact e

theorem deref_of_executors (w w1 : World)
    (he : ∀ c, (w1.coroutines c).executor = (w.coroutines c).executor)
    (hm : w1.memory = w.memory) (hf : w1.function_retval = w.function_retval)
    (ht : w1.transfer_local = w.transfer_local) (p : zval_ptr) :
    w1.deref p = w.deref p := by
  cases p <;> simp [World.deref, he, hm, hf, ht]

theorem set_cat_executor (w : World) (c : Cid) (k : cat_coroutine_t) (d : Cid) :
    ((w.set_cat c k).coroutines d).executor = (w.coroutines d).executor := by
  by_cases h : d = c
  · subst h; simp [World.set_cat, World.set_coroutine]
  · simp [World.set_cat, World.set_coroutine, h]

theorem jump_switch_spec (w : World) (target : Cid) (hne : target ≠ w.current) :
    (cat_coroutine_jump_switch w target).current = target
    ∧ (∀ c, ((cat_coroutine_jump_switch w target).coroutines c).executor
              = (w.coroutines c).executor)
    ∧ (∀ p, (cat_coroutine_jump_switch w target).deref p = w.deref p)
    ∧ ((cat_coroutine_jump_switch w target).coroutines target).coroutine.from_
        = some w.current
    ∧ ((w.coroutines w.current).coroutine.state ≠ .DEAD →
        ((cat_coroutine_jump_switch w target).coroutines w.current).coroutine.state ≠ .DEAD)
    ∧ ((w.coroutines w.current).coroutine.state = .DEAD →
        ((cat_coroutine_jump_switch w target).coroutines w.current).coroutine.state = .DEAD)
    ∧ ((cat_coroutine_jump_switch w target).coroutines target).coroutine.state = .RUNNING
    ∧ (cat_coroutine_jump_switch w target).map = w.map
    ∧ (cat_coroutine_jump_switch w target).EG = w.EG
    ∧ (cat_coroutine_jump_switch w target).objects = w.objects
    ∧ (∀ c, ((cat_coroutine_jump_switch w target).coroutines c).coroutine.id
              = (w.coroutines c).coroutine.id) := by
  have hne2 : w.current ≠ target := Ne.symm hne
  have hex : ∀ c, ((cat_coroutine_jump_switch w target).coroutines c).executor
      = (w.coroutines c).executor := by
    intro c
    unfold cat_coroutine_jump_switch
    simp only []
    split <;> simp only [set_cat_executor]
  refine ⟨?_, hex, fun p => ?_, ?_, fun hs => ?_, fun hs => ?_, ?_, ?_, ?_, ?_, fun c => ?_⟩
  · unfold cat_coroutine_jump_switch; simp only []; split <;> rfl
  · apply deref_of_executors _ _ hex
    · unfold cat_coroutine_jump_switch; simp only []; split <;> rfl
    · unfold cat_coroutine_jump_switch; simp only []; split <;> rfl
    · unfold cat_coroutine_jump_switch; simp only []; split <;> rfl
  · unfold cat_coroutine_jump_switch; simp only []
    split <;> simp [World.set_cat, World.set_coroutine, hne, hne2]
  · unfold cat_coroutine_jump_switch; simp only []
    split
    · simp only [World.set_cat, World.set_coroutine]
      simp only [Function.update, hne, hne2, ↓reduceDIte, eq_rec_constant, dite_eq_ite,
        ↓reduceIte, ne_eq]
      split <;> simp_all
    · simp only [World.set_cat, World.set_coroutine]
      simp only [Function.update, hne, hne2, ↓reduceDIte, eq_rec_constant, dite_eq_ite,
        ↓reduceIte, ne_eq]
      split <;> simp_all
  · unfold cat_coroutine_jump_switch; simp only []
    split
    · simp only [World.set_cat, World.set_coroutine]
      simp only [Function.update, hne, hne2, ↓reduceDIte, eq_rec_constant, dite_eq_ite,
        ↓reduceIte, ne_eq]
      simp [hs]
    · simp [World.set_cat, World.set_coroutine, hne, hne2, hs]
  · unfold cat_coroutine_jump_switch; simp only []
    split <;> simp [World.set_cat, World.set_coroutine]
  · unfold cat_coroutine_jump_switch; simp only []; split <;> rfl
  · unfold cat_coroutine_jump_switch; simp only []; split <;> rfl
  · unfold cat_coroutine_jump_switch; simp only []; split <;> rfl
  · unfold cat_coroutine_jump_switch; simp only []
    by_cases h1 : c = target <;> by_cases h2 : c = w.current <;>
      split <;> simp_all [World.set_cat, World.set_coroutine, Function.update]

theorem read_params_one (w : World) (p : zval_ptr) : w.read_params p 1 = [w.deref p] := by
  cases p <;> simp [World.read_params, World.deref, List.range_succ]

theorem read_params_of_frame {w w1 : World} (f : TransferFrame w w1) (p : zval_ptr)
    (n : Nat) : w1.read_params p n = w.read_params p n := by
  cases p <;> simp [World.read_params, f.deref, f.memory]

theorem transferFrame_set_map (w : World) (m : List (Nat × Cid)) :
    TransferFrame w { w with map := m } :=
  ⟨rfl, rfl, rfl, rfl, fun _ => rfl, fun _ => rfl, rfl, rfl, rfl⟩

/-! ### The table of the registry -/

theorem hash_find_map_same (id : Nat) (c : Cid) (map : List (Nat × Cid))
    (h : map.any (fun p => p.1 == id) = true) :
    (List.find? (fun p => p.1 == id)
      (map.map (fun p => if p.1 == id then (id, c) else p))).map (fun p => p.2) = some c := by
  induction map with
  | nil => simp at h
  | cons p rest ih =>
    cases hx : (p.1 == id)
    · have hr : rest.any (fun p => p.1 == id) = true := by
        simpa [List.any, hx] using h
      simp only [List.map, hx, Bool.false_eq_true, ↓reduceIte, List.find?]
      exact ih hr
    · simp only [List.map, hx, ↓reduceIte, List.find?, beq_self_eq_true, Option.map]

theorem hash_find_append_same (id : Nat) (c : Cid) (map : List (Nat × Cid))
    (h : ¬ map.any (fun p => p.1 == id) = true) :
    (List.find? (fun p => p.1 == id) (map ++ [(id, c)])).map (fun p => p.2) = some c := by
  induction map with
  | nil => simp [List.find?]
  | cons p rest ih =>
    cases hx : (p.1 == id)
    · have hr : ¬ rest.any (fun p => p.1 == id) = true := by
        intro hr
        apply h
        simp only [List.any, hr, Bool.or_true]
      simp only [List.cons_append, List.find?, hx]
      exact ih hr
    · exact absurd (by simp only [List.any, hx, Bool.true_or]) h

theorem hash_find_update_same (map : List (Nat × Cid)) (id : Nat) (c : Cid) :
    zend_hash_index_find (zend_hash_index_update map id c) id = some c := by
  unfold zend_hash_index_find zend_hash_index_update
  split
  · rename_i h
    exact hash_find_map_same id c map h
  · rename_i h
    exact hash_find_append_same id c map h

theorem hash_find_map_other (id : Nat) (c : Cid) (j : Nat) (hj : (id == j) = false)
    (map : List (Nat × Cid)) :
    (List.find? (fun p => p.1 == j)
      (map.map (fun p => if p.1 == id then (id, c) else p))).map (fun p => p.2)
      = (List.find? (fun p => p.1 == j) map).map (fun p => p.2) := by
  induction map with
  | nil => rfl
  | cons p rest ih =>
    cases hx : (p.1 == id)
    · simp only [List.map, hx, Bool.false_eq_true, ↓reduceIte, List.find?]
      cases hy : (p.1 == j)
      · exact ih
      · rfl
    · have hp : p.1 = id := by simpa using hx
      have h1 : (p.1 == j) = false := by rw [hp]; exact hj
      simp only [List.map, hx, ↓reduceIte, List.find?, hj, h1]
      exact ih

theorem hash_find_append_other (id : Nat) (c : Cid) (j : Nat) (hj : (id == j) = false)
    (map : List (Nat × Cid)) :
    (List.find? (fun p => p.1 == j) (map ++ [(id, c)])).map (fun p => p.2)
      = (List.find? (fun p => p.1 == j) map).map (fun p => p.2) := by
  induction map with
  | nil => simp only [List.nil_append, List.find?, hj, Option.map]
  | cons p rest ih =>
    simp only [List.cons_append, List.find?]
    cases hy : (p.1 == j)
    · exact ih
    · rfl

theorem hash_find_update_other (map : List (Nat × Cid)) (id : Nat) (c : Cid) (j : Nat)
    (hj : j ≠ id) :
    zend_hash_index_find (zend_hash_index_update map id c) j = zend_hash_index_find map j := by
  have h2 : (id == j) = false := by
    simp only [beq_eq_false_iff_ne]; exact fun h => hj h.symm
  unfold zend_hash_index_find zend_hash_index_update
  split
  · exact hash_find_map_other id c j h2 map
  · exact hash_find_append_other id c j h2 map

theorem hash_find_del_same (map : List (Nat × Cid)) (id : Nat) :
    zend_hash_index_find (zend_hash_index_del map id) id = none := by
  unfold zend_hash_index_find zend_hash_index_del
  induction map with
  | nil => rfl
  | cons p rest ih =>
    by_cases hp : p.1 = id
    · simp [List.filter, hp]
    · have h0 : (p.1 != id) = true := by simpa using hp
      have h1 : (p.1 == id) = false := by simpa using hp
      simp only [List.filter, h0, List.find?, h1]
      exact ih

theorem hash_find_del_other (map : List (Nat × Cid)) (id j : Nat) (hj : j ≠ id) :
    zend_hash_index_find (zend_hash_index_del map id) j = zend_hash_index_find map j := by
  unfold zend_hash_index_find zend_hash_index_del
  induction map with
  | nil => rfl
  | cons p rest ih =>
    by_cases hp : p.1 = id
    · have h1 : (p.1 == j) = false := by
        simp only [beq_eq_false_iff_ne, hp]; exact fun h => hj h.symm
      have h0 : (p.1 != id) = false := by simp [hp]
      simp only [List.filter, h0, List.find?, h1]
      exact ih
    · have h0 : (p.1 != id) = true := by simpa using hp
      simp only [List.filter, h0, List.find?]
      cases hx : (p.1 == j)
      · simpa using ih
      · rfl

theorem hash_keys_update (map : List (Nat × Cid)) (id : Nat) (c : Cid)
    (hnd : (map.map (fun p => p.1)).Nodup) :
    ((zend_hash_index_update map id c).map (fun p => p.1)).Nodup := by
  unfold zend_hash_index_update
  split
  · have : (map.map (fun p => if (p.1 == id) = true then (id, c) else p)).map (fun p => p.1)
        = map.map (fun p => p.1) := by
      rw [List.map_map]
      apply List.map_congr_left
      intro p _
      by_cases hp : p.1 = id <;> simp [hp]
    rw [this]
    exact hnd
  · rename_i h
    rw [List.map_append]
    simp only [List.map, List.nodup_append, hnd, List.nodup_cons, List.not_mem_nil,
      not_false_eq_true, List.nodup_nil, and_self, true_and]
    intro a ha hb
    have hb2 : a = id := by simpa using hb
    subst hb2
    apply h
    obtain ⟨q, hq, hqa⟩ := List.mem_map.mp ha
    rw [List.any_eq_true]
    exact ⟨q, hq, by simpa using hqa⟩

theorem hash_keys_del (map : List (Nat × Cid)) (id : Nat)
    (hnd : (map.map (fun p => p.1)).Nodup) :
    ((zend_hash_index_del map id).map (fun p => p.1)).Nodup := by
  unfold zend_hash_index_del
  exact (List.Nodup.sublist ((List.filter_sublist map).map _) hnd)

theorem transferFrame_hash_update (w : World) (id : Nat) (c : Cid) :
    TransferFrame w (w.zend_hash_index_update id c) := by
  unfold World.zend_hash_index_update World.map_pDestructor
  split
  · exact (transferFrame_set_map w _).then (transferFrame_GC_DELREF_std _ _)
  · exact transferFrame_set_map w _

theorem transferFrame_hash_del (w : World) (id : Nat) :
    TransferFrame w (w.zend_hash_index_del id) := by
  unfold World.zend_hash_index_del World.map_pDestructor
  split
  · exact (transferFrame_set_map w _).then (transferFrame_GC_DELREF_std _ _)
  · exact transferFrame_set_map w _

/-- What the release of a reference of a coroutine object leaves alone, and
what it does to the counts. -/
theorem GC_DELREF_std_fields (w : World) (c : Cid) :
    (w.GC_DELREF_std c).map = w.map
    ∧ (w.GC_DELREF_std c).current = w.current
    ∧ (w.GC_DELREF_std c).main = w.main
    ∧ (w.GC_DELREF_std c).cat_coroutine_resume = w.cat_coroutine_resume
    ∧ (∀ d, ((w.GC_DELREF_std c).coroutines d).coroutine = (w.coroutines d).coroutine)
    ∧ (∀ d, ((w.GC_DELREF_std c).coroutines d).executor = (w.coroutines d).executor)
    ∧ (w.GC_DELREF_std c).refcounts = Function.update w.refcounts c (w.refcounts c - 1) := by
  refine ⟨rfl, rfl, rfl, rfl, fun d => ?_, fun d => ?_, ?_⟩
  · by_cases hd : d = c
    · subst hd; simp [World.GC_DELREF_std, World.set_coroutine]
    · simp [World.GC_DELREF_std, World.set_coroutine, hd]
  · by_cases hd : d = c
    · subst hd; simp [World.GC_DELREF_std, World.set_coroutine]
    · simp [World.GC_DELREF_std, World.set_coroutine, hd]
  · funext d
    by_cases hd : d = c
    · subst hd; simp [World.refcounts, World.GC_DELREF_std, World.set_coroutine]
    · simp [World.refcounts, World.GC_DELREF_std, World.set_coroutine, hd]

/-- The call `zend_hash_index_update` on the registry: the table afterwards,
what is left alone, and the release of an element that was overwritten. -/
theorem hash_update_fields (w : World) (id : Nat) (c : Cid) :
    (w.zend_hash_index_update id c).map = zend_hash_index_update w.map id c
    ∧ (w.zend_hash_index_update id c).current = w.current
    ∧ (w.zend_hash_index_update id c).main = w.main
    ∧ (w.zend_hash_index_update id c).cat_coroutine_resume = w.cat_coroutine_resume
    ∧ (∀ d, ((w.zend_hash_index_update id c).coroutines d).coroutine
        = (w.coroutines d).coroutine)
    ∧ (∀ d, ((w.zend_hash_index_update id c).coroutines d).executor
        = (w.coroutines d).executor)
    ∧ (w.zend_hash_index_update id c).refcounts = w.refcounts_released id := by
  unfold World.zend_hash_index_update World.map_pDestructor World.refcounts_released
  cases h : zend_hash_index_find w.map id with
  | none => exact ⟨rfl, rfl, rfl, rfl, fun _ => rfl, fun _ => rfl, rfl⟩
  | some old =>
    obtain ⟨a1, a2, a3, a4, a5, a6, a7⟩ :=
      GC_DELREF_std_fields { w with map := zend_hash_index_update w.map id c } old
    exact ⟨a1, a2, a3, a4, a5, a6, a7⟩

/-- The call `zend_hash_index_del` on the registry: the table afterwards, what
is left alone, and the release of the element that was deleted. -/
theorem hash_del_fields (w : World) (id : Nat) :
    (w.zend_hash_index_del id).map = zend_hash_index_del w.map id
    ∧ (w.zend_hash_index_del id).current = w.current
    ∧ (w.zend_hash_index_del id).main = w.main
    ∧ (w.zend_hash_index_del id).cat_coroutine_resume = w.cat_coroutine_resume
    ∧ (∀ d, ((w.zend_hash_index_del id).coroutines d).coroutine = (w.coroutines d).coroutine)
    ∧ (∀ d, ((w.zend_hash_index_del id).coroutines d).executor = (w.coroutines d).executor)
    ∧ (w.zend_hash_index_del id).refcounts = w.refcounts_released id := by
  unfold World.zend_hash_index_del World.map_pDestructor World.refcounts_released
  cases h : zend_hash_index_find w.map id with
  | none => exact ⟨rfl, rfl, rfl, rfl, fun _ => rfl, fun _ => rfl, rfl⟩
  | some old =>
    obtain ⟨a1, a2, a3, a4, a5, a6, a7⟩ :=
      GC_DELREF_std_fields { w with map := zend_hash_index_del w.map id } old
    exact ⟨a1, a2, a3, a4, a5, a6, a7⟩

theorem transferFrame_function_register (w : World) :
    TransferFrame w (swow_coroutine_function_register w) := by
  unfold swow_coroutine_function_register
  exact (transferFrame_hash_update w _ _).then (transferFrame_GC_ADDREF_std _ _)

theorem function_begin_cases (w : World) (payload : zval_ptr)
    (te : swow_coroutine_exector_t)
    (hte : (w.coroutines w.current).executor = some te) :
    (payload = .SWOW_COROUTINE_DATA_NULL →
      ∃ w1, swow_coroutine_function_begin w payload = .ok (w1, []) ∧ w1.current = w.current)
    ∧ (payload ≠ .SWOW_COROUTINE_DATA_NULL → (w.deref payload).is_ptr = false →
      ∃ w1, swow_coroutine_function_begin w payload = .ok (w1, [w.deref payload])
        ∧ w1.current = w.current)
    ∧ (∀ fci, payload ≠ .SWOW_COROUTINE_DATA_NULL → w.deref payload = .IS_PTR fci →
      ∃ w1, swow_coroutine_function_begin w payload
          = .ok (w1, w.read_params (w.fcall_infos fci).params (w.fcall_infos fci).param_count)
        ∧ w1.current = w.current) := by
  have f := transferFrame_function_register w
  generalize hw2 : swow_coroutine_function_register w = w2 at f
  have hb : swow_coroutine_function_begin w payload
      = if payload == .SWOW_COROUTINE_DATA_NULL then .ok (w2, [])
        else match w2.deref payload with
          | .IS_PTR fci_ptr =>
            .ok (w2, w2.read_params (w2.fcall_infos fci_ptr).params
                        (w2.fcall_infos fci_ptr).param_count)
          | v => .ok (w2.Z_TRY_DELREF v, w2.read_params payload 1) := by
    unfold swow_coroutine_function_begin
    simp only [swow_coroutine_get_current, hte, hw2]
    split
    · rfl
    · split <;> rfl
  refine ⟨fun hz => ⟨w2, ?_, f.current⟩, fun hz hp => ?_, fun fci hz hp => ⟨w2, ?_, f.current⟩⟩
  · rw [hb, hz]; rfl
  · refine ⟨w2.Z_TRY_DELREF (w.deref payload), ?_,
      (heapOnly_Z_TRY_DELREF w2 _).current.trans f.current⟩
    rw [hb]
    have hz2 : (payload == zval_ptr.SWOW_COROUTINE_DATA_NULL) = false := by simpa using hz
    simp only [hz2, Bool.false_eq_true, ↓reduceIte, f.deref, read_params_one]
    cases hv : w.deref payload <;> simp_all [zval.is_ptr]
  · rw [hb]
    have hz2 : (payload == zval_ptr.SWOW_COROUTINE_DATA_NULL) = false := by simpa using hz
    simp only [hz2, Bool.false_eq_true, ↓reduceIte, f.deref, hp, f.fcall_infos,
      read_params_of_frame f]

theorem deref_set_executor_same_zdata (w : World) (c : Cid) (e e2 : swow_coroutine_exector_t)
    (he : (w.coroutines c).executor = some e) (hz : e2.zdata = e.zdata) (p : zval_ptr) :
    (w.set_executor c (some e2)).deref p = w.deref p := by
  cases p with
  | executor_zdata d =>
    by_cases hd : d = c
    · subst hd; simp [World.deref, World.set_executor, World.set_coroutine, he, hz]
    · simp [World.deref, World.set_executor, World.set_coroutine, hd]
  | _ => rfl

theorem jump_post_returns (b : Build) (w : World) (c f : Cid) (payload : zval_ptr)
    (te : swow_coroutine_exector_t)
    (hfrom : swow_coroutine_get_from w c = some f)
    (hst : (w.coroutines f).coroutine.state ≠ .DEAD)
    (hte : (w.coroutines c).executor = some te) :
    ∃ w1, swow_coroutine_jump_post b w c payload = .ok (w1, payload)
      ∧ (∀ p, w1.deref p = w.deref p) ∧ w1.current = w.current := by
  have hs2 : ((w.coroutines f).coroutine.state == cat_coroutine_state.DEAD) = false := by
    simpa using hst
  cases hx : te.cross_exception with
  | none =>
    refine ⟨w, ?_, fun _ => rfl, rfl⟩
    simp [swow_coroutine_jump_post, hfrom, hs2, hte, hx, pure, Except.pure]
  | some e =>
    have hh := heapOnly_handle_cross_exception w e
    have hte2 : ((swow_coroutine_handle_cross_exception w e).coroutines c).executor
        = some te := by rw [hh.coroutines]; exact hte
    refine ⟨(swow_coroutine_handle_cross_exception w e).set_executor c
      (some { te with cross_exception := none }), ?_, fun p => ?_, hh.current⟩
    · simp [swow_coroutine_jump_post, hfrom, hs2, hte, hx, pure, Except.pure]
    · exact (deref_set_executor_same_zdata _ c te { te with cross_exception := none } hte2
        rfl p).trans (deref_of_heapOnly hh p)

theorem arrive_not_started (b : Build) (m : Machine) (w : World) (payload : zval_ptr)
    (h : m.pending w.current = .not_started) :
    Machine.arrive b m w payload
      = (swow_coroutine_function_begin w payload).bind
          (fun r => .ok { m with world := r.1, running := m.entry w.current r.2 }) := by
  unfold Machine.arrive
  rw [h]
  rfl

theorem arrive_in_jump (b : Build) (m : Machine) (w : World) (payload : zval_ptr)
    (k : Bool → zval → Code) (h : m.pending w.current = .in_jump k) :
    Machine.arrive b m w payload
      = (swow_coroutine_jump_post b w w.current payload).bind
          (fun r => .ok { m with
            world := (SWOW_COROUTINE_JUMP_WITH_ZDATA_end r.1 r.2 true).1
            running := k (SWOW_COROUTINE_JUMP_WITH_ZDATA_end r.1 r.2 true).2.1
              ((SWOW_COROUTINE_JUMP_WITH_ZDATA_end r.1 r.2 true).2.2.getD .IS_UNDEF) }) := by
  unfold Machine.arrive
  rw [h]
  rfl

theorem after_call_enters_trampoline (b : Build) (m : Machine) (k : Bool → zval → Code)
    (w2 : World) (target : Cid) (payload : zval_ptr)
    (f : StateFrame m.world w2)
    (hne : target ≠ m.world.current)
    (hpend : m.pending target = .not_started)
    (w4 : World) (params : List zval)
    (hb : swow_coroutine_function_begin (cat_coroutine_jump_switch w2 target) payload
      = .ok (w4, params)) :
    ∃ m1, m.after_call b k (.error (.switched w2 target payload)) = .ok m1
      ∧ m1.running = m.entry target params ∧ m1.world = w4
      ∧ m1.pending m.world.current = .in_jump k ∧ m1.entry = m.entry := by
  have hne2 : target ≠ w2.current := by rw [f.current]; exact hne
  obtain ⟨s1, _, _, _, _, _, _, _, _, _, _⟩ := jump_switch_spec w2 target hne2
  generalize hw3 : cat_coroutine_jump_switch w2 target = w3 at s1 hb
  refine ⟨{ m with
      pending := Function.update m.pending m.world.current (.in_jump k)
      world := w4
      running := m.entry target params }, ?_, rfl, rfl, ?_, rfl⟩
  · have hne3 : w3.current ≠ m.world.current := by rw [s1]; exact hne
    have hp3 : m.pending w3.current = .not_started := by rw [s1]; exact hpend
    simp only [Machine.after_call, hw3]
    rw [arrive_not_started b _ w3 payload
      (by show Function.update m.pending m.world.current (Pending.in_jump k) w3.current = _
          rw [Function.update_noteq hne3]; exact hp3)]
    simp only [hb, Except.bind, s1]
  · simp

theorem after_call_returns_in_target (b : Build) (m : Machine) (k kt : Bool → zval → Code)
    (w2 : World) (target : Cid) (payload : zval_ptr) (te : swow_coroutine_exector_t)
    (f : StateFrame m.world w2)
    (hne : target ≠ m.world.current)
    (hpend : m.pending target = .in_jump kt)
    (hte : (m.world.coroutines target).executor = some te)
    (hst : (m.world.coroutines m.world.current).coroutine.state ≠ .DEAD)
    (hpl : payload ≠ .SWOW_COROUTINE_DATA_ERROR) :
    ∃ m1, m.after_call b k (.error (.switched w2 target payload)) = .ok m1
      ∧ m1.running = kt true (w2.deref payload) ∧ m1.world.current = target
      ∧ m1.pending m.world.current = .in_jump k ∧ m1.entry = m.entry := by
  have hne2 : target ≠ w2.current := by rw [f.current]; exact hne
  obtain ⟨s1, s2, s3, s4, s5, _, _, _, _, _, _⟩ := jump_switch_spec w2 target hne2
  generalize hw3 : cat_coroutine_jump_switch w2 target = w3 at s1 s2 s3 s4 s5
  have hte3 : (w3.coroutines target).executor.isSome = true := by
    rw [s2, f.executor, hte]; rfl
  obtain ⟨te3, hte3⟩ := Option.isSome_iff_exists.mp hte3
  have hst3 : (w3.coroutines w2.current).coroutine.state ≠ .DEAD := by
    apply s5
    rw [f.current, f.state]
    exact hst
  obtain ⟨w4, e4, d4, c4⟩ := jump_post_returns b w3 target w2.current payload te3 s4 hst3 hte3
  have hpe : (payload == zval_ptr.SWOW_COROUTINE_DATA_ERROR) = false := by simpa using hpl
  refine ⟨{ m with
      pending := Function.update m.pending m.world.current (.in_jump k)
      world := w4
      running := kt true (w4.deref payload) }, ?_, ?_, ?_, ?_, rfl⟩
  · have hne3 : w3.current ≠ m.world.current := by rw [s1]; exact hne
    have hp3 : m.pending w3.current = .in_jump kt := by rw [s1]; exact hpend
    simp only [Machine.after_call, hw3]
    rw [arrive_in_jump b _ w3 payload kt
      (by show Function.update m.pending m.world.current (Pending.in_jump k) w3.current = _
          rw [Function.update_noteq hne3]; exact hp3)]
    simp only [s1, e4, Except.bind, SWOW_COROUTINE_JUMP_WITH_ZDATA_end, hpe,
      Bool.false_eq_true, ↓reduceIte, Bool.not_true, Option.getD_some]
  · show kt true (w4.deref payload) = kt true (w2.deref payload)
    rw [d4, s3]
  · show w4.current = target
    rw [c4, s1]
  · simp

theorem jump_switch_links (w : World) (target : Cid) (hne : target ≠ w.current) :
    (∀ c, ((cat_coroutine_jump_switch w target).coroutines c).coroutine.opcodes
            = (w.coroutines c).coroutine.opcodes)
    ∧ (cat_coroutine_jump_switch w target).main = w.main
    ∧ (cat_coroutine_jump_switch w target).cat_coroutine_resume = w.cat_coroutine_resume
    ∧ ((w.coroutines w.current).coroutine.previous ≠ some target →
        ((cat_coroutine_jump_switch w target).coroutines target).coroutine.previous
          = some w.current)
    ∧ (cat_coroutine_jump_switch w target).function_retval = w.function_retval := by
  have hne2 : w.current ≠ target := Ne.symm hne
  refine ⟨fun c => ?_, ?_, ?_, fun hny => ?_, ?_⟩
  · unfold cat_coroutine_jump_switch; simp only []
    by_cases h1 : c = target <;> by_cases h2 : c = w.current <;>
      split <;> simp_all [World.set_cat, World.set_coroutine, Function.update]
  · unfold cat_coroutine_jump_switch; simp only []; split <;> rfl
  · unfold cat_coroutine_jump_switch; simp only []; split <;> rfl
  · unfold cat_coroutine_jump_switch; simp only []
    split
    · rename_i hy
      simp [World.set_cat, World.set_coroutine, hne2] at hy
      exact absurd hy hny
    · simp [World.set_cat, World.set_coroutine, Function.update, hne, hne2]
  · unfold cat_coroutine_jump_switch; simp only []; split <;> rfl

theorem step_resume_not_started (b : Build)
    (precheck : World → Cid → zval_ptr → Option LastError) (m : Machine) (target : Cid)
    (zdata : zval_ptr) (k : Bool → zval → Code) (ce te : swow_coroutine_exector_t)
    (hrun : m.running = .resume target zdata k)
    (hpend : m.pending target = .not_started)
    (hstd : m.world.cat_coroutine_resume = .swow_coroutine_resume_standard)
    (hpre : precheck (m.world.set_ACCEPT_ZDATA m.world.current true) target zdata = none)
    (hne : target ≠ m.world.current)
    (hacc : (m.world.coroutines target).coroutine.opcodes.ACCEPT_ZDATA = true)
    (hce : (m.world.coroutines m.world.current).executor = some ce)
    (hte : (m.world.coroutines target).executor = some te)
    (hrel : swow_coroutine_get_previous m.world m.world.current = some target
          ∨ swow_coroutine_get_previous m.world target = none ∨ b.CAT_DEBUG = false) :
    ∃ w3 payload, w3.current = target
      ∧ (payload = zdata
          ∨ (payload = .executor_zdata m.world.current ∧ zdata ≠ .SWOW_COROUTINE_DATA_NULL))
      ∧ w3.deref payload = m.world.deref zdata
      ∧ w3.memory = m.world.memory ∧ w3.fcall_infos = m.world.fcall_infos
      ∧ (∀ c, (w3.coroutines c).executor.isSome = (m.world.coroutines c).executor.isSome)
      ∧ (∀ c, (m.world.coroutines c).coroutine.opcodes.ACCEPT_ZDATA = true →
              (w3.coroutines c).coroutine.opcodes.ACCEPT_ZDATA = true)
      ∧ (w3.coroutines m.world.current).coroutine.opcodes.ACCEPT_ZDATA = true
      ∧ w3.main = m.world.main
      ∧ w3.cat_coroutine_resume = m.world.cat_coroutine_resume
      ∧ (swow_coroutine_get_previous m.world m.world.current ≠ some target →
          swow_coroutine_get_previous w3 target = some m.world.current)
      ∧ ∀ w4 params, swow_coroutine_function_begin w3 payload = .ok (w4, params) →
          ∃ m1, m.step b precheck = .ok m1
            ∧ m1.running = m.entry target params ∧ m1.world = w4
            ∧ m1.pending m.world.current = .in_jump k ∧ m1.entry = m.entry := by
  obtain ⟨w2, payload, e, f, hd, hpl, hcacc⟩ := resume_switches b precheck m.world target
    zdata ce te hstd hpre hacc hce hte hrel
  have hne2 : target ≠ w2.current := by rw [f.current]; exact hne
  obtain ⟨s1, s2, s3, _, _, _, _, _, _, _, _⟩ := jump_switch_spec w2 target hne2
  obtain ⟨t1, t2, t3, t4, _⟩ := jump_switch_links w2 target hne2
  have s4 : (cat_coroutine_jump_switch w2 target).fcall_infos = w2.fcall_infos := by
    unfold cat_coroutine_jump_switch; simp only []; split <;> rfl
  have s5 : (cat_coroutine_jump_switch w2 target).memory = w2.memory := by
    unfold cat_coroutine_jump_switch; simp only []; split <;> rfl
  refine ⟨cat_coroutine_jump_switch w2 target, payload, s1, hpl, (s3 payload).trans hd,
    s5.trans f.memory, s4.trans f.fcall_infos, fun c => ?_, fun c hc => ?_, ?_, t2.trans f.main,
    t3.trans f.resume, fun hny => ?_, fun w4 params hb => ?_⟩
  · rw [s2, f.executor]
  · rw [t1]; exact f.accept c hc
  · rw [t1]; exact hcacc
  · unfold swow_coroutine_get_previous at hny ⊢
    have h := t4 (by rw [f.current, f.previous]; exact hny)
    rw [f.current] at h
    exact h
  · obtain ⟨m1, h1, h2, h3, h4, h5⟩ :=
      after_call_enters_trampoline b m k w2 target payload f hne hpend w4 params hb
    refine ⟨m1, ?_, h2, h3, h4, h5⟩
    simp only [Machine.step, hrun]
    rw [e]
    exact h1

theorem payload_ne_error {payload zdata : zval_ptr} {c : Cid}
    (hpl : payload = zdata
      ∨ (payload = .executor_zdata c ∧ zdata ≠ .SWOW_COROUTINE_DATA_NULL))
    (hz : zdata ≠ .SWOW_COROUTINE_DATA_ERROR) : payload ≠ .SWOW_COROUTINE_DATA_ERROR := by
  rcases hpl with h | ⟨h, _⟩
  · rw [h]; exact hz
  · rw [h]; exact fun h2 => by cases h2

theorem step_resume_in_jump (b : Build)
    (precheck : World → Cid → zval_ptr → Option LastError) (m : Machine) (target : Cid)
    (zdata : zval_ptr) (k kt : Bool → zval → Code) (ce te : swow_coroutine_exector_t)
    (hrun : m.running = .resume target zdata k)
    (hpend : m.pending target = .in_jump kt)
    (hstd : m.world.cat_coroutine_resume = .swow_coroutine_resume_standard)
    (hpre : precheck (m.world.set_ACCEPT_ZDATA m.world.current true) target zdata = none)
    (hne : target ≠ m.world.current)
    (hacc : (m.world.coroutines target).coroutine.opcodes.ACCEPT_ZDATA = true)
    (hce : (m.world.coroutines m.world.current).executor = some ce)
    (hte : (m.world.coroutines target).executor = some te)
    (hrel : swow_coroutine_get_previous m.world m.world.current = some target
          ∨ swow_coroutine_get_previous m.world target = none ∨ b.CAT_DEBUG = false)
    (hst : (m.world.coroutines m.world.current).coroutine.state ≠ .DEAD)
    (hz : zdata ≠ .SWOW_COROUTINE_DATA_ERROR) :
    ∃ m1, m.step b precheck = .ok m1
      ∧ m1.running = kt true (m.world.deref zdata) ∧ m1.world.current = target
      ∧ m1.pending m.world.current = .in_jump k ∧ m1.entry = m.entry := by
  obtain ⟨w2, payload, e, f, hd, hpl, _⟩ := resume_switches b precheck m.world target
    zdata ce te hstd hpre hacc hce hte hrel
  obtain ⟨m1, h1, h2, h3, h4, h5⟩ := after_call_returns_in_target b m k kt w2 target payload
    te f hne hpend hte hst (payload_ne_error hpl hz)
  refine ⟨m1, ?_, by rw [h2, hd], h3, h4, h5⟩
  simp only [Machine.step, hrun]
  rw [e]
  exact h1

theorem step_yield_in_jump (b : Build)
    (precheck : World → Cid → zval_ptr → Option LastError) (m : Machine) (target : Cid)
    (zdata : zval_ptr) (k kt : Bool → zval → Code) (ce te : swow_coroutine_exector_t)
    (hrun : m.running = .yield zdata k)
    (hprev : swow_coroutine_get_previous m.world m.world.current = some target)
    (hpend : m.pending target = .in_jump kt)
    (hstd : m.world.cat_coroutine_resume = .swow_coroutine_resume_standard)
    (hpre : precheck (m.world.set_ACCEPT_ZDATA m.world.current true) target zdata = none)
    (hne : target ≠ m.world.current)
    (hacc : (m.world.coroutines target).coroutine.opcodes.ACCEPT_ZDATA = true)
    (hce : (m.world.coroutines m.world.current).executor = some ce)
    (hte : (m.world.coroutines target).executor = some te)
    (hst : (m.world.coroutines m.world.current).coroutine.state ≠ .DEAD)
    (hz : zdata ≠ .SWOW_COROUTINE_DATA_ERROR) :
    ∃ m1, m.step b precheck = .ok m1
      ∧ m1.running = kt true (m.world.deref zdata) ∧ m1.world.current = target
      ∧ m1.pending m.world.current = .in_jump k ∧ m1.entry = m.entry := by
  obtain ⟨w2, payload, e, f, hd, hpl, _⟩ := yield_switches b precheck m.world target
    zdata ce te hstd hprev hpre hacc hce hte
  obtain ⟨m1, h1, h2, h3, h4, h5⟩ := after_call_returns_in_target b m k kt w2 target payload
    te f hne hpend hte hst (payload_ne_error hpl hz)
  refine ⟨m1, ?_, by rw [h2, hd], h3, h4, h5⟩
  simp only [Machine.step, hrun]
  rw [e]
  exact h1

theorem function_begin_frame (w : World) (payload : zval_ptr) (w1 : World)
    (params : List zval)
    (h : swow_coroutine_function_begin w payload = .ok (w1, params)) : StateFrame w w1 := by
  have f := (transferFrame_function_register w).asState
  unfold swow_coroutine_function_begin at h
  simp only [swow_coroutine_get_current, pure, Except.pure] at h
  split at h
  · cases h
  · split at h
    · cases h; exact f
    · split at h
      · cases h; exact f
      · cases h; exact f.chain (heapOnly_Z_TRY_DELREF _ _).toState

theorem function_begin_total (w : World) (payload : zval_ptr)
    (te : swow_coroutine_exector_t)
    (hte : (w.coroutines w.current).executor = some te) :
    ∃ w1 params, swow_coroutine_function_begin w payload = .ok (w1, params) := by
  obtain ⟨h1, h2, h3⟩ := function_begin_cases w payload te hte
  by_cases hz : payload = .SWOW_COROUTINE_DATA_NULL
  · obtain ⟨w1, e, _⟩ := h1 hz
    exact ⟨w1, _, e⟩
  · cases hv : w.deref payload with
    | IS_PTR fci =>
      obtain ⟨w1, e, _⟩ := h3 fci hz hv
      exact ⟨w1, _, e⟩
    | _ =>
      obtain ⟨w1, e, _⟩ := h2 hz (by rw [hv]; rfl)
      exact ⟨w1, _, e⟩

theorem store_slot_links (w : World) (p : Cid) (v : zval) (c : Cid) :
    ((w.store (.executor_zdata p) v).coroutines c).coroutine = (w.coroutines c).coroutine
    ∧ ((w.store (.executor_zdata p) v).coroutines c).executor.isSome
        = (w.coroutines c).executor.isSome
    ∧ (w.store (.executor_zdata p) v).current = w.current := by
  by_cases hc : c = p
  · subst hc
    cases hx : (w.coroutines c).executor <;>
      simp [World.store, hx, World.set_executor, World.set_coroutine]
  · cases hx : (w.coroutines p).executor <;>
      simp [World.store, hx, World.set_executor, World.set_coroutine, hc]

theorem set_ACCEPT_ZDATA_links (w : World) (a : Cid) (v : Bool) (c : Cid) :
    ((w.set_ACCEPT_ZDATA a v).coroutines c).coroutine.previous
        = (w.coroutines c).coroutine.previous
    ∧ ((w.set_ACCEPT_ZDATA a v).coroutines c).executor = (w.coroutines c).executor
    ∧ ((w.set_ACCEPT_ZDATA a v).coroutines c).coroutine.state = (w.coroutines c).coroutine.state
    ∧ (w.set_ACCEPT_ZDATA a v).current = w.current := by
  by_cases hc : c = a <;>
    simp [World.set_ACCEPT_ZDATA, World.set_cat, World.set_coroutine, hc]

theorem function_end_returns (b : Build) (w : World) (retval : zval)
    (ce pe : swow_coroutine_exector_t) (p : Cid)
    (hce : (w.coroutines w.current).executor = some ce)
    (hprev : swow_coroutine_get_previous w w.current = some p)
    (hpe : (w.coroutines p).executor = some pe)
    (hpa : (w.coroutines p).coroutine.opcodes.ACCEPT_ZDATA = true)
    (h3 : retval.is_ptr = false) :
    ∃ w2 payload, swow_coroutine_function_end b w retval = .ok (w2, payload)
      ∧ w2.current = w.current
      ∧ (payload = .SWOW_COROUTINE_DATA_NULL ∨ payload = .executor_zdata p)
      ∧ w2.deref payload
          = (if retval = .IS_UNDEF ∨ retval = .IS_NULL then .IS_NULL else retval)
      ∧ (∀ c, (w2.coroutines c).coroutine.previous = (w.coroutines c).coroutine.previous)
      ∧ (∀ c, (w2.coroutines c).executor.isSome = (w.coroutines c).executor.isSome) := by
  obtain ⟨w7, f, e⟩ := function_end_result b w retval ce pe p hce hprev hpe
  have hst := fun d => controlFrame_store_function_retval w w.current retval d
  by_cases hno : retval = .IS_UNDEF ∨ retval = .IS_NULL
  · rw [if_pos hno] at e
    refine ⟨w7, _, e, f.current.trans (hst w.current).2.1, Or.inl rfl,
      by rw [if_pos hno]; rfl, fun c => ?_, fun c => ?_⟩
    · rw [f.previous, (hst c).1]
    · rw [f.executor, (hst c).1]
  · rw [if_neg hno] at e
    have hval : w7.deref (.function_retval w.current) = retval := by
      simp only [World.deref]
      rw [f.function_retval]
      exact (hst w.current).2.2
    have hl := set_ACCEPT_ZDATA_links w7 w.current true
    generalize hw8 : w7.set_ACCEPT_ZDATA w.current true = w8 at e hl
    have hs8 : (w8.coroutines w.current).coroutine.opcodes.ACCEPT_ZDATA = true := by
      rw [← hw8]; simp [World.set_ACCEPT_ZDATA, World.set_cat, World.set_coroutine]
    have hr8 : (w8.coroutines p).coroutine.opcodes.ACCEPT_ZDATA = true := by
      rw [← hw8]
      by_cases hpc : p = w.current
      · rw [hpc]; simp [World.set_ACCEPT_ZDATA, World.set_cat, World.set_coroutine]
      · have := f.opcodes p
        rw [(hst p).1] at this
        simp [World.set_ACCEPT_ZDATA, World.set_cat, World.set_coroutine, hpc, this, hpa]
    have hp8 : (w8.coroutines p).executor.isSome = true := by
      rw [(hl p).2.1, f.executor, (hst p).1, hpe]; rfl
    obtain ⟨pe8, hpe8⟩ := Option.isSome_iff_exists.mp hp8
    have hval8 : w8.deref (.function_retval w.current) = retval := by
      rw [← hw8, deref_set_ACCEPT_ZDATA]; exact hval
    rw [handle_not_null_moves_to_slot b w8 w.current p _ pe8 hs8 hr8 hpe8
      (by rw [hval8]; exact h3)] at e
    have hs := store_slot_links w8 p (w8.deref (.function_retval w.current))
    refine ⟨_, _, e, ?_, Or.inr rfl, ?_, fun c => ?_, fun c => ?_⟩
    · rw [(hs p).2.2, (hl p).2.2.2, f.current, (hst p).2.1]
    · rw [deref_store_executor_zdata w8 p _ pe8 hpe8, hval8, if_neg hno]
    · rw [(hs c).1, (hl c).1, f.previous, (hst c).1]
    · rw [(hs c).2.1, (hl c).2.1, f.executor, (hst c).1]

theorem jump_post_closes_dead (b : Build) (w : World) (c f : Cid) (payload : zval_ptr)
    (fe : swow_coroutine_exector_t)
    (hfrom : swow_coroutine_get_from w c = some f)
    (hst : (w.coroutines f).coroutine.state = .DEAD)
    (hfe : (w.coroutines f).executor = some fe) :
    ∃ w1, swow_coroutine_jump_post b w c payload = .ok (w1, payload)
      ∧ w1.current = w.current
      ∧ (∀ d, (w1.coroutines d).coroutine = (w.coroutines d).coroutine)
      ∧ (w1.coroutines f).executor = none
      ∧ (∀ d, d ≠ f → (w1.coroutines d).executor = (w.coroutines d).executor)
      ∧ (∀ p, p ≠ .executor_zdata f → w1.deref p = w.deref p)
      ∧ w1.map = zend_hash_index_del w.map (w.coroutines f).coroutine.id := by
  obtain ⟨w0, hh, _, hclose⟩ := coroutine_close_ok b w f fe hfe
  have hs2 : ((w.coroutines f).coroutine.state == cat_coroutine_state.DEAD) = true := by
    rw [hst]; rfl
  have hco : ∀ d, w0.coroutines d = w.coroutines d := fun d => by rw [hh.coroutines]
  obtain ⟨d1, d2, _, _, d5, d6, _⟩ := hash_del_fields (w0.set_executor f none)
    ((w0.set_executor f none).coroutines f).coroutine.id
  refine ⟨(w0.set_executor f none).zend_hash_index_del
      ((w0.set_executor f none).coroutines f).coroutine.id, ?_, ?_, fun d => ?_, ?_,
    fun d hd => ?_, fun p hp => ?_, ?_⟩
  · simp only [swow_coroutine_jump_post, hfrom, hs2, ↓reduceIte, hclose, bind, Except.bind,
      pure, Except.pure]
  · rw [d2]; exact hh.current
  · rw [d5]
    by_cases hd : d = f
    · subst hd; simp [World.set_executor, World.set_coroutine, hco]
    · simp [World.set_executor, World.set_coroutine, hd, hco]
  · rw [d6]; simp [World.set_executor, World.set_coroutine]
  · rw [d6]; simp [World.set_executor, World.set_coroutine, hd, hco]
  · rw [(transferFrame_hash_del _ _).deref, ← deref_of_heapOnly hh p]
    cases p with
    | executor_zdata d =>
      have hd : d ≠ f := fun h => hp (by rw [h])
      simp [World.deref, World.set_executor, World.set_coroutine, hd]
    | _ => rfl
  · rw [d1]; simp [World.set_executor, World.set_coroutine, hco, hh.map]

theorem deref_set_cat (w : World) (c : Cid) (k : cat_coroutine_t) (p : zval_ptr) :
    (w.set_cat c k).deref p = w.deref p := by
  cases p with
  | executor_zdata d =>
    by_cases hd : d = c <;> simp [World.deref, World.set_cat, World.set_coroutine, hd]
  | _ => rfl

theorem finish_switch_spec (w : World) (p : Cid) (hne : p ≠ w.current) :
    (cat_coroutine_finish_switch w p).current = p
    ∧ (∀ c, ((cat_coroutine_finish_switch w p).coroutines c).executor
              = (w.coroutines c).executor)
    ∧ (∀ q, (cat_coroutine_finish_switch w p).deref q = w.deref q)
    ∧ swow_coroutine_get_from (cat_coroutine_finish_switch w p) p = some w.current
    ∧ ((cat_coroutine_finish_switch w p).coroutines w.current).coroutine.state = .DEAD := by
  have hned : p ≠ (w.set_cat w.current
      { (w.coroutines w.current).coroutine with state := .DEAD }).current := hne
  obtain ⟨s1, s2, s3, s4, _, s6, _, _, _, _, _⟩ := jump_switch_spec _ p hned
  refine ⟨s1, fun c => ?_, fun q => ?_, s4, ?_⟩
  · show ((cat_coroutine_jump_switch _ p).coroutines c).executor = _
    rw [s2]
    by_cases h : c = w.current <;> simp [World.set_cat, World.set_coroutine, h]
  · show (cat_coroutine_jump_switch _ p).deref q = _
    rw [s3, deref_set_cat]
  · apply s6
    show ((w.set_cat w.current _).coroutines w.current).coroutine.state = .DEAD
    simp [World.set_cat, World.set_coroutine]

theorem step_ret_returns (b : Build)
    (precheck : World → Cid → zval_ptr → Option LastError) (m : Machine) (r : zval)
    (p : Cid) (k : Bool → zval → Code) (ce pe : swow_coroutine_exector_t)
    (hrun : m.running = .ret r)
    (hmain : m.world.current ≠ m.world.main)
    (hce : (m.world.coroutines m.world.current).executor = some ce)
    (hprev : swow_coroutine_get_previous m.world m.world.current = some p)
    (hpe : (m.world.coroutines p).executor = some pe)
    (hpa : (m.world.coroutines p).coroutine.opcodes.ACCEPT_ZDATA = true)
    (hpend : m.pending p = .in_jump k)
    (hne : p ≠ m.world.current)
    (hr : r.is_ptr = false) :
    ∃ m1, m.step b precheck = .ok m1
      ∧ m1.running = k true (if r = .IS_UNDEF ∨ r = .IS_NULL then .IS_NULL else r)
      ∧ m1.world.current = p
      ∧ (m1.world.coroutines m.world.current).coroutine.state = .DEAD
      ∧ (m1.world.coroutines m.world.current).executor = none
      ∧ m1.entry = m.entry := by
  obtain ⟨w2, payload, e, hc2, hpl, hd, hp2, hx2⟩ :=
    function_end_returns b m.world r ce pe p hce hprev hpe hpa hr
  have hprev2 : swow_coroutine_get_previous w2 w2.current = some p := by
    unfold swow_coroutine_get_previous at hprev ⊢
    rw [hc2, hp2]; exact hprev
  obtain ⟨s1, s2, s3, s4, s6⟩ := finish_switch_spec w2 p (by rw [hc2]; exact hne)
  rw [hc2] at s4 s6
  generalize hw3 : cat_coroutine_finish_switch w2 p = w3 at s1 s2 s3 s4 s6
  have hx3 : (w3.coroutines m.world.current).executor.isSome = true := by
    rw [s2, hx2, hce]; rfl
  obtain ⟨ce3, hce3⟩ := Option.isSome_iff_exists.mp hx3
  obtain ⟨w4, e4, c4, k4, x4, _, d4, _⟩ :=
    jump_post_closes_dead b w3 p m.world.current payload ce3 s4 s6 hce3
  have hpne : payload ≠ .executor_zdata m.world.current := by
    rcases hpl with h | h
    · rw [h]; exact fun h2 => by cases h2
    · rw [h]; exact fun h2 => hne (by injection h2)
  have hperr : (payload == zval_ptr.SWOW_COROUTINE_DATA_ERROR) = false := by
    rcases hpl with h | h <;> rw [h] <;> rfl
  have hval : w4.deref payload
      = (if r = .IS_UNDEF ∨ r = .IS_NULL then .IS_NULL else r) := by
    rw [d4 payload hpne, s3, hd]
  have hmb : (m.world.current == m.world.main) = false := by simpa using hmain
  refine ⟨{ m with
      pending := Function.update m.pending m.world.current .finished
      world := w4
      running := k true (w4.deref payload) }, ?_, ?_, ?_, ?_, ?_, rfl⟩
  · have hne3 : w3.current ≠ m.world.current := by rw [s1]; exact hne
    have hp3 : m.pending w3.current = .in_jump k := by rw [s1]; exact hpend
    simp only [Machine.step, hrun, hmb, Bool.false_eq_true, ↓reduceIte, e, bind,
      Except.bind, hprev2, hw3]
    rw [arrive_in_jump b _ w3 payload k
      (by show Function.update m.pending m.world.current Pending.finished w3.current = _
          rw [Function.update_noteq hne3]; exact hp3)]
    simp only [s1, e4, Except.bind, SWOW_COROUTINE_JUMP_WITH_ZDATA_end, hperr,
      Bool.false_eq_true, ↓reduceIte, Bool.not_true, Option.getD_some]
  · show k true (w4.deref payload) = _
    rw [hval]
  · show w4.current = p
    rw [c4, s1]
  · show (w4.coroutines m.world.current).coroutine.state = .DEAD
    rw [k4]; exact s6
  · exact x4

/-- The scenario of the specification, run on the machine in both builds: the
coroutine `x = yield(1); return x + 1` gives `1` to its first resume and `11`
to its second, with `10`, after which it is not alive. -/
theorem scenario_yield_then_return (b : Build) (hb : b = debug_build ∨ b = release_build) :
    look (Machine.run b precheck_pass 8
        (demo_machine demo_world demo_entry_yield (fun _ => .not_started) demo_script))
      (fun w => (w.memory 20, w.memory 22, swow_coroutine_is_alive w 1))
      = some (.IS_LONG 1, .IS_LONG 11, false) := by
  rcases hb with h | h <;> subst h <;> decide!

theorem resume_transfer_cases (w : World) (scoroutine : Cid) (fci : Nat)
    (hstate : (w.coroutines scoroutine).coroutine.state = .READY) :
    ∃ w1 payload, SWOW_COROUTINE_HANDLE_RESUME_TRANSFER w scoroutine fci = some (w1, payload)
      ∧ w1.coroutines = w.coroutines ∧ w1.current = w.current
      ∧ w1.cat_coroutine_resume = w.cat_coroutine_resume
      ∧ w1.memory = w.memory ∧ w1.fcall_infos = w.fcall_infos
      ∧ ((w.fcall_infos fci).param_count = 0 → payload = .SWOW_COROUTINE_DATA_NULL)
      ∧ ((w.fcall_infos fci).param_count = 1 → payload = (w.fcall_infos fci).params)
      ∧ (1 < (w.fcall_infos fci).param_count →
          payload = .transfer_local w.current ∧ w1.deref payload = .IS_PTR fci) := by
  unfold SWOW_COROUTINE_HANDLE_RESUME_TRANSFER
  by_cases h1 : (w.fcall_infos fci).param_count = 1
  · refine ⟨w, _, by simp [h1], rfl, rfl, rfl, rfl, rfl, fun h => ?_, fun _ => rfl,
      fun h => ?_⟩
    · rw [h1] at h; cases h
    · rw [h1] at h; exact absurd h (by decide)
  · by_cases h2 : 1 < (w.fcall_infos fci).param_count
    · refine ⟨w.store (.transfer_local w.current) (.IS_PTR fci), .transfer_local w.current,
        by simp [h1, h2, hstate], rfl, rfl, rfl, rfl, rfl, fun h => ?_, fun h => absurd h h1,
        fun _ => ⟨rfl, by simp [World.store, World.deref]⟩⟩
      rw [h] at h2; exact absurd h2 (by decide)
    · refine ⟨w, .SWOW_COROUTINE_DATA_NULL, by simp [h1, h2], rfl, rfl, rfl, rfl, rfl,
        fun _ => rfl, fun h => absurd h h1, fun h => absurd h h2⟩

theorem aligned_size_bounds (size a : Nat) (ha : 0 < a) :
    size ≤ (size + (a - 1)) / a * a ∧ (size + (a - 1)) / a * a < size + a
    ∧ a ∣ (size + (a - 1)) / a * a := by
  have h1 := Nat.div_add_mod (size + (a - 1)) a
  have h2 := Nat.mod_lt (size + (a - 1)) ha
  have h3 : (size + (a - 1)) / a * a = a * ((size + (a - 1)) / a) := Nat.mul_comm _ _
  have h4 : a ∣ (size + (a - 1)) / a * a := Nat.dvd_mul_left a _
  rw [h3] at h4 ⊢
  generalize a * ((size + (a - 1)) / a) = q at h1 h4
  generalize (size + (a - 1)) % a = r at h1 h2
  exact ⟨by omega, by omega, h4⟩

theorem aligned_size_le_of_dvd (size a m : Nat) (ha : 0 < a) (hm : a ∣ m) (hs : size ≤ m) :
    (size + (a - 1)) / a * a ≤ m := by
  obtain ⟨k, hk⟩ := hm
  obtain ⟨_, h2, _⟩ := aligned_size_bounds size a ha
  have h3 : (size + (a - 1)) / a * a = a * ((size + (a - 1)) / a) := Nat.mul_comm _ _
  rw [h3] at h2 ⊢
  rw [hk]
  apply Nat.mul_le_mul_left
  have h4 : a * ((size + (a - 1)) / a) < a * (k + 1) := by
    rw [Nat.mul_add, Nat.mul_one, ← hk]
    omega
  exact Nat.lt_succ_iff.mp (Nat.lt_of_mul_lt_mul_left h4)

theorem size_t_of_negative (n : Int) (hn : n < 0) (hlo : -(2 ^ 63) ≤ n) :
    2 ^ 63 ≤ size_t_of_zend_long n ∧ size_t_of_zend_long n < SIZE_RANGE := by
  unfold size_t_of_zend_long SIZE_RANGE
  norm_num at hlo ⊢
  omega

theorem size_t_of_zero : size_t_of_zend_long 0 = 0 := by
  unfold size_t_of_zend_long SIZE_RANGE
  norm_num

theorem coroutines_Z_TRY_ADDREF (w : World) (z : zval) :
    (w.Z_TRY_ADDREF z).coroutines = w.coroutines := by
  cases z <;> rfl

theorem construct_not_callable (R : Runtime) (L : StackLimits) (g : Globals) (w : World)
    (scoroutine : Cid) (zcallable : zval) (stack_page_size c_stack_size : Nat)
    (hcall : R.zend_is_callable_ex zcallable = false) :
    swow_coroutine_construct R L g w scoroutine zcallable stack_page_size c_stack_size
      = ({ w with last_error := some .must_be_callable }, false) := by
  simp [swow_coroutine_construct, hcall]

theorem construct_ok (R : Runtime) (L : StackLimits) (g : Globals) (w : World)
    (scoroutine : Cid) (zcallable : zval) (stack_page_size c_stack_size : Nat)
    (k : cat_coroutine_t)
    (hcall : R.zend_is_callable_ex zcallable = true)
    (hcreate : R.cat_coroutine_create_ex (w.coroutines scoroutine).coroutine c_stack_size
      = .ok k) :
    ∃ w1 e, swow_coroutine_construct R L g w scoroutine zcallable stack_page_size c_stack_size
        = (w1, true)
      ∧ (w1.coroutines scoroutine).executor = some e
      ∧ e.saved.vm_stack_page_size
          = swow_coroutine_align_stack_page_size L g.default_stack_page_size stack_page_size
      ∧ e.saved.vm_stack
          = R.emalloc
              (swow_coroutine_align_stack_page_size L g.default_stack_page_size stack_page_size)
      ∧ e.saved.vm_stack_end
          = e.saved.vm_stack
            + swow_coroutine_align_stack_page_size L g.default_stack_page_size stack_page_size
      ∧ e.saved.exception = none ∧ e.cross_exception = none
      ∧ e.saved.current_execute_data = 0 ∧ e.zcallable = zcallable
      ∧ (w1.coroutines scoroutine).coroutine
          = { k with opcodes := { k.opcodes with ACCEPT_ZDATA := true } }
      ∧ (∀ d, d ≠ scoroutine → w1.coroutines d = w.coroutines d)
      ∧ w1.current = w.current ∧ w1.EG = w.EG := by
  refine ⟨_,
    { saved :=
        { bailout := 0
          vm_stack := R.emalloc
            (swow_coroutine_align_stack_page_size L g.default_stack_page_size stack_page_size)
          vm_stack_top := R.emalloc
            (swow_coroutine_align_stack_page_size L g.default_stack_page_size stack_page_size)
            + R.vm_stack_top_offset
          vm_stack_end := R.emalloc
            (swow_coroutine_align_stack_page_size L g.default_stack_page_size stack_page_size)
            + swow_coroutine_align_stack_page_size L g.default_stack_page_size stack_page_size
          vm_stack_page_size :=
            swow_coroutine_align_stack_page_size L g.default_stack_page_size stack_page_size
          current_execute_data := 0
          exception := none
          error_handling := 0 }
      zcallable := zcallable
      zdata := R.uninitialized
      cross_exception := none },
    by simp only [swow_coroutine_construct, hcall, hcreate]; rfl, ?_, rfl, rfl, rfl,
    rfl, rfl, rfl, rfl, ?_, fun d hd => ?_, ?_, ?_⟩
  · simp [World.set_coroutine]
  · simp [World.set_coroutine]
  · simp [World.set_coroutine, hd, coroutines_Z_TRY_ADDREF]
  · cases zcallable <;> rfl
  · cases zcallable <;> rfl

theorem HeapOnly.severity_eq {w w1 : World} (h : HeapOnly w w1) :
    w1.exception_error_severity = w.exception_error_severity := by
  have h1 : w1.outside_heap = w.outside_heap := h
  have h2 := congrArg World.exception_error_severity h1
  exact h2

theorem reported_zend_exception_set_previous (w : World) (x : ObjId) (a : Option ObjId) :
    (zend_exception_set_previous w x a).reported = w.reported
    ∧ (zend_exception_set_previous w x a).EG = w.EG := by
  rw [zend_exception_set_previous_frame]
  exact ⟨rfl, rfl⟩

theorem call_user_handler_pending (w : World) (handler : ObjId → UserHandlerResult)
    (x : ObjId) :
    (swow_coroutine_function_call_user_handler w handler x).reported = w.reported
    ∧ ∃ y, (swow_coroutine_function_call_user_handler w handler x).EG.exception = some y := by
  unfold swow_coroutine_function_call_user_handler
  simp only []
  cases hs : (handler x).success <;> cases he : (handler x).exception with
  | none => simp [World.GC_DELREF, World.set_object]
  | some e =>
    by_cases hx : e = x
    · simp [hx, World.GC_DELREF, World.set_object]
    · simp [hx, reported_zend_exception_set_previous]

theorem report_reports (w : World) (y : ObjId) (hy : w.EG.exception = some y)
    (hsev : w.exception_error_severity > E_NONE) :
    (swow_coroutine_function_report w).reported
      = w.reported ++ [(y, w.exception_error_severity)]
    ∧ (swow_coroutine_function_report w).EG.exception = none := by
  simp [swow_coroutine_function_report, hy, hsev, zend_exception_error]

theorem states_set_executor (w : World) (c : Cid) (e : Option swow_coroutine_exector_t) :
    (w.set_executor c e).states = w.states := by
  funext d
  by_cases hd : d = c <;> simp [World.states, World.set_executor, World.set_coroutine, hd]

theorem states_GC_ADDREF_std (w : World) (c : Cid) : (w.GC_ADDREF_std c).states = w.states := by
  funext d
  by_cases hd : d = c <;> simp [World.states, World.GC_ADDREF_std, World.set_coroutine, hd]

theorem states_GC_DELREF_std (w : World) (c : Cid) : (w.GC_DELREF_std c).states = w.states := by
  funext d
  by_cases hd : d = c <;> simp [World.states, World.GC_DELREF_std, World.set_coroutine, hd]

theorem states_set_ACCEPT_ZDATA (w : World) (c : Cid) (v : Bool) :
    (w.set_ACCEPT_ZDATA c v).states = w.states := by
  funext d
  by_cases hd : d = c <;>
    simp [World.states, World.set_ACCEPT_ZDATA, World.set_cat, World.set_coroutine, hd]

theorem states_of_heapOnly {w w1 : World} (h : HeapOnly w w1) : w1.states = w.states := by
  unfold World.states
  rw [h.coroutines]

theorem states_store (w : World) (p : zval_ptr) (v : zval) : (w.store p v).states = w.states := by
  cases p with
  | executor_zdata c =>
    simp only [World.store]
    split
    · exact states_set_executor _ _ _
    · rfl
  | _ => rfl

theorem states_executor_save (w : World) (c : Cid) (w1 : World)
    (h : swow_coroutine_executor_save w c = .ok w1) : w1.states = w.states := by
  unfold swow_coroutine_executor_save at h
  split at h
  · cases h
  · cases h; exact states_set_executor _ _ _

theorem states_executor_recover (w : World) (c : Cid) (w1 : World)
    (h : swow_coroutine_executor_recover w c = .ok w1) : w1.states = w.states := by
  unfold swow_coroutine_executor_recover at h
  split at h
  · cases h
  · cases h; rfl

theorem states_executor_switch (w : World) (c : Cid) (w1 : World)
    (h : swow_coroutine_executor_switch w c = .ok w1) : w1.states = w.states := by
  unfold swow_coroutine_executor_switch at h
  cases h1 : swow_coroutine_executor_save w (swow_coroutine_get_current w) with
  | error e => rw [h1] at h; cases h
  | ok w2 =>
    rw [h1] at h
    exact (states_executor_recover w2 c w1 h).trans (states_executor_save _ _ _ h1)

theorem states_jump_solve_refcount (b : Build) (w : World) (c : Cid) (w1 : World)
    (h : swow_coroutine_jump_solve_refcount b w c = .ok w1) : w1.states = w.states := by
  unfold swow_coroutine_jump_solve_refcount at h
  simp only [] at h
  split at h
  · cases h; exact states_GC_DELREF_std _ _
  · cases h2 : CAT_ASSERT b (swow_coroutine_get_previous w c).isNone with
    | error e => rw [h2] at h; cases h
    | ok u =>
      rw [h2] at h
      cases h
      exact states_GC_ADDREF_std _ _

theorem states_jump_switch_executor (w : World) (c : Cid) (w1 : World)
    (h : swow_coroutine_jump_switch_executor w c = .ok w1) : w1.states = w.states := by
  unfold swow_coroutine_jump_switch_executor at h
  simp only [] at h
  split at h
  · cases h1 : swow_coroutine_executor_save w (swow_coroutine_get_current w) with
    | error e => rw [h1] at h; cases h
    | ok w2 =>
      rw [h1] at h
      cases h
      exact states_executor_save w _ w2 h1
  · split at h
    · exact states_executor_recover _ _ _ h
    · exact states_executor_switch _ _ _ h

theorem states_handle_not_null_zdata (b : Build) (w : World) (s r : Cid) (zdata : zval_ptr)
    (handle_ref : Bool) (w1 : World) (p : zval_ptr)
    (h : swow_coroutine_handle_not_null_zdata b w s r zdata handle_ref = .ok (w1, p)) :
    w1.states = w.states := by
  unfold swow_coroutine_handle_not_null_zdata at h
  split at h
  · split at h
    · cases h
    · cases h; rfl
  · split at h
    · cases h2 : CAT_ASSERT b (!(w.deref zdata).is_ptr) with
      | error e => rw [h2] at h; cases h
      | ok u =>
        rw [h2] at h
        cases h
        split
        · exact states_of_heapOnly (heapOnly_Z_TRY_DELREF _ _)
        · rfl
    · cases h2 : CAT_ASSERT b ((w.coroutines r).executor.isSome) with
      | error e => rw [h2] at h; cases h
      | ok u =>
        rw [h2] at h
        simp only [bind, Except.bind] at h
        split at h
        · cases h; rfl
        · split at h
          · split at h
            · cases h
            · cases h
              split
              · exact (states_of_heapOnly (heapOnly_Z_TRY_ADDREF _ _)).trans
                  (states_store _ _ _)
              · exact states_store _ _ _
          · split at h
            · cases h; exact states_of_heapOnly (heapOnly_Z_TRY_ADDREF _ _)
            · split at h
              · cases h
              · cases h; exact states_store _ _ _

theorem not_reset_of_states {w w1 : World} (h : w1.states = w.states) : w.not_reset w1 := by
  intro c hc
  rw [← h]
  exact hc

theorem not_reset_chain {w w1 w2 : World} (h1 : w.not_reset w1) (h2 : w1.not_reset w2) :
    w.not_reset w2 :=
  fun c hc => h1 c (h2 c hc)

theorem states_jump_pre (b : Build) (w : World) (c : Cid) (zdata : zval_ptr) (w1 : World)
    (p : zval_ptr) (h : swow_coroutine_jump_pre b w c zdata = .ok (w1, p)) :
    w1.states = w.states := by
  unfold swow_coroutine_jump_pre at h
  cases h1 : swow_coroutine_jump_solve_refcount b w c with
  | error e => rw [h1] at h; cases h
  | ok wa =>
    rw [h1] at h
    simp only [bind, Except.bind] at h
    cases h2 : swow_coroutine_jump_switch_executor wa c with
    | error e => rw [h2] at h; cases h
    | ok wb =>
      rw [h2] at h
      simp only [] at h
      have hs : wb.states = w.states :=
        (states_jump_switch_executor _ _ _ h2).trans (states_jump_solve_refcount _ _ _ _ h1)
      split at h
      · exact (states_handle_not_null_zdata _ _ _ _ _ _ _ _ h).trans hs
      · cases h; exact hs

theorem states_close (b : Build) (w : World) (c : Cid) (w1 : World)
    (h : swow_coroutine_close b w c = .ok w1) : w1.states = w.states := by
  unfold swow_coroutine_close at h
  split at h
  · split at h <;> cases h
  · cases h
    refine (states_set_executor _ _ _).trans ?_
    split
    · exact states_of_heapOnly (heapOnly_Z_TRY_DELREF _ _)
    · rfl

theorem states_jump_post (b : Build) (w : World) (c : Cid) (zdata : zval_ptr) (w1 : World)
    (p : zval_ptr) (h : swow_coroutine_jump_post b w c zdata = .ok (w1, p)) :
    w1.states = w.states := by
  unfold swow_coroutine_jump_post at h
  split at h
  · cases h
  · split at h
    · rename_i f _ _
      cases h1 : swow_coroutine_close b w f with
      | error e => rw [h1] at h; cases h
      | ok wa =>
        rw [h1] at h
        cases h
        refine Eq.trans ?_ (states_close b w f wa h1)
        funext d
        exact congrArg (fun k => k.state) ((hash_del_fields wa _).2.2.2.2.1 d)
    · split at h
      · split at h <;> cases h
      · split at h
        · cases h
          exact (states_set_executor _ _ _).trans
            (states_of_heapOnly (heapOnly_handle_cross_exception _ _))
        · cases h; rfl

theorem not_reset_jump (b : Build) (E : Engine) (hE : E.never_resets) (w : World) (c : Cid)
    (zdata : zval_ptr) (w1 : World) (p : zval_ptr)
    (h : swow_coroutine_jump b E w c zdata = .ok (w1, p)) : w.not_reset w1 := by
  unfold swow_coroutine_jump at h
  cases h1 : swow_coroutine_jump_pre b w c zdata with
  | error e => rw [h1] at h; cases h
  | ok r1 =>
    obtain ⟨wa, pa⟩ := r1
    rw [h1] at h
    simp only [bind, Except.bind] at h
    cases h2 : E.cat_coroutine_jump wa c pa with
    | error e => rw [h2] at h; cases h
    | ok r2 =>
      obtain ⟨wb, pb⟩ := r2
      rw [h2] at h
      simp only [] at h
      have s1 := not_reset_of_states (states_jump_pre _ _ _ _ _ _ h1)
      have s2 : wa.not_reset wb := fun d hd => hE wa c pa wb pb h2 d hd
      have s3 := not_reset_of_states (states_jump_post _ _ _ _ _ _ h)
      exact not_reset_chain (not_reset_chain s1 s2) s3

theorem not_reset_resume_standard (b : Build) (E : Engine) (hE : E.never_resets) (w : World)
    (c : Cid) (zdata : zval_ptr) (w1 : World) (p : zval_ptr)
    (h : swow_coroutine_resume_standard b E w c zdata = .ok (w1, p)) : w.not_reset w1 := by
  unfold swow_coroutine_resume_standard swow_coroutine_jump_precheck at h
  split at h
  · split at h
    · rename_i heq
      split at heq
      · cases heq
      · cases heq
        cases h
        exact fun d hd => hd
    · rename_i heq
      split at heq
      · cases heq
        exact not_reset_jump b E hE _ _ _ _ _ h
      · cases heq
  · exact not_reset_jump b E hE _ _ _ _ _ h

theorem not_reset_cat_coroutine_resume (b : Build) (E : Engine) (hE : E.never_resets)
    (w : World) (c : Cid) (zdata : zval_ptr) (w1 : World) (p : zval_ptr)
    (h : cat_coroutine_resume b E w c zdata = .ok (w1, p)) : w.not_reset w1 := by
  unfold cat_coroutine_resume at h
  split at h
  · exact not_reset_resume_standard b E hE _ _ _ _ _ h
  · cases h
  · unfold swow_coroutine_resume_rated at h
    simp only [] at h
    split at h
    · cases h
    · exact not_reset_resume_standard b E hE _ _ _ _ _ h

theorem states_JUMP_WITH_ZDATA_end (w : World) (zdata : zval_ptr) (retval : Bool) :
    (SWOW_COROUTINE_JUMP_WITH_ZDATA_end w zdata retval).1.states = w.states := by
  unfold SWOW_COROUTINE_JUMP_WITH_ZDATA_end
  split
  · exact states_set_ACCEPT_ZDATA _ _ _
  · split
    · exact states_of_heapOnly (heapOnly_Z_TRY_DELREF _ _)
    · rfl

theorem not_reset_resume (b : Build) (E : Engine) (hE : E.never_resets) (w : World)
    (c : Cid) (zdata : zval_ptr) (retval : Bool) (w1 : World) (s : Bool) (r : Option zval)
    (h : swow_coroutine_resume b E w c zdata retval = .ok (w1, s, r)) : w.not_reset w1 := by
  unfold swow_coroutine_resume at h
  simp only [bind, Except.bind] at h
  cases h1 : cat_coroutine_resume b E (w.set_ACCEPT_ZDATA w.current true) c zdata with
  | error e => rw [h1] at h; cases h
  | ok r1 =>
    obtain ⟨wa, pa⟩ := r1
    rw [h1] at h
    simp only [pure, Except.pure] at h
    have s1 := not_reset_of_states (states_set_ACCEPT_ZDATA w w.current true)
    have s2 := not_reset_cat_coroutine_resume b E hE _ _ _ _ _ h1
    have s3 := not_reset_of_states (states_JUMP_WITH_ZDATA_end wa pa retval)
    have hw : (SWOW_COROUTINE_JUMP_WITH_ZDATA_end wa pa retval).1 = w1 := by
      injection h with h
      rw [h]
    rw [hw] at s3
    exact not_reset_chain (not_reset_chain s1 s2) s3

theorem states_set_cross_exception (w : World) (c : Cid) (x : Option ObjId) (w1 : World)
    (h : w.set_cross_exception c x = .ok w1) : w1.states = w.states := by
  unfold World.set_cross_exception at h
  split at h
  · cases h
  · cases h; exact states_set_executor _ _ _

theorem not_reset_throw (b : Build) (E : Engine) (hE : E.never_resets) (w : World)
    (c : Cid) (x : ObjId) (retval : Bool) (w1 : World) (s : Bool) (r : Option zval)
    (h : swow_coroutine_throw b E w c x retval = .ok (w1, s, r)) : w.not_reset w1 := by
  unfold swow_coroutine_throw at h
  split at h
  · cases h; exact fun d hd => hd
  · split at h
    · cases h; exact fun d hd => hd
    · split at h
      · cases h; exact fun d hd => hd
      · split at h
        · cases h
          exact not_reset_of_states (states_of_heapOnly
            ((heapOnly_GC_ADDREF w x).andThen (heapOnly_zend_throw_exception_internal _ _)))
        · simp only [bind, Except.bind] at h
          cases h1 : w.set_cross_exception c (some x) with
          | error e => rw [h1] at h; cases h
          | ok wa =>
            rw [h1] at h
            simp only [] at h
            cases h2 : swow_coroutine_resume b E wa c .SWOW_COROUTINE_DATA_NULL retval with
            | error e => rw [h2] at h; cases h
            | ok r2 =>
              obtain ⟨wb, sb, rb⟩ := r2
              rw [h2] at h
              simp only [] at h
              have s1 := not_reset_of_states (states_set_cross_exception _ _ _ _ h1)
              have s2 := not_reset_resume b E hE _ _ _ _ _ _ _ h2
              split at h
              · cases h3 : wb.set_cross_exception c none with
                | error e => rw [h3] at h; cases h
                | ok wc =>
                  rw [h3] at h
                  cases h
                  exact not_reset_chain (not_reset_chain s1 s2)
                    (not_reset_of_states (states_set_cross_exception _ _ _ _ h3))
              · cases h
                exact not_reset_chain s1 s2

theorem kill_install_guard_spec (w : World) (message : Option String) (code : Int)
    (scoroutine : Cid) :
    (swow_coroutine_kill_install_guard (swow_coroutine_kill_exception w message code).1
        scoroutine).2 = w.cat_coroutine_resume
    ∧ (swow_coroutine_kill_install_guard (swow_coroutine_kill_exception w message code).1
        scoroutine).1.cat_coroutine_resume = .swow_coroutine_resume_rated
    ∧ (swow_coroutine_kill_install_guard (swow_coroutine_kill_exception w message code).1
        scoroutine).1.rated_killer = some w.current
    ∧ (swow_coroutine_kill_install_guard (swow_coroutine_kill_exception w message code).1
        scoroutine).1.rated_dead = some scoroutine
    ∧ (swow_coroutine_kill_install_guard (swow_coroutine_kill_exception w message code).1
        scoroutine).1.states = w.states
    ∧ (swow_coroutine_kill_exception w message code).2 = w.next_handle :=
  ⟨rfl, rfl, rfl, rfl, rfl, rfl⟩

theorem kill_guarded_returns (b : Build) (E : Engine) (w : World) (scoroutine : Cid)
    (message : Option String) (code : Int) (retval : zval) (w1 : World) (success : Bool)
    (h : swow_coroutine_kill b true E w scoroutine message code retval = .ok (w1, success)) :
    ∃ w4 r, swow_coroutine_throw b E
          (swow_coroutine_kill_install_guard (swow_coroutine_kill_exception w message code).1
            scoroutine).1 scoroutine (swow_coroutine_kill_exception w message code).2 true
          = .ok (w4, success, r)
      ∧ w1 = World.GC_DELREF
          (cat_coroutine_register_resume w4 w.cat_coroutine_resume).1
          (swow_coroutine_kill_exception w message code).2
      ∧ (b.CAT_DEBUG = true → w4.kill_main = false)
      ∧ (success = true →
          swow_coroutine_is_running w1 scoroutine = false ∧ r.getD retval = .IS_NULL) := by
  unfold swow_coroutine_kill at h
  simp only [Bool.not_true, Bool.false_eq_true, ↓reduceIte, bind, Except.bind] at h
  have hg := (kill_install_guard_spec w message code scoroutine).1
  generalize hw3 : swow_coroutine_kill_install_guard
    (swow_coroutine_kill_exception w message code).1 scoroutine = g3 at h hg ⊢
  obtain ⟨w3, orig⟩ := g3
  simp only [] at h hg ⊢
  subst hg
  cases h1 : swow_coroutine_throw b E w3 scoroutine
      (swow_coroutine_kill_exception w message code).2 true with
  | error e => rw [h1] at h; cases h
  | ok r1 =>
    obtain ⟨w4, s4, r4⟩ := r1
    rw [h1] at h
    simp only [] at h
    cases h2 : CAT_ASSERT b (!w4.kill_main) with
    | error e => rw [h2] at h; cases h
    | ok u =>
      rw [h2] at h
      simp only [] at h
      have hkm : b.CAT_DEBUG = true → w4.kill_main = false := by
        intro hb
        unfold CAT_ASSERT at h2
        cases hk : w4.kill_main with
        | false => rfl
        | true => simp [hb, hk] at h2
      cases s4 with
      | false =>
        simp only [Bool.not_false, ↓reduceIte, pure, Except.pure] at h
        injection h with h
        injection h with ha hb
        subst ha; subst hb
        exact ⟨w4, r4, rfl, rfl, hkm, fun hc => by cases hc⟩
      | true =>
        simp only [Bool.not_true, Bool.false_eq_true, ↓reduceIte] at h
        split at h
        · cases h
        · rename_i hrun
          split at h
          · cases h
          · rename_i hnull
            simp only [pure, Except.pure] at h
            injection h with h
            injection h with ha hb
            subst ha; subst hb
            refine ⟨w4, r4, rfl, rfl, hkm, fun _ => ⟨by simpa using hrun, ?_⟩⟩
            simpa using hnull

theorem ok_of_result {β : Type} (r : Except Halt (World × β)) (x : β)
    (h : result_of r = some x) : ∃ w1, r = .ok (w1, x) := by
  cases r with
  | error e => cases h
  | ok p =>
    obtain ⟨w1, y⟩ := p
    simp only [result_of, Option.some.injEq] at h
    exact ⟨w1, by rw [h]⟩

theorem states_or_flags (w : World) (c : Cid) (m a : Bool) :
    (w.or_flags c m a).states = w.states := by
  funext d
  by_cases hd : d = c <;>
    simp [World.states, World.or_flags, World.set_cat, World.set_coroutine, hd]

theorem states_maybe_handle_exception (w : World) :
    (if w.EG.exception.isSome then swow_coroutine_function_handle_exception w else w).states
      = w.states := by
  split
  · exact states_of_heapOnly (heapOnly_handle_exception w)
  · rfl

theorem states_function_cleanup (w : World) (executor : swow_coroutine_exector_t)
    (retval : zval) : (swow_coroutine_function_cleanup w executor retval).states = w.states := by
  unfold swow_coroutine_function_cleanup
  simp only []
  rw [states_or_flags, states_maybe_handle_exception,
    states_of_heapOnly (heapOnly_Z_TRY_DELREF _ _), states_set_executor,
    states_maybe_handle_exception, states_or_flags, states_store]

theorem states_function_end (b : Build) (w : World) (retval : zval) (w1 : World)
    (p : zval_ptr) (h : swow_coroutine_function_end b w retval = .ok (w1, p)) :
    w1.states = w.states := by
  unfold swow_coroutine_function_end at h
  simp only [] at h
  split at h
  · cases h
  · rename_i executor _
    split at h
    · split at h <;> cases h
    · rename_i previous _
      simp only [bind, Except.bind] at h
      cases h1 : swow_coroutine_executor_switch
          ((swow_coroutine_function_cleanup w executor retval).GC_DELREF_std previous)
          previous with
      | error e => rw [h1] at h; cases h
      | ok w7 =>
        rw [h1] at h
        simp only [] at h
        have s7 : w7.states = w.states := by
          rw [states_executor_switch _ _ _ h1, states_GC_DELREF_std, states_function_cleanup]
        split at h
        · cases h; exact s7
        · rw [states_handle_not_null_zdata _ _ _ _ _ _ _ _ h, states_set_ACCEPT_ZDATA, s7]

theorem jump_switch_not_reset (w : World) (target : Cid) :
    w.not_reset (cat_coroutine_jump_switch w target) := by
  intro c hc
  unfold cat_coroutine_jump_switch at hc
  simp only [World.states] at hc ⊢
  by_cases h1 : c = target
  · subst h1
    simp [World.set_cat, World.set_coroutine] at hc
  · by_cases h2 : c = w.current
    · subst h2
      revert hc
      split <;> simp [World.set_cat, World.set_coroutine, Function.update, h1] <;>
        split <;> simp_all
    · revert hc
      split <;> simp [World.set_cat, World.set_coroutine, Function.update, h1, h2]

theorem finish_switch_not_reset (w : World) (previous : Cid) :
    w.not_reset (cat_coroutine_finish_switch w previous) := by
  unfold cat_coroutine_finish_switch
  refine not_reset_chain ?_ (jump_switch_not_reset _ _)
  intro c hc
  simp only [World.states] at hc ⊢
  by_cases h1 : c = w.current
  · subst h1
    simp [World.set_cat, World.set_coroutine] at hc
  · simpa [World.set_cat, World.set_coroutine, h1] using hc

theorem unwinding_engine_never_resets (b : Build) : (unwinding_engine b).never_resets := by
  intro w target payload w1 r h
  show w.not_reset w1
  simp only [unwinding_engine, bind, Except.bind] at h
  cases h1 : swow_coroutine_jump_post b (cat_coroutine_jump_switch w target) target payload with
  | error e => rw [h1] at h; cases h
  | ok r1 =>
    obtain ⟨w2, p2⟩ := r1
    rw [h1] at h
    simp only [] at h
    cases h2 : swow_coroutine_function_end b w2 .IS_UNDEF with
    | error e => rw [h2] at h; cases h
    | ok r2 =>
      obtain ⟨w3, p3⟩ := r2
      rw [h2] at h
      simp only [] at h
      split at h
      · cases h
      · cases h
        exact not_reset_chain (not_reset_chain (not_reset_chain (jump_switch_not_reset w target)
          (not_reset_of_states (states_jump_post _ _ _ _ _ _ h1)))
          (not_reset_of_states (states_function_end _ _ _ _ _ h2)))
          (finish_switch_not_reset _ _)

theorem dtor_object_loop_ends_not_alive (b : Build) (rated : Bool) (E : Engine)
    (retval : zval) (fuel : Nat) :
    ∀ (w : World) (scoroutine : Cid) (w1 : World),
      swow_coroutine_dtor_object_loop b rated E retval fuel w scoroutine = .ok (some w1) →
      swow_coroutine_is_alive w1 scoroutine = false := by
  induction fuel with
  | zero =>
    intro w scoroutine w1 h
    unfold swow_coroutine_dtor_object_loop at h
    split at h
    · cases h
    · rename_i ha
      cases h
      simpa using ha
  | succ n ih =>
    intro w scoroutine w1 h
    unfold swow_coroutine_dtor_object_loop at h
    split at h
    · simp only [bind, Except.bind] at h
      cases h1 : swow_coroutine_kill b rated E w scoroutine none (-1) retval with
      | error e => rw [h1] at h; cases h
      | ok r1 =>
        obtain ⟨w2, s⟩ := r1
        rw [h1] at h
        simp only [] at h
        cases s with
        | false => simp at h
        | true =>
          simp only [Bool.not_true, Bool.false_eq_true, ↓reduceIte] at h
          exact ih w2 scoroutine w1 h
    · rename_i ha
      cases h
      simpa using ha

/-! ## The readonly latch -/

theorem set_readonly_engaged (g : Globals) (w : World) :
    (swow_coroutine_set_readonly g w true).2.cat_coroutine_resume = .swow_coroutine_resume_deny
    ∧ (swow_coroutine_set_readonly g w true).1.create_object = .swow_create_object_deny
    ∧ (swow_coroutine_set_readonly g w true).1.readonly.original_resume
        = some w.cat_coroutine_resume
    ∧ (swow_coroutine_set_readonly g w true).1.readonly.original_create_object
        = some g.create_object :=
  ⟨rfl, rfl, rfl, rfl⟩

theorem set_readonly_times_engaged_twice (n : Nat) (s : Globals × World) :
    (swow_coroutine_set_readonly_times (n + 2) s).2.cat_coroutine_resume
        = .swow_coroutine_resume_deny
    ∧ (swow_coroutine_set_readonly_times (n + 2) s).1.create_object = .swow_create_object_deny
    ∧ (swow_coroutine_set_readonly_times (n + 2) s).1.readonly.original_resume
        = some .swow_coroutine_resume_deny
    ∧ (swow_coroutine_set_readonly_times (n + 2) s).1.readonly.original_create_object
        = some .swow_create_object_deny := by
  induction n generalizing s with
  | zero => exact ⟨rfl, rfl, rfl, rfl⟩
  | succ n ih =>
    have h := ih (swow_coroutine_set_readonly s.1 s.2 true)
    exact h

/-! ## Raising an exception of a class -/

theorem set_object_previous_fields (w : World) (ex a h : ObjId) :
    ((w.set_object ex { w.objects ex with previous := some a }).objects h).ce
        = (w.objects h).ce
    ∧ ((w.set_object ex { w.objects ex with previous := some a }).objects h).message
        = (w.objects h).message
    ∧ ((w.set_object ex { w.objects ex with previous := some a }).objects h).code
        = (w.objects h).code := by
  by_cases hh : h = ex
  · subst hh; simp [World.set_object]
  · simp [World.set_object, hh]

theorem set_previous_loop_fields (w : World) (a : ObjId) (fuel : Nat) (ex h : ObjId) :
    ((w.set_previous_loop a fuel ex).objects h).ce = (w.objects h).ce
    ∧ ((w.set_previous_loop a fuel ex).objects h).message = (w.objects h).message
    ∧ ((w.set_previous_loop a fuel ex).objects h).code = (w.objects h).code := by
  induction fuel generalizing ex with
  | zero => exact ⟨rfl, rfl, rfl⟩
  | succ n ih =>
    unfold World.set_previous_loop
    split
    · exact ⟨(GC_DELREF_fields w a h).2.2.2, (GC_DELREF_fields w a h).2.1,
        (GC_DELREF_fields w a h).2.2.1⟩
    · split
      · obtain ⟨_, d2, d3, d4⟩ := GC_DELREF_fields
          (w.set_object ex { w.objects ex with previous := some a }) a h
        obtain ⟨s1, s2, s3⟩ := set_object_previous_fields w ex a h
        exact ⟨d4.trans s1, d2.trans s2, d3.trans s3⟩
      · split
        · exact ⟨rfl, rfl, rfl⟩
        · exact ih _

theorem zend_exception_set_previous_fields (w : World) (x : ObjId) (a : Option ObjId)
    (h : ObjId) :
    ((zend_exception_set_previous w x a).objects h).ce = (w.objects h).ce
    ∧ ((zend_exception_set_previous w x a).objects h).message = (w.objects h).message
    ∧ ((zend_exception_set_previous w x a).objects h).code = (w.objects h).code := by
  unfold zend_exception_set_previous
  split
  · exact ⟨rfl, rfl, rfl⟩
  · split
    · rename_i p _
      exact ⟨(GC_DELREF_fields w p h).2.2.2, (GC_DELREF_fields w p h).2.1,
        (GC_DELREF_fields w p h).2.2.1⟩
    · exact set_previous_loop_fields _ _ _ _ _

theorem throw_internal_fields (w : World) (x h : ObjId) :
    ((zend_throw_exception_internal w x).objects h).ce = (w.objects h).ce
    ∧ ((zend_throw_exception_internal w x).objects h).message = (w.objects h).message
    ∧ ((zend_throw_exception_internal w x).objects h).code = (w.objects h).code := by
  cases hp : w.EG.exception with
  | none => rw [(throw_internal_none w x hp).1]; exact ⟨rfl, rfl, rfl⟩
  | some old =>
    rw [(throw_internal_some w x old hp).1]
    exact zend_exception_set_previous_fields w x (some old) h

theorem throw_internal_current (w : World) (x : ObjId) :
    (zend_throw_exception_internal w x).current = w.current
    ∧ (zend_throw_exception_internal w x).main = w.main := by
  unfold zend_throw_exception_internal
  simp only []
  rw [zend_exception_set_previous_frame]
  split
  · exact ⟨rfl, rfl⟩
  · unfold swow_zend_throw_exception_hook
    split <;> exact ⟨rfl, rfl⟩

theorem zend_throw_exception_spec (w : World) (ce : ClassId) (message : Option String)
    (code : Int) :
    (zend_throw_exception w ce message code).2 = w.next_handle
    ∧ (zend_throw_exception w ce message code).1.EG.exception = some w.next_handle
    ∧ ((zend_throw_exception w ce message code).1.objects w.next_handle).ce = ce
    ∧ ((zend_throw_exception w ce message code).1.objects w.next_handle).code = .IS_LONG code
    ∧ ((zend_throw_exception w ce message code).1.objects w.next_handle).message
        = .IS_STRING (message.getD "")
    ∧ (zend_throw_exception w ce message code).1.current = w.current
    ∧ (zend_throw_exception w ce message code).1.main = w.main := by
  unfold zend_throw_exception
  simp only [swow_object_create]
  refine ⟨trivial, throw_internal_raises _ _, ?_, ?_, ?_, (throw_internal_current _ _).1,
    (throw_internal_current _ _).2⟩
  · rw [(throw_internal_fields _ _ _).1]
    simp [World.set_object]
  · rw [(throw_internal_fields _ _ _).2.2]
    by_cases hc : code = 0
    · simp [World.set_object, hc]
    · simp [World.set_object, hc]
  · rw [(throw_internal_fields _ _ _).2.1]
    cases message <;> simp [World.set_object]

theorem Z_TRY_DELREF_fields (w : World) (v : zval) (h : ObjId) :
    ((w.Z_TRY_DELREF v).objects h).ce = (w.objects h).ce
    ∧ ((w.Z_TRY_DELREF v).objects h).message = (w.objects h).message
    ∧ ((w.Z_TRY_DELREF v).objects h).code = (w.objects h).code
    ∧ (w.Z_TRY_DELREF v).EG = w.EG := by
  cases v with
  | IS_OBJECT a =>
    exact ⟨(GC_DELREF_fields w a h).2.2.2, (GC_DELREF_fields w a h).2.1,
      (GC_DELREF_fields w a h).2.2.1, rfl⟩
  | _ => exact ⟨rfl, rfl, rfl, rfl⟩

theorem exit_handler_dtor (op1_type : zend_op_type) (operand : zval)
    (r : World × Int × Option zval) (h : ObjId) :
    (if (op1_type == .IS_TMP_VAR || op1_type == .IS_VAR) = true then
        (r.1.Z_TRY_DELREF operand, r.2) else r).1.EG = r.1.EG
    ∧ ((if (op1_type == .IS_TMP_VAR || op1_type == .IS_VAR) = true then
        (r.1.Z_TRY_DELREF operand, r.2) else r).1.objects h).ce = (r.1.objects h).ce
    ∧ ((if (op1_type == .IS_TMP_VAR || op1_type == .IS_VAR) = true then
        (r.1.Z_TRY_DELREF operand, r.2) else r).1.objects h).message = (r.1.objects h).message
    ∧ ((if (op1_type == .IS_TMP_VAR || op1_type == .IS_VAR) = true then
        (r.1.Z_TRY_DELREF operand, r.2) else r).1.objects h).code = (r.1.objects h).code
    ∧ (if (op1_type == .IS_TMP_VAR || op1_type == .IS_VAR) = true then
        (r.1.Z_TRY_DELREF operand, r.2) else r).2 = r.2 := by
  split
  · obtain ⟨a, b, c, d⟩ := Z_TRY_DELREF_fields r.1 operand h
    exact ⟨d, a, b, c, rfl⟩
  · exact ⟨rfl, rfl, rfl, rfl, rfl⟩

theorem exit_handler_abnormal (term_ce : ClassId) (w : World) (exit_status : Int)
    (op1_type : zend_op_type) (status : Int) (hne : op1_type ≠ .IS_UNUSED)
    (hs : status ≠ 0) :
    swow_coroutine_exit_handler term_ce w exit_status op1_type (.IS_LONG status)
      = (if (op1_type == .IS_TMP_VAR || op1_type == .IS_VAR) = true then
          (((zend_throw_exception w term_ce
              (some ("Exited with code " ++ toString status)) status).1).Z_TRY_DELREF
              (.IS_LONG status),
            (if w.current = w.main then int_of_zend_long status else exit_status), none)
         else
          ((zend_throw_exception w term_ce
              (some ("Exited with code " ++ toString status)) status).1,
            (if w.current = w.main then int_of_zend_long status else exit_status),
            none)) := by
  have h1 : (op1_type != zend_op_type.IS_UNUSED) = true := by simpa using hne
  have h2 : (status != 0) = true := by simpa using hs
  obtain ⟨_, _, _, _, _, hc, hm⟩ := zend_throw_exception_spec w term_ce
    (some ("Exited with code " ++ toString status)) status
  unfold swow_coroutine_exit_handler
  simp only [h1, h2, ↓reduceIte, swow_coroutine_get_current, swow_coroutine_get_main, hc, hm,
    beq_iff_eq]

theorem exit_handler_normal (term_ce : ClassId) (w : World) (exit_status : Int)
    (op1_type : zend_op_type) (operand : zval)
    (h : op1_type = .IS_UNUSED ∨ operand = .IS_LONG 0 ∨ ∀ n, operand ≠ .IS_LONG n) :
    ∃ printed, swow_coroutine_exit_handler term_ce w exit_status op1_type operand
      = (if (op1_type == .IS_TMP_VAR || op1_type == .IS_VAR) = true then
          (((zend_throw_exception w w.swow_coroutine_kill_exception_ce none 0).1
              ).Z_TRY_DELREF operand, exit_status, printed)
         else
          ((zend_throw_exception w w.swow_coroutine_kill_exception_ce none 0).1,
            exit_status, printed)) := by
  unfold swow_coroutine_exit_handler
  by_cases h0 : op1_type = .IS_UNUSED
  · subst h0
    exact ⟨none, by simp⟩
  · have h1 : (op1_type != zend_op_type.IS_UNUSED) = true := by simpa using h0
    rcases h with h | h | h
    · exact absurd h h0
    · subst h
      exact ⟨none, by simp [h1]⟩
    · cases operand with
      | IS_LONG n => exact absurd rfl (h n)
      | IS_UNDEF => exact ⟨some .IS_UNDEF, by simp [h1]⟩
      | IS_NULL => exact ⟨some .IS_NULL, by simp [h1]⟩
      | IS_FALSE => exact ⟨some .IS_FALSE, by simp [h1]⟩
      | IS_TRUE => exact ⟨some .IS_TRUE, by simp [h1]⟩
      | IS_STRING s => exact ⟨some (.IS_STRING s), by simp [h1]⟩
      | IS_OBJECT o => exact ⟨some (.IS_OBJECT o), by simp [h1]⟩
      | IS_PTR p => exact ⟨some (.IS_PTR p), by simp [h1]⟩
      | _IS_ERROR => exact ⟨some ._IS_ERROR, by simp [h1]⟩

/-! ## The error hook -/

theorem error_cb_relay_not_fatal (w : World) (type : Int) (message : String)
    (h : Int.land type E_FATAL_ERRORS = 0) :
    swow_coroutine_error_cb_relay w type message = .ok (w, some (type, message)) := by
  simp [swow_coroutine_error_cb_relay, h, pure, Except.pure]

theorem demoted_type_not_fatal (type : Int) :
    Int.land (if Int.land type E_FATAL_ERRORS != 0 then E_WARNING else type) E_FATAL_ERRORS
      = 0 := by
  split
  · decide
  · rename_i h
    simpa using h

/-! ## Save and recover with every swap option -/

theorem swap_save_fst (o : Swap.Options)
    (act : Swap.zend_output_globals → Swap.zend_output_globals)
    (g : Swap.interpreter_globals) (ctx : Swap.swow_coroutine_exector_t) :
    (Swap.swow_coroutine_executor_save o act g ctx).1
      = { g with
          array_walk_fci :=
            if o.SWOW_COROUTINE_SWAP_BASIC_GLOBALS && g.array_walk_fci.info_size != 0 then
              { info_size := 0, content := 0 } else g.array_walk_fci
          output_globals :=
            if o.SWOW_COROUTINE_SWAP_OUTPUT_GLOBALS
                && g.output_globals.handlers_elements != 0 then
              act g.output_globals else g.output_globals } := by
  cases hA : (o.SWOW_COROUTINE_SWAP_BASIC_GLOBALS && g.array_walk_fci.info_size != 0) <;>
  cases hB : (o.SWOW_COROUTINE_SWAP_OUTPUT_GLOBALS
                && g.output_globals.handlers_elements != 0) <;>
  cases hC : (o.SWOW_COROUTINE_SWAP_SILENCE_CONTEXT
      && ctx.error_reporting_for_silence != Swap.E_SILENCE_MAGIC) <;>
  simp only [Swap.swow_coroutine_executor_save, hA, hB, hC, Bool.false_eq_true, ↓reduceIte]

theorem swap_save_snd (o : Swap.Options)
    (act : Swap.zend_output_globals → Swap.zend_output_globals)
    (g : Swap.interpreter_globals) (ctx : Swap.swow_coroutine_exector_t) :
    (Swap.swow_coroutine_executor_save o act g ctx).2.saved
        = { g.EG with
            vm_stack_page_size :=
              if o.PHP_VERSION_ID_70300 then g.EG.vm_stack_page_size
              else ctx.saved.vm_stack_page_size
            error_handling :=
              if o.SWOW_COROUTINE_SWAP_INTERNAL_CONTEXT then g.EG.error_handling
              else ctx.saved.error_handling }
    ∧ (Swap.swow_coroutine_executor_save o act g ctx).2.array_walk_context
        = (if o.SWOW_COROUTINE_SWAP_BASIC_GLOBALS && g.array_walk_fci.info_size != 0 then
            some g.array_walk_fci else ctx.array_walk_context)
    ∧ (Swap.swow_coroutine_executor_save o act g ctx).2.output_globals
        = (if o.SWOW_COROUTINE_SWAP_OUTPUT_GLOBALS
              && g.output_globals.handlers_elements != 0 then
            some g.output_globals else ctx.output_globals)
    ∧ (Swap.swow_coroutine_executor_save o act g ctx).2.error_reporting_for_silence
        = (if o.SWOW_COROUTINE_SWAP_SILENCE_CONTEXT
              && ctx.error_reporting_for_silence != Swap.E_SILENCE_MAGIC then
            g.error_reporting else ctx.error_reporting_for_silence) := by
  cases hA : (o.SWOW_COROUTINE_SWAP_BASIC_GLOBALS && g.array_walk_fci.info_size != 0) <;>
  cases hB : (o.SWOW_COROUTINE_SWAP_OUTPUT_GLOBALS
                && g.output_globals.handlers_elements != 0) <;>
  cases hC : (o.SWOW_COROUTINE_SWAP_SILENCE_CONTEXT
      && ctx.error_reporting_for_silence != Swap.E_SILENCE_MAGIC) <;>
  simp only [Swap.swow_coroutine_executor_save, hA, hB, hC, Bool.false_eq_true, ↓reduceIte,
    and_self]

theorem swap_recover_fst (o : Swap.Options) (g : Swap.interpreter_globals)
    (e : Swap.swow_coroutine_exector_t) :
    (Swap.swow_coroutine_executor_recover o g e).1.EG
        = { e.saved with
            vm_stack_page_size :=
              if o.PHP_VERSION_ID_70300 then e.saved.vm_stack_page_size
              else g.EG.vm_stack_page_size
            error_handling :=
              if o.SWOW_COROUTINE_SWAP_INTERNAL_CONTEXT then e.saved.error_handling
              else g.EG.error_handling }
    ∧ (Swap.swow_coroutine_executor_recover o g e).1.error_reporting
        = (if o.SWOW_COROUTINE_SWAP_SILENCE_CONTEXT
              && e.error_reporting_for_silence != Swap.E_SILENCE_MAGIC then
            e.error_reporting_for_silence else g.error_reporting)
    ∧ (Swap.swow_coroutine_executor_recover o g e).1.array_walk_fci
        = (if o.SWOW_COROUTINE_SWAP_BASIC_GLOBALS then
            match e.array_walk_context with
            | some fcall => if fcall.info_size != 0 then fcall else g.array_walk_fci
            | none => g.array_walk_fci
          else g.array_walk_fci)
    ∧ (Swap.swow_coroutine_executor_recover o g e).1.output_globals
        = (if o.SWOW_COROUTINE_SWAP_OUTPUT_GLOBALS then
            match e.output_globals with
            | some og => if og.handlers_elements != 0 then og else g.output_globals
            | none => g.output_globals
          else g.output_globals) := by
  have key : ∀ (cw co : Bool) (wf : Option Swap.swow_fcall_t)
      (og : Option Swap.zend_output_globals),
      e.array_walk_context = wf → e.output_globals = og →
      (match wf with | some f => f.info_size != 0 | none => false) = cw →
      (match og with | some f => f.handlers_elements != 0 | none => false) = co →
      (Swap.swow_coroutine_executor_recover o g e).1
        = { EG := { e.saved with
              vm_stack_page_size :=
                if o.PHP_VERSION_ID_70300 then e.saved.vm_stack_page_size
                else g.EG.vm_stack_page_size
              error_handling :=
                if o.SWOW_COROUTINE_SWAP_INTERNAL_CONTEXT then e.saved.error_handling
                else g.EG.error_handling }
            error_reporting :=
              if o.SWOW_COROUTINE_SWAP_SILENCE_CONTEXT
                  && e.error_reporting_for_silence != Swap.E_SILENCE_MAGIC then
                e.error_reporting_for_silence else g.error_reporting
            array_walk_fci :=
              if o.SWOW_COROUTINE_SWAP_BASIC_GLOBALS && cw then wf.getD g.array_walk_fci
              else g.array_walk_fci
            output_globals :=
              if o.SWOW_COROUTINE_SWAP_OUTPUT_GLOBALS && co then og.getD g.output_globals
              else g.output_globals } := by
    intro cw co wf og hw ho hcw hco
    cases hC : (o.SWOW_COROUTINE_SWAP_SILENCE_CONTEXT
        && e.error_reporting_for_silence != Swap.E_SILENCE_MAGIC) <;>
    cases hA : o.SWOW_COROUTINE_SWAP_BASIC_GLOBALS <;>
    cases hB : o.SWOW_COROUTINE_SWAP_OUTPUT_GLOBALS <;>
    cases wf <;> cases og <;> cases cw <;> cases co <;>
    simp only [Bool.false_eq_true, reduceCtorEq] at hcw hco <;>
    simp only [Swap.swow_coroutine_executor_recover, hA, hB, hC, hw, ho, hcw, hco,
      Bool.false_eq_true, ↓reduceIte, Bool.and_true, Bool.and_false, Bool.true_and,
      Bool.false_and, Option.getD_some, Option.getD_none]
  have h := key _ _ _ _ rfl rfl rfl rfl
  rw [h]
  refine ⟨rfl, rfl, ?_, ?_⟩
  · cases o.SWOW_COROUTINE_SWAP_BASIC_GLOBALS <;> cases e.array_walk_context <;>
      simp
  · cases o.SWOW_COROUTINE_SWAP_OUTPUT_GLOBALS <;> cases e.output_globals <;>
      simp

theorem swap_recover_snd (o : Swap.Options) (g : Swap.interpreter_globals)
    (e : Swap.swow_coroutine_exector_t) :
    (o.SWOW_COROUTINE_SWAP_BASIC_GLOBALS = true →
      ∀ f, (Swap.swow_coroutine_executor_recover o g e).2.array_walk_context = some f →
        f.info_size = 0)
    ∧ (o.SWOW_COROUTINE_SWAP_OUTPUT_GLOBALS = true →
      ∀ og, (Swap.swow_coroutine_executor_recover o g e).2.output_globals = some og →
        og.handlers_elements = 0) := by
  have key : ∀ (cw co : Bool) (wf : Option Swap.swow_fcall_t)
      (og : Option Swap.zend_output_globals),
      e.array_walk_context = wf → e.output_globals = og →
      (match wf with | some f => f.info_size != 0 | none => false) = cw →
      (match og with | some f => f.handlers_elements != 0 | none => false) = co →
      (Swap.swow_coroutine_executor_recover o g e).2.array_walk_context
          = (if o.SWOW_COROUTINE_SWAP_BASIC_GLOBALS && cw then
              wf.map (fun f => { f with info_size := 0 }) else wf)
      ∧ (Swap.swow_coroutine_executor_recover o g e).2.output_globals
          = (if o.SWOW_COROUTINE_SWAP_OUTPUT_GLOBALS && co then
              og.map (fun f => { f with handlers_elements := 0 }) else og) := by
    intro cw co wf og hw ho hcw hco
    cases hC : (o.SWOW_COROUTINE_SWAP_SILENCE_CONTEXT
        && e.error_reporting_for_silence != Swap.E_SILENCE_MAGIC) <;>
    cases hA : o.SWOW_COROUTINE_SWAP_BASIC_GLOBALS <;>
    cases hB : o.SWOW_COROUTINE_SWAP_OUTPUT_GLOBALS <;>
    cases wf <;> cases og <;> cases cw <;> cases co <;>
    simp only [Bool.false_eq_true, reduceCtorEq] at hcw hco <;>
    simp only [Swap.swow_coroutine_executor_recover, hA, hB, hC, hw, ho, hcw, hco,
      Bool.false_eq_true, ↓reduceIte, Bool.and_true, Bool.and_false, Bool.true_and,
      Bool.false_and, Option.map_some', Option.map_none', and_self]
  obtain ⟨h1, h2⟩ := key _ _ _ _ rfl rfl rfl rfl
  refine ⟨fun hb f hf => ?_, fun hb og hf => ?_⟩
  · rw [h1, hb] at hf
    cases hw : e.array_walk_context with
    | none => simp [hw] at hf
    | some f0 =>
      by_cases hs : f0.info_size = 0
      · simp [hw, hs] at hf
        rw [← hf]; exact hs
      · simp [hw, hs] at hf
        rw [← hf]
  · rw [h2, hb] at hf
    cases hw : e.output_globals with
    | none => simp [hw] at hf
    | some f0 =>
      by_cases hs : f0.handlers_elements = 0
      · simp [hw, hs] at hf
        rw [← hf]; exact hs
      · simp [hw, hs] at hf
        rw [← hf]

theorem swap_round_trip (o : Swap.Options)
    (act : Swap.zend_output_globals → Swap.zend_output_globals)
    (g : Swap.interpreter_globals) (ctx : Swap.swow_coroutine_exector_t) :
    (Swap.swow_coroutine_executor_recover o (Swap.swow_coroutine_executor_save o act g ctx).1
        (Swap.swow_coroutine_executor_save o act g ctx).2).1.EG = g.EG
    ∧ (Swap.swow_coroutine_executor_recover o (Swap.swow_coroutine_executor_save o act g ctx).1
        (Swap.swow_coroutine_executor_save o act g ctx).2).1.error_reporting
        = g.error_reporting
    ∧ (Swap.swow_coroutine_executor_recover o (Swap.swow_coroutine_executor_save o act g ctx).1
        (Swap.swow_coroutine_executor_save o act g ctx).2).1.array_walk_fci
        = (if o.SWOW_COROUTINE_SWAP_BASIC_GLOBALS && g.array_walk_fci.info_size == 0 then
            match ctx.array_walk_context with
            | some f => if f.info_size != 0 then f else g.array_walk_fci
            | none => g.array_walk_fci
          else g.array_walk_fci)
    ∧ (Swap.swow_coroutine_executor_recover o (Swap.swow_coroutine_executor_save o act g ctx).1
        (Swap.swow_coroutine_executor_save o act g ctx).2).1.output_globals
        = (if o.SWOW_COROUTINE_SWAP_OUTPUT_GLOBALS
              && g.output_globals.handlers_elements == 0 then
            match ctx.output_globals with
            | some f => if f.handlers_elements != 0 then f else g.output_globals
            | none => g.output_globals
          else g.output_globals) := by
  obtain ⟨r1, r2, r3, r4⟩ := swap_recover_fst o
    (Swap.swow_coroutine_executor_save o act g ctx).1
    (Swap.swow_coroutine_executor_save o act g ctx).2
  obtain ⟨s1, s2, s3, s4⟩ := swap_save_snd o act g ctx
  have s0 := swap_save_fst o act g ctx
  rw [r1, r2, r3, r4, s1, s2, s3, s4, s0]
  refine ⟨?_, ?_, ?_, ?_⟩
  · cases o.PHP_VERSION_ID_70300 <;> cases o.SWOW_COROUTINE_SWAP_INTERNAL_CONTEXT <;> rfl
  · cases o.SWOW_COROUTINE_SWAP_SILENCE_CONTEXT
    · simp
    · by_cases h1 : ctx.error_reporting_for_silence = Swap.E_SILENCE_MAGIC
      · simp [h1]
      · by_cases h2 : g.error_reporting = Swap.E_SILENCE_MAGIC
        · simp [h1, h2]
        · simp [h1, h2]
  · cases o.SWOW_COROUTINE_SWAP_BASIC_GLOBALS
    · simp
    · by_cases h1 : g.array_walk_fci.info_size = 0
      · simp [h1]
      · simp [h1]
  · cases o.SWOW_COROUTINE_SWAP_OUTPUT_GLOBALS
    · simp
    · by_cases h1 : g.output_globals.handlers_elements = 0
      · simp [h1]
      · simp [h1]

/-! ## Links and reference counts across a switch -/

theorem LinkFrame.rfl_link (w : World) : LinkFrame w w :=
  ⟨rfl, rfl, rfl, rfl, fun _ => rfl, fun _ => rfl, fun _ => rfl, fun _ => rfl, fun _ => rfl⟩

theorem LinkFrame.link_then {w w1 w2 : World} (f : LinkFrame w w1) (g : LinkFrame w1 w2) :
    LinkFrame w w2 :=
  ⟨g.current.trans f.current, g.main.trans f.main, g.map.trans f.map,
    g.dispatcher.trans f.dispatcher, fun c => (g.previous c).trans (f.previous c),
    fun c => (g.from_ c).trans (f.from_ c), fun c => (g.id c).trans (f.id c),
    fun c => (g.state c).trans (f.state c), fun c => (g.present c).trans (f.present c)⟩

theorem linkFrame_of_eq {w w1 : World} (hc : w1.coroutines = w.coroutines)
    (hcur : w1.current = w.current) (hmain : w1.main = w.main) (hmap : w1.map = w.map)
    (hd : w1.cat_coroutine_resume = w.cat_coroutine_resume) :
    LinkFrame w w1 ∧ w1.refcounts = w.refcounts := by
  refine ⟨⟨hcur, hmain, hmap, hd, fun c => ?_, fun c => ?_, fun c => ?_, fun c => ?_,
    fun c => ?_⟩, ?_⟩
  all_goals first
    | rw [hc]
    | (unfold World.refcounts; rw [hc])

theorem linkFrame_of_heapOnly {w w1 : World} (h : HeapOnly w w1) :
    LinkFrame w w1 ∧ w1.refcounts = w.refcounts := by
  refine ⟨⟨h.current, h.main_eq, h.map, h.cat_coroutine_resume, fun c => ?_, fun c => ?_,
    fun c => ?_, fun c => ?_, fun c => ?_⟩, ?_⟩
  all_goals first
    | rw [h.coroutines]
    | (unfold World.refcounts; rw [h.coroutines])

theorem linkFrame_set_executor (w : World) (c : Cid) (e : swow_coroutine_exector_t)
    (h : (w.coroutines c).executor.isSome = true) :
    LinkFrame w (w.set_executor c (some e))
    ∧ (w.set_executor c (some e)).refcounts = w.refcounts := by
  refine ⟨⟨rfl, rfl, rfl, rfl, fun d => ?_, fun d => ?_, fun d => ?_, fun d => ?_,
    fun d => ?_⟩, ?_⟩
  · by_cases hd : d = c <;> simp [World.set_executor, World.set_coroutine, hd]
  · by_cases hd : d = c <;> simp [World.set_executor, World.set_coroutine, hd]
  · by_cases hd : d = c <;> simp [World.set_executor, World.set_coroutine, hd]
  · by_cases hd : d = c <;> simp [World.set_executor, World.set_coroutine, hd]
  · by_cases hd : d = c
    · subst hd; simp [World.set_executor, World.set_coroutine, h]
    · simp [World.set_executor, World.set_coroutine, hd]
  · funext d
    by_cases hd : d = c <;> simp [World.refcounts, World.set_executor, World.set_coroutine, hd]

theorem linkFrame_set_ACCEPT_ZDATA (w : World) (c : Cid) (v : Bool) :
    LinkFrame w (w.set_ACCEPT_ZDATA c v)
    ∧ (w.set_ACCEPT_ZDATA c v).refcounts = w.refcounts := by
  refine ⟨⟨rfl, rfl, rfl, rfl, fun d => ?_, fun d => ?_, fun d => ?_, fun d => ?_,
    fun d => ?_⟩, ?_⟩
  all_goals first
    | (by_cases hd : d = c <;>
        simp [World.set_ACCEPT_ZDATA, World.set_cat, World.set_coroutine, hd])
    | (funext d
       by_cases hd : d = c <;>
        simp [World.refcounts, World.set_ACCEPT_ZDATA, World.set_cat, World.set_coroutine, hd])

theorem linkFrame_or_flags (w : World) (c : Cid) (x y : Bool) :
    LinkFrame w (w.or_flags c x y) ∧ (w.or_flags c x y).refcounts = w.refcounts := by
  refine ⟨⟨rfl, rfl, rfl, rfl, fun d => ?_, fun d => ?_, fun d => ?_, fun d => ?_,
    fun d => ?_⟩, ?_⟩
  all_goals first
    | (by_cases hd : d = c <;>
        simp [World.or_flags, World.set_cat, World.set_coroutine, hd])
    | (funext d
       by_cases hd : d = c <;>
        simp [World.refcounts, World.or_flags, World.set_cat, World.set_coroutine, hd])

theorem linkFrame_store (w : World) (p : zval_ptr) (v : zval) :
    LinkFrame w (w.store p v) ∧ (w.store p v).refcounts = w.refcounts := by
  cases p with
  | executor_zdata c =>
    simp only [World.store]
    split
    · rename_i e he
      exact linkFrame_set_executor w c _ (by rw [he]; rfl)
    · exact ⟨LinkFrame.rfl_link w, rfl⟩
  | _ => exact linkFrame_of_eq rfl rfl rfl rfl rfl

theorem linkFrame_chain {w w1 w2 : World}
    (f : LinkFrame w w1 ∧ w1.refcounts = w.refcounts)
    (g : LinkFrame w1 w2 ∧ w2.refcounts = w1.refcounts) :
    LinkFrame w w2 ∧ w2.refcounts = w.refcounts :=
  ⟨f.1.link_then g.1, g.2.trans f.2⟩

theorem linkFrame_executor_save (w : World) (c : Cid) (w1 : World)
    (h : swow_coroutine_executor_save w c = .ok w1) :
    LinkFrame w w1 ∧ w1.refcounts = w.refcounts ∧ w1.EG = w.EG := by
  unfold swow_coroutine_executor_save at h
  split at h
  · cases h
  · rename_i e he
    cases h
    have := linkFrame_set_executor w c { e with saved := w.EG } (by rw [he]; rfl)
    exact ⟨this.1, this.2, rfl⟩

theorem linkFrame_executor_recover (w : World) (c : Cid) (w1 : World)
    (h : swow_coroutine_executor_recover w c = .ok w1) :
    LinkFrame w w1 ∧ w1.refcounts = w.refcounts := by
  unfold swow_coroutine_executor_recover at h
  split at h
  · cases h
  · cases h; exact linkFrame_of_eq rfl rfl rfl rfl rfl

theorem linkFrame_executor_switch (w : World) (c : Cid) (w1 : World)
    (h : swow_coroutine_executor_switch w c = .ok w1) :
    LinkFrame w w1 ∧ w1.refcounts = w.refcounts := by
  unfold swow_coroutine_executor_switch at h
  cases h1 : swow_coroutine_executor_save w (swow_coroutine_get_current w) with
  | error e => rw [h1] at h; cases h
  | ok w2 =>
    rw [h1] at h
    have a := linkFrame_executor_save w _ w2 h1
    exact linkFrame_chain ⟨a.1, a.2.1⟩ (linkFrame_executor_recover w2 c w1 h)

theorem linkFrame_jump_switch_executor (w : World) (c : Cid) (w1 : World)
    (h : swow_coroutine_jump_switch_executor w c = .ok w1) :
    LinkFrame w w1 ∧ w1.refcounts = w.refcounts := by
  unfold swow_coroutine_jump_switch_executor at h
  simp only [] at h
  split at h
  · cases h1 : swow_coroutine_executor_save w (swow_coroutine_get_current w) with
    | error e => rw [h1] at h; cases h
    | ok w2 =>
      rw [h1] at h
      cases h
      have a := linkFrame_executor_save w _ w2 h1
      exact ⟨⟨a.1.current, a.1.main, a.1.map, a.1.dispatcher, a.1.previous, a.1.from_, a.1.id,
        a.1.state, a.1.present⟩, a.2.1⟩
  · split at h
    · exact linkFrame_executor_recover _ _ _ h
    · exact linkFrame_executor_switch _ _ _ h

theorem linkFrame_handle_not_null_zdata (b : Build) (w : World) (s r : Cid) (zdata : zval_ptr)
    (handle_ref : Bool) (w1 : World) (p : zval_ptr)
    (h : swow_coroutine_handle_not_null_zdata b w s r zdata handle_ref = .ok (w1, p)) :
    LinkFrame w w1 ∧ w1.refcounts = w.refcounts := by
  unfold swow_coroutine_handle_not_null_zdata at h
  split at h
  · split at h
    · cases h
    · cases h; exact ⟨LinkFrame.rfl_link w, rfl⟩
  · split at h
    · cases h2 : CAT_ASSERT b (!(w.deref zdata).is_ptr) with
      | error e => rw [h2] at h; cases h
      | ok u =>
        rw [h2] at h
        cases h
        split
        · exact linkFrame_of_heapOnly (heapOnly_Z_TRY_DELREF _ _)
        · exact ⟨LinkFrame.rfl_link w, rfl⟩
    · cases h2 : CAT_ASSERT b ((w.coroutines r).executor.isSome) with
      | error e => rw [h2] at h; cases h
      | ok u =>
        rw [h2] at h
        simp only [bind, Except.bind] at h
        split at h
        · cases h; exact ⟨LinkFrame.rfl_link w, rfl⟩
        · split at h
          · split at h
            · cases h
            · cases h
              split
              · exact linkFrame_chain (linkFrame_store _ _ _)
                  (linkFrame_of_heapOnly (heapOnly_Z_TRY_ADDREF _ _))
              · exact linkFrame_store _ _ _
          · split at h
            · cases h; exact linkFrame_of_heapOnly (heapOnly_Z_TRY_ADDREF _ _)
            · split at h
              · cases h
              · cases h; exact linkFrame_store _ _ _

theorem linkFrame_GC_ADDREF_std (w : World) (c : Cid) :
    LinkFrame w (w.GC_ADDREF_std c)
    ∧ (w.GC_ADDREF_std c).refcounts = Function.update w.refcounts c (w.refcounts c + 1) := by
  refine ⟨⟨rfl, rfl, rfl, rfl, fun d => ?_, fun d => ?_, fun d => ?_, fun d => ?_,
    fun d => ?_⟩, ?_⟩
  all_goals first
    | (by_cases hd : d = c <;> simp [World.GC_ADDREF_std, World.set_coroutine, hd])
    | (funext d
       by_cases hd : d = c
       · subst hd; simp [World.refcounts, World.GC_ADDREF_std, World.set_coroutine]
       · simp [World.refcounts, World.GC_ADDREF_std, World.set_coroutine, hd])

theorem linkFrame_GC_DELREF_std (w : World) (c : Cid) :
    LinkFrame w (w.GC_DELREF_std c)
    ∧ (w.GC_DELREF_std c).refcounts = Function.update w.refcounts c (w.refcounts c - 1) := by
  refine ⟨⟨rfl, rfl, rfl, rfl, fun d => ?_, fun d => ?_, fun d => ?_, fun d => ?_,
    fun d => ?_⟩, ?_⟩
  all_goals first
    | (by_cases hd : d = c <;> simp [World.GC_DELREF_std, World.set_coroutine, hd])
    | (funext d
       by_cases hd : d = c
       · subst hd; simp [World.refcounts, World.GC_DELREF_std, World.set_coroutine]
       · simp [World.refcounts, World.GC_DELREF_std, World.set_coroutine, hd])

/-- The reference counts after the block "solve origin's refcount" of a jump
of the current coroutine of `w` to `c`. -/
theorem jump_solve_refcount_ledger (b : Build) (w : World) (c : Cid) (w1 : World)
    (h : swow_coroutine_jump_solve_refcount b w c = .ok w1) :
    LinkFrame w w1
    ∧ w1.refcounts
        = (if swow_coroutine_get_previous w w.current = some c then
            Function.update w.refcounts c (w.refcounts c - 1)
          else Function.update w.refcounts w.current (w.refcounts w.current + 1)) := by
  unfold swow_coroutine_jump_solve_refcount at h
  simp only [swow_coroutine_get_current] at h
  by_cases hy : swow_coroutine_get_previous w w.current = some c
  · simp only [hy, beq_self_eq_true, ↓reduceIte, pure, Except.pure] at h
    cases h
    rw [if_pos hy]
    exact linkFrame_GC_DELREF_std w c
  · have hy2 : (swow_coroutine_get_previous w w.current == some c) = false := by
      simpa using hy
    simp only [hy2, Bool.false_eq_true, ↓reduceIte] at h
    cases h2 : CAT_ASSERT b (swow_coroutine_get_previous w c).isNone with
    | error e => rw [h2] at h; cases h
    | ok u =>
      rw [h2] at h
      cases h
      rw [if_neg hy]
      exact linkFrame_GC_ADDREF_std w w.current

theorem jump_pre_ledger (b : Build) (w : World) (c : Cid) (zdata : zval_ptr) (w1 : World)
    (p : zval_ptr) (h : swow_coroutine_jump_pre b w c zdata = .ok (w1, p)) :
    LinkFrame w w1
    ∧ w1.refcounts
        = (if swow_coroutine_get_previous w w.current = some c then
            Function.update w.refcounts c (w.refcounts c - 1)
          else Function.update w.refcounts w.current (w.refcounts w.current + 1)) := by
  unfold swow_coroutine_jump_pre at h
  cases h1 : swow_coroutine_jump_solve_refcount b w c with
  | error e => rw [h1] at h; cases h
  | ok wa =>
    rw [h1] at h
    simp only [bind, Except.bind] at h
    cases h2 : swow_coroutine_jump_switch_executor wa c with
    | error e => rw [h2] at h; cases h
    | ok wb =>
      rw [h2] at h
      simp only [] at h
      obtain ⟨f1, r1⟩ := jump_solve_refcount_ledger b w c wa h1
      obtain ⟨f2, r2⟩ := linkFrame_jump_switch_executor wa c wb h2
      split at h
      · obtain ⟨f3, r3⟩ := linkFrame_handle_not_null_zdata _ _ _ _ _ _ _ _ h
        exact ⟨(f1.link_then f2).link_then f3, by rw [r3, r2, r1]⟩
      · cases h
        exact ⟨f1.link_then f2, by rw [r2, r1]⟩

/-! ### Errors of the bookkeeping are not switches -/

theorem not_switched_CAT_ASSERT (b : Build) (c : Bool) (e : Halt)
    (h : CAT_ASSERT b c = .error e) : e.is_switched = false := by
  unfold CAT_ASSERT at h
  split at h
  · cases h; rfl
  · cases h

theorem not_switched_executor_save (w : World) (c : Cid) (e : Halt)
    (h : swow_coroutine_executor_save w c = .error e) : e.is_switched = false := by
  unfold swow_coroutine_executor_save at h
  split at h
  · cases h; rfl
  · cases h

theorem not_switched_executor_recover (w : World) (c : Cid) (e : Halt)
    (h : swow_coroutine_executor_recover w c = .error e) : e.is_switched = false := by
  unfold swow_coroutine_executor_recover at h
  split at h
  · cases h; rfl
  · cases h

theorem not_switched_executor_switch (w : World) (c : Cid) (e : Halt)
    (h : swow_coroutine_executor_switch w c = .error e) : e.is_switched = false := by
  unfold swow_coroutine_executor_switch at h
  cases h1 : swow_coroutine_executor_save w (swow_coroutine_get_current w) with
  | error e1 =>
    rw [h1] at h
    cases h
    exact not_switched_executor_save _ _ _ h1
  | ok w2 =>
    rw [h1] at h
    exact not_switched_executor_recover _ _ _ h

theorem not_switched_jump_solve_refcount (b : Build) (w : World) (c : Cid) (e : Halt)
    (h : swow_coroutine_jump_solve_refcount b w c = .error e) : e.is_switched = false := by
  unfold swow_coroutine_jump_solve_refcount at h
  simp only [] at h
  split at h
  · cases h
  · cases h2 : CAT_ASSERT b (swow_coroutine_get_previous w c).isNone with
    | error e1 =>
      rw [h2] at h
      cases h
      exact not_switched_CAT_ASSERT _ _ _ h2
    | ok u => rw [h2] at h; cases h

theorem not_switched_jump_switch_executor (w : World) (c : Cid) (e : Halt)
    (h : swow_coroutine_jump_switch_executor w c = .error e) : e.is_switched = false := by
  unfold swow_coroutine_jump_switch_executor at h
  simp only [] at h
  split at h
  · cases h1 : swow_coroutine_executor_save w (swow_coroutine_get_current w) with
    | error e1 =>
      rw [h1] at h
      cases h
      exact not_switched_executor_save _ _ _ h1
    | ok w2 => rw [h1] at h; cases h
  · split at h
    · exact not_switched_executor_recover _ _ _ h
    · exact not_switched_executor_switch _ _ _ h

theorem not_switched_handle_not_null_zdata (b : Build) (w : World) (s r : Cid)
    (zdata : zval_ptr) (handle_ref : Bool) (e : Halt)
    (h : swow_coroutine_handle_not_null_zdata b w s r zdata handle_ref = .error e) :
    e.is_switched = false := by
  unfold swow_coroutine_handle_not_null_zdata at h
  split at h
  · split at h
    · cases h; rfl
    · cases h
  · split at h
    · cases h2 : CAT_ASSERT b (!(w.deref zdata).is_ptr) with
      | error e1 =>
        rw [h2] at h
        cases h
        exact not_switched_CAT_ASSERT _ _ _ h2
      | ok u => rw [h2] at h; cases h
    · cases h2 : CAT_ASSERT b ((w.coroutines r).executor.isSome) with
      | error e1 =>
        rw [h2] at h
        cases h
        exact not_switched_CAT_ASSERT _ _ _ h2
      | ok u =>
        rw [h2] at h
        simp only [bind, Except.bind] at h
        split at h
        · cases h
        · split at h
          · split at h
            · cases h; rfl
            · cases h
          · split at h
            · cases h
            · split at h
              · cases h; rfl
              · cases h

theorem not_switched_jump_pre (b : Build) (w : World) (c : Cid) (zdata : zval_ptr) (e : Halt)
    (h : swow_coroutine_jump_pre b w c zdata = .error e) : e.is_switched = false := by
  unfold swow_coroutine_jump_pre at h
  cases h1 : swow_coroutine_jump_solve_refcount b w c with
  | error e1 =>
    rw [h1] at h
    cases h
    exact not_switched_jump_solve_refcount _ _ _ _ h1
  | ok wa =>
    rw [h1] at h
    simp only [bind, Except.bind] at h
    cases h2 : swow_coroutine_jump_switch_executor wa c with
    | error e1 =>
      rw [h2] at h
      cases h
      exact not_switched_jump_switch_executor _ _ _ h2
    | ok wb =>
      rw [h2] at h
      simp only [] at h
      split at h
      · exact not_switched_handle_not_null_zdata _ _ _ _ _ _ _ h
      · cases h

theorem set_cat_refcount (w : World) (c : Cid) (k : cat_coroutine_t) (d : Cid) :
    ((w.set_cat c k).coroutines d).std_refcount = (w.coroutines d).std_refcount := by
  by_cases h : d = c
  · subst h; simp [World.set_cat, World.set_coroutine]
  · simp [World.set_cat, World.set_coroutine, h]

/-- What the switch of the engine leaves alone. -/
theorem jump_switch_ledger (w : World) (target : Cid) :
    (cat_coroutine_jump_switch w target).current = target
    ∧ (cat_coroutine_jump_switch w target).main = w.main
    ∧ (cat_coroutine_jump_switch w target).map = w.map
    ∧ (cat_coroutine_jump_switch w target).cat_coroutine_resume = w.cat_coroutine_resume
    ∧ (∀ c, ((cat_coroutine_jump_switch w target).coroutines c).executor
              = (w.coroutines c).executor)
    ∧ (cat_coroutine_jump_switch w target).refcounts = w.refcounts
    ∧ (∀ c, ((cat_coroutine_jump_switch w target).coroutines c).coroutine.id
              = (w.coroutines c).coroutine.id) := by
  refine ⟨?_, ?_, ?_, ?_, fun c => ?_, ?_, fun c => ?_⟩
  · unfold cat_coroutine_jump_switch; simp only []; split <;> rfl
  · unfold cat_coroutine_jump_switch; simp only []; split <;> rfl
  · unfold cat_coroutine_jump_switch; simp only []; split <;> rfl
  · unfold cat_coroutine_jump_switch; simp only []; split <;> rfl
  · unfold cat_coroutine_jump_switch
    simp only []
    split <;> simp only [set_cat_executor]
  · funext c
    unfold cat_coroutine_jump_switch World.refcounts
    simp only []
    split <;> simp only [set_cat_refcount]
  · unfold cat_coroutine_jump_switch
    simp only []
    by_cases h1 : c = target <;> by_cases h2 : c = w.current <;>
      split <;> simp_all [World.set_cat, World.set_coroutine, Function.update]

theorem finish_switch_ledger (w : World) (previous : Cid) :
    (cat_coroutine_finish_switch w previous).current = previous
    ∧ (cat_coroutine_finish_switch w previous).main = w.main
    ∧ (cat_coroutine_finish_switch w previous).map = w.map
    ∧ (cat_coroutine_finish_switch w previous).cat_coroutine_resume = w.cat_coroutine_resume
    ∧ (∀ c, ((cat_coroutine_finish_switch w previous).coroutines c).executor
              = (w.coroutines c).executor)
    ∧ (cat_coroutine_finish_switch w previous).refcounts = w.refcounts
    ∧ (∀ c, ((cat_coroutine_finish_switch w previous).coroutines c).coroutine.id
              = (w.coroutines c).coroutine.id) := by
  unfold cat_coroutine_finish_switch
  obtain ⟨s1, s2, s3, s4, s5, s6, s7⟩ := jump_switch_ledger
    (w.set_cat w.current { (w.coroutines w.current).coroutine with state := .DEAD }) previous
  refine ⟨s1, s2, s3, s4, fun c => ?_, ?_, fun c => ?_⟩
  · rw [s5, set_cat_executor]
  · rw [s6]
    funext c
    exact set_cat_refcount _ _ _ _
  · rw [s7]
    by_cases h : c = w.current <;> simp [World.set_cat, World.set_coroutine, h]

/-- A release that returns found a context and left none. -/
theorem close_ledger (b : Build) (w : World) (c : Cid) (w1 : World)
    (h : swow_coroutine_close b w c = .ok w1) :
    (w.coroutines c).executor.isSome = true
    ∧ (w1.coroutines c).executor = none
    ∧ (∀ d, d ≠ c → (w1.coroutines d).executor = (w.coroutines d).executor)
    ∧ (∀ d, (w1.coroutines d).coroutine = (w.coroutines d).coroutine)
    ∧ w1.refcounts = w.refcounts
    ∧ w1.current = w.current ∧ w1.main = w.main ∧ w1.map = w.map
    ∧ w1.cat_coroutine_resume = w.cat_coroutine_resume := by
  cases he : (w.coroutines c).executor with
  | none =>
    unfold swow_coroutine_close at h
    rw [he] at h
    simp only [] at h
    split at h <;> cases h
  | some closed =>
    obtain ⟨w0, hh, _, hclose⟩ := coroutine_close_ok b w c closed he
    rw [hclose] at h
    cases h
    have hco : ∀ d, w0.coroutines d = w.coroutines d := fun d => by rw [hh.coroutines]
    refine ⟨rfl, ?_, fun d hd => ?_, fun d => ?_, ?_, hh.current, hh.main_eq, hh.map,
      hh.cat_coroutine_resume⟩
    · simp [World.set_executor, World.set_coroutine]
    · simp [World.set_executor, World.set_coroutine, hd, hco]
    · by_cases hd : d = c
      · subst hd; simp [World.set_executor, World.set_coroutine, hco]
      · simp [World.set_executor, World.set_coroutine, hd, hco]
    · funext d
      by_cases hd : d = c
      · subst hd; simp [World.refcounts, World.set_executor, World.set_coroutine, hco]
      · simp [World.refcounts, World.set_executor, World.set_coroutine, hd, hco]

theorem not_switched_close (b : Build) (w : World) (c : Cid) (e : Halt)
    (h : swow_coroutine_close b w c = .error e) : e.is_switched = false := by
  unfold swow_coroutine_close at h
  split at h
  · split at h <;> cases h <;> rfl
  · cases h

/-- The second half of `swow_coroutine_jump` releases the context of the
coroutine control came from when that one is DEAD, and no context
otherwise; it leaves the primitive records and the reference counts
alone. -/
theorem jump_post_ledger (b : Build) (w : World) (c : Cid) (zdata : zval_ptr) (w1 : World)
    (z1 : zval_ptr) (h : swow_coroutine_jump_post b w c zdata = .ok (w1, z1)) :
    z1 = zdata ∧ w1.current = w.current ∧ w1.main = w.main
    ∧ w1.cat_coroutine_resume = w.cat_coroutine_resume
    ∧ (∀ d, (w1.coroutines d).coroutine = (w.coroutines d).coroutine)
    ∧ (∀ f, swow_coroutine_get_from w c = some f →
        w1.refcounts = (if (w.coroutines f).coroutine.state = .DEAD then
            w.refcounts_released (w.coroutines f).coroutine.id
          else w.refcounts))
    ∧ ((∃ f, swow_coroutine_get_from w c = some f
          ∧ (w.coroutines f).coroutine.state = .DEAD
          ∧ (w.coroutines f).executor.isSome = true
          ∧ (w1.coroutines f).executor = none
          ∧ (∀ d, d ≠ f → (w1.coroutines d).executor.isSome
                = (w.coroutines d).executor.isSome)
          ∧ w1.map = zend_hash_index_del w.map (w.coroutines f).coroutine.id)
      ∨ (∃ f, swow_coroutine_get_from w c = some f
          ∧ (w.coroutines f).coroutine.state ≠ .DEAD
          ∧ (∀ d, (w1.coroutines d).executor.isSome = (w.coroutines d).executor.isSome)
          ∧ w1.map = w.map)) := by
  unfold swow_coroutine_jump_post at h
  split at h
  · cases h
  · rename_i f hf
    split at h
    · rename_i hdead
      cases h1 : swow_coroutine_close b w f with
      | error e => rw [h1] at h; cases h
      | ok wa =>
        rw [h1] at h
        cases h
        obtain ⟨c1, c2, c3, c4, c5, c6, c7, c8, c9⟩ := close_ledger b w f wa h1
        obtain ⟨d1, d2, d3, d4, d5, d6, d7⟩ :=
          hash_del_fields wa (wa.coroutines f).coroutine.id
        have hst : (w.coroutines f).coroutine.state = .DEAD := by simpa using hdead
        refine ⟨rfl, d2.trans c6, d3.trans c7, d4.trans c9,
          fun d => (d5 d).trans (c4 d), fun f2 hf2 => ?_,
          Or.inl ⟨f, hf, hst, c1, by rw [d6]; exact c2,
            fun d hd => by rw [d6, c3 d hd], ?_⟩⟩
        · rw [hf] at hf2
          cases hf2
          rw [if_pos hst, d7]
          unfold World.refcounts_released
          rw [c8, c5, c4]
        · rw [d1, c8, c4]
    · rename_i hdead
      have hnd : (w.coroutines f).coroutine.state ≠ .DEAD := by simpa using hdead
      split at h
      · split at h <;> cases h
      · rename_i executor he
        split at h
        · rename_i x hx
          cases h
          have a := linkFrame_of_heapOnly (heapOnly_handle_cross_exception w x)
          have hp : ((swow_coroutine_handle_cross_exception w x).coroutines c
              ).executor.isSome = true := by
            rw [a.1.present, he]; rfl
          have a2 := linkFrame_set_executor (swow_coroutine_handle_cross_exception w x) c
            { executor with cross_exception := none } hp
          have hh := heapOnly_handle_cross_exception w x
          refine ⟨rfl, a2.1.current.trans a.1.current, a2.1.main.trans a.1.main,
            a2.1.dispatcher.trans a.1.dispatcher, fun d => ?_,
            fun f2 hf2 => by
              rw [hf] at hf2
              cases hf2
              rw [if_neg hnd]
              exact a2.2.trans a.2,
            Or.inr ⟨f, hf, hnd, fun d => (a2.1.present d).trans (a.1.present d),
              a2.1.map.trans a.1.map⟩⟩
          by_cases hd : d = c
          · subst hd
            simp [World.set_executor, World.set_coroutine, hh.coroutines]
          · simp [World.set_executor, World.set_coroutine, hd, hh.coroutines]
        · cases h
          exact ⟨rfl, rfl, rfl, rfl, fun _ => rfl,
            fun f2 hf2 => by
              rw [hf] at hf2
              cases hf2
              rw [if_neg hnd],
            Or.inr ⟨f, hf, hnd, fun _ => rfl, rfl⟩⟩

theorem linkFrame_JUMP_WITH_ZDATA_end (w : World) (zdata : zval_ptr) (retval : Bool) :
    LinkFrame w (SWOW_COROUTINE_JUMP_WITH_ZDATA_end w zdata retval).1
    ∧ (SWOW_COROUTINE_JUMP_WITH_ZDATA_end w zdata retval).1.refcounts = w.refcounts := by
  unfold SWOW_COROUTINE_JUMP_WITH_ZDATA_end
  split
  · exact linkFrame_set_ACCEPT_ZDATA _ _ _
  · split
    · exact linkFrame_of_heapOnly (heapOnly_Z_TRY_DELREF _ _)
    · exact ⟨LinkFrame.rfl_link w, rfl⟩

/-- The first half of the trampoline enters the current coroutine in the
registry under its identifier, an element that was there under that
identifier being released, and adds one reference to the current
coroutine. -/
theorem function_begin_ledger (w : World) (zdata : zval_ptr) (w1 : World)
    (params : List zval) (h : swow_coroutine_function_begin w zdata = .ok (w1, params)) :
    w1.current = w.current ∧ w1.main = w.main
    ∧ w1.cat_coroutine_resume = w.cat_coroutine_resume
    ∧ (∀ d, (w1.coroutines d).coroutine = (w.coroutines d).coroutine)
    ∧ (∀ d, (w1.coroutines d).executor = (w.coroutines d).executor)
    ∧ w1.refcounts = Function.update
        (w.refcounts_released (w.coroutines w.current).coroutine.id) w.current
        (w.refcounts_released (w.coroutines w.current).coroutine.id w.current + 1)
    ∧ w1.map = zend_hash_index_update w.map (w.coroutines w.current).coroutine.id w.current := by
  have reg : ∀ w2, w2 = swow_coroutine_function_register w →
      w2.current = w.current ∧ w2.main = w.main
      ∧ w2.cat_coroutine_resume = w.cat_coroutine_resume
      ∧ (∀ d, (w2.coroutines d).coroutine = (w.coroutines d).coroutine)
      ∧ (∀ d, (w2.coroutines d).executor = (w.coroutines d).executor)
      ∧ w2.refcounts = Function.update
          (w.refcounts_released (w.coroutines w.current).coroutine.id) w.current
          (w.refcounts_released (w.coroutines w.current).coroutine.id w.current + 1)
      ∧ w2.map = zend_hash_index_update w.map (w.coroutines w.current).coroutine.id
          w.current := by
    intro w2 hw2
    subst hw2
    obtain ⟨u1, u2, u3, u4, u5, u6, u7⟩ :=
      hash_update_fields w (w.coroutines w.current).coroutine.id w.current
    obtain ⟨g, gr⟩ := linkFrame_GC_ADDREF_std
      (w.zend_hash_index_update (w.coroutines w.current).coroutine.id w.current) w.current
    have hreg : swow_coroutine_function_register w
        = (w.zend_hash_index_update (w.coroutines w.current).coroutine.id
            w.current).GC_ADDREF_std w.current := rfl
    rw [hreg]
    refine ⟨g.current.trans u2, g.main.trans u3, g.dispatcher.trans u4, fun d => ?_,
      fun d => ?_, ?_, g.map.trans u1⟩
    · rw [← u5 d]
      by_cases hd : d = w.current
      · subst hd; simp [World.GC_ADDREF_std, World.set_coroutine]
      · simp [World.GC_ADDREF_std, World.set_coroutine, hd]
    · rw [← u6 d]
      by_cases hd : d = w.current
      · subst hd; simp [World.GC_ADDREF_std, World.set_coroutine]
      · simp [World.GC_ADDREF_std, World.set_coroutine, hd]
    · rw [gr, u7]
  obtain ⟨r1, r2, r3, r4, r5, r6, r7⟩ := reg _ rfl
  unfold swow_coroutine_function_begin at h
  simp only [swow_coroutine_get_current, pure, Except.pure] at h
  split at h
  · cases h
  · split at h
    · cases h
      exact ⟨r1, r2, r3, r4, r5, r6, r7⟩
    · split at h
      · cases h
        exact ⟨r1, r2, r3, r4, r5, r6, r7⟩
      · cases h
        have hh := heapOnly_Z_TRY_DELREF (swow_coroutine_function_register w)
          ((swow_coroutine_function_register w).deref zdata)
        refine ⟨hh.current.trans r1, hh.main_eq.trans r2, hh.cat_coroutine_resume.trans r3,
          fun d => by rw [hh.coroutines]; exact r4 d,
          fun d => by rw [hh.coroutines]; exact r5 d, ?_, hh.map.trans r7⟩
        rw [← r6]
        unfold World.refcounts
        rw [hh.coroutines]

theorem not_switched_function_begin (w : World) (zdata : zval_ptr) (e : Halt)
    (h : swow_coroutine_function_begin w zdata = .error e) : e.is_switched = false := by
  unfold swow_coroutine_function_begin at h
  simp only [swow_coroutine_get_current, pure, Except.pure] at h
  split at h
  · cases h; rfl
  · split at h
    · cases h
    · split at h <;> cases h

theorem not_switched_jump_post (b : Build) (w : World) (c : Cid) (zdata : zval_ptr) (e : Halt)
    (h : swow_coroutine_jump_post b w c zdata = .error e) : e.is_switched = false := by
  unfold swow_coroutine_jump_post at h
  split at h
  · cases h; rfl
  · rename_i f hf
    split at h
    · cases h1 : swow_coroutine_close b w f with
      | error e1 =>
        rw [h1] at h
        cases h
        exact not_switched_close _ _ _ _ h1
      | ok wa => rw [h1] at h; cases h
    · split at h
      · split at h <;> cases h <;> rfl
      · split at h <;> cases h

theorem linkFrame_maybe_handle_exception (w : World) :
    LinkFrame w
      (if w.EG.exception.isSome then swow_coroutine_function_handle_exception w else w)
    ∧ (if w.EG.exception.isSome then swow_coroutine_function_handle_exception w
        else w).refcounts = w.refcounts := by
  split
  · exact linkFrame_of_heapOnly (heapOnly_handle_exception w)
  · exact ⟨LinkFrame.rfl_link w, rfl⟩

theorem linkFrame_clear_zcallable (w : World) (c : Cid) :
    LinkFrame w (w.set_executor c
      ((w.coroutines c).executor.map (fun e => { e with zcallable := .IS_NULL })))
    ∧ (w.set_executor c
      ((w.coroutines c).executor.map (fun e => { e with zcallable := .IS_NULL }))).refcounts
        = w.refcounts := by
  refine ⟨⟨rfl, rfl, rfl, rfl, fun d => ?_, fun d => ?_, fun d => ?_, fun d => ?_,
    fun d => ?_⟩, ?_⟩
  · by_cases hd : d = c <;> simp [World.set_executor, World.set_coroutine, hd]
  · by_cases hd : d = c <;> simp [World.set_executor, World.set_coroutine, hd]
  · by_cases hd : d = c <;> simp [World.set_executor, World.set_coroutine, hd]
  · by_cases hd : d = c <;> simp [World.set_executor, World.set_coroutine, hd]
  · by_cases hd : d = c
    · subst hd; simp [World.set_executor, World.set_coroutine]
    · simp [World.set_executor, World.set_coroutine, hd]
  · funext d
    by_cases hd : d = c <;> simp [World.refcounts, World.set_executor, World.set_coroutine, hd]

theorem linkFrame_function_cleanup (w : World) (executor : swow_coroutine_exector_t)
    (retval : zval) :
    LinkFrame w (swow_coroutine_function_cleanup w executor retval)
    ∧ (swow_coroutine_function_cleanup w executor retval).refcounts = w.refcounts := by
  unfold swow_coroutine_function_cleanup
  simp only [swow_coroutine_get_current]
  exact linkFrame_chain (linkFrame_chain (linkFrame_chain (linkFrame_chain (linkFrame_chain
    (linkFrame_chain (linkFrame_store _ _ _) (linkFrame_or_flags _ _ _ _))
    (linkFrame_maybe_handle_exception _)) (linkFrame_clear_zcallable _ _))
    (linkFrame_of_heapOnly (heapOnly_Z_TRY_DELREF _ _)))
    (linkFrame_maybe_handle_exception _)) (linkFrame_or_flags _ _ _ _)

/-- The second half of the trampoline removes one reference from `previous`
of the finishing coroutine and leaves the other counts alone. -/
theorem function_end_ledger (b : Build) (w : World) (retval : zval) (w1 : World)
    (p : zval_ptr) (h : swow_coroutine_function_end b w retval = .ok (w1, p)) :
    ∃ previous, swow_coroutine_get_previous w w.current = some previous
      ∧ LinkFrame w w1
      ∧ w1.refcounts = Function.update w.refcounts previous (w.refcounts previous - 1) := by
  unfold swow_coroutine_function_end at h
  simp only [swow_coroutine_get_current] at h
  split at h
  · cases h
  · rename_i executor _
    obtain ⟨f5, r5⟩ := linkFrame_function_cleanup w executor retval
    split at h
    · split at h <;> cases h
    · rename_i previous hprev
      simp only [bind, Except.bind] at h
      cases h1 : swow_coroutine_executor_switch
          ((swow_coroutine_function_cleanup w executor retval).GC_DELREF_std previous)
          previous with
      | error e => rw [h1] at h; cases h
      | ok w7 =>
        rw [h1] at h
        simp only [] at h
        obtain ⟨f6, r6⟩ := linkFrame_GC_DELREF_std
          (swow_coroutine_function_cleanup w executor retval) previous
        obtain ⟨f7, r7⟩ := linkFrame_executor_switch _ _ _ h1
        have hp : swow_coroutine_get_previous w w.current = some previous := by
          unfold swow_coroutine_get_previous at hprev ⊢
          rw [f5.previous] at hprev
          exact hprev
        have r : w7.refcounts
            = Function.update w.refcounts previous (w.refcounts previous - 1) := by
          rw [r7, r6, r5]
        refine ⟨previous, hp, ?_⟩
        split at h
        · cases h
          exact ⟨(f5.link_then f6).link_then f7, r⟩
        · obtain ⟨f8, r8⟩ := linkFrame_set_ACCEPT_ZDATA w7 w.current true
          obtain ⟨f9, r9⟩ := linkFrame_handle_not_null_zdata _ _ _ _ _ _ _ _ h
          exact ⟨(((f5.link_then f6).link_then f7).link_then f8).link_then f9,
            by rw [r9, r8, r]⟩

theorem not_switched_function_end (b : Build) (w : World) (retval : zval) (e : Halt)
    (h : swow_coroutine_function_end b w retval = .error e) : e.is_switched = false := by
  unfold swow_coroutine_function_end at h
  simp only [swow_coroutine_get_current] at h
  split at h
  · cases h; rfl
  · rename_i executor _
    split at h
    · split at h <;> cases h <;> rfl
    · rename_i previous hprev
      simp only [bind, Except.bind] at h
      cases h1 : swow_coroutine_executor_switch
          ((swow_coroutine_function_cleanup w executor retval).GC_DELREF_std previous)
          previous with
      | error e1 =>
        rw [h1] at h
        cases h
        exact not_switched_executor_switch _ _ _ h1
      | ok w7 =>
        rw [h1] at h
        simp only [] at h
        split at h
        · cases h
        · exact not_switched_handle_not_null_zdata _ _ _ _ _ _ _ h

/-! ### Resume and yield against an engine that leaves at the switch -/

theorem jump_switching (b : Build) (precheck : World → Cid → zval_ptr → Option LastError)
    (w : World) (c : Cid) (zdata : zval_ptr) :
    (∀ w1 z1, swow_coroutine_jump b (Engine.switching precheck) w c zdata ≠ .ok (w1, z1))
    ∧ (∀ w1 t z1, swow_coroutine_jump b (Engine.switching precheck) w c zdata
          = .error (.switched w1 t z1) →
        t = c ∧ swow_coroutine_jump_pre b w c zdata = .ok (w1, z1)) := by
  unfold swow_coroutine_jump
  cases h1 : swow_coroutine_jump_pre b w c zdata with
  | error e =>
    simp only [bind, Except.bind]
    refine ⟨fun w1 z1 h => (by cases h), fun w1 t z1 h => ?_⟩
    have := not_switched_jump_pre b w c zdata e h1
    cases h
    simp [Halt.is_switched] at this
  | ok r =>
    obtain ⟨wa, za⟩ := r
    simp only [bind, Except.bind, Engine.switching]
    refine ⟨fun w1 z1 h => (by cases h), fun w1 t z1 h => ?_⟩
    cases h
    exact ⟨rfl, rfl⟩

/-- What a call through the dispatcher can come to, with an engine that
leaves at the switch: it returns the error sentinel with at most the last
error changed, or it is left at the switch towards the coroutine asked for,
after the first half of `swow_coroutine_jump`. -/
theorem cat_coroutine_resume_switching (b : Build)
    (precheck : World → Cid → zval_ptr → Option LastError) (w : World) (c : Cid)
    (zdata : zval_ptr) :
    (∀ w1 z1, cat_coroutine_resume b (Engine.switching precheck) w c zdata = .ok (w1, z1) →
        z1 = .SWOW_COROUTINE_DATA_ERROR ∧ ∃ err, w1 = { w with last_error := some err })
    ∧ (∀ w1 t z1, cat_coroutine_resume b (Engine.switching precheck) w c zdata
          = .error (.switched w1 t z1) →
        t = c ∧ swow_coroutine_jump_pre b w c zdata = .ok (w1, z1)) := by
  obtain ⟨j1, j2⟩ := jump_switching b precheck w c zdata
  have std : (∀ w1 z1, swow_coroutine_resume_standard b (Engine.switching precheck) w c zdata
        = .ok (w1, z1) →
        z1 = .SWOW_COROUTINE_DATA_ERROR ∧ ∃ err, w1 = { w with last_error := some err })
      ∧ (∀ w1 t z1, swow_coroutine_resume_standard b (Engine.switching precheck) w c zdata
          = .error (.switched w1 t z1) →
        t = c ∧ swow_coroutine_jump_pre b w c zdata = .ok (w1, z1)) := by
    unfold swow_coroutine_resume_standard swow_coroutine_jump_precheck
    cases hchk : (w.coroutines c).coroutine.opcodes.CHECKED with
    | true =>
      simp only [Bool.not_true, Bool.false_eq_true, ↓reduceIte]
      exact ⟨fun w1 z1 h => absurd h (j1 w1 z1), j2⟩
    | false =>
      simp only [Bool.not_false, ↓reduceIte]
      cases hp : (Engine.switching precheck).cat_coroutine_jump_precheck w c zdata with
      | none =>
        simp only []
        exact ⟨fun w1 z1 h => absurd h (j1 w1 z1), j2⟩
      | some err =>
        simp only [pure, Except.pure]
        refine ⟨fun w1 z1 h => ?_, fun w1 t z1 h => by cases h⟩
        cases h
        exact ⟨rfl, err, rfl⟩
  unfold cat_coroutine_resume
  split
  · exact std
  · exact ⟨fun w1 z1 h => (by cases h), fun w1 t z1 h => by cases h⟩
  · unfold swow_coroutine_resume_rated
    simp only []
    split
    · exact ⟨fun w1 z1 h => (by cases h), fun w1 t z1 h => by cases h⟩
    · exact std

theorem linkFrame_set_last_error (w : World) (err : Option LastError) :
    LinkFrame w { w with last_error := err }
    ∧ ({ w with last_error := err } : World).refcounts = w.refcounts :=
  linkFrame_of_eq rfl rfl rfl rfl rfl

/-- The reference counts at the switch of a `swow_coroutine_resume`: one
reference more on the current coroutine, or, when the target is `previous`
of the current coroutine, one less on the target. -/
theorem resume_switching_ledger (b : Build)
    (precheck : World → Cid → zval_ptr → Option LastError) (w : World) (c : Cid)
    (zdata : zval_ptr) (retval : Bool) :
    (∀ w1 s res, swow_coroutine_resume b (Engine.switching precheck) w c zdata retval
          = .ok (w1, s, res) →
        LinkFrame w w1 ∧ w1.refcounts = w.refcounts)
    ∧ (∀ w1 t z1, swow_coroutine_resume b (Engine.switching precheck) w c zdata retval
          = .error (.switched w1 t z1) →
        t = c ∧ LinkFrame w w1
        ∧ w1.refcounts
            = (if swow_coroutine_get_previous w w.current = some c then
                Function.update w.refcounts c (w.refcounts c - 1)
              else Function.update w.refcounts w.current (w.refcounts w.current + 1))) := by
  obtain ⟨fa, ra⟩ := linkFrame_set_ACCEPT_ZDATA w w.current true
  obtain ⟨c1, c2⟩ := cat_coroutine_resume_switching b precheck
    (w.set_ACCEPT_ZDATA w.current true) c zdata
  unfold swow_coroutine_resume
  simp only [bind, Except.bind]
  cases hr : cat_coroutine_resume b (Engine.switching precheck)
      (w.set_ACCEPT_ZDATA w.current true) c zdata with
  | error e =>
    simp only []
    refine ⟨fun w1 s res h => (by cases h), fun w1 t z1 h => ?_⟩
    cases h
    obtain ⟨ht, hj⟩ := c2 w1 t z1 hr
    obtain ⟨fj, rj⟩ := jump_pre_ledger b _ c zdata w1 z1 hj
    refine ⟨ht, fa.link_then fj, ?_⟩
    rw [rj, ra]
    have hp : swow_coroutine_get_previous (w.set_ACCEPT_ZDATA w.current true)
        (w.set_ACCEPT_ZDATA w.current true).current
        = swow_coroutine_get_previous w w.current := by
      unfold swow_coroutine_get_previous
      rw [fa.current, fa.previous]
    rw [hp, fa.current]
  | ok r =>
    obtain ⟨wa, za⟩ := r
    simp only [pure, Except.pure]
    refine ⟨fun w1 s res h => ?_, fun w1 t z1 h => by cases h⟩
    obtain ⟨_, err, hw⟩ := c1 wa za hr
    have hw1 : w1 = (SWOW_COROUTINE_JUMP_WITH_ZDATA_end wa za retval).1 := by
      injection h with h
      rw [h]
    rw [hw1]
    have f2 := linkFrame_set_last_error (w.set_ACCEPT_ZDATA w.current true) (some err)
    rw [← hw] at f2
    exact linkFrame_chain (linkFrame_chain ⟨fa, ra⟩ f2)
      (linkFrame_JUMP_WITH_ZDATA_end wa za retval)

/-- The reference counts at the switch of a `swow_coroutine_yield`: one
reference less on `previous` of the current coroutine, which is the
target. -/
theorem yield_switching_ledger (b : Build)
    (precheck : World → Cid → zval_ptr → Option LastError) (w : World)
    (zdata : zval_ptr) (retval : Bool) :
    (∀ w1 s res, swow_coroutine_yield b (Engine.switching precheck) w zdata retval
          = .ok (w1, s, res) →
        LinkFrame w w1 ∧ w1.refcounts = w.refcounts)
    ∧ (∀ w1 t z1, swow_coroutine_yield b (Engine.switching precheck) w zdata retval
          = .error (.switched w1 t z1) →
        swow_coroutine_get_previous w w.current = some t ∧ LinkFrame w w1
        ∧ w1.refcounts = Function.update w.refcounts t (w.refcounts t - 1)) := by
  obtain ⟨fa, ra⟩ := linkFrame_set_ACCEPT_ZDATA w w.current true
  have hp : swow_coroutine_get_previous (w.set_ACCEPT_ZDATA w.current true)
      (swow_coroutine_get_current (w.set_ACCEPT_ZDATA w.current true))
      = swow_coroutine_get_previous w w.current := by
    unfold swow_coroutine_get_previous swow_coroutine_get_current
    rw [fa.current, fa.previous]
  cases hprev : swow_coroutine_get_previous w w.current with
  | none =>
    have hy : swow_coroutine_yield b (Engine.switching precheck) w zdata retval
        = .ok (SWOW_COROUTINE_JUMP_WITH_ZDATA_end
            { (w.set_ACCEPT_ZDATA w.current true) with last_error := some .nowhere_to_go }
            .SWOW_COROUTINE_DATA_ERROR retval) := by
      simp only [swow_coroutine_yield, cat_coroutine_yield, hp, hprev]
      rfl
    rw [hy]
    refine ⟨fun w1 s res h => ?_, fun w1 t z1 h => by cases h⟩
    have hw1 : w1 = (SWOW_COROUTINE_JUMP_WITH_ZDATA_end
        { (w.set_ACCEPT_ZDATA w.current true) with last_error := some .nowhere_to_go }
        .SWOW_COROUTINE_DATA_ERROR retval).1 := by
      injection h with h
      rw [h]
    rw [hw1]
    exact linkFrame_chain (linkFrame_chain ⟨fa, ra⟩ (linkFrame_set_last_error _ _))
      (linkFrame_JUMP_WITH_ZDATA_end _ _ retval)
  | some prev =>
    have hy : swow_coroutine_yield b (Engine.switching precheck) w zdata retval
        = swow_coroutine_resume b (Engine.switching precheck) w prev zdata retval := by
      simp only [swow_coroutine_yield, swow_coroutine_resume, cat_coroutine_yield, hp, hprev]
    rw [hy]
    obtain ⟨r1, r2⟩ := resume_switching_ledger b precheck w prev zdata retval
    refine ⟨r1, fun w1 t z1 h => ?_⟩
    obtain ⟨ht, f, r⟩ := r2 w1 t z1 h
    subst ht
    rw [if_pos hprev] at r
    exact ⟨rfl, f, r⟩

/-! ### The machine -/

theorem registry_ok_of_links {w w1 : World} (hm : w1.map = w.map)
    (hid : ∀ c, (w1.coroutines c).coroutine.id = (w.coroutines c).coroutine.id)
    (h : w.registry_ok) : w1.registry_ok := by
  refine ⟨fun id c hf => ?_, fun c d hcd => ?_⟩
  · rw [hm] at hf
    rw [hid]
    exact h.1 id c hf
  · rw [hid, hid] at hcd
    exact h.2 c d hcd

theorem registry_ok_of_linkFrame {w w1 : World} (f : LinkFrame w w1) (h : w.registry_ok) :
    w1.registry_ok :=
  registry_ok_of_links f.map f.id h

theorem registry_ok_update {w w1 : World} (c : Cid)
    (hm : w1.map = zend_hash_index_update w.map (w.coroutines c).coroutine.id c)
    (hid : ∀ d, (w1.coroutines d).coroutine.id = (w.coroutines d).coroutine.id)
    (h : w.registry_ok) : w1.registry_ok := by
  refine ⟨fun id x hf => ?_, fun x d hxd => ?_⟩
  · rw [hm] at hf
    by_cases hj : id = (w.coroutines c).coroutine.id
    · subst hj
      rw [hash_find_update_same] at hf
      have hx : c = x := Option.some.inj hf
      subst hx
      exact hid c
    · rw [hash_find_update_other _ _ _ _ hj] at hf
      rw [hid]
      exact h.1 id x hf
  · rw [hid, hid] at hxd
    exact h.2 x d hxd

theorem registry_ok_del {w w1 : World} (key : Nat)
    (hm : w1.map = zend_hash_index_del w.map key)
    (hid : ∀ d, (w1.coroutines d).coroutine.id = (w.coroutines d).coroutine.id)
    (h : w.registry_ok) : w1.registry_ok := by
  refine ⟨fun id x hf => ?_, fun x d hxd => ?_⟩
  · rw [hm] at hf
    by_cases hj : id = key
    · subst hj
      rw [hash_find_del_same] at hf
      cases hf
    · rw [hash_find_del_other _ _ _ hj] at hf
      rw [hid]
      exact h.1 id x hf
  · rw [hid, hid] at hxd
    exact h.2 x d hxd

/-- With the registry in order, the release of the element under the
identifier of `f` changes the count of no coroutine but `f`. -/
theorem released_other (w : World) (h : w.registry_ok) (f d : Cid) (hd : d ≠ f) :
    w.refcounts_released (w.coroutines f).coroutine.id d = w.refcounts d := by
  unfold World.refcounts_released
  cases hfind : zend_hash_index_find w.map (w.coroutines f).coroutine.id with
  | none => rfl
  | some old =>
    have : old = f := h.2 old f (h.1 _ _ hfind)
    subst this
    simp only []
    exact Function.update_noteq hd _ _

/-- What an arrival leaves alone: the entry callables, where the coroutines
stand, the links and the states; it releases contexts at most, it keeps the
registry in order, and it changes the reference count of the coroutine that
arrives, at its first run, and of the coroutine that control comes from, when
that one is DEAD, at most. -/
theorem arrive_ledger (b : Build) (m : Machine) (w : World) (payload : zval_ptr)
    (m1 : Machine) (h : Machine.arrive b m w payload = .ok m1) :
    m1.entry = m.entry ∧ m1.pending = m.pending ∧ m1.world.current = w.current
    ∧ (∀ d, (m1.world.coroutines d).coroutine.previous = (w.coroutines d).coroutine.previous)
    ∧ (∀ d, (m1.world.coroutines d).executor.isSome = true →
            (w.coroutines d).executor.isSome = true)
    ∧ (w.registry_ok → m1.world.registry_ok)
    ∧ (w.registry_ok → ∀ d, d ≠ w.current →
        (∀ f, swow_coroutine_get_from w w.current = some f →
          (w.coroutines f).coroutine.state = .DEAD → d ≠ f) →
        m1.world.refcounts d = w.refcounts d)
    ∧ (∀ k, m.pending w.current = .in_jump k → w.registry_ok → ∀ d,
        (∀ f, swow_coroutine_get_from w w.current = some f →
          (w.coroutines f).coroutine.state = .DEAD → d ≠ f) →
        m1.world.refcounts d = w.refcounts d)
    ∧ (∀ d, (m1.world.coroutines d).coroutine.state = (w.coroutines d).coroutine.state) := by
  cases hp : m.pending w.current with
  | not_started =>
    rw [arrive_not_started b m w payload hp] at h
    cases hb : swow_coroutine_function_begin w payload with
    | error e => rw [hb] at h; cases h
    | ok r =>
      obtain ⟨w1, params⟩ := r
      rw [hb] at h
      simp only [Except.bind] at h
      cases h
      obtain ⟨b1, _, _, b4, b5, b6, b7⟩ := function_begin_ledger w payload w1 params hb
      refine ⟨rfl, rfl, b1, fun d => by rw [b4], fun d hd => ?_, fun hok => ?_,
        fun hok d hd _ => ?_, fun k hk => (by cases hk), fun d => by rw [b4]⟩
      · show (w.coroutines d).executor.isSome = true
        rw [← b5]; exact hd
      · exact registry_ok_update w.current b7 (fun d => by rw [b4]) hok
      · show w1.refcounts d = w.refcounts d
        rw [b6, Function.update_noteq hd]
        exact released_other w hok w.current d hd
  | in_jump k =>
    rw [arrive_in_jump b m w payload k hp] at h
    cases hj : swow_coroutine_jump_post b w w.current payload with
    | error e => rw [hj] at h; cases h
    | ok r =>
      obtain ⟨w1, z1⟩ := r
      rw [hj] at h
      simp only [Except.bind] at h
      cases h
      obtain ⟨_, j2, _, _, j5, j6, j7⟩ := jump_post_ledger b w w.current payload w1 z1 hj
      obtain ⟨fe, re⟩ := linkFrame_JUMP_WITH_ZDATA_end w1 z1 true
      have hpres : ∀ d, (w1.coroutines d).executor.isSome = true →
          (w.coroutines d).executor.isSome = true := by
        intro d hd
        rcases j7 with ⟨f, _, _, hf, hnone, hothers, _⟩ | ⟨f, _, _, hsame, _⟩
        · by_cases hdf : d = f
          · subst hdf; exact hf
          · rw [← hothers d hdf]; exact hd
        · rw [← hsame]; exact hd
      have hcount : w.registry_ok → ∀ d,
          (∀ f, swow_coroutine_get_from w w.current = some f →
            (w.coroutines f).coroutine.state = .DEAD → d ≠ f) →
          (SWOW_COROUTINE_JUMP_WITH_ZDATA_end w1 z1 true).1.refcounts d = w.refcounts d := by
        intro hok d hd
        rw [re]
        rcases j7 with ⟨f, hf, hdead, _⟩ | ⟨f, hf, hnd, _⟩
        · rw [j6 f hf, if_pos hdead]
          exact released_other w hok f d (hd f hf hdead)
        · rw [j6 f hf, if_neg hnd]
      have hreg : w.registry_ok → w1.registry_ok := by
        intro hok
        rcases j7 with ⟨f, _, _, _, _, _, hmap⟩ | ⟨f, _, _, _, hmap⟩
        · exact registry_ok_del _ hmap (fun d => by rw [j5]) hok
        · exact registry_ok_of_links hmap (fun d => by rw [j5]) hok
      refine ⟨rfl, rfl, fe.current.trans j2, fun d => ?_, fun d hd => ?_, fun hok => ?_,
        fun hok d _ hd => hcount hok d hd, fun _ _ hok d hd => hcount hok d hd, fun d => ?_⟩
      · show ((SWOW_COROUTINE_JUMP_WITH_ZDATA_end w1 z1 true).1.coroutines d
            ).coroutine.previous = _
        rw [fe.previous, j5]
      · apply hpres
        rw [← fe.present]
        exact hd
      · exact registry_ok_of_linkFrame fe (hreg hok)
      · show ((SWOW_COROUTINE_JUMP_WITH_ZDATA_end w1 z1 true).1.coroutines d
            ).coroutine.state = _
        rw [fe.state, j5]
  | finished =>
    unfold Machine.arrive at h
    rw [hp] at h
    cases h

theorem after_call_error (b : Build) (m : Machine) (k : Bool → zval → Code) (e : Halt)
    (he : e.is_switched = false) : m.after_call b k (.error e) = .error e := by
  cases e with
  | switched w t p => simp [Halt.is_switched] at he
  | _ => rfl

/-- A trichotomy for the results of functions that may be left at the
switch. -/
theorem result_cases {α : Type} (r : Except Halt α) :
    (∃ x, r = .ok x) ∨ (∃ w t p, r = .error (.switched w t p))
      ∨ (∃ e, r = .error e ∧ e.is_switched = false) := by
  cases r with
  | ok x => exact Or.inl ⟨x, rfl⟩
  | error e =>
    cases e with
    | switched w t p => exact Or.inr (Or.inl ⟨w, t, p, rfl⟩)
    | core_error s => exact Or.inr (Or.inr ⟨_, rfl, rfl⟩)
    | assertion => exact Or.inr (Or.inr ⟨_, rfl, rfl⟩)
    | null_dereference => exact Or.inr (Or.inr ⟨_, rfl, rfl⟩)

/-- No step of the machine gives a context to a coroutine that has none. -/
theorem step_keeps_released (b : Build)
    (precheck : World → Cid → zval_ptr → Option LastError) (m m1 : Machine)
    (h : m.step b precheck = .ok m1) (d : Cid)
    (hd : (m1.world.coroutines d).executor.isSome = true) :
    (m.world.coroutines d).executor.isSome = true := by
  unfold Machine.step at h
  split at h
  · rename_i p v k _
    cases h
    rw [← (linkFrame_store m.world p v).1.present]
    exact hd
  · rename_i target zdata k _
    obtain ⟨r1, r2⟩ := resume_switching_ledger b precheck m.world target zdata true
    rcases result_cases (swow_coroutine_resume b (Engine.switching precheck) m.world target
      zdata true) with ⟨x, hx⟩ | ⟨w1, t, p, hx⟩ | ⟨e, hx, he⟩
    · obtain ⟨w1, s, res⟩ := x
      rw [hx] at h
      simp only [Machine.after_call, pure, Except.pure] at h
      cases h
      rw [← (r1 w1 s res hx).1.present]
      exact hd
    · rw [hx] at h
      simp only [Machine.after_call] at h
      obtain ⟨_, f, _⟩ := r2 w1 t p hx
      obtain ⟨_, _, _, _, a5, _⟩ := arrive_ledger b _ _ p m1 h
      have := a5 d hd
      rw [(jump_switch_ledger w1 t).2.2.2.2.1, f.present] at this
      exact this
    · rw [hx, after_call_error b m k e he] at h
      cases h
  · rename_i zdata k _
    obtain ⟨r1, r2⟩ := yield_switching_ledger b precheck m.world zdata true
    rcases result_cases (swow_coroutine_yield b (Engine.switching precheck) m.world
      zdata true) with ⟨x, hx⟩ | ⟨w1, t, p, hx⟩ | ⟨e, hx, he⟩
    · obtain ⟨w1, s, res⟩ := x
      rw [hx] at h
      simp only [Machine.after_call, pure, Except.pure] at h
      cases h
      rw [← (r1 w1 s res hx).1.present]
      exact hd
    · rw [hx] at h
      simp only [Machine.after_call] at h
      obtain ⟨_, f, _⟩ := r2 w1 t p hx
      obtain ⟨_, _, _, _, a5, _⟩ := arrive_ledger b _ _ p m1 h
      have := a5 d hd
      rw [(jump_switch_ledger w1 t).2.2.2.2.1, f.present] at this
      exact this
    · rw [hx, after_call_error b m k e he] at h
      cases h
  · rename_i r _
    split at h
    · cases h; exact hd
    · cases he : swow_coroutine_function_end b m.world r with
      | error e => rw [he] at h; cases h
      | ok x =>
        obtain ⟨w1, payload⟩ := x
        rw [he] at h
        simp only [bind, Except.bind] at h
        obtain ⟨previous, hprev, f, rc⟩ := function_end_ledger b m.world r w1 payload he
        split at h
        · cases h
        · rename_i p2 _
          obtain ⟨_, _, _, _, a5, _⟩ := arrive_ledger b _ _ payload m1 h
          have := a5 d hd
          rw [(finish_switch_ledger w1 p2).2.2.2.2.1, f.present] at this
          exact this

theorem run_keeps_released (b : Build)
    (precheck : World → Cid → zval_ptr → Option LastError) (n : Nat) :
    ∀ (m m1 : Machine), Machine.run b precheck n m = .ok m1 →
      ∀ d, (m.world.coroutines d).executor = none → (m1.world.coroutines d).executor = none := by
  induction n with
  | zero =>
    intro m m1 h d hd
    simp only [Machine.run, pure, Except.pure] at h
    cases h
    exact hd
  | succ n ih =>
    intro m m1 h d hd
    simp only [Machine.run, bind, Except.bind] at h
    cases hs : Machine.step b precheck m with
    | error e => rw [hs] at h; cases h
    | ok m2 =>
      rw [hs] at h
      simp only [] at h
      apply ih m2 m1 h d
      cases hx : (m2.world.coroutines d).executor with
      | none => rfl
      | some x =>
        have := step_keeps_released b precheck m m2 hs d (by rw [hx]; rfl)
        rw [hd] at this
        cases this

/-! ### Transfer of a reference, narrowing, and the flag of a failed switch -/

theorem hash_del_EG (w : World) (id : Nat) :
    (w.zend_hash_index_del id).EG = w.EG
    ∧ (w.zend_hash_index_del id).objects = w.objects := by
  unfold World.zend_hash_index_del World.map_pDestructor
  split <;> exact ⟨rfl, rfl⟩

theorem jump_solve_refcount_objects (b : Build) (w : World) (c : Cid) (w1 : World)
    (h : swow_coroutine_jump_solve_refcount b w c = .ok w1) : w1.objects = w.objects := by
  unfold swow_coroutine_jump_solve_refcount at h
  simp only [] at h
  split at h
  · cases h; rfl
  · cases h2 : CAT_ASSERT b (swow_coroutine_get_previous w c).isNone with
    | error e => rw [h2] at h; cases h
    | ok u =>
      rw [h2] at h
      cases h
      rfl

theorem executor_save_objects (w : World) (c : Cid) (w1 : World)
    (h : swow_coroutine_executor_save w c = .ok w1) : w1.objects = w.objects := by
  unfold swow_coroutine_executor_save at h
  split at h
  · cases h
  · cases h; rfl

theorem executor_recover_objects (w : World) (c : Cid) (w1 : World)
    (h : swow_coroutine_executor_recover w c = .ok w1) : w1.objects = w.objects := by
  unfold swow_coroutine_executor_recover at h
  split at h
  · cases h
  · cases h; rfl

theorem jump_switch_executor_objects (w : World) (c : Cid) (w1 : World)
    (h : swow_coroutine_jump_switch_executor w c = .ok w1) : w1.objects = w.objects := by
  unfold swow_coroutine_jump_switch_executor at h
  simp only [] at h
  split at h
  · cases hs : swow_coroutine_executor_save w (swow_coroutine_get_current w) with
    | error e => rw [hs] at h; cases h
    | ok wa =>
      rw [hs] at h
      cases h
      exact executor_save_objects w _ wa hs
  · split at h
    · exact executor_recover_objects w c w1 h
    · unfold swow_coroutine_executor_switch at h
      cases hs : swow_coroutine_executor_save w (swow_coroutine_get_current w) with
      | error e => rw [hs] at h; cases h
      | ok wa =>
        rw [hs] at h
        exact (executor_recover_objects wa c w1 h).trans (executor_save_objects w _ wa hs)

theorem Z_TRY_ADDREF_objects (w : World) (v : zval) :
    (∀ h, v = .IS_OBJECT h →
      ((w.Z_TRY_ADDREF v).objects h).refcount = (w.objects h).refcount + 1
      ∧ ∀ a, a ≠ h → (w.Z_TRY_ADDREF v).objects a = w.objects a)
    ∧ ((∀ h, v ≠ .IS_OBJECT h) → (w.Z_TRY_ADDREF v).objects = w.objects) := by
  refine ⟨fun h hv => ?_, fun hv => ?_⟩
  · subst hv
    refine ⟨by simp [World.Z_TRY_ADDREF, World.GC_ADDREF, World.set_object], fun a ha => ?_⟩
    simp [World.Z_TRY_ADDREF, World.GC_ADDREF, World.set_object, ha]
  · cases v with
    | IS_OBJECT h => exact absurd rfl (hv h)
    | _ => rfl

/-- The optimised jump hands the pointer given to the primitive jump and adds
one reference to the value when it is reference counted. -/
theorem jump_pre_adds_reference (b : Build) (w : World) (target : Cid) (zdata : zval_ptr)
    (ce te : swow_coroutine_exector_t)
    (hb : b.CAT_DO_NOT_OPTIMIZE = false)
    (hc : (w.coroutines w.current).coroutine.opcodes.ACCEPT_ZDATA = true)
    (ht : (w.coroutines target).coroutine.opcodes.ACCEPT_ZDATA = true)
    (hce : (w.coroutines w.current).executor = some ce)
    (hte : (w.coroutines target).executor = some te)
    (hrel : swow_coroutine_get_previous w w.current = some target
          ∨ swow_coroutine_get_previous w target = none ∨ b.CAT_DEBUG = false)
    (hz : zdata ≠ .SWOW_COROUTINE_DATA_NULL)
    (hp : (w.deref zdata).is_ptr = false) :
    ∃ w2, swow_coroutine_jump_pre b w target zdata = .ok (w2, zdata)
      ∧ w2.deref zdata = w.deref zdata ∧ w2.current = w.current
      ∧ (∀ h, w.deref zdata = .IS_OBJECT h →
          (w2.objects h).refcount = (w.objects h).refcount + 1
          ∧ ∀ a, a ≠ h → w2.objects a = w.objects a)
      ∧ ((∀ h, w.deref zdata ≠ .IS_OBJECT h) → w2.objects = w.objects) := by
  obtain ⟨w1, e1, f1⟩ := jump_solve_refcount_ok b w target hrel
  have hce1 : (w1.coroutines w1.current).executor.isSome = true := by
    rw [f1.current, f1.executor_isSome, hce]; rfl
  have hte1 : (w1.coroutines target).executor.isSome = true := by
    rw [f1.executor_isSome, hte]; rfl
  obtain ⟨ce1, hce1⟩ := Option.isSome_iff_exists.mp hce1
  obtain ⟨te1, hte1⟩ := Option.isSome_iff_exists.mp hte1
  obtain ⟨w2, e2, f2⟩ := jump_switch_executor_ok w1 target ce1 te1 hce1 hte1
  have f := f1.then f2
  have ho : w2.objects = w.objects :=
    (jump_switch_executor_objects w1 target w2 e2).trans
      (jump_solve_refcount_objects b w target w1 e1)
  have hcur2 : (w2.coroutines w2.current).executor.isSome = true := by
    rw [f.current, f.executor_isSome, hce]; rfl
  obtain ⟨ce2, hce2⟩ := Option.isSome_iff_exists.mp hcur2
  have hs2 : (w2.coroutines target).coroutine.opcodes.ACCEPT_ZDATA = true := by
    rw [f.cat]; exact ht
  have hr2 : (w2.coroutines w2.current).coroutine.opcodes.ACCEPT_ZDATA = true := by
    rw [f.current, f.cat]; exact hc
  have hp2 : (w2.deref zdata).is_ptr = false := by rw [f.deref]; exact hp
  obtain ⟨z1, z2⟩ := Z_TRY_ADDREF_objects w2 (w2.deref zdata)
  refine ⟨w2.Z_TRY_ADDREF (w2.deref zdata), ?_, ?_, ?_, fun h hv => ?_, fun hv => ?_⟩
  · unfold swow_coroutine_jump_pre
    simp only [e1, e2, bind, Except.bind, swow_coroutine_get_current]
    simp only [bne_iff_ne, ne_eq, hz, not_false_eq_true, ↓reduceIte]
    exact handle_not_null_sends_without_copy b w2 target w2.current zdata ce2 hb hs2 hr2 hce2
      hp2
  · rw [deref_of_heapOnly (heapOnly_Z_TRY_ADDREF w2 _), f.deref]
  · rw [(heapOnly_Z_TRY_ADDREF w2 _).current, f.current]
  · obtain ⟨y1, y2⟩ := z1 h (by rw [f.deref]; exact hv)
    rw [ho] at y1 y2
    exact ⟨y1, y2⟩
  · rw [z2 (fun h => by rw [f.deref]; exact hv h), ho]

theorem int_of_zend_long_of_fits (n : Int) (h1 : -(2 ^ 31) ≤ n) (h2 : n < 2 ^ 31) :
    int_of_zend_long n = n := by
  unfold int_of_zend_long
  have : (n + 2 ^ 31) % 2 ^ 32 = n + 2 ^ 31 := Int.emod_eq_of_lt (by omega) (by omega)
  omega

/-- C1. With the standard dispatcher and a jump the engine admits, for every
pointer `zdata` to a value `v` and every coroutine B other than the current
one, with `ACCEPT_ZDATA` set (as construction and `swow_coroutine_yield` set
it): when B has never run, `swow_coroutine_resume(B, zdata)` with a managed
value makes the trampoline call the entry callable of B with the one
parameter `v`; when B is stopped inside `swow_coroutine_yield`, it makes that
yield return success with `v`; and when the running coroutine B calls
`swow_coroutine_yield(zdata)` while its resumer A is stopped inside
`swow_coroutine_resume`, that resume returns success with `v`. -/
theorem C1_value_crosses_resume_and_yield_unchanged (b : Build)
    (precheck : World → Cid → zval_ptr → Option LastError) (m : Machine) :
    (∀ (B : Cid) (zdata : zval_ptr) (k : Bool → zval → Code)
        (ce be : swow_coroutine_exector_t),
      m.running = .resume B zdata k →
      m.pending B = .not_started →
      m.world.cat_coroutine_resume = .swow_coroutine_resume_standard →
      precheck (m.world.set_ACCEPT_ZDATA m.world.current true) B zdata = none →
      B ≠ m.world.current →
      (m.world.coroutines B).coroutine.opcodes.ACCEPT_ZDATA = true →
      (m.world.coroutines m.world.current).executor = some ce →
      (m.world.coroutines B).executor = some be →
      (swow_coroutine_get_previous m.world m.world.current = some B
        ∨ swow_coroutine_get_previous m.world B = none ∨ b.CAT_DEBUG = false) →
      zdata ≠ .SWOW_COROUTINE_DATA_NULL →
      (m.world.deref zdata).is_ptr = false →
      ∃ m1, m.step b precheck = .ok m1
        ∧ m1.running = m.entry B [m.world.deref zdata]
        ∧ m1.world.current = B
        ∧ m1.pending m.world.current = .in_jump k)
    ∧ (∀ (B : Cid) (zdata : zval_ptr) (k kB : Bool → zval → Code)
        (ce be : swow_coroutine_exector_t),
      m.running = .resume B zdata k →
      m.pending B = .in_jump kB →
      m.world.cat_coroutine_resume = .swow_coroutine_resume_standard →
      precheck (m.world.set_ACCEPT_ZDATA m.world.current true) B zdata = none →
      B ≠ m.world.current →
      (m.world.coroutines B).coroutine.opcodes.ACCEPT_ZDATA = true →
      (m.world.coroutines m.world.current).executor = some ce →
      (m.world.coroutines B).executor = some be →
      (swow_coroutine_get_previous m.world m.world.current = some B
        ∨ swow_coroutine_get_previous m.world B = none ∨ b.CAT_DEBUG = false) →
      (m.world.coroutines m.world.current).coroutine.state ≠ .DEAD →
      zdata ≠ .SWOW_COROUTINE_DATA_ERROR →
      ∃ m1, m.step b precheck = .ok m1
        ∧ m1.running = kB true (m.world.deref zdata)
        ∧ m1.world.current = B
        ∧ m1.pending m.world.current = .in_jump k)
    ∧ (∀ (A : Cid) (zdata : zval_ptr) (k kA : Bool → zval → Code)
        (be ae : swow_coroutine_exector_t),
      m.running = .yield zdata k →
      swow_coroutine_get_previous m.world m.world.current = some A →
      m.pending A = .in_jump kA →
      m.world.cat_coroutine_resume = .swow_coroutine_resume_standard →
      precheck (m.world.set_ACCEPT_ZDATA m.world.current true) A zdata = none →
      A ≠ m.world.current →
      (m.world.coroutines A).coroutine.opcodes.ACCEPT_ZDATA = true →
      (m.world.coroutines m.world.current).executor = some be →
      (m.world.coroutines A).executor = some ae →
      (m.world.coroutines m.world.current).coroutine.state ≠ .DEAD →
      zdata ≠ .SWOW_COROUTINE_DATA_ERROR →
      ∃ m1, m.step b precheck = .ok m1
        ∧ m1.running = kA true (m.world.deref zdata)
        ∧ m1.world.current = A
        ∧ m1.pending m.world.current = .in_jump k) := by
  refine ⟨fun B zdata k ce be hrun hpend hstd hpre hne hacc hce hbe hrel hz hp => ?_,
    fun B zdata k kB ce be hrun hpend hstd hpre hne hacc hce hbe hrel hst hz => ?_,
    fun A zdata k kA be ae hrun hprev hpend hstd hpre hne hacc hbe hae hst hz => ?_⟩
  · obtain ⟨w3, payload, s1, hpl, hd, _, _, hex, _, _, _, _, _, hstep⟩ :=
      step_resume_not_started b precheck m B zdata k ce be hrun hpend hstd hpre hne hacc
        hce hbe hrel
    have hb3 : (w3.coroutines w3.current).executor.isSome = true := by
      rw [s1, hex, hbe]; rfl
    obtain ⟨be3, hbe3⟩ := Option.isSome_iff_exists.mp hb3
    have hpn : payload ≠ .SWOW_COROUTINE_DATA_NULL := by
      rcases hpl with h | ⟨h, _⟩
      · rw [h]; exact hz
      · rw [h]; exact fun h2 => by cases h2
    obtain ⟨w4, hb4, hc4⟩ := (function_begin_cases w3 payload be3 hbe3).2.1 hpn
      (by rw [hd]; exact hp)
    obtain ⟨m1, h1, h2, h3, h4, _⟩ := hstep w4 _ hb4
    exact ⟨m1, h1, by rw [h2, hd], by rw [h3, hc4, s1], h4⟩
  · obtain ⟨m1, h1, h2, h3, h4, _⟩ := step_resume_in_jump b precheck m B zdata k kB ce be
      hrun hpend hstd hpre hne hacc hce hbe hrel hst hz
    exact ⟨m1, h1, h2, h3, h4⟩
  · obtain ⟨m1, h1, h2, h3, h4, _⟩ := step_yield_in_jump b precheck m A zdata k kA be ae
      hrun hprev hpend hstd hpre hne hacc hbe hae hst hz
    exact ⟨m1, h1, h2, h3, h4⟩

/-- C1, at concrete machines in the debug build: the first resume of coroutine
`1` with the cell holding `7` runs its entry callable on `[7]`; the resume of
coroutine `1` stopped in a yield makes that yield return `7`; and the yield of
`7` by coroutine `1` makes the resume of the main coroutine return `7`. -/
theorem C1_value_crosses_resume_and_yield_unchanged_witness :
    (∃ m1, (demo_machine demo_world demo_entry_echo (fun _ => .not_started)
              (.resume 1 (.mem 0) (demo_keep 20))).step debug_build precheck_pass = .ok m1
        ∧ m1.running = demo_entry_echo [.IS_LONG 7] ∧ m1.world.current = 1
        ∧ m1.pending 0 = .in_jump (demo_keep 20))
    ∧ (∃ m1, (demo_machine demo_world_waiting_1 demo_entry_echo
              (fun _ => .in_jump (demo_keep 40))
              (.resume 1 (.mem 0) (demo_keep 20))).step debug_build precheck_pass = .ok m1
        ∧ m1.running = demo_keep 40 true (.IS_LONG 7) ∧ m1.world.current = 1
        ∧ m1.pending 0 = .in_jump (demo_keep 20))
    ∧ (∃ m1, (demo_machine demo_world_in_1 demo_entry_echo
              (fun _ => .in_jump (demo_keep 20))
              (.yield (.mem 0) (demo_keep 40))).step debug_build precheck_pass = .ok m1
        ∧ m1.running = demo_keep 20 true (.IS_LONG 7) ∧ m1.world.current = 0
        ∧ m1.pending 1 = .in_jump (demo_keep 40)) :=
  ⟨(C1_value_crosses_resume_and_yield_unchanged debug_build precheck_pass
      (demo_machine demo_world demo_entry_echo (fun _ => .not_started)
        (.resume 1 (.mem 0) (demo_keep 20)))).1 1 (.mem 0) (demo_keep 20) _ _
      rfl rfl rfl rfl (by decide) rfl rfl rfl (Or.inr (Or.inl rfl)) (by decide) rfl,
   (C1_value_crosses_resume_and_yield_unchanged debug_build precheck_pass
      (demo_machine demo_world_waiting_1 demo_entry_echo (fun _ => .in_jump (demo_keep 40))
        (.resume 1 (.mem 0) (demo_keep 20)))).2.1 1 (.mem 0) (demo_keep 20) (demo_keep 40) _ _
      rfl rfl rfl rfl (by decide) rfl rfl rfl (Or.inr (Or.inl rfl)) (by decide) (by decide),
   (C1_value_crosses_resume_and_yield_unchanged debug_build precheck_pass
      (demo_machine demo_world_in_1 demo_entry_echo (fun _ => .in_jump (demo_keep 20))
        (.yield (.mem 0) (demo_keep 40)))).2.2 0 (.mem 0) (demo_keep 40) (demo_keep 20) _ _
      rfl rfl rfl rfl rfl (by decide) rfl rfl rfl (by decide) (by decide)⟩

/-- C2. With the standard dispatcher and a jump the engine admits: when the
current coroutine resumes a coroutine A that has never run and whose entry
callable returns `r` (not a raw pointer) without yielding, the machine comes
back to the resumer in two steps, the resume returns success with `r`, or
with null when `r` is undefined or null, and A is then DEAD and
`swow_coroutine_is_alive(A)` is false. -/
theorem C2_entry_result_returned_and_coroutine_dead (b : Build)
    (precheck : World → Cid → zval_ptr → Option LastError) (m : Machine) (A : Cid)
    (zdata : zval_ptr) (k : Bool → zval → Code) (r : zval)
    (ce ae : swow_coroutine_exector_t)
    (hrun : m.running = .resume A zdata k)
    (hpend : m.pending A = .not_started)
    (hentry : ∀ params, m.entry A params = .ret r)
    (hr : r.is_ptr = false)
    (hstd : m.world.cat_coroutine_resume = .swow_coroutine_resume_standard)
    (hpre : precheck (m.world.set_ACCEPT_ZDATA m.world.current true) A zdata = none)
    (hne : A ≠ m.world.current)
    (hmain : A ≠ m.world.main)
    (hacc : (m.world.coroutines A).coroutine.opcodes.ACCEPT_ZDATA = true)
    (hce : (m.world.coroutines m.world.current).executor = some ce)
    (hae : (m.world.coroutines A).executor = some ae)
    (hfresh : swow_coroutine_get_previous m.world A = none)
    (hnoty : swow_coroutine_get_previous m.world m.world.current ≠ some A) :
    ∃ m2, Machine.run b precheck 2 m = .ok m2
      ∧ m2.running = k true (if r = .IS_UNDEF ∨ r = .IS_NULL then .IS_NULL else r)
      ∧ m2.world.current = m.world.current
      ∧ (m2.world.coroutines A).coroutine.state = .DEAD
      ∧ swow_coroutine_is_alive m2.world A = false := by
  obtain ⟨w3, payload, s1, _, _, _, _, hex, _, hcacc, hm3, _, hprev3, hstep⟩ :=
    step_resume_not_started b precheck m A zdata k ce ae hrun hpend hstd hpre hne hacc
      hce hae (Or.inr (Or.inl hfresh))
  have ha3 : (w3.coroutines w3.current).executor.isSome = true := by
    rw [s1, hex, hae]; rfl
  obtain ⟨ae3, hae3⟩ := Option.isSome_iff_exists.mp ha3
  obtain ⟨w4, params, hb4⟩ := function_begin_total w3 payload ae3 hae3
  have f := function_begin_frame w3 payload w4 params hb4
  obtain ⟨m1, h1, h2, h3, h4, h5⟩ := hstep w4 params hb4
  have hcur : m1.world.current = A := by rw [h3, f.current, s1]
  have ha4 : (m1.world.coroutines m1.world.current).executor.isSome = true := by
    rw [hcur, h3, f.executor, hex, hae]; rfl
  obtain ⟨ae4, hae4⟩ := Option.isSome_iff_exists.mp ha4
  have hc4 : (m1.world.coroutines m.world.current).executor.isSome = true := by
    rw [h3, f.executor, hex, hce]; rfl
  obtain ⟨ce4, hce4⟩ := Option.isSome_iff_exists.mp hc4
  obtain ⟨m2, g1, g2, g3, g4, _, _⟩ := step_ret_returns b precheck m1 r m.world.current k
    ae4 ce4 (by rw [h2]; exact hentry params)
    (by rw [hcur, h3, f.main, hm3]; exact hmain) hae4
    (by
      unfold swow_coroutine_get_previous at hprev3 ⊢
      rw [hcur, h3, f.previous]
      exact hprev3 hnoty)
    hce4 (by rw [h3]; exact f.accept _ hcacc) h4 (by rw [hcur]; exact Ne.symm hne) hr
  rw [hcur] at g4
  refine ⟨m2, ?_, g2, g3, g4, ?_⟩
  · simp only [Machine.run, h1, bind, Except.bind, g1, pure, Except.pure]
  · simp [swow_coroutine_is_alive, cat_coroutine_is_alive, g4]

/-- C2, at a concrete machine in the debug build: the main coroutine resumes
coroutine `1` whose entry callable is `return 41 + 1`; the resume returns
`42`, and coroutine `1` is not alive afterwards. -/
theorem C2_entry_result_returned_and_coroutine_dead_witness :
    ∃ m2, Machine.run debug_build precheck_pass 2
            (demo_machine demo_world demo_entry_42 (fun _ => .not_started)
              (.resume 1 .SWOW_COROUTINE_DATA_NULL (demo_keep 20))) = .ok m2
      ∧ m2.running = demo_keep 20 true (.IS_LONG 42)
      ∧ m2.world.current = 0
      ∧ (m2.world.coroutines 1).coroutine.state = .DEAD
      ∧ swow_coroutine_is_alive m2.world 1 = false :=
  C2_entry_result_returned_and_coroutine_dead debug_build precheck_pass
    (demo_machine demo_world demo_entry_42 (fun _ => .not_started)
      (.resume 1 .SWOW_COROUTINE_DATA_NULL (demo_keep 20)))
    1 .SWOW_COROUTINE_DATA_NULL (demo_keep 20) (.IS_LONG 42) _ _
    rfl rfl (fun _ => rfl) rfl rfl rfl (by decide) (by decide) rfl rfl rfl rfl (by decide)

/-- C3. First resume of a READY coroutine B through `Coroutine::run` /
`Coroutine::resume` with the call record `fci` of `n` values in the cells
`a`, `a + 1`, ...: `SWOW_COROUTINE_HANDLE_RESUME_TRANSFER` gives the no-value
sentinel for `n = 0`, the pointer to the value for `n = 1` and, for `n > 1`,
a pointer to a cell that holds the raw pointer to the call record; the
resume with that payload makes the trampoline call the entry callable of B
with exactly the `n` values of the record, in order. -/
theorem C3_entry_called_with_the_supplied_values (b : Build)
    (precheck : World → Cid → zval_ptr → Option LastError) (w : World)
    (entry : Cid → List zval → Code) (pending : Cid → Pending) (B : Cid) (fci a : Nat)
    (k : Bool → zval → Code) (ce be : swow_coroutine_exector_t)
    (hstate : (w.coroutines B).coroutine.state = .READY)
    (hpend : pending B = .not_started)
    (hparams : (w.fcall_infos fci).params = .mem a)
    (hone : (w.fcall_infos fci).param_count = 1 → (w.memory a).is_ptr = false)
    (hstd : w.cat_coroutine_resume = .swow_coroutine_resume_standard)
    (hpre : ∀ w1 p, precheck w1 B p = none)
    (hne : B ≠ w.current)
    (hacc : (w.coroutines B).coroutine.opcodes.ACCEPT_ZDATA = true)
    (hce : (w.coroutines w.current).executor = some ce)
    (hbe : (w.coroutines B).executor = some be)
    (hfresh : swow_coroutine_get_previous w B = none) :
    ∃ w1 payload m1,
      SWOW_COROUTINE_HANDLE_RESUME_TRANSFER w B fci = some (w1, payload)
      ∧ ((w.fcall_infos fci).param_count = 0 → payload = .SWOW_COROUTINE_DATA_NULL)
      ∧ ((w.fcall_infos fci).param_count = 1 →
          payload = .mem a ∧ w1.deref payload = w.memory a)
      ∧ (1 < (w.fcall_infos fci).param_count →
          payload = .transfer_local w.current ∧ w1.deref payload = .IS_PTR fci)
      ∧ Machine.step b precheck
          { world := w1, entry := entry, pending := pending,
            running := .resume B payload k } = .ok m1
      ∧ m1.running = entry B
          ((List.range (w.fcall_infos fci).param_count).map (fun i => w.memory (a + i)))
      ∧ ((List.range (w.fcall_infos fci).param_count).map
          (fun i => w.memory (a + i))).length = (w.fcall_infos fci).param_count
      ∧ m1.world.current = B := by
  obtain ⟨w1, payload, e, hco, hcur, hres, hmem, hfc, p0, p1, p2⟩ :=
    resume_transfer_cases w B fci hstate
  obtain ⟨w3, payload3, s1, hpl, hd, hmem3, hfc3, hex, _, _, _, _, _, hstep⟩ :=
    step_resume_not_started b precheck
      { world := w1, entry := entry, pending := pending, running := .resume B payload k }
      B payload k ce be rfl hpend (hres.trans hstd) (hpre _ _)
      (by show B ≠ w1.current; rw [hcur]; exact hne)
      (by show (w1.coroutines B).coroutine.opcodes.ACCEPT_ZDATA = true; rw [hco]; exact hacc)
      (by show (w1.coroutines w1.current).executor = some ce; rw [hco, hcur]; exact hce)
      (by show (w1.coroutines B).executor = some be; rw [hco]; exact hbe)
      (Or.inr (Or.inl (by
        show swow_coroutine_get_previous w1 B = none
        unfold swow_coroutine_get_previous at hfresh ⊢
        rw [hco]; exact hfresh)))
  have hmem3 : w3.memory = w.memory := hmem3.trans hmem
  have hfc3 : w3.fcall_infos = w.fcall_infos := hfc3.trans hfc
  have hd : w3.deref payload3 = w1.deref payload := hd
  have hb3 : (w3.coroutines w3.current).executor.isSome = true := by
    rw [s1, hex]
    show (w1.coroutines B).executor.isSome = true
    rw [hco, hbe]; rfl
  obtain ⟨be3, hbe3⟩ := Option.isSome_iff_exists.mp hb3
  obtain ⟨c0, c1, c2⟩ := function_begin_cases w3 payload3 be3 hbe3
  have hbegin : ∃ w4, swow_coroutine_function_begin w3 payload3
      = .ok (w4, (List.range (w.fcall_infos fci).param_count).map
          (fun i => w.memory (a + i))) ∧ w4.current = w3.current := by
    by_cases h1 : (w.fcall_infos fci).param_count = 1
    · have hp := p1 h1
      rw [hparams] at hp
      have hv : w3.deref payload3 = w.memory a := by
        rw [hd, hp]
        show w1.memory a = _
        rw [hmem]
      have hn3 : payload3 ≠ .SWOW_COROUTINE_DATA_NULL := by
        rcases hpl with h | ⟨h, _⟩
        · rw [h]
          show payload ≠ _
          rw [hp]; exact fun h2 => by cases h2
        · rw [h]; exact fun h2 => by cases h2
      obtain ⟨w4, e4, c4⟩ := c1 hn3 (by rw [hv]; exact hone h1)
      refine ⟨w4, ?_, c4⟩
      rw [e4, hv, h1]
      rfl
    · by_cases h2 : 1 < (w.fcall_infos fci).param_count
      · obtain ⟨hp, hv⟩ := p2 h2
        have hv3 : w3.deref payload3 = .IS_PTR fci := by rw [hd, hv]
        have hn3 : payload3 ≠ .SWOW_COROUTINE_DATA_NULL := by
          rcases hpl with h | ⟨h, _⟩
          · rw [h]
            show payload ≠ _
            rw [hp]; exact fun h2 => by cases h2
          · rw [h]; exact fun h2 => by cases h2
        obtain ⟨w4, e4, c4⟩ := c2 fci hn3 hv3
        refine ⟨w4, ?_, c4⟩
        rw [e4, hfc3, hparams]
        simp only [World.read_params, hmem3]
      · have h0 : (w.fcall_infos fci).param_count = 0 := by omega
        have hp := p0 h0
        have hn3 : payload3 = .SWOW_COROUTINE_DATA_NULL := by
          rcases hpl with h | ⟨_, h⟩
          · rw [h]; exact hp
          · exact absurd hp h
        obtain ⟨w4, e4, c4⟩ := c0 hn3
        refine ⟨w4, ?_, c4⟩
        rw [e4, h0]
        rfl
  obtain ⟨w4, hb4, hc4⟩ := hbegin
  obtain ⟨m1, g1, g2, g3, _, _⟩ := hstep w4 _ hb4
  refine ⟨w1, payload, m1, e, p0, fun h1 => ?_, p2, g1, g2, by simp, ?_⟩
  · have hp := p1 h1
    rw [hparams] at hp
    refine ⟨hp, ?_⟩
    rw [hp]
    show w1.memory a = _
    rw [hmem]
  · rw [g3, hc4, s1]

/-- C3, at the concrete call records in the debug build, for coroutine `1`
with an entry callable that returns its parameters: no value gives the
sentinel and no parameter; the one value PHP null gives the pointer to it
and the one parameter null; the two values `7` and null give the pointer to
the call record and the two parameters `7` and null. -/
theorem C3_entry_called_with_the_supplied_values_witness :
    (∃ w1 m1, SWOW_COROUTINE_HANDLE_RESUME_TRANSFER demo_world_calls 1 0
          = some (w1, .SWOW_COROUTINE_DATA_NULL)
        ∧ Machine.step debug_build precheck_pass
            { world := w1, entry := fun _ => demo_entry_echo, pending := fun _ => .not_started,
              running := .resume 1 .SWOW_COROUTINE_DATA_NULL (demo_keep 20) } = .ok m1
        ∧ m1.running = demo_entry_echo [] ∧ m1.world.current = 1)
    ∧ (∃ w1 m1, SWOW_COROUTINE_HANDLE_RESUME_TRANSFER demo_world_calls 1 1
          = some (w1, .mem 1)
        ∧ w1.deref (.mem 1) = .IS_NULL
        ∧ Machine.step debug_build precheck_pass
            { world := w1, entry := fun _ => demo_entry_echo, pending := fun _ => .not_started,
              running := .resume 1 (.mem 1) (demo_keep 20) } = .ok m1
        ∧ m1.running = demo_entry_echo [.IS_NULL] ∧ m1.world.current = 1)
    ∧ (∃ w1 m1, SWOW_COROUTINE_HANDLE_RESUME_TRANSFER demo_world_calls 1 2
          = some (w1, .transfer_local 0)
        ∧ w1.deref (.transfer_local 0) = .IS_PTR 2
        ∧ Machine.step debug_build precheck_pass
            { world := w1, entry := fun _ => demo_entry_echo, pending := fun _ => .not_started,
              running := .resume 1 (.transfer_local 0) (demo_keep 20) } = .ok m1
        ∧ m1.running = demo_entry_echo [.IS_LONG 7, .IS_NULL] ∧ m1.world.current = 1) := by
  refine ⟨?_, ?_, ?_⟩
  · obtain ⟨w1, payload, m1, h1, h2, _, _, h5, h6, _, h8⟩ :=
      C3_entry_called_with_the_supplied_values debug_build precheck_pass demo_world_calls
        (fun _ => demo_entry_echo) (fun _ => .not_started) 1 0 0 (demo_keep 20) _ _
        rfl rfl rfl (fun h => by cases h) rfl (fun _ _ => rfl) (by decide) rfl rfl rfl rfl
    have hp : payload = .SWOW_COROUTINE_DATA_NULL := h2 rfl
    subst hp
    exact ⟨w1, m1, h1, h5, h6, h8⟩
  · obtain ⟨w1, payload, m1, h1, _, h3, _, h5, h6, _, h8⟩ :=
      C3_entry_called_with_the_supplied_values debug_build precheck_pass demo_world_calls
        (fun _ => demo_entry_echo) (fun _ => .not_started) 1 1 1 (demo_keep 20) _ _
        rfl rfl rfl (fun _ => rfl) rfl (fun _ _ => rfl) (by decide) rfl rfl rfl rfl
    obtain ⟨hp, hv⟩ := h3 rfl
    subst hp
    exact ⟨w1, m1, h1, hv, h5, h6, h8⟩
  · obtain ⟨w1, payload, m1, h1, _, _, h4, h5, h6, _, h8⟩ :=
      C3_entry_called_with_the_supplied_values debug_build precheck_pass demo_world_calls
        (fun _ => demo_entry_echo) (fun _ => .not_started) 1 2 0 (demo_keep 20) _ _
        rfl rfl rfl (fun h => by cases h) rfl (fun _ _ => rfl) (by decide) rfl rfl rfl rfl
    obtain ⟨hp, hv⟩ := h4 (by decide)
    subst hp
    exact ⟨w1, m1, h1, hv, h5, h6, h8⟩

/-- C4 (defect of the code). Claim: in `swow_coroutine_jump`, a payload other
than the no-value sentinel sent by a current coroutine that accepts transfer
values to a target that does not is replaced by the no-value sentinel, with
no fatal error.  At the failing input (the main coroutine, with
`ACCEPT_ZDATA` set, jumps to the internal coroutine `3` with a pointer to the
value `7`) the jump ends in the fatal error of the protocol in both builds
and hands nothing to the primitive jump, because it passes the target as
`sscoroutine` and the current coroutine as `rscoroutine`; the protocol
function called with sender and receiver in the order of its parameters
does replace the payload by the sentinel. -/
theorem C4_jump_sender_accepts_receiver_not :
    core_error_of (swow_coroutine_jump release_build demo_engine
        (demo_world_internal.set_ACCEPT_ZDATA 0 true) 3 (.mem 0))
      = some unrecognized_data_message
    ∧ core_error_of (swow_coroutine_jump debug_build demo_engine
        (demo_world_internal.set_ACCEPT_ZDATA 0 true) 3 (.mem 0))
      = some unrecognized_data_message
    ∧ payload_of (swow_coroutine_jump_pre release_build
        (demo_world_internal.set_ACCEPT_ZDATA 0 true) 3 (.mem 0)) = none
    ∧ payload_of (swow_coroutine_handle_not_null_zdata release_build
        (demo_world_internal.set_ACCEPT_ZDATA 0 true) 0 3 (.mem 0) false)
      = some .SWOW_COROUTINE_DATA_NULL := by
  decide

/-- C5 (defect of the code). Claim: in `swow_coroutine_jump`, a payload other
than the no-value sentinel sent by a current coroutine that does not accept
transfer values to a target that does ends in the fatal
internal-consistency error.  At the failing input (the internal coroutine
`3` is current, without `ACCEPT_ZDATA`, and jumps to the constructed
coroutine `1`, which has it, with a pointer to the value `7`) no fatal error
is raised in either build: the first half of the jump returns and hands the
no-value sentinel to the primitive jump.  The protocol function called with
sender and receiver in the order of its parameters raises the fatal
error. -/
theorem C5_jump_sender_not_receiver_accepts :
    payload_of (swow_coroutine_jump_pre release_build
        { demo_world_internal with current := 3 } 1 (.mem 0))
      = some .SWOW_COROUTINE_DATA_NULL
    ∧ payload_of (swow_coroutine_jump_pre debug_build
        { demo_world_internal with current := 3 } 1 (.mem 0))
      = some .SWOW_COROUTINE_DATA_NULL
    ∧ core_error_of (swow_coroutine_jump release_build demo_engine
        { demo_world_internal with current := 3 } 1 (.mem 0)) = none
    ∧ core_error_of (swow_coroutine_handle_not_null_zdata release_build
        { demo_world_internal with current := 3 } 3 1 (.mem 0) false)
      = some unrecognized_data_message := by
  decide

/-- C6, the claim as stated fails. Claim: for an ordinary managed value sent
between two coroutines that both accept transfer values, the payload pointer
that crosses the switch is the transfer slot of the receiver and that slot
holds the value, for `swow_coroutine_jump` as for the trampoline.  Here the
main coroutine (with `ACCEPT_ZDATA`) jumps to the constructed coroutine `1`
(with `ACCEPT_ZDATA`) with a pointer to the value `7`: in the optimised build
the pointer handed to the primitive jump is the pointer given, and in the
`CAT_DO_NOT_OPTIMIZE` build it is the slot of the sender; in neither is it
the slot of the receiver `1`. -/
theorem C6_jump_payload_is_not_receiver_slot :
    ((demo_world.set_ACCEPT_ZDATA 0 true).coroutines 0).coroutine.opcodes.ACCEPT_ZDATA = true
    ∧ ((demo_world.set_ACCEPT_ZDATA 0 true).coroutines 1).coroutine.opcodes.ACCEPT_ZDATA = true
    ∧ (demo_world.set_ACCEPT_ZDATA 0 true).deref (.mem 0) = .IS_LONG 7
    ∧ payload_of (swow_coroutine_jump_pre release_build
        (demo_world.set_ACCEPT_ZDATA 0 true) 1 (.mem 0)) = some (.mem 0)
    ∧ payload_of (swow_coroutine_jump_pre debug_build
        (demo_world.set_ACCEPT_ZDATA 0 true) 1 (.mem 0)) = some (.executor_zdata 0)
    ∧ ¬ (payload_of (swow_coroutine_jump_pre release_build
        (demo_world.set_ACCEPT_ZDATA 0 true) 1 (.mem 0)) = some (.executor_zdata 1))
    ∧ ¬ (payload_of (swow_coroutine_jump_pre debug_build
        (demo_world.set_ACCEPT_ZDATA 0 true) 1 (.mem 0)) = some (.executor_zdata 1)) := by
  decide

/-- C6 as amended. For an ordinary managed value (not undefined, not null, not
a raw pointer) and two coroutines that both accept transfer values: when the
trampoline returns the result of the entry callable, the pointer it returns
to the engine is the transfer slot of the executor of the receiver
(`previous`), and that slot holds the value; when `swow_coroutine_jump`
sends the value in the optimised build (`CAT_DO_NOT_OPTIMIZE` not defined),
the pointer handed to the primitive jump is the pointer given, still
pointing at the value ("send without copy value"), and one reference has
been added to the value: when it is an object, the count of that object is
one more and no other object is changed, and otherwise no object is
changed. -/
theorem C6_transfer_slot_of_receiver_on_return (b : Build) (w : World) :
    (∀ (retval : zval) (ce pe : swow_coroutine_exector_t) (p : Cid),
      (w.coroutines w.current).executor = some ce →
      swow_coroutine_get_previous w w.current = some p →
      (w.coroutines p).executor = some pe →
      (w.coroutines p).coroutine.opcodes.ACCEPT_ZDATA = true →
      retval ≠ .IS_UNDEF → retval ≠ .IS_NULL → retval.is_ptr = false →
      ∃ w2, swow_coroutine_function_end b w retval = .ok (w2, .executor_zdata p)
        ∧ w2.deref (.executor_zdata p) = retval ∧ w2.current = w.current)
    ∧ (∀ (target : Cid) (zdata : zval_ptr) (ce te : swow_coroutine_exector_t),
      b.CAT_DO_NOT_OPTIMIZE = false →
      (w.coroutines w.current).coroutine.opcodes.ACCEPT_ZDATA = true →
      (w.coroutines target).coroutine.opcodes.ACCEPT_ZDATA = true →
      (w.coroutines w.current).executor = some ce →
      (w.coroutines target).executor = some te →
      (swow_coroutine_get_previous w w.current = some target
        ∨ swow_coroutine_get_previous w target = none ∨ b.CAT_DEBUG = false) →
      zdata ≠ .SWOW_COROUTINE_DATA_NULL →
      (w.deref zdata).is_ptr = false →
      ∃ w2, swow_coroutine_jump_pre b w target zdata = .ok (w2, zdata)
        ∧ w2.deref zdata = w.deref zdata ∧ w2.current = w.current
        ∧ (∀ h, w.deref zdata = .IS_OBJECT h →
            (w2.objects h).refcount = (w.objects h).refcount + 1
            ∧ ∀ a, a ≠ h → w2.objects a = w.objects a)
        ∧ ((∀ h, w.deref zdata ≠ .IS_OBJECT h) → w2.objects = w.objects)) :=
  ⟨fun retval ce pe p hce hprev hpe hpa h1 h2 h3 =>
      function_end_moves_to_slot b w retval ce pe p hce hprev hpe hpa h1 h2 h3,
   fun target zdata ce te hb hc ht hce hte hrel hz hp =>
      jump_pre_adds_reference b w target zdata ce te hb hc ht hce hte hrel hz hp⟩

/-- C6 as amended, at concrete inputs: coroutine `1`, resumed by the main
coroutine, returns `42`, and the main coroutine sends the object `2`, which
has one reference, to the constructed coroutine `1`: the object has two
references at the switch. -/
theorem C6_transfer_slot_of_receiver_on_return_witness :
    (∃ w2, swow_coroutine_function_end debug_build demo_world_in_1 (.IS_LONG 42)
        = .ok (w2, .executor_zdata 0)
      ∧ w2.deref (.executor_zdata 0) = .IS_LONG 42 ∧ w2.current = demo_world_in_1.current)
    ∧ (∃ w2, swow_coroutine_jump_pre release_build demo_world_sending_object 1
          (.mem 0) = .ok (w2, .mem 0)
      ∧ w2.deref (.mem 0) = .IS_OBJECT 2
      ∧ w2.current = 0
      ∧ (w2.objects 2).refcount = 1 + 1
      ∧ ∀ a, a ≠ 2 → w2.objects a = demo_world_sending_object.objects a) := by
  refine ⟨(C6_transfer_slot_of_receiver_on_return debug_build demo_world_in_1).1 (.IS_LONG 42)
      (demo_executor .IS_TRUE) (demo_executor .IS_NULL) 0 rfl rfl rfl rfl
      (by decide) (by decide) rfl, ?_⟩
  obtain ⟨w2, h1, h2, h3, h4, _⟩ :=
    (C6_transfer_slot_of_receiver_on_return release_build demo_world_sending_object).2 1
      (.mem 0) (demo_executor .IS_NULL) (demo_executor .IS_TRUE) rfl rfl rfl rfl rfl
      (Or.inr (Or.inl rfl)) (by decide) rfl
  exact ⟨w2, h1, h2, h3, (h4 2 rfl).1, (h4 2 rfl).2⟩

/-- C7. `swow_coroutine_throw` returns failure, leaving everything but the
last error as it was (no switch, the pending cross-exception slot of the
target not written), in these cases, checked in this order: the exception
object is not a Throwable (NotThrowable); otherwise the target is not alive
(NotAlive); otherwise the target has the scheduler flag
(SchedulerProtected).  For an input that passes the three checks none of
the three errors is reported by the function: a throw into the current
coroutine succeeds and leaves the last error alone, and a throw into another
coroutine fails only when its resume fails, with the last error left by that
resume. -/
theorem C7_throw_precondition_checks (b : Build) (E : Engine) (w : World) (scoroutine : Cid)
    (exception : ObjId) (retval : Bool) :
    (w.instanceof_function (w.objects exception).ce w.zend_ce_throwable = false →
      swow_coroutine_throw b E w scoroutine exception retval
        = .ok ({ w with last_error := some .not_throwable }, false, none))
    ∧ (w.instanceof_function (w.objects exception).ce w.zend_ce_throwable = true →
      swow_coroutine_is_alive w scoroutine = false →
      swow_coroutine_throw b E w scoroutine exception retval
        = .ok ({ w with last_error := some .not_alive }, false, none))
    ∧ (w.instanceof_function (w.objects exception).ce w.zend_ce_throwable = true →
      swow_coroutine_is_alive w scoroutine = true →
      swow_coroutine_is_scheduler w scoroutine = true →
      swow_coroutine_throw b E w scoroutine exception retval
        = .ok ({ w with last_error := some .break_scheduler }, false, none))
    ∧ (w.instanceof_function (w.objects exception).ce w.zend_ce_throwable = true →
      swow_coroutine_is_alive w scoroutine = true →
      swow_coroutine_is_scheduler w scoroutine = false →
      (scoroutine = w.current →
        ∃ w1, swow_coroutine_throw b E w scoroutine exception retval = .ok (w1, true, none)
          ∧ w1.last_error = w.last_error)
      ∧ (scoroutine ≠ w.current →
        ∀ w3 r, swow_coroutine_throw b E w scoroutine exception retval = .ok (w3, false, r) →
          ∃ w1 w2, w.set_cross_exception scoroutine (some exception) = .ok w1
            ∧ swow_coroutine_resume b E w1 scoroutine .SWOW_COROUTINE_DATA_NULL retval
                = .ok (w2, false, r)
            ∧ w3.last_error = w2.last_error)) := by
  refine ⟨fun h1 => ?_, fun h1 h2 => ?_, fun h1 h2 h3 => ?_, fun h1 h2 h3 => ⟨fun hc => ?_,
    fun hc w3 r h => ?_⟩⟩
  · simp [swow_coroutine_throw, h1, pure, Except.pure]
  · simp [swow_coroutine_throw, h1, h2, pure, Except.pure]
  · simp [swow_coroutine_throw, h1, h2, h3, pure, Except.pure]
  · refine ⟨zend_throw_exception_internal (w.GC_ADDREF exception) exception, ?_, ?_⟩
    · subst hc
      simp [swow_coroutine_throw, h1, h2, h3, swow_coroutine_get_current, pure,
        Except.pure]
    · exact ((heapOnly_GC_ADDREF w exception).andThen
        (heapOnly_zend_throw_exception_internal _ _)).last_error
  · have hc2 : (scoroutine == swow_coroutine_get_current w) = false := by
      simpa [swow_coroutine_get_current] using hc
    simp only [swow_coroutine_throw, h1, h2, h3, hc2, Bool.not_true, Bool.false_eq_true,
      ↓reduceIte, bind, Except.bind] at h
    cases h4 : w.set_cross_exception scoroutine (some exception) with
    | error e => rw [h4] at h; cases h
    | ok w1 =>
      rw [h4] at h
      simp only [] at h
      cases h5 : swow_coroutine_resume b E w1 scoroutine .SWOW_COROUTINE_DATA_NULL retval with
      | error e => rw [h5] at h; cases h
      | ok res =>
        obtain ⟨w2, success, result⟩ := res
        rw [h5] at h
        simp only [] at h
        cases success with
        | true => simp [pure, Except.pure] at h
        | false =>
          simp only [Bool.not_false, ↓reduceIte] at h
          cases h6 : w2.set_cross_exception scoroutine none with
          | error e => rw [h6] at h; cases h
          | ok w3x =>
            rw [h6] at h
            simp only [pure, Except.pure, Except.ok.injEq, Prod.mk.injEq] at h
            obtain ⟨hw, _, hr⟩ := h
            subst hw; subst hr
            exact ⟨w1, w2, rfl, h5, set_cross_exception_last_error _ _ _ _ h6⟩

/-- C7 at concrete inputs: an object that is not throwable; a Terminate
exception thrown into a coroutine that is not alive; into the scheduler;
into the current coroutine. -/
theorem C7_throw_precondition_checks_witness :
    swow_coroutine_throw release_build demo_engine demo_world 1 3 true
        = .ok ({ demo_world with last_error := some .not_throwable }, false, none)
    ∧ swow_coroutine_throw release_build demo_engine demo_world 3 0 true
        = .ok ({ demo_world with last_error := some .not_alive }, false, none)
    ∧ swow_coroutine_throw release_build demo_engine demo_world_scheduler 2 0 true
        = .ok ({ demo_world_scheduler with last_error := some .break_scheduler }, false, none)
    ∧ (∃ w1, swow_coroutine_throw release_build demo_engine demo_world 0 0 true
          = .ok (w1, true, none) ∧ w1.last_error = demo_world.last_error) :=
  ⟨(C7_throw_precondition_checks release_build demo_engine demo_world 1 3 true).1
      (by decide),
   (C7_throw_precondition_checks release_build demo_engine demo_world 3 0 true).2.1
      (by decide) (by decide),
   (C7_throw_precondition_checks release_build demo_engine demo_world_scheduler 2 0
      true).2.2.1 (by decide) (by decide) (by decide),
   ((C7_throw_precondition_checks release_build demo_engine demo_world 0 0 true).2.2.2
      (by decide) (by decide) (by decide)).1 rfl⟩

/-- C8. For a throw that passes the precondition checks: if the target is the
current coroutine the exception is raised in place (it becomes the pending
exception of the interpreter), nothing is switched, no coroutine record and
so no pending cross-exception slot is touched, and the throw returns
success; otherwise the exception is stored in the slot of the target and
the target is resumed with the no-value sentinel, the throw stops where that
resume stops and succeeds when it succeeds, and when it fails the slot is
reset to empty and the throw returns failure. -/
theorem C8_throw_in_place_or_store_and_resume (b : Build) (E : Engine) (w : World)
    (scoroutine : Cid) (exception : ObjId) (retval : Bool)
    (h1 : w.instanceof_function (w.objects exception).ce w.zend_ce_throwable = true)
    (h2 : swow_coroutine_is_alive w scoroutine = true)
    (h3 : swow_coroutine_is_scheduler w scoroutine = false) :
    (scoroutine = w.current →
      ∃ w1, swow_coroutine_throw b E w scoroutine exception retval = .ok (w1, true, none)
        ∧ w1.EG.exception = some exception
        ∧ w1.current = w.current ∧ w1.coroutines = w.coroutines)
    ∧ (scoroutine ≠ w.current →
      ∀ executor, (w.coroutines scoroutine).executor = some executor →
        ∃ w1, w1 = w.set_executor scoroutine
                (some { executor with cross_exception := some exception })
          ∧ w1.cross_exception scoroutine = some exception
          ∧ (∀ h, swow_coroutine_resume b E w1 scoroutine .SWOW_COROUTINE_DATA_NULL retval
                = .error h →
              swow_coroutine_throw b E w scoroutine exception retval = .error h)
          ∧ (∀ w2 r, swow_coroutine_resume b E w1 scoroutine .SWOW_COROUTINE_DATA_NULL retval
                = .ok (w2, true, r) →
              swow_coroutine_throw b E w scoroutine exception retval = .ok (w2, true, r))
          ∧ (∀ w2 r e2,
              swow_coroutine_resume b E w1 scoroutine .SWOW_COROUTINE_DATA_NULL retval
                = .ok (w2, false, r) →
              (w2.coroutines scoroutine).executor = some e2 →
              ∃ w3, swow_coroutine_throw b E w scoroutine exception retval
                  = .ok (w3, false, r)
                ∧ w3 = w2.set_executor scoroutine (some { e2 with cross_exception := none })
                ∧ w3.cross_exception scoroutine = none)) := by
  refine ⟨fun hc => ?_, fun hc executor he => ?_⟩
  · refine ⟨zend_throw_exception_internal (w.GC_ADDREF exception) exception, ?_, ?_, ?_, ?_⟩
    · subst hc
      simp [swow_coroutine_throw, h1, h2, h3, swow_coroutine_get_current, pure,
        Except.pure]
    · have hh := heapOnly_zend_exception_set_previous (w.GC_ADDREF exception) exception
        (w.GC_ADDREF exception).EG.exception
      unfold zend_throw_exception_internal
      cases hp : (w.GC_ADDREF exception).EG.exception with
      | none =>
        simp only [swow_zend_throw_exception_hook]
        split <;> rfl
      | some p => rfl
    · exact ((heapOnly_GC_ADDREF w exception).andThen
        (heapOnly_zend_throw_exception_internal _ _)).current
    · exact ((heapOnly_GC_ADDREF w exception).andThen
        (heapOnly_zend_throw_exception_internal _ _)).coroutines
  · have hc2 : (scoroutine == swow_coroutine_get_current w) = false := by
      simpa [swow_coroutine_get_current] using hc
    have hs := set_cross_exception_some w scoroutine (some exception) executor he
    refine ⟨_, rfl, ?_, fun h hr => ?_, fun w2 r hr => ?_, fun w2 r e2 hr he2 => ?_⟩
    · simp [World.cross_exception, World.set_executor, World.set_coroutine]
    · simp [swow_coroutine_throw, h1, h2, h3, hc2, hs, hr, bind, Except.bind]
    · simp [swow_coroutine_throw, h1, h2, h3, hc2, hs, hr, bind, Except.bind, pure,
        Except.pure]
    · refine ⟨_, ?_, rfl, ?_⟩
      · simp [swow_coroutine_throw, h1, h2, h3, hc2, hs, hr, bind, Except.bind, pure,
          Except.pure, set_cross_exception_some w2 scoroutine none e2 he2]
      · simp [World.cross_exception, World.set_executor, World.set_coroutine]

/-- C8 at concrete inputs: a Terminate exception thrown into the current
coroutine; thrown into the constructed coroutine `1` with an engine that
refuses the jump (the slot is reset, the throw fails); and thrown into `1`
with the engine of the machine, where the stack is switched towards `1`
with the no-value sentinel while the slot of `1` holds the exception. -/
theorem C8_throw_in_place_or_store_and_resume_witness :
    (∃ w1, swow_coroutine_throw release_build demo_engine demo_world 0 0 true
        = .ok (w1, true, none)
      ∧ w1.EG.exception = some 0 ∧ w1.current = demo_world.current
      ∧ w1.coroutines = demo_world.coroutines)
    ∧ (∃ w3, swow_coroutine_throw release_build refusing_engine demo_world 1 0 true
        = .ok (w3, false, some .IS_NULL)
      ∧ w3.cross_exception 1 = none)
    ∧ (∃ w2, swow_coroutine_throw release_build (Engine.switching precheck_pass)
          demo_world 1 0 true = .error (.switched w2 1 .SWOW_COROUTINE_DATA_NULL)
      ∧ w2.cross_exception 1 = some 0) := by
  refine ⟨(C8_throw_in_place_or_store_and_resume release_build demo_engine demo_world 0 0
      true (by decide) (by decide) (by decide)).1 rfl, ?_, ?_⟩
  · obtain ⟨w1, hw1, _, _, _, h⟩ :=
      (C8_throw_in_place_or_store_and_resume release_build refusing_engine demo_world 1 0
        true (by decide) (by decide) (by decide)).2 (by decide) (demo_executor .IS_TRUE) rfl
    subst hw1
    obtain ⟨w3, e3, _, h3⟩ := h _ (some .IS_NULL) _ rfl rfl
    exact ⟨w3, e3, h3⟩
  · obtain ⟨w1, hw1, _, h, _, _⟩ :=
      (C8_throw_in_place_or_store_and_resume release_build (Engine.switching precheck_pass)
        demo_world 1 0 true (by decide) (by decide) (by decide)).2 (by decide)
        (demo_executor .IS_TRUE) rfl
    subst hw1
    exact ⟨_, h _ rfl, by decide⟩

/-- C9. For every pending cross exception `e` delivered by
`swow_coroutine_handle_cross_exception` (in a heap whose handles in use lie
below the handle counter), the exception raised in the receiving coroutine
is a newly created object, with a handle not in use before and so different
from `e`, of exactly the class of `e`, with the message and code of `e`, and
with `e` as its cause; and when the receiver already had an exception
pending and `e` is a Kill exception, that earlier exception is discarded: it
is released once and linked into no cause chain. -/
theorem C9_cross_exception_raised_as_copy (w : World) (e : ObjId)
    (hwf : w.causes_below w.next_handle) (he : e < w.next_handle)
    (hpend : ∀ old, w.EG.exception = some old → old < w.next_handle) :
    (swow_coroutine_handle_cross_exception w e).EG.exception = some w.next_handle
    ∧ w.next_handle ≠ e
    ∧ ((swow_coroutine_handle_cross_exception w e).objects w.next_handle).ce
        = (w.objects e).ce
    ∧ ((swow_coroutine_handle_cross_exception w e).objects w.next_handle).message
        = (w.objects e).message
    ∧ ((swow_coroutine_handle_cross_exception w e).objects w.next_handle).code
        = (w.objects e).code
    ∧ ((swow_coroutine_handle_cross_exception w e).objects w.next_handle).previous = some e
    ∧ (∀ old, w.EG.exception = some old →
        w.instanceof_function (w.objects e).ce w.swow_coroutine_kill_exception_ce = true →
        (∀ h, h ≠ w.next_handle →
          ((swow_coroutine_handle_cross_exception w e).objects h).previous
            = (w.objects h).previous)
        ∧ ((swow_coroutine_handle_cross_exception w e).objects old).refcount
            = (w.objects old).refcount - 1) := by
  have hobj := handle_cross_exception_copy_object w e hwf he hpend
  refine ⟨handle_cross_exception_raises_copy w e, Ne.symm (Nat.ne_of_lt he), ?_, ?_, ?_, ?_,
    fun old hp hkill =>
      handle_cross_exception_kill_discards w e old hwf he (hpend old hp) hp hkill⟩
  · rw [hobj]
  · rw [hobj]
  · rw [hobj]
  · rw [hobj]

/-- C9 at a concrete input: the Kill exception `1` is delivered while the plain
exception `2` is pending; the raised object is the new object `3`, a Kill
exception with message "kill" and code `9` caused by `1`, and `2` has lost
its only reference and is the cause of nothing. -/
theorem C9_cross_exception_raised_as_copy_witness :
    (swow_coroutine_handle_cross_exception demo_world_pending 1).EG.exception = some 3
    ∧ ((swow_coroutine_handle_cross_exception demo_world_pending 1).objects 3).ce = 5
    ∧ ((swow_coroutine_handle_cross_exception demo_world_pending 1).objects 3).message
        = .IS_STRING "kill"
    ∧ ((swow_coroutine_handle_cross_exception demo_world_pending 1).objects 3).code
        = .IS_LONG 9
    ∧ ((swow_coroutine_handle_cross_exception demo_world_pending 1).objects 3).previous
        = some 1
    ∧ ((swow_coroutine_handle_cross_exception demo_world_pending 1).objects 1).previous
        = none
    ∧ ((swow_coroutine_handle_cross_exception demo_world_pending 1).objects 2).refcount
        = 0 := by
  have h := C9_cross_exception_raised_as_copy demo_world_pending 1
    (fun h p hp => by
      have := demo_objects_previous h
      simp [demo_world_pending, demo_world, this] at hp)
    (by decide)
    (fun old hp => by
      have : old = 2 := by
        simp [demo_world_pending, demo_world, demo_globals] at hp
        exact hp.symm
      subst this
      decide)
  obtain ⟨h1, _, h3, h4, h5, h6, h7⟩ := h
  obtain ⟨h8, h9⟩ := h7 2 rfl (by decide)
  exact ⟨h1, h3, h4, h5, h6, h8 1 (by decide), h9⟩

/-- C10, the claim as stated fails. Claim: whenever control returns into
`swow_coroutine_jump` and the pending cross-exception slot of the
now-current coroutine is not empty, the exception is delivered and the slot
emptied before the function returns, whatever the state (WAITING or DEAD)
of the coroutine control came from.  Here control returns into the main
coroutine, whose slot holds the Terminate exception `0`, from coroutine `1`:
when `1` is WAITING the exception is raised and the slot emptied, but when
`1` is DEAD the function returns with the slot still holding `0` and with
no exception raised. -/
theorem C10_pending_exception_kept_when_from_is_dead :
    (demo_world_back .DEAD).cross_exception 0 = some 0
    ∧ observe (swow_coroutine_jump_post release_build (demo_world_back .DEAD) 0
        .SWOW_COROUTINE_DATA_NULL) (fun w => (w.cross_exception 0, w.EG.exception))
      = some (some 0, none)
    ∧ observe (swow_coroutine_jump_post debug_build (demo_world_back .DEAD) 0
        .SWOW_COROUTINE_DATA_NULL) (fun w => (w.cross_exception 0, w.EG.exception))
      = some (some 0, none)
    ∧ observe (swow_coroutine_jump_post release_build (demo_world_back .WAITING) 0
        .SWOW_COROUTINE_DATA_NULL) (fun w => (w.cross_exception 0, w.EG.exception))
      = some (none, some 3) := by
  decide

/-- C10 as amended. Whenever control returns into `swow_coroutine_jump` and
the pending cross-exception slot of the now-current coroutine holds `e`: if
the coroutine control came from is not DEAD, the function returns the
payload with `e` delivered (the interpreter state is the one
`swow_coroutine_handle_cross_exception` leaves, with the copy of `e`
raised) and the slot emptied; if it is DEAD, the function returns the
payload after closing that coroutine and deleting it from the map, with
the slot and the interpreter state left as they were. -/
theorem C10_pending_exception_delivered_unless_from_is_dead (b : Build) (w : World)
    (current_scoroutine scoroutine : Cid) (zdata : zval_ptr)
    (executor : swow_coroutine_exector_t) (e : ObjId)
    (hfrom : swow_coroutine_get_from w current_scoroutine = some scoroutine)
    (hexec : (w.coroutines current_scoroutine).executor = some executor)
    (hslot : executor.cross_exception = some e) :
    ((w.coroutines scoroutine).coroutine.state ≠ .DEAD →
      ∃ w1, swow_coroutine_jump_post b w current_scoroutine zdata = .ok (w1, zdata)
        ∧ w1.cross_exception current_scoroutine = none
        ∧ w1.EG = (swow_coroutine_handle_cross_exception w e).EG
        ∧ w1.objects = (swow_coroutine_handle_cross_exception w e).objects
        ∧ w1.EG.exception = some w.next_handle)
    ∧ ((w.coroutines scoroutine).coroutine.state = .DEAD →
      scoroutine ≠ current_scoroutine →
      ∀ closed, (w.coroutines scoroutine).executor = some closed →
        ∃ w1, swow_coroutine_jump_post b w current_scoroutine zdata = .ok (w1, zdata)
          ∧ w1.cross_exception current_scoroutine = some e
          ∧ w1.EG = w.EG
          ∧ (w1.coroutines scoroutine).executor = none
          ∧ w1.map = zend_hash_index_del w.map (w.coroutines scoroutine).coroutine.id) := by
  refine ⟨fun hs => ?_, fun hs hne closed hc => ?_⟩
  · have hs2 : ((w.coroutines scoroutine).coroutine.state == cat_coroutine_state.DEAD)
        = false := by simpa using hs
    refine ⟨(swow_coroutine_handle_cross_exception w e).set_executor current_scoroutine
      (some { executor with cross_exception := none }), ?_, ?_, rfl, rfl, ?_⟩
    · simp [swow_coroutine_jump_post, hfrom, hs2, hexec, hslot, pure, Except.pure]
    · simp [World.cross_exception, World.set_executor, World.set_coroutine]
    · exact handle_cross_exception_raises_copy w e
  · have hs2 : ((w.coroutines scoroutine).coroutine.state == cat_coroutine_state.DEAD)
        = true := by simpa using hs
    have hne2 : current_scoroutine ≠ scoroutine := Ne.symm hne
    obtain ⟨w0, hh, hEG, hclose⟩ := coroutine_close_ok b w scoroutine closed hc
    obtain ⟨d1, _, _, _, _, d6, _⟩ := hash_del_fields (w0.set_executor scoroutine none)
      ((w0.set_executor scoroutine none).coroutines scoroutine).coroutine.id
    refine ⟨(w0.set_executor scoroutine none).zend_hash_index_del
        ((w0.set_executor scoroutine none).coroutines scoroutine).coroutine.id,
      ?_, ?_, ?_, ?_, ?_⟩
    · simp only [swow_coroutine_jump_post, hfrom, hs2, ↓reduceIte, hclose, bind, Except.bind,
        pure, Except.pure]
    · unfold World.cross_exception
      rw [d6]
      simp [World.set_executor, World.set_coroutine, hne2, hh.coroutines, hexec, hslot]
    · rw [(hash_del_EG _ _).1]
      exact hEG
    · rw [d6]
      simp [World.set_executor, World.set_coroutine]
    · rw [d1]
      simp [World.set_executor, World.set_coroutine, hh.map, hh.coroutines]

/-- C10 as amended, at the concrete inputs of the counterexample: control
comes back from coroutine `1` WAITING, and from coroutine `1` DEAD. -/
theorem C10_pending_exception_delivered_unless_from_is_dead_witness :
    (∃ w1, swow_coroutine_jump_post release_build (demo_world_back .WAITING) 0
          .SWOW_COROUTINE_DATA_NULL = .ok (w1, .SWOW_COROUTINE_DATA_NULL)
        ∧ w1.cross_exception 0 = none
        ∧ w1.EG.exception = some (demo_world_back .WAITING).next_handle)
    ∧ (∃ w1, swow_coroutine_jump_post release_build (demo_world_back .DEAD) 0
          .SWOW_COROUTINE_DATA_NULL = .ok (w1, .SWOW_COROUTINE_DATA_NULL)
        ∧ w1.cross_exception 0 = some 0
        ∧ (w1.coroutines 1).executor = none) := by
  have h := C10_pending_exception_delivered_unless_from_is_dead release_build
    (demo_world_back .WAITING) 0 1 .SWOW_COROUTINE_DATA_NULL
    { demo_executor .IS_NULL with cross_exception := some 0 } 0 rfl rfl rfl
  have h2 := C10_pending_exception_delivered_unless_from_is_dead release_build
    (demo_world_back .DEAD) 0 1 .SWOW_COROUTINE_DATA_NULL
    { demo_executor .IS_NULL with cross_exception := some 0 } 0 rfl rfl rfl
  obtain ⟨w1, a1, a2, _, _, a5⟩ := h.1 (by decide)
  obtain ⟨w2, b1, b2, _, b4, _⟩ := h2.2 rfl (by decide) (demo_executor .IS_TRUE) rfl
  exact ⟨⟨w1, a1, a2, a5⟩, ⟨w2, b1, b2, b4⟩⟩

/-- C11, the claim as stated fails. Claim: for every coroutine B that is
WAITING, if `swow_coroutine_kill(B, message, code)` returns success, B is
DEAD, not WAITING, and returned no value to the killer.  In the build
without `SWOW_COROUTINE_USE_RATED` the function returns success as soon as
the inner throw does, without looking at the state of B.  Here the main
coroutine kills coroutine `1`, which is WAITING, with an engine in which the
victim, resumed with the exception delivered, yields again: the kill
returns success and coroutine `1` is still WAITING and alive.  (With the
guard compiled in, the same run ends in the fatal error "Kill coroutine
failed by unknown reason".) -/
theorem C11_kill_without_guard_leaves_victim_waiting :
    (demo_world_waiting_1.coroutines 1).coroutine.state = .WAITING
    ∧ result_of (swow_coroutine_kill release_build false (yielding_engine release_build)
        demo_world_waiting_1 1 none (-1) .IS_UNDEF) = some true
    ∧ observe (swow_coroutine_kill release_build false (yielding_engine release_build)
        demo_world_waiting_1 1 none (-1) .IS_UNDEF)
        (fun w => ((w.coroutines 1).coroutine.state, swow_coroutine_is_alive w 1))
      = some (.WAITING, true)
    ∧ observe (swow_coroutine_kill debug_build false (yielding_engine debug_build)
        demo_world_waiting_1 1 none (-1) .IS_UNDEF)
        (fun w => ((w.coroutines 1).coroutine.state, swow_coroutine_is_alive w 1))
      = some (.WAITING, true)
    ∧ core_error_of (swow_coroutine_kill debug_build true (yielding_engine debug_build)
        demo_world_waiting_1 1 none (-1) .IS_UNDEF)
      = some "Kill coroutine failed by unknown reason" := by
  decide

/-- C11 as amended.  In the build with the guard (`SWOW_COROUTINE_USE_RATED`),
with an engine that never takes a coroutine back to the state INIT: for
every coroutine B that is WAITING, if `swow_coroutine_kill(B, message,
code)` returns success then B is DEAD, not WAITING, `swow_coroutine_is_alive`
is false for it, and the value the inner throw received from B is null. -/
theorem C11_guarded_kill_leaves_waiting_victim_dead (b : Build) (E : Engine) (w : World)
    (B : Cid) (message : Option String) (code : Int) (retval : zval) (w1 : World)
    (hE : E.never_resets)
    (hwait : (w.coroutines B).coroutine.state = .WAITING)
    (h : swow_coroutine_kill b true E w B message code retval = .ok (w1, true)) :
    (w1.coroutines B).coroutine.state = .DEAD
    ∧ (w1.coroutines B).coroutine.state ≠ .WAITING
    ∧ swow_coroutine_is_alive w1 B = false
    ∧ ∃ w4 r, swow_coroutine_throw b E
          (swow_coroutine_kill_install_guard (swow_coroutine_kill_exception w message code).1
            B).1 B (swow_coroutine_kill_exception w message code).2 true
          = .ok (w4, true, r)
        ∧ r.getD retval = .IS_NULL := by
  obtain ⟨w4, r, h1, h2, _, h4⟩ := kill_guarded_returns b E w B message code retval w1 true h
  obtain ⟨hrun, hnull⟩ := h4 rfl
  have halive : swow_coroutine_is_alive w1 B = false := hrun
  have hnr : w.not_reset w1 := by
    have s := not_reset_throw b E hE _ _ _ _ _ _ _ h1
    rw [h2]
    exact s
  have hdead : (w1.coroutines B).coroutine.state = .DEAD := by
    have hnot : (w1.coroutines B).coroutine.state ≠ .INIT := by
      intro hi
      have := hnr B hi
      simp only [World.states] at this
      rw [hwait] at this
      cases this
    unfold swow_coroutine_is_alive cat_coroutine_is_alive at halive
    cases hs : (w1.coroutines B).coroutine.state <;> simp_all
  exact ⟨hdead, by rw [hdead]; decide, halive, w4, r, h1, hnull⟩

/-- C11 as amended, at a concrete input: the main coroutine kills coroutine `1`,
which is WAITING, with the guard and an engine in which the victim does not
catch the exception: the kill succeeds and coroutine `1` is DEAD. -/
theorem C11_guarded_kill_leaves_waiting_victim_dead_witness :
    ∃ w1, swow_coroutine_kill debug_build true (unwinding_engine debug_build)
        demo_world_waiting_1 1 none (-1) .IS_UNDEF = .ok (w1, true)
      ∧ (w1.coroutines 1).coroutine.state = .DEAD
      ∧ swow_coroutine_is_alive w1 1 = false := by
  obtain ⟨w1, h1⟩ := ok_of_result (swow_coroutine_kill debug_build true
    (unwinding_engine debug_build) demo_world_waiting_1 1 none (-1) .IS_UNDEF) true
    (by decide)
  obtain ⟨a1, _, a3, _⟩ := C11_guarded_kill_leaves_waiting_victim_dead debug_build
    (unwinding_engine debug_build) demo_world_waiting_1 1 none (-1) .IS_UNDEF w1
    (unwinding_engine_never_resets debug_build) rfl h1
  exact ⟨w1, h1, a1, a3⟩

/-- C12, the claim as stated fails. Claim: while the guard is installed,
`swow_coroutine_resume_rated` forwards a switch to the standard dispatcher
if and only if one of source and target is the killer and the other the
victim, and rejects every other switch, also one whose source and target
are the same coroutine, with the fatal error.  Here the guard is installed
with killer `0` and victim `1`, and the killer, which is current, is the
target as well: the switch is not rejected, it is handed to the standard
dispatcher for every engine and payload, and with an engine whose check
refuses the jump the call returns the error sentinel without a fatal
error. -/
theorem C12_rated_forwards_switch_to_self :
    demo_world_guarded.current = 0
    ∧ demo_world_guarded.rated_killer = some 0
    ∧ demo_world_guarded.rated_dead = some 1
    ∧ (∀ (b : Build) (E : Engine) (data : zval_ptr),
        swow_coroutine_resume_rated b E demo_world_guarded 0 data
          = swow_coroutine_resume_standard b E demo_world_guarded 0 data)
    ∧ core_error_of (swow_coroutine_resume_rated debug_build refusing_engine
        demo_world_guarded 0 .SWOW_COROUTINE_DATA_NULL) = none
    ∧ payload_of (swow_coroutine_resume_rated debug_build refusing_engine
        demo_world_guarded 0 .SWOW_COROUTINE_DATA_NULL) = some .SWOW_COROUTINE_DATA_ERROR :=
  ⟨rfl, rfl, rfl, fun _ _ _ => rfl, by decide, by decide⟩

/-- C12 as amended.  `swow_coroutine_resume_rated` forwards a switch to the
standard dispatcher if and only if the target is the killer or the victim
and the current coroutine is the killer or the victim (so also when both
are the same one of the two); every other switch, one that involves a third
coroutine as source or as target, ends in the fatal error "Unexpected
coroutine switching". -/
theorem C12_rated_forwards_within_killer_and_victim (b : Build) (E : Engine) (w : World)
    (coroutine : Cid) (data : zval_ptr) :
    (((some coroutine = w.rated_dead ∨ some coroutine = w.rated_killer)
        ∧ (some w.current = w.rated_dead ∨ some w.current = w.rated_killer)) →
      swow_coroutine_resume_rated b E w coroutine data
        = swow_coroutine_resume_standard b E w coroutine data)
    ∧ (¬ ((some coroutine = w.rated_dead ∨ some coroutine = w.rated_killer)
        ∧ (some w.current = w.rated_dead ∨ some w.current = w.rated_killer)) →
      swow_coroutine_resume_rated b E w coroutine data
        = .error (.core_error "Unexpected coroutine switching")) := by
  unfold swow_coroutine_resume_rated swow_coroutine_resume_deny
  simp only [swow_coroutine_get_current]
  constructor
  · rintro ⟨h1, h2⟩
    have a1 : (some coroutine != w.rated_dead && some coroutine != w.rated_killer) = false := by
      rcases h1 with h1 | h1 <;> simp [h1]
    have a2 : (some w.current != w.rated_dead && some w.current != w.rated_killer)
        = false := by
      rcases h2 with h2 | h2 <;> simp [h2]
    simp only [a1, a2, Bool.or_self, Bool.false_eq_true, ↓reduceIte]
  · intro h
    have : ((some coroutine != w.rated_dead && some coroutine != w.rated_killer)
        || (some w.current != w.rated_dead && some w.current != w.rated_killer)) = true := by
      by_contra hc
      apply h
      simp only [Bool.or_eq_true, Bool.and_eq_true, bne_iff_ne, ne_eq, not_or, not_and,
        Decidable.not_not] at hc
      obtain ⟨hc1, hc2⟩ := hc
      refine ⟨?_, ?_⟩
      · by_cases h1 : some coroutine = w.rated_dead
        · exact Or.inl h1
        · exact Or.inr (hc1 h1)
      · by_cases h2 : some w.current = w.rated_dead
        · exact Or.inl h2
        · exact Or.inr (hc2 h2)
    simp only [this, ↓reduceIte]

/-- C12 as amended, at the concrete guard with killer `0` (current) and victim
`1`: the switch to the victim is forwarded, the switch to the third
coroutine `2` is rejected. -/
theorem C12_rated_forwards_within_killer_and_victim_witness :
    swow_coroutine_resume_rated debug_build demo_engine demo_world_guarded 1
        .SWOW_COROUTINE_DATA_NULL
      = swow_coroutine_resume_standard debug_build demo_engine demo_world_guarded 1
          .SWOW_COROUTINE_DATA_NULL
    ∧ swow_coroutine_resume_rated debug_build demo_engine demo_world_guarded 2
        .SWOW_COROUTINE_DATA_NULL
      = .error (.core_error "Unexpected coroutine switching") :=
  ⟨(C12_rated_forwards_within_killer_and_victim debug_build demo_engine demo_world_guarded 1
      .SWOW_COROUTINE_DATA_NULL).1 ⟨Or.inl rfl, Or.inr rfl⟩,
   (C12_rated_forwards_within_killer_and_victim debug_build demo_engine demo_world_guarded 2
      .SWOW_COROUTINE_DATA_NULL).2 (by decide)⟩

/-- C13.  In the build with the guard (`SWOW_COROUTINE_USE_RATED`), for every
engine: whenever `swow_coroutine_kill` returns, with success or with
failure, the resume dispatcher registered then is the one that was
registered when it was called; the guard `swow_coroutine_resume_rated` is
registered in the world in which the inner throw is called, and the world
returned is the world the throw returned with the original dispatcher
registered again (and the exception released). -/
theorem C13_kill_restores_the_resume_dispatcher (b : Build) (E : Engine) (w : World)
    (scoroutine : Cid) (message : Option String) (code : Int) (retval : zval) (w1 : World)
    (success : Bool)
    (h : swow_coroutine_kill b true E w scoroutine message code retval
      = .ok (w1, success)) :
    w1.cat_coroutine_resume = w.cat_coroutine_resume
    ∧ (swow_coroutine_kill_install_guard (swow_coroutine_kill_exception w message code).1
        scoroutine).1.cat_coroutine_resume = .swow_coroutine_resume_rated
    ∧ ∃ w4 r, swow_coroutine_throw b E
          (swow_coroutine_kill_install_guard (swow_coroutine_kill_exception w message code).1
            scoroutine).1 scoroutine (swow_coroutine_kill_exception w message code).2 true
          = .ok (w4, success, r)
        ∧ w1 = World.GC_DELREF
            (cat_coroutine_register_resume w4 w.cat_coroutine_resume).1
            (swow_coroutine_kill_exception w message code).2 := by
  obtain ⟨w4, r, h1, h2, _, _⟩ :=
    kill_guarded_returns b E w scoroutine message code retval w1 success h
  refine ⟨?_, rfl, w4, r, h1, h2⟩
  rw [h2]
  rfl

/-- C13 at concrete inputs: the main coroutine kills coroutine `1`, which is
WAITING, with an engine in which the victim dies (the kill succeeds) and
with an engine that refuses the jump (the kill fails); the standard
dispatcher is registered afterwards in both cases. -/
theorem C13_kill_restores_the_resume_dispatcher_witness :
    (∃ w1, swow_coroutine_kill debug_build true (unwinding_engine debug_build)
          demo_world_waiting_1 1 none (-1) .IS_UNDEF = .ok (w1, true)
        ∧ w1.cat_coroutine_resume = .swow_coroutine_resume_standard)
    ∧ (∃ w1, swow_coroutine_kill debug_build true refusing_engine
          demo_world_waiting_1 1 none (-1) .IS_UNDEF = .ok (w1, false)
        ∧ w1.cat_coroutine_resume = .swow_coroutine_resume_standard) := by
  obtain ⟨w1, h1⟩ := ok_of_result (swow_coroutine_kill debug_build true
    (unwinding_engine debug_build) demo_world_waiting_1 1 none (-1) .IS_UNDEF) true
    (by decide)
  obtain ⟨w2, h2⟩ := ok_of_result (swow_coroutine_kill debug_build true
    refusing_engine demo_world_waiting_1 1 none (-1) .IS_UNDEF) false (by decide)
  exact ⟨⟨w1, h1, (C13_kill_restores_the_resume_dispatcher debug_build
      (unwinding_engine debug_build) demo_world_waiting_1 1 none (-1) .IS_UNDEF w1 true
      h1).1⟩,
    ⟨w2, h2, (C13_kill_restores_the_resume_dispatcher debug_build refusing_engine
      demo_world_waiting_1 1 none (-1) .IS_UNDEF w2 false h2).1⟩⟩

/-- C14.  For every object, engine and build, and whatever the destructor of
the host does first: when the object is the main coroutine,
`swow_coroutine_dtor_object` returns at once, without a call of
`swow_coroutine_kill` (the world is the one the host call left, for every
engine); for every other object, when it returns the coroutine is not
alive; while the coroutine is alive it is killed, a kill that returns
failure ends in the fatal error "Kill coroutine failed when destruct
object", and after a kill that returns success the test is made again. -/
theorem C14_destructor_spares_main_and_kills_the_rest (b : Build) (rated : Bool)
    (E : Engine) (R : Runtime) (retval : zval) (w : World) (object : Cid) :
    (object = swow_coroutine_get_main (R.zend_objects_destroy_object w object) →
      ∀ fuel, swow_coroutine_dtor_object b rated E R retval fuel w object
        = .ok (some (R.zend_objects_destroy_object w object)))
    ∧ (object ≠ swow_coroutine_get_main (R.zend_objects_destroy_object w object) →
      (∀ fuel w1, swow_coroutine_dtor_object b rated E R retval fuel w object
          = .ok (some w1) → swow_coroutine_is_alive w1 object = false)
      ∧ (swow_coroutine_is_alive (R.zend_objects_destroy_object w object) object = false →
          ∀ fuel, swow_coroutine_dtor_object b rated E R retval fuel w object
            = .ok (some (R.zend_objects_destroy_object w object)))
      ∧ (swow_coroutine_is_alive (R.zend_objects_destroy_object w object) object = true →
          (∀ w2 fuel, swow_coroutine_kill b rated E (R.zend_objects_destroy_object w object)
              object none (-1) retval = .ok (w2, false) →
            swow_coroutine_dtor_object b rated E R retval (fuel + 1) w object
              = .error (.core_error kill_failed_in_destructor_message))
          ∧ (∀ w2 fuel, swow_coroutine_kill b rated E (R.zend_objects_destroy_object w object)
              object none (-1) retval = .ok (w2, true) →
            swow_coroutine_dtor_object b rated E R retval (fuel + 1) w object
              = swow_coroutine_dtor_object_loop b rated E retval fuel w2 object))) := by
  refine ⟨fun hm fuel => ?_, fun hm => ⟨fun fuel w1 h => ?_, fun ha fuel => ?_,
    fun ha => ⟨fun w2 fuel hk => ?_, fun w2 fuel hk => ?_⟩⟩⟩
  · have hb : (object == swow_coroutine_get_main (R.zend_objects_destroy_object w object))
        = true := by simpa using hm
    simp only [swow_coroutine_dtor_object, hb, ↓reduceIte, pure, Except.pure]
  · have hb : (object == swow_coroutine_get_main (R.zend_objects_destroy_object w object))
        = false := by simpa using hm
    simp only [swow_coroutine_dtor_object, hb, Bool.false_eq_true, ↓reduceIte] at h
    exact dtor_object_loop_ends_not_alive b rated E retval fuel _ _ _ h
  · have hb : (object == swow_coroutine_get_main (R.zend_objects_destroy_object w object))
        = false := by simpa using hm
    simp only [swow_coroutine_dtor_object, hb, Bool.false_eq_true, ↓reduceIte]
    cases fuel <;> simp [swow_coroutine_dtor_object_loop, ha, pure, Except.pure]
  · have hb : (object == swow_coroutine_get_main (R.zend_objects_destroy_object w object))
        = false := by simpa using hm
    simp [swow_coroutine_dtor_object, hb, swow_coroutine_dtor_object_loop, ha, hk, bind,
      Except.bind]
  · have hb : (object == swow_coroutine_get_main (R.zend_objects_destroy_object w object))
        = false := by simpa using hm
    simp [swow_coroutine_dtor_object, hb, swow_coroutine_dtor_object_loop, ha, hk, bind,
      Except.bind]

/-- C14 at concrete inputs: the destructor of the main coroutine `0` returns the
world as it is; the destructor of coroutine `1`, which is WAITING, with an
engine in which the victim does not catch the exception, returns with
coroutine `1` not alive; with an engine that refuses the jump it ends in the
fatal error. -/
theorem C14_destructor_spares_main_and_kills_the_rest_witness :
    swow_coroutine_dtor_object debug_build true (unwinding_engine debug_build) demo_runtime
        .IS_UNDEF 2 demo_world 0 = .ok (some demo_world)
    ∧ (∃ w1, swow_coroutine_dtor_object debug_build true (unwinding_engine debug_build)
          demo_runtime .IS_UNDEF 2 demo_world_waiting_1 1 = .ok (some w1)
        ∧ swow_coroutine_is_alive w1 1 = false)
    ∧ swow_coroutine_dtor_object debug_build true refusing_engine demo_runtime
        .IS_UNDEF 2 demo_world_waiting_1 1
        = .error (.core_error kill_failed_in_destructor_message) := by
  have hmain := (C14_destructor_spares_main_and_kills_the_rest debug_build true
    (unwinding_engine debug_build) demo_runtime .IS_UNDEF demo_world 0).1 rfl 2
  have hrest := (C14_destructor_spares_main_and_kills_the_rest debug_build true
    (unwinding_engine debug_build) demo_runtime .IS_UNDEF demo_world_waiting_1 1).2
    (by decide)
  have hfail := (C14_destructor_spares_main_and_kills_the_rest debug_build true
    refusing_engine demo_runtime .IS_UNDEF demo_world_waiting_1 1).2 (by decide)
  obtain ⟨w2, hk⟩ := ok_of_result (swow_coroutine_kill debug_build true
    (unwinding_engine debug_build) demo_world_waiting_1 1 none (-1) .IS_UNDEF) true
    (by decide)
  obtain ⟨w3, hk3⟩ := ok_of_result (swow_coroutine_kill debug_build true
    refusing_engine demo_world_waiting_1 1 none (-1) .IS_UNDEF) false (by decide)
  obtain ⟨_, _, _, _, _, hdone⟩ := kill_guarded_returns debug_build
    (unwinding_engine debug_build) demo_world_waiting_1 1 none (-1) .IS_UNDEF w2 true hk
  have hdead : swow_coroutine_is_alive w2 1 = false := (hdone rfl).1
  have hret : swow_coroutine_dtor_object debug_build true (unwinding_engine debug_build)
      demo_runtime .IS_UNDEF 2 demo_world_waiting_1 1 = .ok (some w2) := by
    rw [(hrest.2.2 (by decide)).2 w2 1 hk]
    simp [swow_coroutine_dtor_object_loop, hdead, pure, Except.pure]
  exact ⟨hmain, ⟨w2, hret, hrest.1 2 w2 hret⟩, (hfail.2.2 (by decide)).1 w3 1 hk3⟩

/-- C15.  With the severity `E_ERROR` that `swow_coroutine_runtime_init` stores,
for an exception `e` left pending by the entry callable:
when `e` is an instance of the Kill exception class,
`swow_coroutine_function_handle_exception` releases and clears it, whatever
user exception handler is registered, and nothing is reported; when it is
not, the user exception handler is called if there is one, and what is
pending then is passed to the error reporter `zend_exception_error`.  So
nothing is reported if and only if `e` is a Kill exception. -/
theorem C15_uncaught_kill_absorbed_others_reported (w : World) (e : ObjId)
    (hpend : w.EG.exception = some e)
    (hsev : w.exception_error_severity = E_ERROR) :
    (w.instanceof_function (w.objects e).ce w.swow_coroutine_kill_exception_ce = true →
      swow_coroutine_function_handle_exception w
        = { w.GC_DELREF e with EG := { w.EG with exception := none } }
      ∧ (swow_coroutine_function_handle_exception w).reported = w.reported
      ∧ (swow_coroutine_function_handle_exception w).EG.exception = none)
    ∧ (w.instanceof_function (w.objects e).ce w.swow_coroutine_kill_exception_ce = false →
      (swow_coroutine_function_handle_exception w).EG.exception = none
      ∧ (w.user_exception_handler = none →
          (swow_coroutine_function_handle_exception w).reported
            = w.reported ++ [(e, E_ERROR)])
      ∧ (∀ handler, w.user_exception_handler = some handler →
          ∃ y, (swow_coroutine_function_call_user_handler w handler e).EG.exception = some y
            ∧ swow_coroutine_function_handle_exception w
                = zend_exception_error
                    (swow_coroutine_function_call_user_handler w handler e) y E_ERROR
            ∧ (swow_coroutine_function_handle_exception w).reported
                = w.reported ++ [(y, E_ERROR)]))
    ∧ ((swow_coroutine_function_handle_exception w).reported = w.reported
        ↔ w.instanceof_function (w.objects e).ce w.swow_coroutine_kill_exception_ce
            = true) := by
  have hs : w.exception_error_severity > E_NONE := by rw [hsev]; decide
  have hkill : w.instanceof_function (w.objects e).ce w.swow_coroutine_kill_exception_ce = true →
      swow_coroutine_function_handle_exception w
        = { w.GC_DELREF e with EG := { w.EG with exception := none } } := by
    intro hk
    simp [swow_coroutine_function_handle_exception, hpend, hk]
  have hnone : w.instanceof_function (w.objects e).ce w.swow_coroutine_kill_exception_ce
      = false → w.user_exception_handler = none →
      swow_coroutine_function_handle_exception w = swow_coroutine_function_report w := by
    intro hk hh
    simp [swow_coroutine_function_handle_exception, hpend, hk, hh]
  have hsome : w.instanceof_function (w.objects e).ce w.swow_coroutine_kill_exception_ce
      = false → ∀ handler, w.user_exception_handler = some handler →
      swow_coroutine_function_handle_exception w
        = swow_coroutine_function_report
            (swow_coroutine_function_call_user_handler w handler e) := by
    intro hk handler hh
    simp [swow_coroutine_function_handle_exception, hpend, hk, hh]
  have hother : w.instanceof_function (w.objects e).ce w.swow_coroutine_kill_exception_ce
      = false → ∃ y, (swow_coroutine_function_handle_exception w).reported
        = w.reported ++ [(y, E_ERROR)]
      ∧ (swow_coroutine_function_handle_exception w).EG.exception = none := by
    intro hk
    cases hh : w.user_exception_handler with
    | none =>
      obtain ⟨r1, r2⟩ := report_reports w e hpend hs
      rw [hnone hk hh]
      exact ⟨e, by rw [r1, hsev], r2⟩
    | some handler =>
      obtain ⟨p1, y, p2⟩ := call_user_handler_pending w handler e
      have hsv := (heapOnly_call_user_handler w handler e).severity_eq
      have hh2 := hsome hk handler hh
      generalize swow_coroutine_function_call_user_handler w handler e = wd at p1 p2 hsv hh2
      have hs2 : wd.exception_error_severity > E_NONE := by rw [hsv]; exact hs
      obtain ⟨r1, r2⟩ := report_reports wd y p2 hs2
      rw [hh2]
      exact ⟨y, by rw [r1, p1, hsv, hsev], r2⟩
  refine ⟨fun hk => ?_, fun hk => ?_, ?_⟩
  · rw [hkill hk]
    exact ⟨rfl, rfl, rfl⟩
  · obtain ⟨y, q1, q2⟩ := hother hk
    refine ⟨q2, fun hh => ?_, fun handler hh => ?_⟩
    · obtain ⟨r1, _⟩ := report_reports w e hpend hs
      rw [hnone hk hh, r1, hsev]
    · obtain ⟨p1, y, p2⟩ := call_user_handler_pending w handler e
      have hsv := (heapOnly_call_user_handler w handler e).severity_eq
      have hh2 := hsome hk handler hh
      generalize swow_coroutine_function_call_user_handler w handler e = wd at p1 p2 hsv hh2 ⊢
      have hs2 : wd.exception_error_severity > E_NONE := by rw [hsv]; exact hs
      obtain ⟨r1, _⟩ := report_reports wd y p2 hs2
      refine ⟨y, p2, ?_, ?_⟩
      · have hsv2 : wd.exception_error_severity = E_ERROR := hsv.trans hsev
        rw [hh2]
        simp only [swow_coroutine_function_report, p2, hsv2]
        rfl
      · rw [hh2, r1, p1, hsv, hsev]
  · constructor
    · intro hr
      by_contra hk
      have hk2 : w.instanceof_function (w.objects e).ce w.swow_coroutine_kill_exception_ce
          = false := by simpa using hk
      obtain ⟨y, q1, _⟩ := hother hk2
      rw [q1] at hr
      simp at hr
    · intro hk
      rw [hkill hk]
      rfl

/-- C15 at concrete inputs: the pending Kill exception `1` is cleared and
nothing is reported; the pending plain exception `2` is cleared and
reported with the severity `E_ERROR`. -/
theorem C15_uncaught_kill_absorbed_others_reported_witness :
    ((swow_coroutine_function_handle_exception demo_world_pending_kill).reported = []
      ∧ (swow_coroutine_function_handle_exception demo_world_pending_kill).EG.exception = none)
    ∧ ((swow_coroutine_function_handle_exception demo_world_pending).reported = [(2, E_ERROR)]
      ∧ (swow_coroutine_function_handle_exception demo_world_pending).EG.exception = none) :=
  ⟨(((C15_uncaught_kill_absorbed_others_reported demo_world_pending_kill 1 rfl rfl).1
      rfl).2),
   ⟨((C15_uncaught_kill_absorbed_others_reported demo_world_pending 2 rfl rfl).2.1
      rfl).2.1 rfl,
    ((C15_uncaught_kill_absorbed_others_reported demo_world_pending 2 rfl rfl).2.1
      rfl).1⟩⟩

/-- C16.  When the current coroutine has no previous coroutine, for every
value, every engine and every build: `swow_coroutine_yield` returns failure
with the last error "nowhere to go" and `retval`, if given, set to null;
the engine switch is not reached, the current coroutine is the same, the
registry and every other coroutine are unchanged, and of the current
coroutine only the opcode `ACCEPT_ZDATA`, set and cleared again by the
call, may differ.  `swow_coroutine_yield_hardlink` returns failure with the
same error and changes nothing else. -/
theorem C16_yield_from_root_has_nowhere_to_go (b : Build) (E : Engine) (g : Globals)
    (w : World) (zdata : zval_ptr) (retval : Bool)
    (hroot : swow_coroutine_get_previous w (swow_coroutine_get_current w) = none) :
    (∃ w1, swow_coroutine_yield b E w zdata retval
          = .ok (w1, false, if retval then some .IS_NULL else none)
        ∧ w1.last_error = some .nowhere_to_go
        ∧ w1.current = w.current ∧ w1.map = w.map
        ∧ (∀ c, c ≠ w.current → w1.coroutines c = w.coroutines c)
        ∧ w1.coroutines w.current
            = { w.coroutines w.current with
                coroutine := { (w.coroutines w.current).coroutine with
                  opcodes := { (w.coroutines w.current).coroutine.opcodes with
                    ACCEPT_ZDATA := false } } })
    ∧ swow_coroutine_yield_hardlink b E g w zdata retval
        = .ok ({ w with last_error := some .nowhere_to_go }, false, none) := by
  have hroot2 : swow_coroutine_get_previous (w.set_ACCEPT_ZDATA w.current true)
      (swow_coroutine_get_current (w.set_ACCEPT_ZDATA w.current true)) = none := by
    unfold swow_coroutine_get_previous swow_coroutine_get_current at hroot ⊢
    simpa [World.set_ACCEPT_ZDATA, World.set_cat, World.set_coroutine] using hroot
  refine ⟨⟨World.set_ACCEPT_ZDATA
      { w.set_ACCEPT_ZDATA w.current true with last_error := some .nowhere_to_go }
      w.current false, ?_, ?_, ?_, ?_, fun c hc => ?_, ?_⟩, ?_⟩
  · simp only [swow_coroutine_yield, cat_coroutine_yield, hroot2, bind, Except.bind, pure,
      Except.pure, SWOW_COROUTINE_JUMP_WITH_ZDATA_end, beq_self_eq_true, ↓reduceIte]
    rfl
  · rfl
  · rfl
  · rfl
  · simp [World.set_ACCEPT_ZDATA, World.set_cat, World.set_coroutine, hc]
  · simp [World.set_ACCEPT_ZDATA, World.set_cat, World.set_coroutine]
  · simp [swow_coroutine_yield_hardlink, hroot, pure, Except.pure]

/-- C16 at a concrete input: the main coroutine, which has no previous
coroutine, yields the value `7`, with an engine whose switch would halt. -/
theorem C16_yield_from_root_has_nowhere_to_go_witness :
    (∃ w1, swow_coroutine_yield debug_build (Engine.switching precheck_pass) demo_world
          (.mem 0) true = .ok (w1, false, some .IS_NULL)
        ∧ w1.last_error = some .nowhere_to_go ∧ w1.current = 0 ∧ w1.map = demo_world.map)
    ∧ swow_coroutine_yield_hardlink debug_build (Engine.switching precheck_pass) demo_module
        demo_world (.mem 0) true
        = .ok ({ demo_world with last_error := some .nowhere_to_go }, false, none) := by
  obtain ⟨⟨w1, h1, h2, h3, h4, _⟩, h5⟩ := C16_yield_from_root_has_nowhere_to_go debug_build
    (Engine.switching precheck_pass) demo_module demo_world (.mem 0) true rfl
  exact ⟨⟨w1, h1, h2, h3, h4⟩, h5⟩

/-- C17.  For a value that is not invocable, `swow_coroutine_construct` returns
failure with the last error "must be callable" and changes nothing else (no
primitive coroutine is created, no executor allocated: every coroutine
record is as it was), and `swow_coroutine_create_ex`, with no custom entry
class and the regular `create_object` handler, returns NULL with that
error.  For an invocable value, when the engine creates the primitive
coroutine, `swow_coroutine_create_ex` returns a coroutine that has an
executor with no pending exception, no pending cross exception and no
current activation. -/
theorem C17_construct_validates_callable (R : Runtime) (L : StackLimits) (g : Globals)
    (w : World) (scoroutine : Cid) (zcallable : zval) (stack_page_size c_stack_size : Nat) :
    (R.zend_is_callable_ex zcallable = false →
      swow_coroutine_construct R L g w scoroutine zcallable stack_page_size c_stack_size
          = ({ w with last_error := some .must_be_callable }, false)
      ∧ (swow_coroutine_construct R L g w scoroutine zcallable stack_page_size
          c_stack_size).1.coroutines = w.coroutines
      ∧ (g.custom_entry = none → g.create_object = .swow_coroutine_create_object →
          ∃ w1, swow_coroutine_create_ex R L g w zcallable stack_page_size c_stack_size
              = .ok (w1, none)
            ∧ w1.last_error = some .must_be_callable))
    ∧ (R.zend_is_callable_ex zcallable = true →
        g.custom_entry = none → g.create_object = .swow_coroutine_create_object →
        ∀ k, R.cat_coroutine_create_ex
            (cat_coroutine_init (w.coroutines (R.swow_object_alloc w)).coroutine) c_stack_size
            = .ok k →
          ∃ w1 e, swow_coroutine_create_ex R L g w zcallable stack_page_size c_stack_size
              = .ok (w1, some (R.swow_object_alloc w))
            ∧ (w1.coroutines (R.swow_object_alloc w)).executor = some e
            ∧ e.saved.exception = none ∧ e.cross_exception = none
            ∧ e.saved.current_execute_data = 0
            ∧ e.zcallable = zcallable
            ∧ (w1.coroutines (R.swow_object_alloc w)).coroutine.opcodes.ACCEPT_ZDATA
                = true) := by
  refine ⟨fun hc => ?_, fun hc hce hco k hk => ?_⟩
  · have h := construct_not_callable R L g w scoroutine zcallable stack_page_size c_stack_size
      hc
    refine ⟨h, by rw [h], fun hce hco => ?_⟩
    refine ⟨World.GC_DELREF_std
      { (swow_coroutine_create_object R w).1 with last_error := some .must_be_callable }
      (swow_coroutine_create_object R w).2, ?_, rfl⟩
    simp only [swow_coroutine_create_ex, hce, swow_object_create_coroutine, hco, bind,
      Except.bind, construct_not_callable R L g _ _ zcallable stack_page_size c_stack_size
      hc, pure, Except.pure]
  · have hk2 : R.cat_coroutine_create_ex
        (((swow_coroutine_create_object R w).1.coroutines
          (swow_coroutine_create_object R w).2).coroutine) c_stack_size = .ok k := by
      simpa [swow_coroutine_create_object, World.set_coroutine] using hk
    obtain ⟨w1, e, h1, h2, _, _, _, h6, h7, h8, h9, h10, _⟩ := construct_ok R L g
      (swow_coroutine_create_object R w).1 (swow_coroutine_create_object R w).2 zcallable
      stack_page_size c_stack_size k hc hk2
    refine ⟨w1, e, ?_, h2, h6, h7, h8, h9, ?_⟩
    · simp only [swow_coroutine_create_ex, hce, swow_object_create_coroutine, hco, bind,
        Except.bind, h1, pure, Except.pure]
      rfl
    · have h10b : (w1.coroutines (R.swow_object_alloc w)).coroutine
          = { k with opcodes := { k.opcodes with ACCEPT_ZDATA := true } } := h10
      rw [h10b]

/-- C17 at concrete inputs: the value `7` is not invocable, the value `true`
stands for a callable. -/
theorem C17_construct_validates_callable_witness :
    swow_coroutine_construct demo_runtime demo_limits demo_module demo_world 3 (.IS_LONG 7)
        0 0 = ({ demo_world with last_error := some .must_be_callable }, false)
    ∧ (∃ w1, swow_coroutine_create_ex demo_runtime demo_limits demo_module demo_world
          (.IS_LONG 7) 0 0 = .ok (w1, none)
        ∧ w1.last_error = some .must_be_callable)
    ∧ (∃ w1 e, swow_coroutine_create_ex demo_runtime demo_limits demo_module demo_world
          .IS_TRUE 0 0 = .ok (w1, some 7)
        ∧ (w1.coroutines 7).executor = some e
        ∧ e.saved.exception = none ∧ e.cross_exception = none
        ∧ e.saved.current_execute_data = 0) := by
  have h := C17_construct_validates_callable demo_runtime demo_limits demo_module demo_world 3
    (.IS_LONG 7) 0 0
  have h2 := C17_construct_validates_callable demo_runtime demo_limits demo_module demo_world
    3 .IS_TRUE 0 0
  obtain ⟨a1, _, a3⟩ := h.1 rfl
  obtain ⟨w1, e, b1, b2, b3, b4, b5, _⟩ := h2.2 rfl rfl rfl _ rfl
  exact ⟨a1, a3 rfl rfl, ⟨w1, e, b1, b2, b3, b4, b5⟩⟩

/-- C19, the claim as stated fails. Claim: for every non-positive stack size
given to `Coroutine::__construct`, zero or negative, the activation stack is
allocated with the process-wide default stack page size.  Here the object
`3` is constructed with the stack page size `-1` and the default is `4096`:
the argument is converted to `size_t`, where it is `2 ^ 64 - 1`, above the
maximum, and the stack is allocated with the maximum page size `262144`. -/
theorem C19_negative_size_gives_the_maximum :
    demo_module.default_stack_page_size = 4096
    ∧ size_t_of_zend_long (-1) = 2 ^ 64 - 1
    ∧ (swow_coroutine___construct demo_runtime demo_limits demo_module demo_world 3
        .IS_TRUE (-1) 0).2 = .returns
    ∧ (swow_coroutine___construct demo_runtime demo_limits demo_module demo_world 3
        .IS_TRUE (-1) 0).1.vm_stack_page_size 3 = some 262144
    ∧ (swow_coroutine___construct demo_runtime demo_limits demo_module demo_world 3
        .IS_TRUE 0 0).1.vm_stack_page_size 3 = some 4096 := by
  decide

/-- C19 as amended.  When `Coroutine::__construct` is called on an object in
state INIT with a callable, and the engine creates the coroutine: for the
stack size `0` the activation stack is allocated with the process-wide
default stack page size; a negative stack size (a `zend_long`) is converted
to `size_t`, where it is at least `2 ^ 63`, and when the bounds the size is
compared with are below that, the stack is allocated with the maximum page
size. -/
theorem C19_zero_gives_default_negative_gives_maximum (R : Runtime) (L : StackLimits)
    (g : Globals) (w : World) (scoroutine : Cid) (zcallable : zval)
    (stack_page_size c_stack_size : Int) (k : cat_coroutine_t)
    (hinit : (w.coroutines scoroutine).coroutine.state = .INIT)
    (hcall : R.zend_is_callable_ex zcallable = true)
    (hcreate : R.cat_coroutine_create_ex (w.coroutines scoroutine).coroutine
      (size_t_of_zend_long c_stack_size) = .ok k) :
    (swow_coroutine___construct R L g w scoroutine zcallable stack_page_size c_stack_size).2
      = .returns
    ∧ (stack_page_size = 0 →
        ∃ e, ((swow_coroutine___construct R L g w scoroutine zcallable stack_page_size
            c_stack_size).1.coroutines scoroutine).executor = some e
          ∧ e.saved.vm_stack_page_size = g.default_stack_page_size
          ∧ e.saved.vm_stack = R.emalloc g.default_stack_page_size
          ∧ e.saved.vm_stack_end = e.saved.vm_stack + g.default_stack_page_size)
    ∧ (stack_page_size < 0 → -(2 ^ 63) ≤ stack_page_size →
        L.CAT_COROUTINE_MIN_STACK_SIZE ≤ 2 ^ 63 → L.CAT_COROUTINE_MAX_STACK_SIZE < 2 ^ 63 →
        ∃ e, ((swow_coroutine___construct R L g w scoroutine zcallable stack_page_size
            c_stack_size).1.coroutines scoroutine).executor = some e
          ∧ e.saved.vm_stack_page_size = L.SWOW_COROUTINE_MAX_STACK_PAGE_SIZE
          ∧ e.saved.vm_stack = R.emalloc L.SWOW_COROUTINE_MAX_STACK_PAGE_SIZE
          ∧ e.saved.vm_stack_end = e.saved.vm_stack + L.SWOW_COROUTINE_MAX_STACK_PAGE_SIZE) := by
  obtain ⟨w1, e, h1, h2, h3, h4, h5, _⟩ := construct_ok R L g w scoroutine zcallable
    (size_t_of_zend_long stack_page_size) (size_t_of_zend_long c_stack_size) k hcall hcreate
  have hm : swow_coroutine___construct R L g w scoroutine zcallable stack_page_size
      c_stack_size = (w1, .returns) := by
    simp [swow_coroutine___construct, hinit, h1]
  rw [hm]
  refine ⟨rfl, fun h0 => ?_, fun hneg hlo hmin hmax => ?_⟩
  · have ha : swow_coroutine_align_stack_page_size L g.default_stack_page_size
        (size_t_of_zend_long stack_page_size) = g.default_stack_page_size := by
      rw [h0, size_t_of_zero]
      simp [swow_coroutine_align_stack_page_size]
    rw [ha] at h3 h4 h5
    exact ⟨e, h2, h3, h4, h5⟩
  · obtain ⟨n1, _⟩ := size_t_of_negative stack_page_size hneg hlo
    have ha : swow_coroutine_align_stack_page_size L g.default_stack_page_size
        (size_t_of_zend_long stack_page_size) = L.SWOW_COROUTINE_MAX_STACK_PAGE_SIZE := by
      have z : (size_t_of_zend_long stack_page_size == 0) = false := by
        have : size_t_of_zend_long stack_page_size ≠ 0 := by
          have : 0 < 2 ^ 63 := by norm_num
          omega
        simpa using this
      have a1 : ¬ size_t_of_zend_long stack_page_size < L.CAT_COROUTINE_MIN_STACK_SIZE := by
        omega
      have a2 : size_t_of_zend_long stack_page_size > L.CAT_COROUTINE_MAX_STACK_SIZE := by
        omega
      simp [swow_coroutine_align_stack_page_size, z, a1, a2]
    rw [ha] at h3 h4 h5
    exact ⟨e, h2, h3, h4, h5⟩

/-- C19 as amended, at the concrete object `3`: constructed with the stack size
`0` its stack has the default page size `4096`, constructed with `-5` the
maximum page size `262144`. -/
theorem C19_zero_gives_default_negative_gives_maximum_witness :
    (∃ e, ((swow_coroutine___construct demo_runtime demo_limits demo_module demo_world 3
          .IS_TRUE 0 0).1.coroutines 3).executor = some e
        ∧ e.saved.vm_stack_page_size = 4096)
    ∧ (∃ e, ((swow_coroutine___construct demo_runtime demo_limits demo_module demo_world 3
          .IS_TRUE (-5) 0).1.coroutines 3).executor = some e
        ∧ e.saved.vm_stack_page_size = 262144) := by
  have h := C19_zero_gives_default_negative_gives_maximum demo_runtime demo_limits demo_module
    demo_world 3 .IS_TRUE 0 0 _ rfl rfl rfl
  have h2 := C19_zero_gives_default_negative_gives_maximum demo_runtime demo_limits
    demo_module demo_world 3 .IS_TRUE (-5) 0 _ rfl rfl rfl
  obtain ⟨e, a1, a2, _⟩ := h.2.1 rfl
  obtain ⟨e2, b1, b2, _⟩ := h2.2.2 (by decide) (by decide) (by decide) (by decide)
  exact ⟨⟨e, a1, a2⟩, ⟨e2, b1, b2⟩⟩

/-- C20 (defect of the code). Claim: once `swow_coroutine_set_readonly(true)`
has run, every construction of a coroutine object and every resume
dispatch, through the registered dispatcher and through
`swow_coroutine_resume_hardlink`, ends in the fatal error, and no switch is
performed.  After `swow_coroutine_set_readonly(true)` the registered
dispatcher is `swow_coroutine_resume_deny`, so `cat_coroutine_resume` and
`swow_coroutine_resume` end in the fatal error, and the `create_object`
handler is the denying one.  But `swow_coroutine_resume_hardlink` tests
`readonly.enable`, which `swow_coroutine_set_readonly` never writes: at the
failing input (the latch engaged in the concrete world, the main coroutine
resumes coroutine `1` through the hardlink path) there is no fatal error and
the native stack is switched towards coroutine `1`. -/
theorem C20_readonly_latch_bypassed_by_hardlink :
    (∀ (g : Globals) (w : World),
      (swow_coroutine_set_readonly g w true).2.cat_coroutine_resume
          = .swow_coroutine_resume_deny
      ∧ (swow_coroutine_set_readonly g w true).1.create_object = .swow_create_object_deny
      ∧ (swow_coroutine_set_readonly g w true).1.readonly.enable = g.readonly.enable)
    ∧ (∀ (b : Build) (E : Engine) (g : Globals) (w : World) (c : Cid) (z : zval_ptr),
      cat_coroutine_resume b E (swow_coroutine_set_readonly g w true).2 c z
        = .error (.core_error "Unexpected coroutine switching"))
    ∧ (∀ (b : Build) (E : Engine) (g : Globals) (w : World) (c : Cid) (z : zval_ptr)
        (retval : Bool),
      swow_coroutine_resume b E (swow_coroutine_set_readonly g w true).2 c z retval
        = .error (.core_error "Unexpected coroutine switching"))
    ∧ (∀ (R : Runtime) (g : Globals) (w w1 : World),
      swow_object_create_coroutine R (swow_coroutine_set_readonly g w true).1 w1
        = .error (.core_error create_object_denied_message))
    ∧ demo_module.readonly.enable = false
    ∧ core_error_of (swow_coroutine_resume_hardlink debug_build
        (Engine.switching precheck_pass) demo_latched.1 demo_latched.2 1
        .SWOW_COROUTINE_DATA_NULL true) = none
    ∧ switch_target_of (swow_coroutine_resume_hardlink debug_build
        (Engine.switching precheck_pass) demo_latched.1 demo_latched.2 1
        .SWOW_COROUTINE_DATA_NULL true) = some 1
    ∧ switch_target_of (swow_coroutine_resume_hardlink release_build
        (Engine.switching precheck_pass) demo_latched.1 demo_latched.2 1
        .SWOW_COROUTINE_DATA_NULL true) = some 1 := by
  refine ⟨fun g w => ⟨rfl, rfl, rfl⟩, fun b E g w c z => rfl, fun b E g w c z retval => ?_,
    fun R g w w1 => rfl, rfl, by decide, by decide, by decide⟩
  have h : ((swow_coroutine_set_readonly g w true).2.set_ACCEPT_ZDATA
      (swow_coroutine_set_readonly g w true).2.current true).cat_coroutine_resume
      = .swow_coroutine_resume_deny := rfl
  simp only [swow_coroutine_resume, cat_coroutine_resume, h, swow_coroutine_resume_deny, bind,
    Except.bind]

/-- C21, counterexample.  In the concrete process, where the standard resume
dispatcher and the regular object-creation handler are installed, two calls
of `swow_coroutine_set_readonly(true)` followed by
`swow_coroutine_set_readonly(false)` leave the denying dispatcher and the
denying handler installed: the second call has saved the denying pair as
the original one. -/
theorem C21_second_engagement_keeps_the_latch_engaged :
    demo_world.cat_coroutine_resume = .swow_coroutine_resume_standard
    ∧ demo_module.create_object = .swow_coroutine_create_object
    ∧ (swow_coroutine_set_readonly
        (swow_coroutine_set_readonly_times 2 (demo_module, demo_world)).1
        (swow_coroutine_set_readonly_times 2 (demo_module, demo_world)).2
        false).2.cat_coroutine_resume = .swow_coroutine_resume_deny
    ∧ (swow_coroutine_set_readonly
        (swow_coroutine_set_readonly_times 2 (demo_module, demo_world)).1
        (swow_coroutine_set_readonly_times 2 (demo_module, demo_world)).2
        false).1.create_object = .swow_create_object_deny :=
  ⟨rfl, rfl, rfl, rfl⟩

/-- C21, amended.  One call of `swow_coroutine_set_readonly(true)` followed by
`swow_coroutine_set_readonly(false)` leaves the resume dispatcher and the
object-creation handler that were installed before the call, whatever they
were; after two or more calls with `true` the call with `false` leaves the
denying dispatcher and the denying handler installed; and on module globals
as `swow_coroutine_runtime_init` leaves them, or with both saved originals
empty, `swow_coroutine_set_readonly(false)` changes nothing. -/
theorem C21_latch_released_after_one_engagement (L : StackLimits) (g : Globals) (w : World)
    (n : Nat) :
    ((swow_coroutine_set_readonly (swow_coroutine_set_readonly g w true).1
        (swow_coroutine_set_readonly g w true).2 false).2.cat_coroutine_resume
        = w.cat_coroutine_resume
      ∧ (swow_coroutine_set_readonly (swow_coroutine_set_readonly g w true).1
          (swow_coroutine_set_readonly g w true).2 false).1.create_object
          = g.create_object)
    ∧ ((swow_coroutine_set_readonly
          (swow_coroutine_set_readonly_times (n + 2) (g, w)).1
          (swow_coroutine_set_readonly_times (n + 2) (g, w)).2 false).2.cat_coroutine_resume
          = .swow_coroutine_resume_deny
      ∧ (swow_coroutine_set_readonly
          (swow_coroutine_set_readonly_times (n + 2) (g, w)).1
          (swow_coroutine_set_readonly_times (n + 2) (g, w)).2 false).1.create_object
          = .swow_create_object_deny)
    ∧ swow_coroutine_set_readonly (swow_coroutine_runtime_init_globals L g) w false
        = (swow_coroutine_runtime_init_globals L g, w)
    ∧ (g.readonly.original_create_object = none → g.readonly.original_resume = none →
        swow_coroutine_set_readonly g w false = (g, w)) := by
  refine ⟨⟨?_, ?_⟩, ?_, rfl, fun h1 h2 => ?_⟩
  · simp [swow_coroutine_set_readonly, cat_coroutine_register_resume]
  · simp [swow_coroutine_set_readonly, cat_coroutine_register_resume]
  · obtain ⟨h1, h2, h3, h4⟩ := set_readonly_times_engaged_twice n (g, w)
    generalize swow_coroutine_set_readonly_times (n + 2) (g, w) = s at h1 h2 h3 h4
    simp [swow_coroutine_set_readonly, cat_coroutine_register_resume, h1, h2, h3, h4]
  · simp [swow_coroutine_set_readonly, h1, h2]

/-- C21, amended, in the concrete process: one engagement and the release
bring back the standard dispatcher and the regular handler, three
engagements and the release leave the denying pair, and the release of a
latch that was never engaged changes nothing. -/
theorem C21_latch_released_after_one_engagement_witness :
    ((swow_coroutine_set_readonly (swow_coroutine_set_readonly demo_module demo_world true).1
        (swow_coroutine_set_readonly demo_module demo_world true).2
        false).2.cat_coroutine_resume = .swow_coroutine_resume_standard
      ∧ (swow_coroutine_set_readonly (swow_coroutine_set_readonly demo_module demo_world true).1
          (swow_coroutine_set_readonly demo_module demo_world true).2
          false).1.create_object = .swow_coroutine_create_object)
    ∧ (swow_coroutine_set_readonly
          (swow_coroutine_set_readonly_times 3 (demo_module, demo_world)).1
          (swow_coroutine_set_readonly_times 3 (demo_module, demo_world)).2
          false).2.cat_coroutine_resume = .swow_coroutine_resume_deny
    ∧ swow_coroutine_set_readonly demo_module demo_world false = (demo_module, demo_world) :=
  ⟨(C21_latch_released_after_one_engagement demo_limits demo_module demo_world 1).1,
   (C21_latch_released_after_one_engagement demo_limits demo_module demo_world 1).2.1.1,
   (C21_latch_released_after_one_engagement demo_limits demo_module demo_world 1).2.2.2
      rfl rfl⟩

/-- C22, counterexample.  With every swap option on: the context left by a
save made inside the callback of an array walk, with an output handler
active, holds that state parked; with interpreter globals that have nothing
in flight, a save into this context followed by a recover of it installs the
parked array-walk callback context and the parked output globals, which are
not the ones of the interpreter globals before the save. -/
theorem C22_recover_installs_a_parked_state :
    (Swap.swow_coroutine_executor_recover Swap.demo_options
        (Swap.swow_coroutine_executor_save Swap.demo_options Swap.demo_output_activate
          Swap.demo_quiet
          (Swap.swow_coroutine_executor_save Swap.demo_options Swap.demo_output_activate
            Swap.demo_walking Swap.demo_context).2).1
        (Swap.swow_coroutine_executor_save Swap.demo_options Swap.demo_output_activate
          Swap.demo_quiet
          (Swap.swow_coroutine_executor_save Swap.demo_options Swap.demo_output_activate
            Swap.demo_walking Swap.demo_context).2).2).1
      = { Swap.demo_quiet with
          array_walk_fci := { info_size := 56, content := 7 }
          output_globals := { handlers_elements := 4000, content := 9 } }
    ∧ Swap.demo_quiet.array_walk_fci = { info_size := 0, content := 0 }
    ∧ Swap.demo_quiet.output_globals = { handlers_elements := 0, content := 1 } := by
  decide

/-- C22, amended.  For every choice of the swap options, every interpreter
state `g` and every execution context `ctx`, a save into `ctx` followed by a
recover of it leaves the executor globals (bailout, activation stack pointer,
bounds and page size, current activation, pending exception, error-handling
mode) and `error_reporting` as in `g`.  The array-walk callback context is
as in `g` as well when `g` has one in flight or `ctx` holds none parked
(no context, or one of size 0), and otherwise it is the one parked in `ctx`;
the same holds for the output globals with their handlers.  So with nothing
parked in `ctx` the interpreter state after the two calls is `g`.  A context
holds nothing parked when it is new or was the subject of the last
recover. -/
theorem C22_recover_after_save_restores (o : Swap.Options)
    (act : Swap.zend_output_globals → Swap.zend_output_globals)
    (g : Swap.interpreter_globals) (ctx : Swap.swow_coroutine_exector_t) :
    ((Swap.swow_coroutine_executor_recover o (Swap.swow_coroutine_executor_save o act g ctx).1
        (Swap.swow_coroutine_executor_save o act g ctx).2).1.EG = g.EG
      ∧ (Swap.swow_coroutine_executor_recover o
          (Swap.swow_coroutine_executor_save o act g ctx).1
          (Swap.swow_coroutine_executor_save o act g ctx).2).1.error_reporting
          = g.error_reporting)
    ∧ ((g.array_walk_fci.info_size ≠ 0
          ∨ ∀ f, ctx.array_walk_context = some f → f.info_size = 0) →
      (Swap.swow_coroutine_executor_recover o
          (Swap.swow_coroutine_executor_save o act g ctx).1
          (Swap.swow_coroutine_executor_save o act g ctx).2).1.array_walk_fci
          = g.array_walk_fci)
    ∧ ((g.output_globals.handlers_elements ≠ 0
          ∨ ∀ og, ctx.output_globals = some og → og.handlers_elements = 0) →
      (Swap.swow_coroutine_executor_recover o
          (Swap.swow_coroutine_executor_save o act g ctx).1
          (Swap.swow_coroutine_executor_save o act g ctx).2).1.output_globals
          = g.output_globals)
    ∧ ((∀ f, ctx.array_walk_context = some f → f.info_size = 0) →
      (∀ og, ctx.output_globals = some og → og.handlers_elements = 0) →
      (Swap.swow_coroutine_executor_recover o
          (Swap.swow_coroutine_executor_save o act g ctx).1
          (Swap.swow_coroutine_executor_save o act g ctx).2).1 = g)
    ∧ (∀ f, o.SWOW_COROUTINE_SWAP_BASIC_GLOBALS = true → g.array_walk_fci.info_size = 0 →
      ctx.array_walk_context = some f → f.info_size ≠ 0 →
      (Swap.swow_coroutine_executor_recover o
          (Swap.swow_coroutine_executor_save o act g ctx).1
          (Swap.swow_coroutine_executor_save o act g ctx).2).1.array_walk_fci = f)
    ∧ (∀ g0 e0, o.SWOW_COROUTINE_SWAP_BASIC_GLOBALS = true →
      o.SWOW_COROUTINE_SWAP_OUTPUT_GLOBALS = true →
      ctx = (Swap.swow_coroutine_executor_recover o g0 e0).2 →
      (∀ f, ctx.array_walk_context = some f → f.info_size = 0)
      ∧ (∀ og, ctx.output_globals = some og → og.handlers_elements = 0)) := by
  obtain ⟨r1, r2, r3, r4⟩ := swap_round_trip o act g ctx
  have hw : (g.array_walk_fci.info_size ≠ 0
        ∨ ∀ f, ctx.array_walk_context = some f → f.info_size = 0) →
      (Swap.swow_coroutine_executor_recover o
          (Swap.swow_coroutine_executor_save o act g ctx).1
          (Swap.swow_coroutine_executor_save o act g ctx).2).1.array_walk_fci
          = g.array_walk_fci := by
    intro h
    rw [r3]
    rcases h with h | h
    · simp [h]
    · cases hc : ctx.array_walk_context with
      | none => simp
      | some f => simp [h f hc]
  have ho : (g.output_globals.handlers_elements ≠ 0
        ∨ ∀ og, ctx.output_globals = some og → og.handlers_elements = 0) →
      (Swap.swow_coroutine_executor_recover o
          (Swap.swow_coroutine_executor_save o act g ctx).1
          (Swap.swow_coroutine_executor_save o act g ctx).2).1.output_globals
          = g.output_globals := by
    intro h
    rw [r4]
    rcases h with h | h
    · simp [h]
    · cases hc : ctx.output_globals with
      | none => simp
      | some f => simp [h f hc]
  refine ⟨⟨r1, r2⟩, hw, ho, fun h1 h2 => ?_, fun f hb hs hc hf => ?_,
    fun g0 e0 hb1 hb2 hctx => ?_⟩
  · have a1 := hw (Or.inr h1)
    have a2 := ho (Or.inr h2)
    generalize (Swap.swow_coroutine_executor_recover o
      (Swap.swow_coroutine_executor_save o act g ctx).1
      (Swap.swow_coroutine_executor_save o act g ctx).2).1 = g2 at r1 r2 a1 a2
    cases g2
    cases g
    simp only at r1 r2 a1 a2
    simp [r1, r2, a1, a2]
  · rw [r3]
    simp [hb, hs, hc, hf]
  · subst hctx
    exact ⟨(swap_recover_snd o g0 e0).1 hb1, (swap_recover_snd o g0 e0).2 hb2⟩

/-- C22, amended, with every swap option on: inside the callback of an array
walk with an output handler active, a save into a new context followed by a
recover of it leaves the interpreter state as it was. -/
theorem C22_recover_after_save_restores_witness :
    (Swap.swow_coroutine_executor_recover Swap.demo_options
        (Swap.swow_coroutine_executor_save Swap.demo_options Swap.demo_output_activate
          Swap.demo_walking Swap.demo_context).1
        (Swap.swow_coroutine_executor_save Swap.demo_options Swap.demo_output_activate
          Swap.demo_walking Swap.demo_context).2).1 = Swap.demo_walking :=
  (C22_recover_after_save_restores Swap.demo_options Swap.demo_output_activate
    Swap.demo_walking Swap.demo_context).2.2.2.1
    (fun f h => by cases h) (fun og h => by cases h)

/-- C23. In the block "switch executor" of `swow_coroutine_jump`, for every
world and target: when the target is flagged `NO_STACK`, the interpreter
state is saved into the context of the current coroutine, no other
coroutine record changes, and of the interpreter state only
`current_execute_data` changes (it is cleared), so nothing is recovered;
when the current coroutine is flagged and the target is not, the
interpreter state becomes the one saved in the context of the target and no
coroutine record changes, so nothing is saved; when neither is flagged, the
interpreter state is saved into the context of the current coroutine and
then the one saved in the context of the target is installed.  The flag is
the one `swow_coroutine_set_executor_switcher(false)` sets on the current
coroutine. -/
theorem C23_jump_saves_or_recovers_by_stack_flag (w : World) (target : Cid) :
    (∀ ce, (w.coroutines w.current).executor = some ce →
      (w.coroutines target).coroutine.flags.NO_STACK = true →
      ∃ w1, swow_coroutine_jump_switch_executor w target = .ok w1
        ∧ (w1.coroutines w.current).executor = some { ce with saved := w.EG }
        ∧ (∀ c, c ≠ w.current → w1.coroutines c = w.coroutines c)
        ∧ w1.EG = { w.EG with current_execute_data := 0 })
    ∧ (∀ te, (w.coroutines target).executor = some te →
      (w.coroutines target).coroutine.flags.NO_STACK = false →
      (w.coroutines w.current).coroutine.flags.NO_STACK = true →
      ∃ w1, swow_coroutine_jump_switch_executor w target = .ok w1
        ∧ w1.coroutines = w.coroutines
        ∧ w1.EG = te.saved)
    ∧ (∀ ce te, (w.coroutines w.current).executor = some ce →
      (w.coroutines target).executor = some te →
      (w.coroutines target).coroutine.flags.NO_STACK = false →
      (w.coroutines w.current).coroutine.flags.NO_STACK = false →
      ∃ w1, swow_coroutine_jump_switch_executor w target = .ok w1
        ∧ (w1.coroutines w.current).executor = some { ce with saved := w.EG }
        ∧ (∀ c, c ≠ w.current → w1.coroutines c = w.coroutines c)
        ∧ w1.EG = if target = w.current then w.EG else te.saved)
    ∧ (∀ ce, (w.coroutines w.current).executor = some ce →
      ∃ w1, swow_coroutine_set_executor_switcher w false = .ok w1
        ∧ (w1.coroutines w.current).coroutine.flags.NO_STACK = true
        ∧ (w1.coroutines w.current).executor = some { ce with saved := w.EG }
        ∧ w1.EG = w.EG) := by
  refine ⟨fun ce hce hn => ?_, fun te hte hn hc => ?_, fun ce te hce hte hn hc => ?_,
    fun ce hce => ?_⟩
  · refine ⟨{ (w.set_executor w.current (some { ce with saved := w.EG })) with
        EG := { w.EG with current_execute_data := 0 } }, ?_, ?_, fun c hc => ?_, rfl⟩
    · simp only [swow_coroutine_jump_switch_executor, hn, ↓reduceIte,
        swow_coroutine_executor_save, swow_coroutine_get_current, hce, bind, Except.bind,
        pure, Except.pure]
      rfl
    · simp [World.set_executor, World.set_coroutine]
    · simp [World.set_executor, World.set_coroutine, Function.update_noteq hc]
  · refine ⟨{ w with EG := te.saved }, ?_, rfl, rfl⟩
    simp only [swow_coroutine_jump_switch_executor, hn, hc, ↓reduceIte,
      swow_coroutine_executor_recover, swow_coroutine_get_current, hte, Bool.false_eq_true]
  · by_cases ht : target = w.current
    · subst ht
      refine ⟨{ (w.set_executor w.current (some { ce with saved := w.EG })) with
          EG := w.EG }, ?_, ?_, fun c hc => ?_, ?_⟩
      · simp only [swow_coroutine_jump_switch_executor, hn, ↓reduceIte,
          swow_coroutine_executor_switch, swow_coroutine_executor_save,
          swow_coroutine_executor_recover, swow_coroutine_get_current, hce, bind,
          Except.bind, Bool.false_eq_true]
        simp only [World.set_executor, World.set_coroutine, Function.update_same]
      · simp [World.set_executor, World.set_coroutine]
      · simp [World.set_executor, World.set_coroutine, Function.update_noteq hc]
      · simp
    · refine ⟨{ (w.set_executor w.current (some { ce with saved := w.EG })) with
          EG := te.saved }, ?_, ?_, fun c hc => ?_, ?_⟩
      · simp only [swow_coroutine_jump_switch_executor, hn, hc, ↓reduceIte,
          swow_coroutine_executor_switch, swow_coroutine_executor_save,
          swow_coroutine_executor_recover, swow_coroutine_get_current, hce, bind,
          Except.bind, Bool.false_eq_true]
        simp only [World.set_executor, World.set_coroutine, Function.update_noteq ht, hte]
      · simp [World.set_executor, World.set_coroutine]
      · simp [World.set_executor, World.set_coroutine, Function.update_noteq hc]
      · simp [ht]
  · refine ⟨(w.set_executor w.current (some { ce with saved := w.EG })).set_cat w.current
        { ((w.set_executor w.current (some { ce with saved := w.EG })).coroutines
            w.current).coroutine with
          flags := { ((w.set_executor w.current (some { ce with saved := w.EG })).coroutines
            w.current).coroutine.flags with NO_STACK := true } }, ?_, ?_, ?_, ?_⟩
    · simp only [swow_coroutine_set_executor_switcher, swow_coroutine_executor_save,
        swow_coroutine_get_current, hce, bind, Except.bind, pure, Except.pure,
        Bool.not_false, ↓reduceIte]
    · simp [World.set_cat, World.set_executor, World.set_coroutine]
    · simp [World.set_cat, World.set_executor, World.set_coroutine]
    · rfl

/-- C23, in the concrete process: the main coroutine jumping to the internal
coroutine `3` (flagged, without context) only saves; the internal coroutine
jumping to coroutine `1` only recovers; the main coroutine jumping to
coroutine `1` saves and recovers. -/
theorem C23_jump_saves_or_recovers_by_stack_flag_witness :
    (∃ w1, swow_coroutine_jump_switch_executor demo_world_internal 3 = .ok w1
        ∧ (w1.coroutines 0).executor
            = some { demo_executor .IS_NULL with saved := demo_globals }
        ∧ (∀ c, c ≠ 0 → w1.coroutines c = demo_world_internal.coroutines c)
        ∧ w1.EG = { demo_globals with current_execute_data := 0 })
    ∧ (∃ w1, swow_coroutine_jump_switch_executor demo_world_in_internal 1 = .ok w1
        ∧ w1.coroutines = demo_world_in_internal.coroutines
        ∧ w1.EG = (demo_executor .IS_TRUE).saved)
    ∧ (∃ w1, swow_coroutine_jump_switch_executor demo_world 1 = .ok w1
        ∧ (w1.coroutines 0).executor
            = some { demo_executor .IS_NULL with saved := demo_globals }
        ∧ (∀ c, c ≠ 0 → w1.coroutines c = demo_world.coroutines c)
        ∧ w1.EG = (demo_executor .IS_TRUE).saved) :=
  ⟨(C23_jump_saves_or_recovers_by_stack_flag demo_world_internal 3).1
      (demo_executor .IS_NULL) rfl rfl,
   (C23_jump_saves_or_recovers_by_stack_flag demo_world_in_internal 1).2.1
      (demo_executor .IS_TRUE) rfl rfl rfl,
   (C23_jump_saves_or_recovers_by_stack_flag demo_world 1).2.2.1
      (demo_executor .IS_NULL) (demo_executor .IS_TRUE) rfl rfl rfl rfl⟩

/-- C24. The release `swow_coroutine_close` returns only for a coroutine that
has a context, and leaves it without one and the contexts of the others
untouched.  The second half of `swow_coroutine_jump` releases the context of
the coroutine control came from when that coroutine is DEAD, and then
`swow_coroutine_free_object` of that coroutine returns without a second
release; when the coroutine control came from is not DEAD the jump releases
no context.  `swow_coroutine_free_object` releases the context of a coroutine
that is available and no context otherwise.  A construction that fails
leaves the record of the object as it was, and the object left by a failed
`swow_coroutine_create_ex` has no context and is freed without a release.
Along every run of the machine a coroutine without context stays without
one, so that no context is released twice. -/
theorem C24_execution_context_released_once (b : Build)
    (precheck : World → Cid → zval_ptr → Option LastError) :
    (∀ w c w1, (w.coroutines c).executor = none → swow_coroutine_close b w c ≠ .ok w1)
    ∧ (∀ w c e, (w.coroutines c).executor = some e →
      ∃ w1, swow_coroutine_close b w c = .ok w1
        ∧ (w1.coroutines c).executor = none
        ∧ ∀ d, d ≠ c → (w1.coroutines d).executor = (w.coroutines d).executor)
    ∧ (∀ w c f zdata fe, swow_coroutine_get_from w c = some f →
      (w.coroutines f).coroutine.state = .DEAD →
      (w.coroutines f).executor = some fe →
      ∃ w1, swow_coroutine_jump_post b w c zdata = .ok (w1, zdata)
        ∧ (w1.coroutines f).executor = none
        ∧ (∀ d, d ≠ f → (w1.coroutines d).executor = (w.coroutines d).executor)
        ∧ swow_coroutine_free_object b w1 f = .ok w1)
    ∧ (∀ w c f zdata w1 z1, swow_coroutine_get_from w c = some f →
      (w.coroutines f).coroutine.state ≠ .DEAD →
      swow_coroutine_jump_post b w c zdata = .ok (w1, z1) →
      ∀ d, (w1.coroutines d).executor.isSome = (w.coroutines d).executor.isSome)
    ∧ (∀ w c e, swow_coroutine_is_available w c = true →
      (w.coroutines c).executor = some e →
      ∃ w1, swow_coroutine_free_object b w c = .ok w1
        ∧ (w1.coroutines c).executor = none
        ∧ ∀ d, d ≠ c → (w1.coroutines d).executor = (w.coroutines d).executor)
    ∧ (∀ w c, swow_coroutine_is_available w c = false →
      swow_coroutine_free_object b w c = .ok w)
    ∧ (∀ R L g w c zcallable stack_page_size c_stack_size w1,
      swow_coroutine_construct R L g w c zcallable stack_page_size c_stack_size
        = (w1, false) →
      w1.coroutines = w.coroutines)
    ∧ (∀ R L g w zcallable stack_page_size c_stack_size w1,
      g.custom_entry = none → g.create_object = .swow_coroutine_create_object →
      swow_coroutine_create_ex R L g w zcallable stack_page_size c_stack_size
        = .ok (w1, none) →
      (w1.coroutines (R.swow_object_alloc w)).executor = none
      ∧ swow_coroutine_free_object b w1 (R.swow_object_alloc w) = .ok w1)
    ∧ (∀ n m m1 d, Machine.run b precheck n m = .ok m1 →
      (m.world.coroutines d).executor = none → (m1.world.coroutines d).executor = none) := by
  refine ⟨fun w c w1 hn h => ?_, fun w c e he => ?_, fun w c f zdata fe hf hs he => ?_,
    fun w c f zdata w1 z1 hf hs h d => ?_, fun w c e ha he => ?_, fun w c ha => ?_,
    fun R L g w c zcallable sps css w1 h => ?_,
    fun R L g w zcallable sps css w1 hg1 hg2 h => ?_,
    fun n m m1 d h hd => run_keeps_released b precheck n m m1 h d hd⟩
  · have := (close_ledger b w c w1 h).1
    rw [hn] at this
    cases this
  · obtain ⟨w0, hh, _, hclose⟩ := coroutine_close_ok b w c e he
    obtain ⟨_, c2, c3, _⟩ := close_ledger b w c _ hclose
    exact ⟨_, hclose, c2, c3⟩
  · obtain ⟨w1, j1, _, j3, j4, j5, _, _⟩ := jump_post_closes_dead b w c f zdata fe hf hs he
    refine ⟨w1, j1, j4, j5, ?_⟩
    have : swow_coroutine_is_available w1 f = false := by
      simp [swow_coroutine_is_available, cat_coroutine_is_available, j3, hs]
    simp [swow_coroutine_free_object, this, pure, Except.pure]
  · obtain ⟨_, _, _, _, _, _, j7⟩ := jump_post_ledger b w c zdata w1 z1 h
    rcases j7 with ⟨f2, hf2, hdead, _⟩ | ⟨f2, _, _, hsame, _⟩
    · rw [hf] at hf2
      cases hf2
      exact absurd hdead hs
    · exact hsame d
  · obtain ⟨w0, hh, _, hclose⟩ := coroutine_close_ok b w c e he
    obtain ⟨_, c2, c3, _⟩ := close_ledger b w c _ hclose
    refine ⟨_, ?_, c2, c3⟩
    simp only [swow_coroutine_free_object, ha, ↓reduceIte]
    exact hclose
  · simp [swow_coroutine_free_object, ha, pure, Except.pure]
  · unfold swow_coroutine_construct at h
    split at h
    · cases h; rfl
    · split at h
      · cases h; rfl
      · cases h
  · unfold swow_coroutine_create_ex at h
    rw [hg1] at h
    simp only [swow_object_create_coroutine, hg2, bind, Except.bind] at h
    split at h
    · rename_i w2 hc
      simp only [pure, Except.pure] at h
      cases h
      have hco : w2.coroutines
          = (swow_coroutine_create_object R w).1.coroutines := by
        unfold swow_coroutine_construct at hc
        split at hc
        · cases hc; rfl
        · split at hc
          · cases hc; rfl
          · cases hc
      have hex : ((w2.GC_DELREF_std (swow_coroutine_create_object R w).2).coroutines
          (R.swow_object_alloc w)).executor = none := by
        simp [World.GC_DELREF_std, World.set_coroutine, hco, swow_coroutine_create_object]
      have hst : ((w2.GC_DELREF_std (swow_coroutine_create_object R w).2).coroutines
          (R.swow_object_alloc w)).coroutine.state = .INIT := by
        simp [World.GC_DELREF_std, World.set_coroutine, hco, swow_coroutine_create_object,
          cat_coroutine_init]
      refine ⟨hex, ?_⟩
      have : swow_coroutine_is_available
          (w2.GC_DELREF_std (swow_coroutine_create_object R w).2) (R.swow_object_alloc w)
          = false := by
        simp [swow_coroutine_is_available, cat_coroutine_is_available, hst]
      simp [swow_coroutine_free_object, this, pure, Except.pure]
    · simp only [pure, Except.pure] at h
      cases h

/-- C24, in the concrete process at the moment control is back in the main
coroutine from the DEAD coroutine `1`: the jump releases the context of
coroutine `1`, and freeing the object afterwards changes nothing. -/
theorem C24_execution_context_released_once_witness :
    ∃ w1, swow_coroutine_jump_post debug_build (demo_world_back .DEAD) 0
          .SWOW_COROUTINE_DATA_NULL = .ok (w1, .SWOW_COROUTINE_DATA_NULL)
      ∧ (w1.coroutines 1).executor = none
      ∧ (∀ d, d ≠ 1 → (w1.coroutines d).executor
            = ((demo_world_back .DEAD).coroutines d).executor)
      ∧ swow_coroutine_free_object debug_build w1 1 = .ok w1 :=
  (C24_execution_context_released_once debug_build precheck_pass).2.2.1
    (demo_world_back .DEAD) 0 1 .SWOW_COROUTINE_DATA_NULL (demo_executor .IS_TRUE)
    rfl rfl rfl

/-- C28. For every call of `Coroutine::resume` on a coroutine, with every
engine: when more than one value is supplied and the state of the coroutine
is not READY, the method throws the error "Only one argument allowed when
resuming an coroutine which is alive" and returns with the world unchanged,
the engine not being called; when more than one value is supplied and the
state is READY, or when at most one value is supplied, the method does not
throw an error of that kind, whatever else it does. -/
theorem C28_only_one_argument_for_a_started_coroutine (b : Build) (E : Engine) (g : Globals)
    (w : World) (scoroutine : Cid) (fci : Nat) :
    ((w.fcall_infos fci).param_count > 1 →
      (w.coroutines scoroutine).coroutine.state ≠ .READY →
      PHP_METHOD_swow_coroutine_resume b E g w scoroutine fci
        = .ok (w, .throws_error only_one_argument_message, none))
    ∧ (((w.fcall_infos fci).param_count > 1
          ∧ (w.coroutines scoroutine).coroutine.state = .READY)
        ∨ (w.fcall_infos fci).param_count ≤ 1 →
      ∀ w1 message v, PHP_METHOD_swow_coroutine_resume b E g w scoroutine fci
        ≠ .ok (w1, .throws_error message, v)) := by
  refine ⟨fun hn hs => ?_, fun hc w1 message v => ?_⟩
  · have h1 : ((w.fcall_infos fci).param_count == 1) = false := by
      simp only [beq_eq_false_iff_ne]; omega
    have h2 : decide ((w.fcall_infos fci).param_count > 1) = true := by simpa using hn
    have hs2 : ((w.coroutines scoroutine).coroutine.state != cat_coroutine_state.READY)
        = true := by simpa using hs
    simp [PHP_METHOD_swow_coroutine_resume, SWOW_COROUTINE_HANDLE_RESUME_TRANSFER, h1, hn,
      hs2, pure, Except.pure]
  · have hsome : ∃ w0 zdata, SWOW_COROUTINE_HANDLE_RESUME_TRANSFER w scoroutine fci
        = some (w0, zdata) := by
      unfold SWOW_COROUTINE_HANDLE_RESUME_TRANSFER
      rcases hc with ⟨hn, hs⟩ | hn
      · have h1 : ((w.fcall_infos fci).param_count == 1) = false := by
          simp only [beq_eq_false_iff_ne]; omega
        simp [h1, hn, hs]
      · by_cases h1 : (w.fcall_infos fci).param_count = 1
        · simp [h1]
        · have h0 : ¬ (w.fcall_infos fci).param_count > 1 := by omega
          simp [h1, h0]
    obtain ⟨w0, zdata, h0⟩ := hsome
    unfold PHP_METHOD_swow_coroutine_resume
    rw [h0]
    simp only [bind, Except.bind]
    by_cases hce : g.custom_entry.isSome = true
    · simp only [hce, ↓reduceIte]
      cases swow_coroutine_resume_hardlink b E g w0 scoroutine zdata true with
      | error e => intro h; cases h
      | ok x =>
        obtain ⟨w2, ret, rv⟩ := x
        cases ret <;> intro h <;> simp [pure, Except.pure] at h
    · simp only [hce, ↓reduceIte]
      cases swow_coroutine_resume b E w0 scoroutine zdata true with
      | error e => intro h; cases h
      | ok x =>
        obtain ⟨w2, ret, rv⟩ := x
        cases ret <;> intro h <;> simp [pure, Except.pure] at h

/-- C28, in the concrete process with coroutine `1` stopped inside a yield:
`Coroutine::resume` with the two values of call record `2` throws the error
and leaves the world as it was; on the READY coroutine `2` with the same two
values, and on coroutine `1` with the one value of call record `1`, no error
is thrown. -/
theorem C28_only_one_argument_for_a_started_coroutine_witness :
    PHP_METHOD_swow_coroutine_resume debug_build (Engine.switching precheck_pass) demo_module
        demo_world_waiting_calls 1 2
        = .ok (demo_world_waiting_calls, .throws_error only_one_argument_message, none)
    ∧ (∀ w1 message v,
        PHP_METHOD_swow_coroutine_resume debug_build (Engine.switching precheck_pass)
          demo_module demo_world_waiting_calls 2 2 ≠ .ok (w1, .throws_error message, v))
    ∧ (∀ w1 message v,
        PHP_METHOD_swow_coroutine_resume debug_build (Engine.switching precheck_pass)
          demo_module demo_world_waiting_calls 1 1 ≠ .ok (w1, .throws_error message, v)) :=
  ⟨(C28_only_one_argument_for_a_started_coroutine debug_build (Engine.switching precheck_pass)
      demo_module demo_world_waiting_calls 1 2).1 (by decide) (by decide),
   (C28_only_one_argument_for_a_started_coroutine debug_build (Engine.switching precheck_pass)
      demo_module demo_world_waiting_calls 2 2).2 (Or.inl ⟨by decide, by decide⟩),
   (C28_only_one_argument_for_a_started_coroutine debug_build (Engine.switching precheck_pass)
      demo_module demo_world_waiting_calls 1 1).2 (Or.inr (by decide))⟩

/-- C29, the claim as stated fails. Claim: for an integer status other than 0
the exit status of the process is set to that status when the current
coroutine is the main coroutine.  Here the main coroutine executes
`exit(4294967296)` with the exit status `0` before: a Terminate exception
(class `4`) with the code `4294967296` is raised, and the assignment
`EG(exit_status) = status` stores the `zend_long` in the `int` of the host,
where it is `0`; `exit(2147483648)` stores `-2147483648`. -/
theorem C29_exit_status_is_narrowed :
    demo_world.current = demo_world.main
    ∧ ((swow_coroutine_exit_handler 4 demo_world 0 .IS_CONST
          (.IS_LONG 4294967296)).1.objects demo_world.next_handle).ce = 4
    ∧ ((swow_coroutine_exit_handler 4 demo_world 0 .IS_CONST
          (.IS_LONG 4294967296)).1.objects demo_world.next_handle).code
        = .IS_LONG 4294967296
    ∧ (swow_coroutine_exit_handler 4 demo_world 0 .IS_CONST (.IS_LONG 4294967296)).2.1 = 0
    ∧ (swow_coroutine_exit_handler 4 demo_world 0 .IS_CONST (.IS_LONG 4294967296)).2.1
        ≠ 4294967296
    ∧ (swow_coroutine_exit_handler 4 demo_world 7 .IS_CONST (.IS_LONG 2147483648)).2.1
        = -2147483648 := by
  decide

/-- C29 as amended. For every `exit` statement handled by
`swow_coroutine_exit_handler`, the exception raised being a new object: if
the status is an integer other than 0, the pending exception is of the
Terminate class, its code is the status and its message "Exited with code "
followed by the status, and the exit status of the process afterwards is,
when the current coroutine is the main coroutine, the status converted to
the `int` of the host, which is the status itself when it lies between
`-2^31` and `2^31 - 1`, and the one before the call otherwise; with no
status, an integer 0 or a status that is not an integer, the pending
exception is of the Kill class with code 0, and the exit status of the
process is the one before the call. -/
theorem C29_exit_throws_terminate_or_kill (term_ce : ClassId) (w : World) (exit_status : Int)
    (op1_type : zend_op_type) (operand : zval) :
    (∀ status, op1_type ≠ .IS_UNUSED → operand = .IS_LONG status → status ≠ 0 →
      (swow_coroutine_exit_handler term_ce w exit_status op1_type operand).1.EG.exception
          = some w.next_handle
      ∧ ((swow_coroutine_exit_handler term_ce w exit_status op1_type operand).1.objects
            w.next_handle).ce = term_ce
      ∧ ((swow_coroutine_exit_handler term_ce w exit_status op1_type operand).1.objects
            w.next_handle).code = .IS_LONG status
      ∧ ((swow_coroutine_exit_handler term_ce w exit_status op1_type operand).1.objects
            w.next_handle).message = .IS_STRING ("Exited with code " ++ toString status)
      ∧ (swow_coroutine_exit_handler term_ce w exit_status op1_type operand).2.1
          = (if w.current = w.main then int_of_zend_long status else exit_status)
      ∧ (-(2 ^ 31) ≤ status → status < 2 ^ 31 →
          (swow_coroutine_exit_handler term_ce w exit_status op1_type operand).2.1
            = (if w.current = w.main then status else exit_status)))
    ∧ ((op1_type = .IS_UNUSED ∨ operand = .IS_LONG 0 ∨ ∀ n, operand ≠ .IS_LONG n) →
      (swow_coroutine_exit_handler term_ce w exit_status op1_type operand).1.EG.exception
          = some w.next_handle
      ∧ ((swow_coroutine_exit_handler term_ce w exit_status op1_type operand).1.objects
            w.next_handle).ce = w.swow_coroutine_kill_exception_ce
      ∧ ((swow_coroutine_exit_handler term_ce w exit_status op1_type operand).1.objects
            w.next_handle).code = .IS_LONG 0
      ∧ (swow_coroutine_exit_handler term_ce w exit_status op1_type operand).2.1
          = exit_status) := by
  refine ⟨fun status hne hop hs => ?_, fun h => ?_⟩
  · subst hop
    obtain ⟨_, s2, s3, s4, s5, _, _⟩ := zend_throw_exception_spec w term_ce
      (some ("Exited with code " ++ toString status)) status
    rw [exit_handler_abnormal term_ce w exit_status op1_type status hne hs]
    split
    · exact ⟨s2, s3, s4, s5, rfl,
        fun h1 h2 => by rw [int_of_zend_long_of_fits status h1 h2]⟩
    · exact ⟨s2, s3, s4, s5, rfl,
        fun h1 h2 => by rw [int_of_zend_long_of_fits status h1 h2]⟩
  · obtain ⟨printed, hp⟩ := exit_handler_normal term_ce w exit_status op1_type operand h
    obtain ⟨_, s2, s3, s4, _, _, _⟩ := zend_throw_exception_spec w
      w.swow_coroutine_kill_exception_ce none 0
    rw [hp]
    obtain ⟨d1, d2, _, d4, d5⟩ := exit_handler_dtor op1_type operand
      ((zend_throw_exception w w.swow_coroutine_kill_exception_ce none 0).1, exit_status,
        printed) w.next_handle
    split
    · rename_i hc
      simp only [hc, ↓reduceIte] at d1 d2 d4
      exact ⟨by rw [d1]; exact s2, d2.trans s3, d4.trans s4, rfl⟩
    · exact ⟨s2, s3, s4, rfl⟩

/-- C29 as amended, in the concrete process, where class `4` is the Terminate
and class `5` the Kill exception class and the exit status of the process is
`0` before the call: `exit(3)` in the main coroutine raises a Terminate
exception with code `3` and message "Exited with code 3" and sets the exit
status to `3`; in coroutine `1` the same statement leaves the exit status
`0`; and `exit("bye")` raises a Kill exception with code `0` and leaves the
exit status `0`. -/
theorem C29_exit_throws_terminate_or_kill_witness :
    ((swow_coroutine_exit_handler 4 demo_world 0 .IS_CONST (.IS_LONG 3)).1.EG.exception
          = some demo_world.next_handle
      ∧ ((swow_coroutine_exit_handler 4 demo_world 0 .IS_CONST (.IS_LONG 3)).1.objects
            demo_world.next_handle).ce = 4
      ∧ ((swow_coroutine_exit_handler 4 demo_world 0 .IS_CONST (.IS_LONG 3)).1.objects
            demo_world.next_handle).code = .IS_LONG 3
      ∧ ((swow_coroutine_exit_handler 4 demo_world 0 .IS_CONST (.IS_LONG 3)).1.objects
            demo_world.next_handle).message = .IS_STRING ("Exited with code " ++ toString 3)
      ∧ (swow_coroutine_exit_handler 4 demo_world 0 .IS_CONST (.IS_LONG 3)).2.1
          = (if demo_world.current = demo_world.main then int_of_zend_long 3 else 0)
      ∧ (-(2 ^ 31) ≤ (3 : Int) → (3 : Int) < 2 ^ 31 →
          (swow_coroutine_exit_handler 4 demo_world 0 .IS_CONST (.IS_LONG 3)).2.1
            = (if demo_world.current = demo_world.main then 3 else 0)))
    ∧ (swow_coroutine_exit_handler 4 demo_world 0 .IS_CONST (.IS_LONG 3)).2.1 = 3
    ∧ (swow_coroutine_exit_handler 4 demo_world_in_1 0 .IS_CONST (.IS_LONG 3)).2.1 = 0
    ∧ ((swow_coroutine_exit_handler 4 demo_world 0 .IS_TMP_VAR
            (.IS_STRING "bye")).1.EG.exception = some demo_world.next_handle
      ∧ ((swow_coroutine_exit_handler 4 demo_world 0 .IS_TMP_VAR
            (.IS_STRING "bye")).1.objects demo_world.next_handle).ce
          = demo_world.swow_coroutine_kill_exception_ce
      ∧ ((swow_coroutine_exit_handler 4 demo_world 0 .IS_TMP_VAR
            (.IS_STRING "bye")).1.objects demo_world.next_handle).code = .IS_LONG 0
      ∧ (swow_coroutine_exit_handler 4 demo_world 0 .IS_TMP_VAR (.IS_STRING "bye")).2.1
          = 0) :=
  ⟨(C29_exit_throws_terminate_or_kill 4 demo_world 0 .IS_CONST (.IS_LONG 3)).1 3
      (by decide) rfl (by decide),
   by decide, by decide,
   (C29_exit_throws_terminate_or_kill 4 demo_world 0 .IS_TMP_VAR (.IS_STRING "bye")).2
      (Or.inr (Or.inr (fun n h => by cases h)))⟩

/-- C30. With the classic error handler off, for every error whose message
starts with "Uncaught " and every incoming type, `swow_coroutine_error_cb`
returns, and: in the main coroutine with `kill_main` set it clears the flag
and does not call the original callback; in the main coroutine with the flag
clear and the severity `E_NONE` it does not call the original callback and
changes nothing; in every other case it calls the original callback, with a
type that has no bit of `E_FATAL_ERRORS` set, and changes nothing.  So
whatever is handed to the original callback has no fatal bit set.  The flag
`kill_main` is the one `swow_zend_throw_exception_hook` sets when a Kill
exception is raised in the main coroutine. -/
theorem C30_uncaught_exception_never_forwarded_as_fatal (H : ErrorHost) (w : World)
    (type : Int) (format : String)
    (hformat : "Uncaught ".toList.isPrefixOf format.toList = true) :
    (w.current = w.main → w.kill_main = true →
      swow_coroutine_error_cb H false w type format
        = .ok ({ w with kill_main := false }, none))
    ∧ (w.current = w.main → w.kill_main = false → w.exception_error_severity = E_NONE →
      swow_coroutine_error_cb H false w type format = .ok (w, none))
    ∧ (¬ (w.current = w.main ∧ (w.kill_main = true ∨ w.exception_error_severity = E_NONE)) →
      ∃ t message, swow_coroutine_error_cb H false w type format
          = .ok (w, some (t, message))
        ∧ Int.land t E_FATAL_ERRORS = 0)
    ∧ (∃ w1 r, swow_coroutine_error_cb H false w type format = .ok (w1, r)
        ∧ ∀ t message, r = some (t, message) → Int.land t E_FATAL_ERRORS = 0)
    ∧ (∀ exception, w.current = w.main →
        w.instanceof_function (w.objects exception).ce w.swow_coroutine_kill_exception_ce
          = true →
        (swow_zend_throw_exception_hook w exception).kill_main = true) := by
  have a : w.current = w.main → w.kill_main = true →
      swow_coroutine_error_cb H false w type format
        = .ok ({ w with kill_main := false }, none) := by
    intro hm hk
    simp only [swow_coroutine_error_cb, hformat, swow_coroutine_get_current,
      swow_coroutine_get_main, hm, hk, Bool.not_false, ↓reduceIte, beq_self_eq_true, pure,
      Except.pure]
  have b : w.current = w.main → w.kill_main = false → w.exception_error_severity = E_NONE →
      swow_coroutine_error_cb H false w type format = .ok (w, none) := by
    intro hm hk hs
    simp only [swow_coroutine_error_cb, hformat, swow_coroutine_get_current,
      swow_coroutine_get_main, hm, hk, hs, Bool.not_false, ↓reduceIte, beq_self_eq_true,
      Bool.false_eq_true, pure, Except.pure]
  have c : ¬ (w.current = w.main ∧ (w.kill_main = true ∨ w.exception_error_severity = E_NONE))
      → ∃ t message, swow_coroutine_error_cb H false w type format
          = .ok (w, some (t, message))
        ∧ Int.land t E_FATAL_ERRORS = 0 := by
    intro hn
    by_cases hm : w.current = w.main
    · have hk : w.kill_main = false := by
        cases hk : w.kill_main with
        | false => rfl
        | true => exact absurd ⟨hm, Or.inl hk⟩ hn
      have hs : ¬ w.exception_error_severity = E_NONE := fun hs => hn ⟨hm, Or.inr hs⟩
      refine ⟨if Int.land (int_of_zend_long w.exception_error_severity) E_FATAL_ERRORS != 0
          then E_WARNING else int_of_zend_long w.exception_error_severity,
        swow_coroutine_error_message
          (H.swow_strerrortype (int_of_zend_long w.exception_error_severity))
          (w.coroutines w.main).coroutine.id format none, ?_,
        demoted_type_not_fatal (int_of_zend_long w.exception_error_severity)⟩
      simp only [swow_coroutine_error_cb, hformat, swow_coroutine_get_current,
        swow_coroutine_get_main, hm, hk, Bool.not_false, ↓reduceIte, beq_self_eq_true,
        beq_iff_eq, hs, Bool.false_eq_true]
      exact error_cb_relay_not_fatal _ _ _ (demoted_type_not_fatal _)
    · refine ⟨if Int.land type E_FATAL_ERRORS != 0 then E_WARNING else type,
        swow_coroutine_error_message (H.swow_strerrortype type)
          (w.coroutines w.current).coroutine.id format none, ?_,
        demoted_type_not_fatal type⟩
      simp only [swow_coroutine_error_cb, hformat, swow_coroutine_get_current,
        swow_coroutine_get_main, Bool.not_false, ↓reduceIte, beq_iff_eq, hm]
      exact error_cb_relay_not_fatal _ _ _ (demoted_type_not_fatal _)
  refine ⟨a, b, c, ?_, fun exception hm hk => ?_⟩
  · by_cases hn : w.current = w.main
        ∧ (w.kill_main = true ∨ w.exception_error_severity = E_NONE)
    · obtain ⟨hm, hk⟩ := hn
      cases hkm : w.kill_main with
      | true => exact ⟨_, none, a hm hkm, fun _ _ h => by cases h⟩
      | false =>
        rcases hk with hk | hk
        · rw [hkm] at hk; cases hk
        · exact ⟨_, none, b hm hkm hk, fun _ _ h => by cases h⟩
    · obtain ⟨t, message, h1, h2⟩ := c hn
      refine ⟨w, _, h1, fun t1 m1 h => ?_⟩
      cases h
      exact h2
  · simp [swow_zend_throw_exception_hook, swow_coroutine_get_current, swow_coroutine_get_main,
      hm, hk]

/-- C30, in the concrete process, where the severity is `E_ERROR`: an uncaught
exception reported in the main coroutine with the fatal type `1` reaches the
original callback with a type that has no fatal bit; after a Kill was raised
in the main coroutine the error is not handed on and the flag is cleared. -/
theorem C30_uncaught_exception_never_forwarded_as_fatal_witness :
    (∃ t message, swow_coroutine_error_cb demo_error_host false demo_world 1
          "Uncaught Exception: oops" = .ok (demo_world, some (t, message))
        ∧ Int.land t E_FATAL_ERRORS = 0)
    ∧ swow_coroutine_error_cb demo_error_host false demo_world_kill_main 1
          "Uncaught Swow\\Coroutine\\KillException"
        = .ok ({ demo_world_kill_main with kill_main := false }, none) :=
  ⟨(C30_uncaught_exception_never_forwarded_as_fatal demo_error_host demo_world 1
      "Uncaught Exception: oops" (by decide)).2.2.1 (by decide),
   (C30_uncaught_exception_never_forwarded_as_fatal demo_error_host demo_world_kill_main 1
      "Uncaught Swow\\Coroutine\\KillException" (by decide)).1 rfl rfl⟩

end Swow
